import Mathlib

/-!
# AP_Arming: the arming gate of the autopilot

A shallow embedding of `libraries/AP_Arming/AP_Arming.cpp`, and of
`Plane::fix_terrain_WP` of `ArduPlane/altitude.cpp`, which raises the internal
error that `system_checks` tests for.

* Every C++ member function becomes a Lean function of the same name.
* Preprocessor switches (`#if AP_..._ENABLED`) are fields of `Build`, parameters
  (`AP_Param`) are fields of `Params`, and everything a collaborator library
  answers during one call is a field of `Env`.
* Calls that leave the object (status texts, logger calls, ...) are recorded, in
  program order, as a list of `Event`s returned next to the result.
* Floating point is not modelled: a comparison of floats is the Boolean the C++
  expression evaluates to, supplied by `Env`; a float printed in a message is
  recorded by the name of the C++ expression.
* A C string is written as a Lean string and measured in bytes (`c_str`,
  `strlen`). A buffer that may be left without a terminator is a `CharBuffer`,
  and a format that `snprintf` may cut is a `TaggedFmt`.
* The semaphore `aux_auth_sem` is not modelled: every table operation is atomic.
* `a & b` on `bool` evaluates both operands; they are taken left to right.
-/

namespace AP_Arming

/-! ## Enumerations -/

/-- MAVLink severities used in this file. -/
inductive MAV_SEVERITY
  | CRITICAL
  | WARNING
  | INFO
  | DEBUG
deriving DecidableEq, Repr

/-- The `enum class Check` of AP_Arming: one bit of the `ARMING_CHECK` bitmask each. -/
inductive Check
  | ALL
  | BARO
  | COMPASS
  | GPS
  | INS
  | PARAMETERS
  | RC
  | VOLTAGE
  | BATTERY
  | AIRSPEED
  | LOGGING
  | SWITCH
  | GPS_CONFIG
  | SYSTEM
  | MISSION
  | RANGEFINDER
  | CAMERA
  | AUX_AUTH
  | VISION
  | FFT
  | OSD
deriving DecidableEq, Repr

/-- Bit position of a check, as documented by the `@Bitmask` of the `CHECK`
parameter in `var_info` (`0:All,1:Barometer,...,19:FFT`); `OSD` is the next bit. -/
def Check.bit : Check → Nat
  | .ALL => 0
  | .BARO => 1
  | .COMPASS => 2
  | .GPS => 3
  | .INS => 4
  | .PARAMETERS => 5
  | .RC => 6
  | .VOLTAGE => 7
  | .BATTERY => 8
  | .AIRSPEED => 9
  | .LOGGING => 10
  | .SWITCH => 11
  | .GPS_CONFIG => 12
  | .SYSTEM => 13
  | .MISSION => 14
  | .RANGEFINDER => 15
  | .CAMERA => 16
  | .AUX_AUTH => 17
  | .VISION => 18
  | .FFT => 19
  | .OSD => 20

/-- The value `uint32_t(check)`. -/
def Check.toUInt32 (c : Check) : Nat := 2 ^ c.bit

/-- The `enum class Method`: every enumerator named by `check_forced_logging`. -/
inductive Method
  | TERMINATION
  | CPUFAILSAFE
  | BATTERYFAILSAFE
  | AFS
  | ADSBCOLLISIONACTION
  | PARACHUTE_RELEASE
  | CRASH
  | FENCEBREACH
  | RADIOFAILSAFE
  | GCSFAILSAFE
  | TERRRAINFAILSAFE
  | FAILSAFE_ACTION_TERMINATE
  | TERRAINFAILSAFE
  | BADFLOWOFCONTROL
  | EKFFAILSAFE
  | GCS_FAILSAFE_SURFACEFAILED
  | GCS_FAILSAFE_HOLDFAILED
  | PILOT_INPUT_FAILSAFE
  | DEADRECKON_FAILSAFE
  | BLACKBOX
  | RUDDER
  | TOYMODE
  | MAVLINK
  | AUXSWITCH
  | MOTORTEST
  | SCRIPTING
  | SOLOPAUSEWHENLANDED
  | LANDED
  | MISSIONEXIT
  | DISARMDELAY
  | MOTORDETECTDONE
  | TAKEOFFTIMEOUT
  | AUTOLANDED
  | TOYMODELANDTHROTTLE
  | TOYMODELANDFORCE
  | LANDING
  | DDS
  | AUTO_ARM_ONCE
  | TURTLE_MODE
  | UNKNOWN
deriving DecidableEq, Repr

/-- The `enum class Required`, stored in the `REQUIRE` parameter as a raw
number (`0:Disabled, 1:minimum PWM, 2:0 PWM`); other raw values can be stored. -/
structure Required where
  val : Nat
deriving DecidableEq, Repr

def Required.NO : Required := ⟨0⟩
def Required.YES_MIN_PWM : Required := ⟨1⟩
def Required.YES_ZERO_PWM : Required := ⟨2⟩

/-- The `enum class RudderArming`, stored in the `RUDDER` parameter as a raw
number (`0:Disabled,1:ArmingOnly,2:ArmOrDisarm`). -/
structure RudderArming where
  val : Nat
deriving DecidableEq, Repr

def RudderArming.IS_DISABLED : RudderArming := ⟨0⟩
def RudderArming.ARMONLY : RudderArming := ⟨1⟩
def RudderArming.ARMDISARM : RudderArming := ⟨2⟩

/-- Result of `hal.util->safety_switch_state()`. -/
inductive SafetyState
  | SAFETY_NONE
  | SAFETY_DISARMED
  | SAFETY_ARMED
deriving DecidableEq, Repr

/-- The `enum class AuxAuthStates`. -/
inductive AuxAuthStates
  | NO_RESPONSE
  | AUTH_FAILED
  | AUTH_PASSED
deriving DecidableEq, Repr

/-- Position of a three-position auxiliary switch. -/
inductive AuxSwitchPos
  | LOW
  | MIDDLE
  | HIGH
deriving DecidableEq, Repr

/-- CAN driver protocols distinguished by `can_checks`. -/
inductive CANProtocol
  | PiccoloCAN
  | DroneCAN
  | USD1
  | TOFSenseP
  | RadarCAN
  | Benewake
  | EFI_NWPMU
  | None
  | Scripting
  | Scripting2
  | KDECAN
deriving DecidableEq, Repr

/-! ## C strings

A `const char *` is written as a Lean string. Lengths and cuts are in bytes, as
in C: the C string of a Lean string is the UTF-8 encoding of its characters up to
the first NUL. -/

/-- The bytes of one character of a C string: its UTF-8 encoding. -/
def utf8_char (c : Char) : List Nat :=
  let n := c.toNat
  if n < 0x80 then [n]
  else if n < 0x800 then [0xC0 + n / 0x40, 0x80 + n % 0x40]
  else if n < 0x10000 then [0xE0 + n / 0x1000, 0x80 + n / 0x40 % 0x40, 0x80 + n % 0x40]
  else [0xF0 + n / 0x40000, 0x80 + n / 0x1000 % 0x40, 0x80 + n / 0x40 % 0x40, 0x80 + n % 0x40]

/-- The `char`s of the C string written as `s`, without the terminator. -/
def c_str (s : String) : List Nat :=
  ((s.data.map utf8_char).flatten).takeWhile (fun x => x != 0)

/-- `strlen(s)` -/
def strlen (s : String) : Nat :=
  (c_str s).length

/-- `MAVLINK_MSG_STATUSTEXT_FIELD_TEXT_LEN`, the length of the text field of the
MAVLink message STATUSTEXT (a constant of the MAVLink headers). -/
def MAVLINK_MSG_STATUSTEXT_FIELD_TEXT_LEN : Nat := 50

/-- The text before the `%s` that ends a `metafmt`. -/
def metafmt_tag (metafmt : String) : String :=
  ⟨metafmt.data.dropLast.dropLast⟩

/-- What `snprintf(taggedfmt, size, metafmt, fmt)` leaves in `taggedfmt`, for a
`metafmt` whose only directive is the `%s` that ends it: `whole metafmt fmt` is
`metafmt` applied to `fmt`, complete and terminated; `cut bytes` is the text that
did not fit, cut to the `bytes` that were written before the terminator. -/
inductive TaggedFmt
  | whole (metafmt : String) (fmt : String)
  | cut (bytes : List Nat)
deriving DecidableEq, Repr

/-- `hal.util->snprintf(taggedfmt, size, metafmt, fmt)` for a `metafmt` whose only
directive is the `%s` that ends it: at most `size - 1` bytes are written, and the
terminator. -/
def snprintf (size : Nat) (metafmt : String) (fmt : String) : TaggedFmt :=
  let text := c_str (metafmt_tag metafmt) ++ c_str fmt
  if text.length < size then .whole metafmt fmt else .cut (text.take (size - 1))

/-- The contents of a heap buffer of `char`s that `strncpy` writes to: `text s` is
the C string `s` followed by at least one terminator; `unterminated bytes` is a
buffer filled with `bytes` to its last byte, none of them NUL: it holds no
terminator. -/
inductive CharBuffer
  | text (s : String)
  | unterminated (bytes : List Nat)
deriving DecidableEq, Repr

/-! ## Events: calls that leave the object -/

/-- An argument handed to a printf-style format. A float, or a string macro of
a header, is recorded by the C++ expression that is printed. `str s` is a pointer
to the C string `s`; `unterminated bytes` is a pointer to a buffer that holds
`bytes` and no terminator, and `null` is the null pointer: what a `%s` prints for
these two is not defined by this file. -/
inductive FmtArg
  | int (v : Int)
  | str (s : String)
  | expr (cpp : String)
  | unterminated (bytes : List Nat)
  | null
deriving DecidableEq, Repr

/-- A buffer passed as the argument of a `%s`; `none` is the null pointer. -/
def CharBuffer.arg : Option CharBuffer → FmtArg
  | some (.text s) => .str s
  | some (.unterminated bytes) => .unterminated bytes
  | none => .null

/-- The packet written by `Log_Write_Arm` / `Log_Write_Disarm`. -/
structure log_Arm_Disarm where
  time_us : Nat
  arm_state : Bool
  arm_checks : Nat
  forced : Bool
  method : Method
deriving DecidableEq, Repr

/-- One call that leaves AP_Arming, in the order the code makes them.
`check_failed check severity metafmt fmt args` is the `gcs().send_textv(severity,
taggedfmt, args)` of `check_failed` where `taggedfmt` holds `metafmt` applied to
`fmt` complete, and `check` is the check the failure was attributed to (`none` for
the overload without a check). `check_failed_cut check severity taggedfmt args` is
the same call where `metafmt` applied to `fmt` did not fit `taggedfmt`: it holds
the bytes that `snprintf` left there. -/
inductive Event
  | check_failed (check : Option Check) (severity : MAV_SEVERITY) (metafmt : String)
      (fmt : String) (args : List FmtArg)
  | check_failed_cut (check : Option Check) (severity : MAV_SEVERITY) (taggedfmt : List Nat)
      (args : List FmtArg)
  | send_text (severity : MAV_SEVERITY) (fmt : String) (args : List FmtArg)
  | gps_broadcast_first_configuration_failure_reason
  | gps_prepare_for_arming
  | logger_PrepForArming
  | logger_WriteCriticalBlock (pkt : log_Arm_Disarm)
  | logger_Write_Event_ARMED
  | logger_Write_Event_DISARMED
  | logger_arming_failure
  | logger_set_long_log_persist (b : Bool)
  | fft_prepare_for_arming
  | fft_save_params_on_disarm
  | terrain_set_reference_location
  | fence_auto_enable_fence_on_arming
  | fence_auto_disable_fence_on_disarming
  | rcout_force_safety_on
  | update_arm_gpio (armed : Bool)
deriving DecidableEq, Repr

/-! ## Build switches, parameters, collaborators, object state -/

/-- Preprocessor configuration of one build of the file. Each Boolean is the
truth value of the `#if` condition of the same name; the numbers are constants
of headers. -/
structure Build where
  APM_BUILD_COPTER_OR_HELI : Bool
  APM_BUILD_Blimp : Bool
  HAL_GCS_ENABLED : Bool
  HAL_BARO_ALLOW_INIT_NO_BARO : Bool
  HAL_BOARD_SITL : Bool
  HAL_LOGGING_ENABLED : Bool
  AP_AIRSPEED_ENABLED : Bool
  AP_BARO_ENABLED : Bool
  AP_INERTIALSENSOR_ENABLED : Bool
  AP_INERTIALSENSOR_BATCHSAMPLER_ENABLED : Bool
  HAL_GYROFFT_ENABLED : Bool
  AP_COMPASS_ENABLED : Bool
  COMPASS_CAL_ENABLED : Bool
  AP_AHRS_ENABLED : Bool
  AP_GPS_ENABLED : Bool
  AP_GPS_BLENDED_ENABLED : Bool
  GPS_BLENDED_INSTANCE : Nat
  AP_BATTERY_ENABLED : Bool
  AP_RC_CHANNEL_ENABLED : Bool
  AP_MISSION_ENABLED : Bool
  HAL_RALLY_ENABLED : Bool
  AP_SDCARD_STORAGE_ENABLED : Bool
  AP_VEHICLE_ENABLED : Bool
  AP_RANGEFINDER_ENABLED : Bool
  NUM_SERVO_CHANNELS : Nat
  HAL_WITH_IO_MCU : Bool
  HAL_HAVE_BOARD_VOLTAGE : Bool
  HAL_HAVE_SERVO_VOLTAGE : Bool
  HAL_HAVE_IMU_HEATER : Bool
  AP_TERRAIN_AVAILABLE : Bool
  AP_SCRIPTING_ENABLED : Bool
  HAL_ADSB_ENABLED : Bool
  AP_RPM_ENABLED : Bool
  AP_RELAY_ENABLED : Bool
  HAL_PARACHUTE_ENABLED : Bool
  HAL_BUTTON_ENABLED : Bool
  /-- `HAL_MAX_CAN_PROTOCOL_DRIVERS && HAL_CANMANAGER_ENABLED` -/
  HAL_CANMANAGER_ENABLED : Bool
  HAL_PICCOLO_CAN_ENABLE : Bool
  HAL_ENABLE_DRONECAN_DRIVERS : Bool
  HAL_GENERATOR_ENABLED : Bool
  HAL_PROXIMITY_ENABLED : Bool
  AP_CAMERA_RUNCAM_ENABLED : Bool
  OSD_ENABLED : Bool
  HAL_MOUNT_ENABLED : Bool
  AP_FETTEC_ONEWIRE_ENABLED : Bool
  HAL_VISUALODOM_ENABLED : Bool
  AP_ARMING_AUX_AUTH_ENABLED : Bool
  AP_FENCE_ENABLED : Bool
  AP_OPENDRONEID_ENABLED : Bool
  AP_ARMING_CRASHDUMP_ACK_ENABLED : Bool
  HAL_HAVE_SAFETY_SWITCH : Bool
  /-- `defined(HAL_ARM_GPIO_PIN)` -/
  HAL_ARM_GPIO_PIN : Bool
  /-- Size of the array `aux_auth_state` (a constant of AP_Arming.h). -/
  aux_auth_count_max : Nat
  /-- Size of the failure message buffer (a constant of AP_Arming.h). -/
  aux_auth_str_len : Nat
deriving DecidableEq, Repr

/-- The parameters of `var_info` that the embedded functions read. -/
structure Params where
  /-- `REQUIRE` -/
  require : Required
  /-- `RUDDER` (`_rudder_arming`) -/
  rudder_arming : RudderArming
  /-- `MIS_ITEMS` (`_required_mission_items`) -/
  required_mission_items : Nat
  /-- `CHECK`, read as `uint32_t` -/
  checks_to_perform : Nat
  /-- `OPTIONS` (`_arming_options`) -/
  arming_options : Nat
  /-- `MAGTHRESH` -/
  magfield_error_threshold : Int
  /-- `CRSDP_IGN` is non-zero -/
  crashdump_ack_acked : Bool
deriving DecidableEq, Repr

/-- What a leaf collaborator's `arming_checks(len, buffer)` style call answers:
the Boolean and the text left in the buffer. -/
structure LeafResult where
  ok : Bool
  msg : String
deriving DecidableEq, Repr

/-- Answers of `AP::ins()`. -/
structure InsEnv where
  get_gyro_health_all : Bool
  gyro_calibrated_ok_all : Bool
  get_accel_health_all : Bool
  accel_calibrated_ok_all : Bool
  accel_cal_requires_reboot : Bool
  /-- `ins.accels_consistent(accel_error_threshold)` -/
  accels_consistent : Bool
  /-- `ins.gyros_consistent(5)` -/
  gyros_consistent : Bool
  get_accel_count : Nat
  get_gyro_count : Nat
  temperature_cal_running : Bool
  batchsampler_enabled : Bool
  batchsampler_is_initialised : Bool
  pre_arm_check_gyro_backend_rate_hz : LeafResult
  /-- `AP::fft()`: `none` is the null pointer, else its `pre_arm_check` -/
  fft : Option LeafResult
deriving DecidableEq, Repr

/-- Answers of `AP::compass()` and of the AHRS comparison in `compass_checks`. -/
structure CompassEnv where
  is_calibrating : Bool
  compass_cal_requires_reboot : Bool
  use_for_yaw_0 : Bool
  healthy : Bool
  learn_offsets_enabled : Bool
  configured : LeafResult
  /-- `offsets.length() > _compass.get_offsets_max()` -/
  offsets_too_high : Bool
  /-- `mag_field > AP_ARMING_COMPASS_MAGFIELD_MAX || mag_field < AP_ARMING_COMPASS_MAGFIELD_MIN` -/
  mag_field_out_of_range : Bool
  consistent : Bool
  /-- `MAX(fabsf(diff_mgauss.x), fabsf(diff_mgauss.y)) > magfield_error_threshold` -/
  diff_xy_exceeds : Bool
  /-- `fabsf(diff_mgauss.z) > magfield_error_threshold*2.0` -/
  diff_z_exceeds : Bool
deriving DecidableEq, Repr

/-- Answers of `AP::ahrs()`. -/
structure AhrsEnv where
  use_compass : Bool
  get_location : Bool
  home_is_set : Bool
deriving DecidableEq, Repr

/-- One GPS instance as seen by the loop of `gps_checks`. -/
structure GpsSensor where
  /-- `gps.get_type(i) == AP_GPS::GPS_Type::GPS_TYPE_NONE` -/
  type_none : Bool
  /-- `gps.status(i) < AP_GPS::GPS_OK_FIX_3D` -/
  status_below_fix_3d : Bool
  is_healthy : Bool
deriving DecidableEq, Repr

/-- Answers of `AP::gps()`. -/
structure GpsEnv where
  pre_arm_checks : LeafResult
  /-- one entry per sensor, `num_sensors()` of them -/
  sensors : List GpsSensor
  primary_sensor : Nat
  all_consistent : Bool
  /-- `gps_loc.get_distance(ahrs_loc) > AP_ARMING_AHRS_GPS_ERROR_MAX` -/
  ahrs_distance_exceeds : Bool
  /-- `first_unconfigured_gps(first_unconfigured)`: `none` is false -/
  first_unconfigured_gps : Option Nat
  prepare_for_arming : Bool
  get_auto_switch_type : Nat
deriving DecidableEq, Repr

/-- Answers of `AP::logger()`. -/
structure LoggerEnv where
  logging_present : Bool
  logging_failed : Bool
  CardInserted : Bool
  in_log_download : Bool
  /-- `logging_started()` as read after `PrepForArming()` -/
  logging_started : Bool
deriving DecidableEq, Repr

/-- A stick channel read by `rc_arm_checks`. -/
structure RcStick where
  get_control_in : Int
  ch : Nat
  /-- `c == rc().get_arming_channel()` -/
  is_arming_channel : Bool
deriving DecidableEq, Repr

/-- A channel read by `rc_calibration_checks`. -/
structure RcChannel where
  has_override : Bool
  get_radio_trim : Nat
  get_radio_min : Nat
  get_radio_max : Nat
deriving DecidableEq, Repr

/-- Answers of `rc()` and of `AP_Notify::flags`. -/
structure RcEnv where
  has_valid_input : Bool
  last_input_ms : Nat
  duplicate_options_exist : Bool
  flight_mode_channel_conflicts_with_rc_option : Bool
  flight_mode_channel_number : Int
  /-- `option_is_enabled(RC_Channels::Option::ARMING_SKIP_CHECK_RPY)` -/
  option_ARMING_SKIP_CHECK_RPY : Bool
  get_roll_channel : RcStick
  get_pitch_channel : RcStick
  get_yaw_channel : RcStick
  get_throttle_channel : RcStick
  arming_check_throttle : Bool
  /-- `find_channel_for_option(FWD_THR)`: `none` is null, else its `percent_input()` -/
  fwd_thr_percent_input : Option Nat
  get_valid_channel_count : Nat
  /-- `rc().channel(i)` for `i < NUM_RC_CHANNELS`; `none` is the null pointer -/
  channels : List (Option RcChannel)
  calibrating : Bool
  /-- `AP_Notify::flags.failsafe_radio` -/
  failsafe_radio : Bool
  /-- `find_channel_for_option(DISARM)` and its switch position -/
  disarm_switch : Option AuxSwitchPos
  /-- `find_channel_for_option(ARM_EMERGENCY_STOP)` and its switch position -/
  arm_emergency_stop_switch : Option AuxSwitchPos
deriving DecidableEq, Repr

/-- Answers of `AP::mission()`. -/
structure MissionEnv where
  contains_NAV_LAND : Bool
  contains_NAV_VTOL_LAND : Bool
  contains_DO_LAND_START : Bool
  contains_NAV_TAKEOFF : Bool
  contains_NAV_VTOL_TAKEOFF : Bool
  contains_NAV_RETURN_TO_LAUNCH : Bool
  failed_sdcard_storage : Bool
  present : Bool
  contains_terrain_alt_items : Bool
deriving DecidableEq, Repr

/-- A servo channel read by `servo_checks`. -/
structure SrvChannel where
  /-- `(unsigned)c->get_function()` -/
  get_function : Nat
  /-- `c->get_function() <= SRV_Channel::k_none` -/
  function_le_k_none : Bool
  get_trim : Nat
  get_output_min : Nat
  get_output_max : Nat
  /-- the value computed for `disabled_ok` from the channel's function -/
  disabled_ok : Bool
deriving DecidableEq, Repr

/-- Answers of `AP_Terrain::get_singleton()`. -/
structure TerrainEnv where
  init_failed : Bool
  enabled : Bool
  pre_arm_checks : LeafResult
deriving DecidableEq, Repr

/-- Answers of `AP::boardConfig()` to `heater_min_temperature_checks`. -/
structure BoardHeaterEnv where
  get_board_heater_temperature : Bool
  get_board_heater_arming_temperature : Bool
  /-- `temperature < min_temperature` -/
  temperature_below_min : Bool
  min_temperature : Int
deriving DecidableEq, Repr

/-- One CAN driver as seen by `can_checks`. -/
structure CanDriver where
  get_driver_type : CANProtocol
  /-- `AP_PiccoloCAN::get_pcan(i)`: `none` is null, else its `pre_arm_check` -/
  pcan : Option LeafResult
  /-- `AP_DroneCAN::get_dronecan(i)`: `none` is null, else its `prearm_check` -/
  dronecan : Option LeafResult
deriving DecidableEq, Repr

/-- Answers of `AP::fence()`. -/
structure FenceEnv where
  pre_arm_check : LeafResult
  failed_sdcard_storage : Bool
deriving DecidableEq, Repr

/-- Everything the collaborators answer during one call into AP_Arming.
A singleton that may be null is an `Option`; `none` is the null pointer. -/
structure Env where
  /-- `AP_HAL::millis()` -/
  millis : Nat
  /-- `AP_HAL::micros64()` -/
  micros64 : Nat
  safety_switch_state : SafetyState
  board_heater : Option BoardHeaterEnv
  /-- `AP::sitl()->baro_count` -/
  sitl_baro_count : Nat
  baro_arming_checks : LeafResult
  airspeed : Option LeafResult
  logger : LoggerEnv
  ins : InsEnv
  compass : CompassEnv
  ahrs : AhrsEnv
  gps : GpsEnv
  battery_arming_checks : LeafResult
  rc : RcEnv
  mission : Option MissionEnv
  /-- `AP::rally()`: `none` is null, else `find_nearest_rally_point` -/
  rally : Option Bool
  /-- `StorageManager::storage_failed()` -/
  storage_failed : Bool
  /-- `AP::vehicle()->current_mode_requires_mission()` -/
  current_mode_requires_mission : Bool
  /-- `RangeFinder::get_singleton()`: `none` is null, else `prearm_healthy` -/
  rangefinder : Option LeafResult
  /-- `SRV_Channels::srv_channel(i)` for `i < NUM_SERVO_CHANNELS` -/
  srv_channels : List (Option SrvChannel)
  /-- `SRV_Channels::get_disabled_channel_mask()` -/
  get_disabled_channel_mask : Nat
  /-- `SRV_Channels::get_emergency_stop()` -/
  get_emergency_stop : Bool
  iomcu_healthy : Bool
  /-- `AP_BoardConfig::io_enabled()` -/
  io_enabled : Bool
  /-- `(bus_voltage < vbus_min) || (bus_voltage > AP_ARMING_BOARD_VOLTAGE_MAX)` -/
  board_voltage_out_of_range : Bool
  /-- `is_positive(vservo_min)` -/
  vservo_min_positive : Bool
  /-- `servo_voltage < vservo_min` -/
  servo_voltage_low : Bool
  /-- `hal.storage->healthy()` -/
  storage_healthy : Bool
  /-- `AP_Param::get_eeprom_full()` -/
  get_eeprom_full : Bool
  /-- `loop_rate_pct < 0.90` -/
  loop_rate_low : Bool
  /-- `(unsigned)actual_loop_rate` -/
  actual_loop_rate : Nat
  /-- `AP::scheduler().get_loop_rate_hz()` -/
  get_loop_rate_hz : Nat
  terrain : Option TerrainEnv
  /-- `AP_Scripting::get_singleton()`: `none` is null, else `arming_checks` -/
  scripting : Option LeafResult
  /-- `AP::ADSB()`: `none` is null, else `(enabled(), init_failed())` -/
  adsb : Option (Bool × Bool)
  /-- `AP::internalerror().errors()` -/
  internalerror_errors : Nat
  internalerror_last_error_line : Nat
  /-- the text written by `errors_as_string` -/
  internalerror_errors_as_string : String
  /-- `hal.gpio->arming_checks` -/
  gpio_arming_checks : LeafResult
  rpm : Option LeafResult
  relay : Option LeafResult
  parachute : Option LeafResult
  button_arming_checks : LeafResult
  /-- `AP::can()` drivers, `get_num_drivers()` of them -/
  can_drivers : List CanDriver
  fence : Option FenceEnv
  runcam : Option LeafResult
  osd : Option LeafResult
  mount : Option LeafResult
  fettec : Option LeafResult
  visual_odom : Option LeafResult
  generator : Option LeafResult
  proximity : Option LeafResult
  /-- `AP_OpenDroneID::get_singleton() != nullptr` -/
  opendroneid_present : Bool
  /-- `AP::opendroneid().enabled()` -/
  opendroneid_enabled : Bool
  opendroneid_pre_arm_check : LeafResult
  /-- `have_serial(AP_SerialManager::SerialProtocol_RCIN, 1)` -/
  serial_have_second_RCIN : Bool
  serialmanager_pre_arm_checks : LeafResult
  /-- `hal.util->last_crash_dump_size()` -/
  last_crash_dump_size : Nat
  /-- `AP_BoardConfig::arming_gpio_disabled()` -/
  arming_gpio_disabled : Bool
  /-- `AP_BoardConfig::get_singleton()`: `none` is null, else whether
  `BOARD_SAFETY_OPTION_SAFETY_ON_DISARM` is set in the button options -/
  board_safety_on_disarm : Option Bool
  /-- whether `calloc` in `get_aux_auth_id` returns memory -/
  calloc_ok : Bool
deriving DecidableEq, Repr

/-- The member variables of AP_Arming that the embedded functions read or write. -/
structure State where
  armed : Bool
  last_arm_time_us : Nat
  last_arm_method : Method
  last_disarm_method : Method
  running_arming_checks : Bool
  last_prearm_checks_result : Bool
  report_immediately : Bool
  last_prearm_display_ms : Nat
  last_accel_pass_ms : Nat
  last_gyro_pass_ms : Nat
  aux_auth_count : Nat
  aux_auth_error : Bool
  /-- the array `aux_auth_state[aux_auth_count_max]` -/
  aux_auth_state : List AuxAuthStates
  /-- the heap buffer `aux_auth_fail_msg`; `none` is the null pointer -/
  aux_auth_fail_msg : Option CharBuffer
  aux_auth_fail_msg_source : Nat
deriving DecidableEq, Repr

/-! ## Enable mask and failure reporting -/

def get_enabled_checks (p : Params) : Nat :=
  p.checks_to_perform

def check_enabled (p : Params) (check : Check) : Bool :=
  if p.checks_to_perform &&& Check.ALL.toUInt32 ≠ 0 then
    true
  else
    decide (p.checks_to_perform &&& check.toUInt32 ≠ 0)

/-- The `metafmt` chosen by both overloads of `check_failed`. -/
def metafmt (s : State) : String :=
  if s.running_arming_checks then "Arm: %s" else "PreArm: %s"

/-- `gcs().send_textv(severity, taggedfmt, arg_list)` as called by `check_failed`
for a failure attributed to `check`. -/
def gcs_send_textv (check : Option Check) (severity : MAV_SEVERITY) (taggedfmt : TaggedFmt)
    (args : List FmtArg) : Event :=
  match taggedfmt with
  | .whole metafmt fmt => Event.check_failed check severity metafmt fmt args
  | .cut bytes => Event.check_failed_cut check severity bytes args

/-- The overload `check_failed(check, report, fmt, ...)`. -/
def check_failed (b : Build) (p : Params) (s : State) (check : Check) (report : Bool)
    (fmt : String) (args : List FmtArg) : List Event :=
  if !report then
    []
  else
    let taggedfmt := snprintf (MAVLINK_MSG_STATUSTEXT_FIELD_TEXT_LEN + 1) (metafmt s) fmt
    if b.HAL_GCS_ENABLED then
      let severity :=
        if !check_enabled p check then MAV_SEVERITY.DEBUG else MAV_SEVERITY.CRITICAL
      [gcs_send_textv (some check) severity taggedfmt args]
    else
      []

/-- The overload `check_failed(report, fmt, ...)`, without a check. -/
def check_failed_nocheck (b : Build) (s : State) (report : Bool)
    (fmt : String) (args : List FmtArg) : List Event :=
  if b.HAL_GCS_ENABLED then
    if !report then
      []
    else
      let taggedfmt := snprintf (MAVLINK_MSG_STATUSTEXT_FIELD_TEXT_LEN + 1) (metafmt s) fmt
      [gcs_send_textv none MAV_SEVERITY.CRITICAL taggedfmt args]
  else
    []

/-! ## Leaf checks -/

def barometer_checks (b : Build) (p : Params) (e : Env) (s : State) (report : Bool) :
    Bool × List Event :=
  if b.HAL_BARO_ALLOW_INIT_NO_BARO then
    (true, [])
  else if b.HAL_BOARD_SITL && e.sitl_baro_count == 0 then
    (true, [])
  else if check_enabled p .BARO then
    if !e.baro_arming_checks.ok then
      (false, check_failed b p s .BARO report "Baro: %s" [.str e.baro_arming_checks.msg])
    else
      (true, [])
  else
    (true, [])

def airspeed_checks (b : Build) (p : Params) (e : Env) (s : State) (report : Bool) :
    Bool × List Event :=
  if check_enabled p .AIRSPEED then
    match e.airspeed with
    | none => (true, [])
    | some r =>
      if !r.ok then
        (false, check_failed b p s .AIRSPEED report "Airspeed: %s" [.str r.msg])
      else
        (true, [])
  else
    (true, [])

def logging_checks (b : Build) (p : Params) (e : Env) (s : State) (report : Bool) :
    Bool × List Event :=
  if check_enabled p .LOGGING then
    if !e.logger.logging_present then
      (true, [])
    else if e.logger.logging_failed then
      (false, check_failed b p s .LOGGING report "Logging failed" [])
    else if !e.logger.CardInserted then
      (false, check_failed b p s .LOGGING report "No SD card" [])
    else if e.logger.in_log_download then
      (false, check_failed b p s .LOGGING report "Downloading logs" [])
    else
      (true, [])
  else
    (true, [])

/-- The `uint32_t` difference `a - b`. -/
def sub32 (a b : Nat) : Nat :=
  (a % 2 ^ 32 + 2 ^ 32 - b % 2 ^ 32) % 2 ^ 32

def ins_accels_consistent (e : Env) (s : State) : Bool × State :=
  let now := e.millis
  if !e.ins.accels_consistent then
    (false, { s with last_accel_pass_ms := 0 })
  else
    let s1 := if s.last_accel_pass_ms = 0 then { s with last_accel_pass_ms := now } else s
    if e.ins.get_accel_count > 1 && sub32 now s1.last_accel_pass_ms < 10000 then
      (false, s1)
    else
      (true, s1)

def ins_gyros_consistent (e : Env) (s : State) : Bool × State :=
  let now := e.millis
  if !e.ins.gyros_consistent then
    (false, { s with last_gyro_pass_ms := 0 })
  else
    let s1 := if s.last_gyro_pass_ms = 0 then { s with last_gyro_pass_ms := now } else s
    if e.ins.get_gyro_count > 1 && sub32 now s1.last_gyro_pass_ms < 10000 then
      (false, s1)
    else
      (true, s1)

/-- The block of `ins_checks` guarded by `check_enabled(Check::INS)`: `none` when
the block is left without returning. -/
def ins_checks_ins (b : Build) (p : Params) (e : Env) (s : State) (report : Bool) :
    Option (Bool × List Event) × State :=
  if check_enabled p .INS then
    if !e.ins.get_gyro_health_all then
      (some (false, check_failed b p s .INS report "Gyros not healthy" []), s)
    else if !e.ins.gyro_calibrated_ok_all then
      (some (false, check_failed b p s .INS report "Gyros not calibrated" []), s)
    else if !e.ins.get_accel_health_all then
      (some (false, check_failed b p s .INS report "Accels not healthy" []), s)
    else if !e.ins.accel_calibrated_ok_all then
      (some (false, check_failed b p s .INS report "3D Accel calibration needed" []), s)
    else if e.ins.accel_cal_requires_reboot then
      (some (false, check_failed b p s .INS report "Accels calibrated requires reboot" []), s)
    else
      let a := ins_accels_consistent e s
      if !a.1 then
        (some (false, check_failed b p a.2 .INS report "Accels inconsistent" []), a.2)
      else
        let g := ins_gyros_consistent e a.2
        if !g.1 then
          (some (false, check_failed b p g.2 .INS report "Gyros inconsistent" []), g.2)
        else if e.ins.temperature_cal_running then
          (some (false, check_failed b p g.2 .INS report "temperature cal running" []), g.2)
        else if b.AP_INERTIALSENSOR_BATCHSAMPLER_ENABLED
            && (e.ins.batchsampler_enabled && !e.ins.batchsampler_is_initialised) then
          (some (false, check_failed b p g.2 .INS report "Batch sampling requires reboot" []), g.2)
        else if !e.ins.pre_arm_check_gyro_backend_rate_hz.ok then
          (some (false, check_failed b p g.2 .INS report "%s"
            [.str e.ins.pre_arm_check_gyro_backend_rate_hz.msg]), g.2)
        else
          (none, g.2)
  else
    (none, s)

/-- The block of `ins_checks` under `#if HAL_GYROFFT_ENABLED`. -/
def ins_checks_fft (b : Build) (p : Params) (e : Env) (s : State) (report : Bool) :
    Bool × List Event :=
  if b.HAL_GYROFFT_ENABLED then
    if check_enabled p .FFT then
      match e.ins.fft with
      | none => (true, [])
      | some r =>
        if !r.ok then
          (false, check_failed b p s .INS report "%s" [.str r.msg])
        else
          (true, [])
    else
      (true, [])
  else
    (true, [])

def ins_checks (b : Build) (p : Params) (e : Env) (s : State) (report : Bool) :
    Bool × State × List Event :=
  let r := ins_checks_ins b p e s report
  match r.1 with
  | some out => (out.1, r.2, out.2)
  | none =>
    let f := ins_checks_fft b p e r.2 report
    (f.1, r.2, f.2)

def compass_checks (b : Build) (p : Params) (e : Env) (s : State) (report : Bool) :
    Bool × List Event :=
  if b.COMPASS_CAL_ENABLED && e.compass.is_calibrating then
    (false, check_failed_nocheck b s report "Compass calibration running" [])
  else if b.COMPASS_CAL_ENABLED && e.compass.compass_cal_requires_reboot then
    (false, check_failed_nocheck b s report "Compass calibrated requires reboot" [])
  else if check_enabled p .COMPASS then
    if !e.compass.use_for_yaw_0 then
      (true, [])
    else if !e.compass.healthy then
      (false, check_failed b p s .COMPASS report "Compass not healthy" [])
    else if (b.APM_BUILD_COPTER_OR_HELI || b.APM_BUILD_Blimp || !e.compass.learn_offsets_enabled)
        && !e.compass.configured.ok then
      (false, check_failed b p s .COMPASS report "%s" [.str e.compass.configured.msg])
    else if e.compass.offsets_too_high then
      (false, check_failed b p s .COMPASS report "Compass offsets too high" [])
    else if e.compass.mag_field_out_of_range then
      (false, check_failed b p s .COMPASS report "Check mag field: %4.0f, max %d, min %d"
        [.expr "(double)mag_field", .int 875, .int 185])
    else if !e.compass.consistent then
      (false, check_failed b p s .COMPASS report "Compasses inconsistent" [])
    else if b.AP_AHRS_ENABLED
        && (decide (p.magfield_error_threshold > 0) && e.ahrs.use_compass && e.ahrs.get_location) then
      if e.compass.diff_xy_exceeds then
        (false, check_failed b p s .COMPASS report "Check mag field (xy diff:%.0f>%d)"
          [.expr "(double)MAX(fabsf(diff_mgauss.x), (double)fabsf(diff_mgauss.y))",
           .int p.magfield_error_threshold])
      else if e.compass.diff_z_exceeds then
        (false, check_failed b p s .COMPASS report "Check mag field (z diff:%.0f>%d)"
          [.expr "(double)fabsf(diff_mgauss.z)", .int (p.magfield_error_threshold * 2)])
      else
        (true, [])
    else
      (true, [])
  else
    (true, [])

/-- The `for` loop of `gps_checks` from index `i` on: `none` when the loop ends
without returning. -/
def gps_checks_loop (b : Build) (p : Params) (e : Env) (s : State) (report : Bool) :
    Nat → List GpsSensor → Option (Bool × List Event)
  | _, [] => none
  | i, g :: rest =>
    if (!b.AP_GPS_BLENDED_ENABLED || i != b.GPS_BLENDED_INSTANCE) && g.type_none then
      if e.gps.primary_sensor == i then
        some (false, check_failed b p s .GPS report "GPS %i: primary but TYPE 0" [.int (i + 1)])
      else
        gps_checks_loop b p e s report (i + 1) rest
    else if g.status_below_fix_3d then
      some (false, check_failed b p s .GPS report "GPS %i: Bad fix" [.int (i + 1)])
    else if !g.is_healthy then
      some (false, check_failed b p s .GPS report "GPS %i: not healthy" [.int (i + 1)])
    else
      gps_checks_loop b p e s report (i + 1) rest

/-- The block of `gps_checks` guarded by `check_enabled(Check::GPS)`. -/
def gps_checks_gps (b : Build) (p : Params) (e : Env) (s : State) (report : Bool) :
    Option (Bool × List Event) :=
  if check_enabled p .GPS then
    if !e.gps.pre_arm_checks.ok then
      if e.gps.pre_arm_checks.msg != "" then
        some (false, check_failed b p s .GPS report "%s" [.str e.gps.pre_arm_checks.msg])
      else
        some (false, [])
    else
      match gps_checks_loop b p e s report 0 e.gps.sensors with
      | some r => some r
      | none =>
        if !e.ahrs.home_is_set then
          some (false, check_failed b p s .GPS report "AHRS: waiting for home" [])
        else if !e.gps.all_consistent then
          some (false, check_failed b p s .GPS report "GPS positions differ by %4.1fm"
            [.expr "(double)distance_m"])
        else if decide (e.gps.sensors.length > 0) && e.ahrs.get_location
            && e.gps.ahrs_distance_exceeds then
          some (false, check_failed b p s .GPS report "GPS and AHRS differ by %4.1fm"
            [.expr "(double)distance"])
        else
          none
  else
    none

def gps_checks (b : Build) (p : Params) (e : Env) (s : State) (report : Bool) :
    Bool × List Event :=
  match gps_checks_gps b p e s report with
  | some r => r
  | none =>
    if check_enabled p .GPS_CONFIG then
      match e.gps.first_unconfigured_gps with
      | some first_unconfigured =>
        (false, check_failed b p s .GPS_CONFIG report "GPS %d still configuring this GPS"
            [.int (first_unconfigured + 1)]
          ++ (if report then [Event.gps_broadcast_first_configuration_failure_reason] else []))
      | none => (true, [])
    else
      (true, [])

def battery_checks (b : Build) (p : Params) (e : Env) (s : State) (report : Bool) :
    Bool × List Event :=
  if check_enabled p .BATTERY then
    if !e.battery_arming_checks.ok then
      (false, check_failed b p s .BATTERY report "%s" [.str e.battery_arming_checks.msg])
    else
      (true, [])
  else
    (true, [])

def hardware_safety_check (b : Build) (p : Params) (e : Env) (s : State) (report : Bool) :
    Bool × List Event :=
  if check_enabled p .SWITCH then
    if e.safety_switch_state = .SAFETY_DISARMED then
      (false, check_failed b p s .SWITCH report "Hardware safety switch" [])
    else
      (true, [])
  else
    (true, [])

/-- The macro `GCS_SEND_TEXT` of GCS.h: a call of `gcs().send_text` in a build
with a GCS, nothing otherwise. -/
def GCS_SEND_TEXT (b : Build) (severity : MAV_SEVERITY) (fmt : String) (args : List FmtArg) :
    List Event :=
  if b.HAL_GCS_ENABLED then [Event.send_text severity fmt args] else []

/-- One pass of the `for` loop of `rc_arm_checks` over `channels_to_check`. -/
def rc_arm_checks_channel (b : Build) (p : Params) (s : State) (method : Method)
    (name : String) (c : RcStick) : Bool × List Event :=
  if c.get_control_in != 0 then
    if method != Method.RUDDER || !c.is_arming_channel then
      (false, check_failed b p s .RC true "%s (RC%d) is not neutral" [.str name, .int c.ch])
    else
      (true, [])
  else
    (true, [])

def rc_arm_checks (b : Build) (p : Params) (e : Env) (s : State) (method : Method) :
    Bool × List Event :=
  if !e.rc.has_valid_input then
    (true, [])
  else if e.rc.last_input_ms == 0 || decide (sub32 e.millis e.rc.last_input_ms > 1000) then
    (true, [])
  else
    let dup : Bool × List Event :=
      if e.rc.duplicate_options_exist then
        (false, check_failed b p s .PARAMETERS true "Duplicate Aux Switch Options" [])
      else (true, [])
    let mode : Bool × List Event :=
      if e.rc.flight_mode_channel_conflicts_with_rc_option then
        (false, check_failed b p s .PARAMETERS true "Mode channel and RC%d_OPTION conflict"
          [.int e.rc.flight_mode_channel_number])
      else (true, [])
    let rpy : Bool × List Event :=
      if !e.rc.option_ARMING_SKIP_CHECK_RPY then
        let r := rc_arm_checks_channel b p s method "Roll" e.rc.get_roll_channel
        let pi := rc_arm_checks_channel b p s method "Pitch" e.rc.get_pitch_channel
        let y := rc_arm_checks_channel b p s method "Yaw" e.rc.get_yaw_channel
        (r.1 && pi.1 && y.1, r.2 ++ pi.2 ++ y.2)
      else (true, [])
    let thr : Bool × List Event :=
      if e.rc.arming_check_throttle then
        let t : Bool × List Event :=
          if e.rc.get_throttle_channel.get_control_in != 0 then
            (false, check_failed b p s .RC true "%s (RC%d) is not neutral"
              [.str "Throttle", .int e.rc.get_throttle_channel.ch])
          else (true, [])
        let f : Bool × List Event :=
          match e.rc.fwd_thr_percent_input with
          | none => (true, [])
          | some percent_input =>
            if percent_input % 256 > 2 then
              (false, check_failed b p s .RC true "VTOL Fwd Throttle is not zero" [])
            else (true, [])
        (t.1 && f.1, t.2 ++ f.2)
      else (true, [])
    (dup.1 && mode.1 && rpy.1 && thr.1, dup.2 ++ mode.2 ++ rpy.2 ++ thr.2)

/-- The `for` loop of `rc_calibration_checks` from channel index `i` on. -/
def rc_calibration_checks_loop (b : Build) (p : Params) (e : Env) (s : State) (report : Bool) :
    Nat → List (Option RcChannel) → Bool × List Event
  | _, [] => (true, [])
  | i, none :: rest => rc_calibration_checks_loop b p e s report (i + 1) rest
  | i, some c :: rest =>
    let r := rc_calibration_checks_loop b p e s report (i + 1) rest
    if decide (i >= e.rc.get_valid_channel_count) && !c.has_override then
      r
    else
      let lo : Bool × List Event :=
        if c.get_radio_min > c.get_radio_trim then
          (false, check_failed b p s .RC report "RC%d_MIN is greater than RC%d_TRIM"
            [.int (i + 1), .int (i + 1)])
        else (true, [])
      let hi : Bool × List Event :=
        if c.get_radio_max < c.get_radio_trim then
          (false, check_failed b p s .RC report "RC%d_MAX is less than RC%d_TRIM"
            [.int (i + 1), .int (i + 1)])
        else (true, [])
      (lo.1 && hi.1 && r.1, lo.2 ++ hi.2 ++ r.2)

def rc_calibration_checks (b : Build) (p : Params) (e : Env) (s : State) (report : Bool) :
    Bool × List Event :=
  rc_calibration_checks_loop b p e s report 0 e.rc.channels

def rc_in_calibration_check (b : Build) (p : Params) (e : Env) (s : State) (report : Bool) :
    Bool × List Event :=
  if e.rc.calibrating then
    (false, check_failed b p s .RC report "RC calibrating" [])
  else
    (true, [])

def manual_transmitter_checks (b : Build) (p : Params) (e : Env) (s : State) (report : Bool) :
    Bool × List Event :=
  if check_enabled p .RC then
    if e.rc.failsafe_radio then
      (false, check_failed b p s .RC report "Radio failsafe on" [])
    else
      let c := rc_calibration_checks b p e s report
      if !c.1 then
        (false, c.2)
      else
        let r := rc_in_calibration_check b p e s report
        (r.1, c.2 ++ r.2)
  else
    rc_in_calibration_check b p e s report

/-- The bits of `MIS_ITEMS`, as documented by its `@Bitmask`
(`0:Land,1:VTOL Land,2:DO_LAND_START,3:Takeoff,4:VTOL Takeoff,5:Rallypoint,6:RTL`). -/
def MIS_ITEM_CHECK_LAND : Nat := 2 ^ 0
def MIS_ITEM_CHECK_VTOL_LAND : Nat := 2 ^ 1
def MIS_ITEM_CHECK_DO_LAND_START : Nat := 2 ^ 2
def MIS_ITEM_CHECK_TAKEOFF : Nat := 2 ^ 3
def MIS_ITEM_CHECK_VTOL_TAKEOFF : Nat := 2 ^ 4
def MIS_ITEM_CHECK_RALLY : Nat := 2 ^ 5
def MIS_ITEM_CHECK_RETURN_TO_LAUNCH : Nat := 2 ^ 6

/-- The table `misChecks`: the bit, whether the mission contains the item, the name. -/
def misChecks (m : MissionEnv) : List (Nat × Bool × String) :=
  [ (MIS_ITEM_CHECK_LAND, m.contains_NAV_LAND, "land"),
    (MIS_ITEM_CHECK_VTOL_LAND, m.contains_NAV_VTOL_LAND, "vtol land"),
    (MIS_ITEM_CHECK_DO_LAND_START, m.contains_DO_LAND_START, "do land start"),
    (MIS_ITEM_CHECK_TAKEOFF, m.contains_NAV_TAKEOFF, "takeoff"),
    (MIS_ITEM_CHECK_VTOL_TAKEOFF, m.contains_NAV_VTOL_TAKEOFF, "vtol takeoff"),
    (MIS_ITEM_CHECK_RETURN_TO_LAUNCH, m.contains_NAV_RETURN_TO_LAUNCH, "RTL") ]

/-- The `for` loop of `mission_checks` over `misChecks`: `none` when it ends
without returning. -/
def mission_checks_loop (b : Build) (p : Params) (s : State) (report : Bool) :
    List (Nat × Bool × String) → Option (Bool × List Event)
  | [] => none
  | (check, contains_item, type) :: rest =>
    if p.required_mission_items &&& check ≠ 0 then
      if !contains_item then
        some (false, check_failed b p s .MISSION report "Missing mission item: %s" [.str type])
      else
        mission_checks_loop b p s report rest
    else
      mission_checks_loop b p s report rest

/-- The first block of `mission_checks`, guarded by
`check_enabled(Check::MISSION) && _required_mission_items`. -/
def mission_checks_required (b : Build) (p : Params) (e : Env) (s : State) (report : Bool) :
    Option (Bool × List Event) :=
  if check_enabled p .MISSION && p.required_mission_items != 0 then
    match e.mission with
    | none => some (false, check_failed b p s .MISSION report "No mission library present" [])
    | some m =>
      match mission_checks_loop b p s report (misChecks m) with
      | some r => some r
      | none =>
        if p.required_mission_items &&& MIS_ITEM_CHECK_RALLY ≠ 0 then
          if b.HAL_RALLY_ENABLED then
            match e.rally with
            | none =>
              some (false, check_failed b p s .MISSION report "No rally library present" [])
            | some find_nearest_rally_point =>
              if !e.ahrs.get_location then
                some (false, check_failed b p s .MISSION report
                  "Can't check rally without position" [])
              else if !find_nearest_rally_point then
                some (false, check_failed b p s .MISSION report
                  "No sufficiently close rally point located" [])
              else
                none
          else
            some (false, check_failed b p s .MISSION report "No rally library present" [])
        else
          none
  else
    none

def mission_checks (b : Build) (p : Params) (e : Env) (s : State) (report : Bool) :
    Bool × List Event :=
  match mission_checks_required b p e s report with
  | some r => r
  | none =>
    if b.AP_SDCARD_STORAGE_ENABLED && (check_enabled p .MISSION &&
        (match e.mission with
         | none => false
         | some m => m.failed_sdcard_storage || e.storage_failed)) then
      (false, check_failed b p s .MISSION report "Failed to open %s"
        [.expr "AP_MISSION_SDCARD_FILENAME"])
    else if b.AP_VEHICLE_ENABLED && (e.current_mode_requires_mission &&
        (match e.mission with
         | none => true
         | some m => !m.present)) then
      (false, check_failed b p s .MISSION report "Mode requires mission" [])
    else
      (true, [])

def rangefinder_checks (b : Build) (p : Params) (e : Env) (s : State) (report : Bool) :
    Bool × List Event :=
  if b.AP_RANGEFINDER_ENABLED then
    if check_enabled p .RANGEFINDER then
      match e.rangefinder with
      | none => (true, [])
      | some r =>
        if !r.ok then
          (false, check_failed b p s .RANGEFINDER report "%s" [.str r.msg])
        else
          (true, [])
    else
      (true, [])
  else
    (true, [])

/-- The `for` loop of `servo_checks` from channel index `i` on. -/
def servo_checks_loop (b : Build) (e : Env) (s : State) (report : Bool) :
    Nat → List (Option SrvChannel) → Bool × List Event
  | _, [] => (true, [])
  | i, none :: rest => servo_checks_loop b e s report (i + 1) rest
  | i, some c :: rest =>
    let r := servo_checks_loop b e s report (i + 1) rest
    if c.function_le_k_none then
      r
    else
      let lo : Bool × List Event :=
        if c.get_output_min > c.get_trim then
          (false, check_failed_nocheck b s report "SERVO%d_MIN is greater than SERVO%d_TRIM"
            [.int (i + 1), .int (i + 1)])
        else (true, [])
      let hi : Bool × List Event :=
        if c.get_output_max < c.get_trim then
          (false, check_failed_nocheck b s report "SERVO%d_MAX is less than SERVO%d_TRIM"
            [.int (i + 1), .int (i + 1)])
        else (true, [])
      let dis : Bool × List Event :=
        if e.get_disabled_channel_mask &&& 2 ^ i ≠ 0 then
          if !c.disabled_ok then
            (false, check_failed_nocheck b s report "SERVO%u_FUNCTION=%u on disabled channel"
              [.int (i + 1), .int c.get_function])
          else (true, [])
        else (true, [])
      (lo.1 && hi.1 && dis.1 && r.1, lo.2 ++ hi.2 ++ dis.2 ++ r.2)

def servo_checks (b : Build) (e : Env) (s : State) (report : Bool) : Bool × List Event :=
  if b.NUM_SERVO_CHANNELS ≠ 0 then
    let l := servo_checks_loop b e s report 0 e.srv_channels
    let io : Bool × List Event :=
      if b.HAL_WITH_IO_MCU && (!e.iomcu_healthy && e.io_enabled) then
        (false, check_failed_nocheck b s report "IOMCU is unhealthy" [])
      else (true, [])
    (l.1 && io.1, l.2 ++ io.2)
  else
    (false, [])

def board_voltage_checks (b : Build) (p : Params) (e : Env) (s : State) (report : Bool) :
    Bool × List Event :=
  if check_enabled p .VOLTAGE then
    if b.HAL_HAVE_BOARD_VOLTAGE && e.board_voltage_out_of_range then
      (false, check_failed b p s .VOLTAGE report "Board (%1.1fv) out of range %1.1f-%1.1fv"
        [.expr "(double)bus_voltage", .expr "(double)vbus_min",
         .expr "(double)AP_ARMING_BOARD_VOLTAGE_MAX"])
    else if b.HAL_HAVE_SERVO_VOLTAGE && (e.vservo_min_positive && e.servo_voltage_low) then
      (false, check_failed b p s .VOLTAGE report "Servo voltage to low (%1.2fv < %1.2fv)"
        [.expr "(double)servo_voltage", .expr "(double)vservo_min"])
    else
      (true, [])
  else
    (true, [])

def heater_min_temperature_checks (b : Build) (p : Params) (e : Env) (s : State)
    (report : Bool) : Bool × List Event :=
  if p.checks_to_perform &&& Check.ALL.toUInt32 ≠ 0 then
    match e.board_heater with
    | none => (true, [])
    | some board =>
      if board.get_board_heater_temperature && board.get_board_heater_arming_temperature
          && board.temperature_below_min then
        (false, check_failed b p s .SYSTEM report "heater temp low (%0.1f < %i)"
          [.expr "temperature", .int board.min_temperature])
      else
        (true, [])
  else
    (true, [])

def blending_auto_switch_checks (b : Build) (p : Params) (e : Env) (s : State) (report : Bool) :
    Bool × List Event :=
  if e.gps.get_auto_switch_type == 2 then
    if report then
      (false, check_failed b p s .GPS true "GPS_AUTO_SWITCH==2 but no blending" [])
    else
      (false, [])
  else
    (true, [])

/-- The block of `system_checks` guarded by `check_enabled(Check::SYSTEM)`. -/
def system_checks_system (b : Build) (p : Params) (e : Env) (s : State) (report : Bool) :
    Option (Bool × List Event) :=
  if check_enabled p .SYSTEM then
    if !e.storage_healthy then
      some (false, check_failed b p s .SYSTEM report "Param storage failed" [])
    else if e.get_eeprom_full then
      some (false, check_failed b p s .PARAMETERS report "parameter storage full" [])
    else if e.loop_rate_low then
      some (false, check_failed b p s .SYSTEM report "Main loop slow (%uHz < %uHz)"
        [.int e.actual_loop_rate, .int e.get_loop_rate_hz])
    else if b.AP_TERRAIN_AVAILABLE &&
        (match e.terrain with
         | none => false
         | some t => t.init_failed) then
      some (false, check_failed b p s .SYSTEM report "Terrain out of memory" [])
    else
      match (if b.AP_SCRIPTING_ENABLED then e.scripting else none) with
      | some (LeafResult.mk false msg) =>
        some (false, check_failed b p s .SYSTEM report "%s" [.str msg])
      | _ =>
        if b.HAL_ADSB_ENABLED &&
            (match e.adsb with
             | none => false
             | some (enabled, init_failed) => enabled && init_failed) then
          some (false, check_failed b p s .SYSTEM report "ADSB out of memory" [])
        else
          none
  else
    none

/-- One `auto *x = AP::x(); if (x && !x->arming_checks(...))` test of the block of
`system_checks` guarded by `check_enabled(Check::PARAMETERS)`: the failure, if any. -/
def system_checks_leaf (b : Build) (p : Params) (s : State) (report : Bool)
    (built : Bool) (x : Option LeafResult) : Option (Bool × List Event) :=
  match (if built then x else none) with
  | some (LeafResult.mk false msg) =>
    some (false, check_failed b p s .PARAMETERS report "%s" [.str msg])
  | _ => none

/-- The block of `system_checks` guarded by `check_enabled(Check::PARAMETERS)`. -/
def system_checks_parameters (b : Build) (p : Params) (e : Env) (s : State) (report : Bool) :
    Bool × List Event :=
  if check_enabled p .PARAMETERS then
    let bl := if !b.AP_GPS_BLENDED_ENABLED then blending_auto_switch_checks b p e s report
              else (true, [])
    if !bl.1 then
      (false, bl.2)
    else
      match system_checks_leaf b p s report b.AP_RPM_ENABLED e.rpm with
      | some r => (r.1, bl.2 ++ r.2)
      | none =>
        match system_checks_leaf b p s report b.AP_RELAY_ENABLED e.relay with
        | some r => (r.1, bl.2 ++ r.2)
        | none =>
          match system_checks_leaf b p s report b.HAL_PARACHUTE_ENABLED e.parachute with
          | some r => (r.1, bl.2 ++ r.2)
          | none =>
            match system_checks_leaf b p s report b.HAL_BUTTON_ENABLED
                (some e.button_arming_checks) with
            | some r => (r.1, bl.2 ++ r.2)
            | none => (true, bl.2)
  else
    (true, [])

def system_checks (b : Build) (p : Params) (e : Env) (s : State) (report : Bool) :
    Bool × List Event :=
  match system_checks_system b p e s report with
  | some r => r
  | none =>
    if e.internalerror_errors != 0 then
      (false, check_failed_nocheck b s report "Internal errors 0x%x l:%u %s"
        [.int e.internalerror_errors, .int e.internalerror_last_error_line,
         .str e.internalerror_errors_as_string])
    else if !e.gpio_arming_checks.ok then
      (false, check_failed_nocheck b s report "%s" [.str e.gpio_arming_checks.msg])
    else
      system_checks_parameters b p e s report

def terrain_database_required (b : Build) (e : Env) : Bool :=
  if b.AP_MISSION_ENABLED then
    match e.mission with
    | none => false
    | some m => if m.contains_terrain_alt_items then true else false
  else
    false

def terrain_checks (b : Build) (p : Params) (e : Env) (s : State) (report : Bool) :
    Bool × List Event :=
  if !check_enabled p .PARAMETERS then
    (true, [])
  else if !terrain_database_required b e then
    (true, [])
  else if b.AP_TERRAIN_AVAILABLE then
    match e.terrain with
    | none => (false, [])
    | some terrain =>
      if !terrain.enabled then
        (false, check_failed b p s .PARAMETERS report "terrain disabled" [])
      else if !terrain.pre_arm_checks.ok then
        (false, check_failed b p s .PARAMETERS report "%s" [.str terrain.pre_arm_checks.msg])
      else
        (true, [])
  else
    (false, check_failed b p s .PARAMETERS report "terrain required but disabled" [])

def proximity_checks (b : Build) (e : Env) (s : State) (report : Bool) : Bool × List Event :=
  match e.proximity with
  | none => (true, [])
  | some r =>
    if !r.ok then
      (false, check_failed_nocheck b s report "%s" [.str r.msg])
    else
      (true, [])

/-- The `for` loop of `can_checks` from driver index `i` on, where `before` are
the drivers of lower index, nearest first: `none` when it ends without returning. -/
def can_checks_loop (b : Build) (p : Params) (s : State) (report : Bool) :
    List CanDriver → List CanDriver → Option (Bool × List Event)
  | _, [] => none
  | before, d :: rest =>
    match d.get_driver_type with
    | .PiccoloCAN =>
      if b.HAL_PICCOLO_CAN_ENABLE then
        match d.pcan with
        | some (LeafResult.mk false msg) =>
          some (false, check_failed b p s .SYSTEM report "PiccoloCAN: %s" [.str msg])
        | _ => can_checks_loop b p s report (d :: before) rest
      else
        some (false, check_failed b p s .SYSTEM report "PiccoloCAN not enabled" [])
    | .DroneCAN =>
      if b.HAL_ENABLE_DRONECAN_DRIVERS then
        match d.dronecan with
        | some (LeafResult.mk false msg) =>
          some (false, check_failed b p s .SYSTEM report "DroneCAN: %s" [.str msg])
        | _ => can_checks_loop b p s report (d :: before) rest
      else
        can_checks_loop b p s report (d :: before) rest
    | .USD1 | .TOFSenseP | .RadarCAN | .Benewake =>
      if before.any (fun o => o.get_driver_type == d.get_driver_type) then
        some (false, check_failed b p s .SYSTEM report "Same rfnd on different CAN ports" [])
      else
        can_checks_loop b p s report (d :: before) rest
    | .EFI_NWPMU | .None | .Scripting | .Scripting2 | .KDECAN =>
      can_checks_loop b p s report (d :: before) rest

def can_checks (b : Build) (p : Params) (e : Env) (s : State) (report : Bool) :
    Bool × List Event :=
  if check_enabled p .SYSTEM then
    match can_checks_loop b p s report [] e.can_drivers with
    | some r => r
    | none => (true, [])
  else
    (true, [])

def fence_checks (b : Build) (e : Env) (s : State) (display_failure : Bool) :
    Bool × List Event :=
  match e.fence with
  | none => (true, [])
  | some fence =>
    if fence.pre_arm_check.ok then
      (true, [])
    else
      let ev := check_failed_nocheck b s display_failure "%s" [.str fence.pre_arm_check.msg]
      if b.AP_SDCARD_STORAGE_ENABLED && (fence.failed_sdcard_storage || e.storage_failed) then
        (false, ev ++ check_failed_nocheck b s display_failure "Failed to open fence storage" [])
      else
        (false, ev)

def camera_checks (b : Build) (p : Params) (e : Env) (s : State) (display_failure : Bool) :
    Bool × List Event :=
  if check_enabled p .CAMERA then
    match e.runcam with
    | none => (true, [])
    | some r =>
      if !r.ok then
        (false, check_failed b p s .CAMERA display_failure "%s" [.str r.msg])
      else
        (true, [])
  else
    (true, [])

def osd_checks (b : Build) (p : Params) (e : Env) (s : State) (display_failure : Bool) :
    Bool × List Event :=
  if check_enabled p .OSD then
    match e.osd with
    | none => (true, [])
    | some r =>
      if !r.ok then
        (false, check_failed b p s .OSD display_failure "%s" [.str r.msg])
      else
        (true, [])
  else
    (true, [])

def mount_checks (b : Build) (p : Params) (e : Env) (s : State) (display_failure : Bool) :
    Bool × List Event :=
  if check_enabled p .CAMERA then
    match e.mount with
    | none => (true, [])
    | some r =>
      if !r.ok then
        (false, check_failed b p s .CAMERA display_failure "Mount: %s" [.str r.msg])
      else
        (true, [])
  else
    (true, [])

def fettec_checks (b : Build) (p : Params) (e : Env) (s : State) (display_failure : Bool) :
    Bool × List Event :=
  match e.fettec with
  | none => (true, [])
  | some r =>
    if !r.ok then
      (false, check_failed b p s .ALL display_failure "FETtec: %s" [.str r.msg])
    else
      (true, [])

/-! ## Auxiliary authorisation table -/

/-- The contents of a buffer of `n` bytes after `strncpy(buffer, src, n)`: a
`src` shorter than `n` bytes is copied whole and the rest of the buffer is filled
with NUL; of a `src` of `n` bytes or more the first `n` bytes are copied and
no terminator is written. -/
def strncpy (src : String) (n : Nat) : CharBuffer :=
  if strlen src < n then .text src else .unterminated ((c_str src).take n)

/-- `get_aux_auth_id(uint8_t& auth_id)`: the result, the value of `auth_id` after
the call, the state after the call. -/
def get_aux_auth_id (b : Build) (e : Env) (s : State) (auth_id : Nat) : Bool × Nat × State :=
  if s.aux_auth_count >= b.aux_auth_count_max then
    (false, auth_id, { s with aux_auth_error := true })
  else
    let alloc : Option State :=
      if s.aux_auth_fail_msg = none then
        if e.calloc_ok then some { s with aux_auth_fail_msg := some (.text "") } else none
      else
        some s
    match alloc with
    | none => (false, auth_id, { s with aux_auth_error := true })
    | some s1 => (true, s1.aux_auth_count, { s1 with aux_auth_count := s1.aux_auth_count + 1 })

def set_aux_auth_passed (s : State) (auth_id : Nat) : State :=
  if auth_id >= s.aux_auth_count then
    s
  else
    { s with aux_auth_state := s.aux_auth_state.set auth_id .AUTH_PASSED }

/-- `set_aux_auth_failed(auth_id, fail_msg)`; `fail_msg = none` is the null pointer. -/
def set_aux_auth_failed (b : Build) (s : State) (auth_id : Nat) (fail_msg : Option String) :
    State :=
  if auth_id >= s.aux_auth_count then
    s
  else
    let s1 := { s with aux_auth_state := s.aux_auth_state.set auth_id .AUTH_FAILED }
    if (s1.aux_auth_state.take auth_id).any (fun st => st == .AUTH_FAILED) then
      s1
    else
      match s1.aux_auth_fail_msg with
      | none => s1
      | some _ =>
        let text :=
          match fail_msg with
          | none => strncpy "Auxiliary authorisation refused" b.aux_auth_str_len
          | some m => strncpy m b.aux_auth_str_len
        { s1 with aux_auth_fail_msg := some text, aux_auth_fail_msg_source := auth_id }

def reset_all_aux_auths (b : Build) (s : State) : State :=
  { s with
    aux_auth_count := 0
    aux_auth_error := false
    aux_auth_state :=
      (List.range b.aux_auth_count_max).foldl (fun st i => st.set i .NO_RESPONSE) s.aux_auth_state
    aux_auth_fail_msg := none }

/-- The local variables of the scan of `aux_auth_checks`, and the events emitted so far. -/
structure AuxScan where
  some_failures : Bool
  failure_msg_sent : Bool
  waiting_for_responses : Bool
  events : List Event
deriving DecidableEq, Repr

/-- One pass of the `for` loop of `aux_auth_checks`, for slot `i`
(a slot outside the array reads as `NO_RESPONSE`; none is read while
`aux_auth_count` is at most the array's size). -/
def aux_auth_checks_step (b : Build) (p : Params) (s : State) (display_failure : Bool)
    (acc : AuxScan) (i : Nat) : AuxScan :=
  match s.aux_auth_state.getD i .NO_RESPONSE with
  | .NO_RESPONSE => { acc with waiting_for_responses := true }
  | .AUTH_FAILED =>
    if i = s.aux_auth_fail_msg_source then
      { acc with
        some_failures := true
        failure_msg_sent := true
        events := acc.events ++ check_failed b p s .AUX_AUTH display_failure "%s"
          [CharBuffer.arg s.aux_auth_fail_msg] }
    else
      { acc with some_failures := true }
  | .AUTH_PASSED => acc

/-- The `for` loop of `aux_auth_checks` over the allocated slots. -/
def aux_auth_checks_scan (b : Build) (p : Params) (s : State) (display_failure : Bool) :
    AuxScan :=
  (List.range s.aux_auth_count).foldl (aux_auth_checks_step b p s display_failure)
    ⟨false, false, false, []⟩

def aux_auth_checks (b : Build) (p : Params) (s : State) (display_failure : Bool) :
    Bool × List Event :=
  if s.aux_auth_error then
    if s.aux_auth_fail_msg = none then
      (false, check_failed b p s .AUX_AUTH display_failure
        "memory low for auxiliary authorisation" [])
    else
      (false, check_failed b p s .AUX_AUTH display_failure "Too many auxiliary authorisers" [])
  else
    let r := aux_auth_checks_scan b p s display_failure
    if r.some_failures then
      if !r.failure_msg_sent then
        (false, r.events ++ check_failed b p s .AUX_AUTH display_failure
          "Auxiliary authorisation refused" [])
      else
        (false, r.events)
    else if r.waiting_for_responses then
      (false, r.events ++ check_failed b p s .AUX_AUTH display_failure
        "Waiting for auxiliary authorisation" [])
    else
      (true, r.events)

/-! ## More leaf checks -/

def generator_checks (b : Build) (e : Env) (s : State) (display_failure : Bool) :
    Bool × List Event :=
  match e.generator with
  | none => (true, [])
  | some r =>
    if !r.ok then
      (false, check_failed_nocheck b s display_failure "Generator: %s" [.str r.msg])
    else
      (true, [])

def opendroneid_checks (b : Build) (e : Env) (s : State) (display_failure : Bool) :
    Bool × List Event :=
  if !e.opendroneid_pre_arm_check.ok then
    (false, check_failed_nocheck b s display_failure "OpenDroneID: %s"
      [.str e.opendroneid_pre_arm_check.msg])
  else
    (true, [])

def serial_protocol_checks (b : Build) (e : Env) (s : State) (display_failure : Bool) :
    Bool × List Event :=
  if e.serial_have_second_RCIN then
    (false, check_failed_nocheck b s display_failure
      "Multiple SERIAL ports configured for RC input" [])
  else if !e.serialmanager_pre_arm_checks.ok then
    (false, check_failed_nocheck b s display_failure "%s" [.str e.serialmanager_pre_arm_checks.msg])
  else
    (true, [])

def estop_checks (b : Build) (e : Env) (s : State) (display_failure : Bool) :
    Bool × List Event :=
  if !e.get_emergency_stop then
    (true, [])
  else if b.AP_RC_CHANNEL_ENABLED && e.rc.arm_emergency_stop_switch = some AuxSwitchPos.LOW then
    (true, [])
  else
    (false, check_failed_nocheck b s display_failure "Motors Emergency Stopped" [])

def crashdump_checks (b : Build) (p : Params) (e : Env) (s : State) (report : Bool) :
    Bool × List Event :=
  if e.last_crash_dump_size == 0 then
    (true, [])
  else if p.crashdump_ack_acked then
    if report then
      (true, GCS_SEND_TEXT b .WARNING "CrashDump data detected" [])
    else
      (true, [])
  else
    (false, check_failed b p s .PARAMETERS true "CrashDump data detected" [])

def visodom_checks (b : Build) (p : Params) (e : Env) (s : State) (display_failure : Bool) :
    Bool × List Event :=
  if !check_enabled p .VISION then
    (true, [])
  else
    match e.visual_odom with
    | none => (true, [])
    | some r =>
      if !r.ok then
        (false, check_failed b p s .VISION display_failure "VisOdom: %s" [.str r.msg])
      else
        (true, [])

def disarm_switch_checks (b : Build) (e : Env) (s : State) (display_failure : Bool) :
    Bool × List Event :=
  if e.rc.disarm_switch = some AuxSwitchPos.HIGH then
    (false, check_failed_nocheck b s display_failure "Disarm Switch on" [])
  else
    (true, [])

/-! ## The arming state machine -/

def arming_required (b : Build) (p : Params) (e : Env) : Required :=
  if b.AP_OPENDRONEID_ENABLED && (e.opendroneid_present && e.opendroneid_enabled)
      && (p.require != Required.YES_MIN_PWM && p.require != Required.YES_ZERO_PWM) then
    Required.YES_MIN_PWM
  else
    p.require

def is_armed (b : Build) (p : Params) (e : Env) (s : State) : Bool :=
  s.armed || arming_required b p e == Required.NO

/-- A sub-check that stands under `#if flag` in the `&` chain of `pre_arm_checks`:
it is no operand of the chain in a build without the flag. -/
def built (flag : Bool) (r : Bool × List Event) : Bool × List Event :=
  if flag then r else (true, [])

def pre_arm_checks (b : Build) (p : Params) (e : Env) (s : State) (report : Bool) :
    Bool × State × List Event :=
  if !b.APM_BUILD_COPTER_OR_HELI && (s.armed || arming_required b p e == Required.NO) then
    (true, s, [])
  else
    let c01 := hardware_safety_check b p e s report
    let c02 := built b.HAL_HAVE_IMU_HEATER (heater_min_temperature_checks b p e s report)
    let c03 := built b.AP_BARO_ENABLED (barometer_checks b p e s report)
    let c04 : Bool × State × List Event :=
      if b.AP_INERTIALSENSOR_ENABLED then ins_checks b p e s report else (true, s, [])
    let s1 := c04.2.1
    let c05 := built b.AP_COMPASS_ENABLED (compass_checks b p e s1 report)
    let c06 := built b.AP_GPS_ENABLED (gps_checks b p e s1 report)
    let c07 := built b.AP_BATTERY_ENABLED (battery_checks b p e s1 report)
    let c08 := built b.HAL_LOGGING_ENABLED (logging_checks b p e s1 report)
    let c09 := built b.AP_RC_CHANNEL_ENABLED (manual_transmitter_checks b p e s1 report)
    let c10 := built b.AP_MISSION_ENABLED (mission_checks b p e s1 report)
    let c11 := built b.AP_RANGEFINDER_ENABLED (rangefinder_checks b p e s1 report)
    let c12 := servo_checks b e s1 report
    let c13 := board_voltage_checks b p e s1 report
    let c14 := system_checks b p e s1 report
    let c15 := terrain_checks b p e s1 report
    let c16 := built b.HAL_CANMANAGER_ENABLED (can_checks b p e s1 report)
    let c17 := built b.HAL_GENERATOR_ENABLED (generator_checks b e s1 report)
    let c18 := built b.HAL_PROXIMITY_ENABLED (proximity_checks b e s1 report)
    let c19 := built b.AP_CAMERA_RUNCAM_ENABLED (camera_checks b p e s1 report)
    let c20 := built b.OSD_ENABLED (osd_checks b p e s1 report)
    let c21 := built b.HAL_MOUNT_ENABLED (mount_checks b p e s1 report)
    let c22 := built b.AP_FETTEC_ONEWIRE_ENABLED (fettec_checks b p e s1 report)
    let c23 := built b.HAL_VISUALODOM_ENABLED (visodom_checks b p e s1 report)
    let c24 := built b.AP_ARMING_AUX_AUTH_ENABLED (aux_auth_checks b p s1 report)
    let c25 := built b.AP_RC_CHANNEL_ENABLED (disarm_switch_checks b e s1 report)
    let c26 := built b.AP_FENCE_ENABLED (fence_checks b e s1 report)
    let c27 := built b.AP_OPENDRONEID_ENABLED (opendroneid_checks b e s1 report)
    let c28 := built b.AP_ARMING_CRASHDUMP_ACK_ENABLED (crashdump_checks b p e s1 report)
    let c29 := serial_protocol_checks b e s1 report
    let c30 := estop_checks b e s1 report
    let checks_result :=
      c01.1 && c02.1 && c03.1 && c04.1 && c05.1 && c06.1 && c07.1 && c08.1 && c09.1 && c10.1
        && c11.1 && c12.1 && c13.1 && c14.1 && c15.1 && c16.1 && c17.1 && c18.1 && c19.1
        && c20.1 && c21.1 && c22.1 && c23.1 && c24.1 && c25.1 && c26.1 && c27.1 && c28.1
        && c29.1 && c30.1
    let events :=
      c01.2 ++ c02.2 ++ c03.2 ++ c04.2.2 ++ c05.2 ++ c06.2 ++ c07.2 ++ c08.2 ++ c09.2 ++ c10.2
        ++ c11.2 ++ c12.2 ++ c13.2 ++ c14.2 ++ c15.2 ++ c16.2 ++ c17.2 ++ c18.2 ++ c19.2
        ++ c20.2 ++ c21.2 ++ c22.2 ++ c23.2 ++ c24.2 ++ c25.2 ++ c26.2 ++ c27.2 ++ c28.2
        ++ c29.2 ++ c30.2
    let s2 :=
      if !checks_result && s1.last_prearm_checks_result then
        { s1 with report_immediately := true }
      else s1
    (checks_result, { s2 with last_prearm_checks_result := checks_result }, events)

def arm_checks (b : Build) (p : Params) (e : Env) (s : State) (method : Method) :
    Bool × List Event :=
  let rc : Bool × List Event :=
    if b.AP_RC_CHANNEL_ENABLED && check_enabled p .RC then rc_arm_checks b p e s method
    else (true, [])
  if !rc.1 then
    (false, rc.2)
  else
    let gps : Bool × List Event :=
      if check_enabled p .GPS_CONFIG then
        (e.gps.prepare_for_arming, [Event.gps_prepare_for_arming])
      else (true, [])
    if !gps.1 then
      (false, rc.2 ++ gps.2)
    else if b.HAL_LOGGING_ENABLED && e.logger.logging_present then
      if !e.logger.logging_started && check_enabled p .LOGGING then
        (false, rc.2 ++ gps.2 ++ [Event.logger_PrepForArming]
          ++ check_failed b p s .LOGGING true "Logging not started" [])
      else
        (true, rc.2 ++ gps.2 ++ [Event.logger_PrepForArming])
    else
      (true, rc.2 ++ gps.2)

def mandatory_checks (b : Build) (p : Params) (e : Env) (s : State) (report : Bool) :
    Bool × List Event :=
  let o := built b.AP_OPENDRONEID_ENABLED (opendroneid_checks b e s report)
  let r := rc_in_calibration_check b p e s report
  let sp := serial_protocol_checks b e s report
  (o.1 && r.1 && sp.1, o.2 ++ r.2 ++ sp.2)

def get_rudder_arming_type (p : Params) : RudderArming :=
  p.rudder_arming

def update_arm_gpio (b : Build) (e : Env) (s : State) : List Event :=
  if b.HAL_ARM_GPIO_PIN then
    if !e.arming_gpio_disabled then [Event.update_arm_gpio s.armed] else []
  else
    []

def Log_Write_Arm (b : Build) (p : Params) (e : Env) (s : State) (forced : Bool)
    (method : Method) : List Event :=
  [ Event.logger_WriteCriticalBlock
      { time_us := e.micros64
        arm_state := is_armed b p e s
        arm_checks := get_enabled_checks p
        forced := forced
        method := method },
    Event.logger_Write_Event_ARMED ]

def Log_Write_Disarm (b : Build) (p : Params) (e : Env) (s : State) (forced : Bool)
    (method : Method) : List Event :=
  [ Event.logger_WriteCriticalBlock
      { time_us := e.micros64
        arm_state := is_armed b p e s
        arm_checks := 0
        forced := forced
        method := method },
    Event.logger_Write_Event_DISARMED ]

/-- The condition of the `if` in `arm`,
`(!do_arming_checks && mandatory_checks(true)) || (pre_arm_checks(true) && arm_checks(method))`,
with the short-circuit evaluation of `&&` and `||`. -/
def arm_condition (b : Build) (p : Params) (e : Env) (s : State) (method : Method)
    (do_arming_checks : Bool) : Bool × State × List Event :=
  let m : Bool × List Event :=
    if !do_arming_checks then mandatory_checks b p e s true else (false, [])
  if m.1 then
    (true, s, m.2)
  else
    let pre := pre_arm_checks b p e s true
    if pre.1 then
      let ac := arm_checks b p e pre.2.1 method
      (ac.1, pre.2.1, m.2 ++ pre.2.2 ++ ac.2)
    else
      (false, pre.2.1, m.2 ++ pre.2.2)

def arm (b : Build) (p : Params) (e : Env) (s : State) (method : Method)
    (do_arming_checks : Bool) : Bool × State × List Event :=
  if s.armed then
    (false, s, [])
  else if method = Method.RUDDER && get_rudder_arming_type p = RudderArming.IS_DISABLED then
    (false, s, [])
  else
    let s1 := { s with running_arming_checks := true }
    let c := arm_condition b p e s1 method do_arming_checks
    let r : State × List Event :=
      if c.1 then
        let s2 := { c.2.1 with armed := true, last_arm_time_us := e.micros64,
                               last_arm_method := method }
        (s2, if b.HAL_LOGGING_ENABLED then Log_Write_Arm b p e s2 (!do_arming_checks) method
             else [])
      else
        ({ c.2.1 with armed := false },
         if b.HAL_LOGGING_ENABLED then [Event.logger_arming_failure] else [])
    let s3 := { r.1 with running_arming_checks := false }
    let warn :=
      if s3.armed && do_arming_checks && p.checks_to_perform == 0 then
        GCS_SEND_TEXT b .WARNING "Warning: Arming Checks Disabled" []
      else []
    let fft :=
      if b.HAL_GYROFFT_ENABLED && e.ins.fft.isSome then [Event.fft_prepare_for_arming] else []
    let terrain :=
      if b.AP_TERRAIN_AVAILABLE && (s3.armed && e.terrain.isSome) then
        [Event.terrain_set_reference_location]
      else []
    let fence :=
      if b.AP_FENCE_ENABLED && (s3.armed && e.fence.isSome) then
        [Event.fence_auto_enable_fence_on_arming]
      else []
    (s3.armed, s3, c.2.2 ++ r.2 ++ warn ++ fft ++ terrain ++ fence ++ update_arm_gpio b e s3)

def check_forced_logging (method : Method) : List Event :=
  match method with
  | .TERMINATION | .CPUFAILSAFE | .BATTERYFAILSAFE | .AFS | .ADSBCOLLISIONACTION
  | .PARACHUTE_RELEASE | .CRASH | .FENCEBREACH | .RADIOFAILSAFE | .GCSFAILSAFE
  | .TERRRAINFAILSAFE | .FAILSAFE_ACTION_TERMINATE | .TERRAINFAILSAFE | .BADFLOWOFCONTROL
  | .EKFFAILSAFE | .GCS_FAILSAFE_SURFACEFAILED | .GCS_FAILSAFE_HOLDFAILED
  | .PILOT_INPUT_FAILSAFE | .DEADRECKON_FAILSAFE | .BLACKBOX =>
    [Event.logger_set_long_log_persist true]
  | .RUDDER | .TOYMODE | .MAVLINK | .AUXSWITCH | .MOTORTEST | .SCRIPTING
  | .SOLOPAUSEWHENLANDED | .LANDED | .MISSIONEXIT | .DISARMDELAY | .MOTORDETECTDONE
  | .TAKEOFFTIMEOUT | .AUTOLANDED | .TOYMODELANDTHROTTLE | .TOYMODELANDFORCE | .LANDING
  | .DDS | .AUTO_ARM_ONCE | .TURTLE_MODE | .UNKNOWN =>
    [Event.logger_set_long_log_persist false]

def disarm (b : Build) (p : Params) (e : Env) (s : State) (method : Method)
    (do_disarm_checks : Bool) : Bool × State × List Event :=
  if !s.armed then
    (false, s, [])
  else if method = Method.RUDDER && e.rc.get_throttle_channel.get_control_in > 0 then
    (false, s, [])
  else if method = Method.RUDDER && get_rudder_arming_type p ≠ RudderArming.ARMDISARM then
    (false, s, [Event.send_text .INFO "Disarm: rudder disarm disabled" []])
  else
    let s1 := { s with armed := false, last_disarm_method := method }
    let log :=
      if b.HAL_LOGGING_ENABLED then
        Log_Write_Disarm b p e s1 (!do_disarm_checks) method ++ check_forced_logging method
      else []
    let safety :=
      if b.HAL_HAVE_SAFETY_SWITCH && e.board_safety_on_disarm = some true then
        [Event.rcout_force_safety_on]
      else []
    let fft :=
      if b.HAL_GYROFFT_ENABLED && e.ins.fft.isSome then [Event.fft_save_params_on_disarm] else []
    let fence :=
      if b.AP_FENCE_ENABLED && e.fence.isSome then [Event.fence_auto_disable_fence_on_disarming]
      else []
    (true, s1, log ++ safety ++ fft ++ fence ++ update_arm_gpio b e s1)

/-- `Option::DISABLE_PREARM_DISPLAY`, bit 0 of `OPTIONS`. -/
def Option_DISABLE_PREARM_DISPLAY : Nat := 2 ^ 0

def option_enabled (p : Params) (option : Nat) : Bool :=
  decide (p.arming_options &&& option ≠ 0)

/-- `PREARM_DISPLAY_PERIOD` -/
def PREARM_DISPLAY_PERIOD : Nat := 30

/-- `CrashDump::check_reset()`: the parameters after the call. -/
def CrashDump_check_reset (p : Params) (e : Env) : Params :=
  if e.last_crash_dump_size == 0 then { p with crashdump_ack_acked := false } else p

/-- `update()`: the parameters and the state after the call, and the events. -/
def update (b : Build) (p : Params) (e : Env) (s : State) : Params × State × List Event :=
  let p1 := if b.AP_ARMING_CRASHDUMP_ACK_ENABLED then CrashDump_check_reset p e else p
  let now_ms := e.millis
  let d : Bool × State :=
    if (s.report_immediately && decide (sub32 now_ms s.last_prearm_display_ms > 4000))
        || decide (sub32 now_ms s.last_prearm_display_ms > PREARM_DISPLAY_PERIOD * 1000) then
      (true, { s with report_immediately := false, last_prearm_display_ms := now_ms })
    else
      (false, s)
  let display_fail := if option_enabled p1 Option_DISABLE_PREARM_DISPLAY then false else d.1
  let r := pre_arm_checks b p1 e d.2 display_fail
  (p1, r.2.1, r.2.2)

/-! ## Concrete inputs

A fixed-wing build with every optional subsystem compiled in, the default
parameters of `var_info`, a healthy vehicle, and the object as constructed. -/

def Build.plane : Build where
  APM_BUILD_COPTER_OR_HELI := false
  APM_BUILD_Blimp := false
  HAL_GCS_ENABLED := true
  HAL_BARO_ALLOW_INIT_NO_BARO := false
  HAL_BOARD_SITL := false
  HAL_LOGGING_ENABLED := true
  AP_AIRSPEED_ENABLED := true
  AP_BARO_ENABLED := true
  AP_INERTIALSENSOR_ENABLED := true
  AP_INERTIALSENSOR_BATCHSAMPLER_ENABLED := true
  HAL_GYROFFT_ENABLED := true
  AP_COMPASS_ENABLED := true
  COMPASS_CAL_ENABLED := true
  AP_AHRS_ENABLED := true
  AP_GPS_ENABLED := true
  AP_GPS_BLENDED_ENABLED := true
  GPS_BLENDED_INSTANCE := 2
  AP_BATTERY_ENABLED := true
  AP_RC_CHANNEL_ENABLED := true
  AP_MISSION_ENABLED := true
  HAL_RALLY_ENABLED := true
  AP_SDCARD_STORAGE_ENABLED := true
  AP_VEHICLE_ENABLED := true
  AP_RANGEFINDER_ENABLED := true
  NUM_SERVO_CHANNELS := 2
  HAL_WITH_IO_MCU := true
  HAL_HAVE_BOARD_VOLTAGE := true
  HAL_HAVE_SERVO_VOLTAGE := true
  HAL_HAVE_IMU_HEATER := true
  AP_TERRAIN_AVAILABLE := true
  AP_SCRIPTING_ENABLED := true
  HAL_ADSB_ENABLED := true
  AP_RPM_ENABLED := true
  AP_RELAY_ENABLED := true
  HAL_PARACHUTE_ENABLED := true
  HAL_BUTTON_ENABLED := true
  HAL_CANMANAGER_ENABLED := true
  HAL_PICCOLO_CAN_ENABLE := true
  HAL_ENABLE_DRONECAN_DRIVERS := true
  HAL_GENERATOR_ENABLED := true
  HAL_PROXIMITY_ENABLED := true
  AP_CAMERA_RUNCAM_ENABLED := true
  OSD_ENABLED := true
  HAL_MOUNT_ENABLED := true
  AP_FETTEC_ONEWIRE_ENABLED := true
  HAL_VISUALODOM_ENABLED := true
  AP_ARMING_AUX_AUTH_ENABLED := true
  AP_FENCE_ENABLED := true
  AP_OPENDRONEID_ENABLED := true
  AP_ARMING_CRASHDUMP_ACK_ENABLED := true
  HAL_HAVE_SAFETY_SWITCH := true
  HAL_ARM_GPIO_PIN := false
  aux_auth_count_max := 3
  aux_auth_str_len := 42

/-- The defaults of `var_info` in a fixed-wing build. -/
def Params.default : Params where
  require := Required.YES_MIN_PWM
  rudder_arming := RudderArming.ARMONLY
  required_mission_items := 0
  checks_to_perform := Check.ALL.toUInt32
  arming_options := 0
  magfield_error_threshold := 100
  crashdump_ack_acked := false

def LeafResult.pass : LeafResult := ⟨true, ""⟩

def RcStick.neutral (ch : Nat) : RcStick := ⟨0, ch, false⟩

/-- A healthy vehicle on the ground: every collaborator passes, sensors are
redundant and agree, no optional device is fitted, OpenDroneID is built in and
switched off. -/
def Env.nominal : Env where
  millis := 60000
  micros64 := 60000000
  safety_switch_state := .SAFETY_ARMED
  board_heater := none
  sitl_baro_count := 1
  baro_arming_checks := LeafResult.pass
  airspeed := none
  logger := ⟨true, false, true, false, true⟩
  ins :=
    { get_gyro_health_all := true
      gyro_calibrated_ok_all := true
      get_accel_health_all := true
      accel_calibrated_ok_all := true
      accel_cal_requires_reboot := false
      accels_consistent := true
      gyros_consistent := true
      get_accel_count := 2
      get_gyro_count := 2
      temperature_cal_running := false
      batchsampler_enabled := false
      batchsampler_is_initialised := false
      pre_arm_check_gyro_backend_rate_hz := LeafResult.pass
      fft := none }
  compass :=
    { is_calibrating := false
      compass_cal_requires_reboot := false
      use_for_yaw_0 := true
      healthy := true
      learn_offsets_enabled := false
      configured := LeafResult.pass
      offsets_too_high := false
      mag_field_out_of_range := false
      consistent := true
      diff_xy_exceeds := false
      diff_z_exceeds := false }
  ahrs := ⟨true, true, true⟩
  gps :=
    { pre_arm_checks := LeafResult.pass
      sensors := [⟨false, false, true⟩]
      primary_sensor := 0
      all_consistent := true
      ahrs_distance_exceeds := false
      first_unconfigured_gps := none
      prepare_for_arming := true
      get_auto_switch_type := 1 }
  battery_arming_checks := LeafResult.pass
  rc :=
    { has_valid_input := true
      last_input_ms := 59990
      duplicate_options_exist := false
      flight_mode_channel_conflicts_with_rc_option := false
      flight_mode_channel_number := 8
      option_ARMING_SKIP_CHECK_RPY := false
      get_roll_channel := RcStick.neutral 1
      get_pitch_channel := RcStick.neutral 2
      get_yaw_channel := ⟨0, 4, true⟩
      get_throttle_channel := RcStick.neutral 3
      arming_check_throttle := true
      fwd_thr_percent_input := none
      get_valid_channel_count := 2
      channels := [some ⟨false, 1500, 1100, 1900⟩, some ⟨false, 1500, 1100, 1900⟩]
      calibrating := false
      failsafe_radio := false
      disarm_switch := none
      arm_emergency_stop_switch := none }
  mission := some ⟨false, false, false, false, false, false, false, true, false⟩
  rally := none
  storage_failed := false
  current_mode_requires_mission := false
  rangefinder := none
  srv_channels := [some ⟨4, false, 1500, 1100, 1900, false⟩, none]
  get_disabled_channel_mask := 0
  get_emergency_stop := false
  iomcu_healthy := true
  io_enabled := true
  board_voltage_out_of_range := false
  vservo_min_positive := false
  servo_voltage_low := false
  storage_healthy := true
  get_eeprom_full := false
  loop_rate_low := false
  actual_loop_rate := 50
  get_loop_rate_hz := 50
  terrain := none
  scripting := none
  adsb := none
  internalerror_errors := 0
  internalerror_last_error_line := 0
  internalerror_errors_as_string := ""
  gpio_arming_checks := LeafResult.pass
  rpm := none
  relay := none
  parachute := none
  button_arming_checks := LeafResult.pass
  can_drivers := []
  fence := none
  runcam := none
  osd := none
  mount := none
  fettec := none
  visual_odom := none
  generator := none
  proximity := none
  opendroneid_present := true
  opendroneid_enabled := false
  opendroneid_pre_arm_check := LeafResult.pass
  serial_have_second_RCIN := false
  serialmanager_pre_arm_checks := LeafResult.pass
  last_crash_dump_size := 0
  arming_gpio_disabled := false
  board_safety_on_disarm := none
  calloc_ok := true

/-- The object after construction and one `reset_all_aux_auths`, with the
consistency timers as left by ten seconds of agreeing sensors. -/
def State.init : State where
  armed := false
  last_arm_time_us := 0
  last_arm_method := .UNKNOWN
  last_disarm_method := .UNKNOWN
  running_arming_checks := false
  last_prearm_checks_result := false
  report_immediately := false
  last_prearm_display_ms := 0
  last_accel_pass_ms := 1000
  last_gyro_pass_ms := 1000
  aux_auth_count := 0
  aux_auth_error := false
  aux_auth_state := [.NO_RESPONSE, .NO_RESPONSE, .NO_RESPONSE]
  aux_auth_fail_msg := none
  aux_auth_fail_msg_source := 0

/-! ## Vocabulary of the properties -/

/-- Whether `pre_arm_checks` evaluates its checks, that is, does not leave by the
early `return true` of builds that are not Copter or Heli. -/
def pre_arm_checks_evaluates (b : Build) (p : Params) (e : Env) (s : State) : Bool :=
  !(!b.APM_BUILD_COPTER_OR_HELI && (s.armed || arming_required b p e == Required.NO))

/-- The state in which the operands of `pre_arm_checks` after `ins_checks` run:
`ins_checks` is the only operand that writes to the object. -/
def pre_arm_checks_state (b : Build) (p : Params) (e : Env) (s : State) (report : Bool) : State :=
  if b.AP_INERTIALSENSOR_ENABLED then (ins_checks b p e s report).2.1 else s

/-- The operands of the `&` chain of `pre_arm_checks` in source order, each with
the result it returns and the events it emits. An operand under an `#if` that is
off is listed as `(true, [])`. -/
def pre_arm_checks_operands (b : Build) (p : Params) (e : Env) (s : State) (report : Bool) :
    List (Bool × List Event) :=
  let s1 := pre_arm_checks_state b p e s report
  [ hardware_safety_check b p e s report,
    built b.HAL_HAVE_IMU_HEATER (heater_min_temperature_checks b p e s report),
    built b.AP_BARO_ENABLED (barometer_checks b p e s report),
    built b.AP_INERTIALSENSOR_ENABLED
      ((ins_checks b p e s report).1, (ins_checks b p e s report).2.2),
    built b.AP_COMPASS_ENABLED (compass_checks b p e s1 report),
    built b.AP_GPS_ENABLED (gps_checks b p e s1 report),
    built b.AP_BATTERY_ENABLED (battery_checks b p e s1 report),
    built b.HAL_LOGGING_ENABLED (logging_checks b p e s1 report),
    built b.AP_RC_CHANNEL_ENABLED (manual_transmitter_checks b p e s1 report),
    built b.AP_MISSION_ENABLED (mission_checks b p e s1 report),
    built b.AP_RANGEFINDER_ENABLED (rangefinder_checks b p e s1 report),
    servo_checks b e s1 report,
    board_voltage_checks b p e s1 report,
    system_checks b p e s1 report,
    terrain_checks b p e s1 report,
    built b.HAL_CANMANAGER_ENABLED (can_checks b p e s1 report),
    built b.HAL_GENERATOR_ENABLED (generator_checks b e s1 report),
    built b.HAL_PROXIMITY_ENABLED (proximity_checks b e s1 report),
    built b.AP_CAMERA_RUNCAM_ENABLED (camera_checks b p e s1 report),
    built b.OSD_ENABLED (osd_checks b p e s1 report),
    built b.HAL_MOUNT_ENABLED (mount_checks b p e s1 report),
    built b.AP_FETTEC_ONEWIRE_ENABLED (fettec_checks b p e s1 report),
    built b.HAL_VISUALODOM_ENABLED (visodom_checks b p e s1 report),
    built b.AP_ARMING_AUX_AUTH_ENABLED (aux_auth_checks b p s1 report),
    built b.AP_RC_CHANNEL_ENABLED (disarm_switch_checks b e s1 report),
    built b.AP_FENCE_ENABLED (fence_checks b e s1 report),
    built b.AP_OPENDRONEID_ENABLED (opendroneid_checks b e s1 report),
    built b.AP_ARMING_CRASHDUMP_ACK_ENABLED (crashdump_checks b p e s1 report),
    serial_protocol_checks b e s1 report,
    estop_checks b e s1 report ]

/-- The state written back by `pre_arm_checks` once `checks_result` is known:
the `if (!checks_result && last_prearm_checks_result)` and the assignment after it. -/
def pre_arm_checks_finish (s1 : State) (checks_result : Bool) : State :=
  { (if !checks_result && s1.last_prearm_checks_result then
        { s1 with report_immediately := true } else s1) with
    last_prearm_checks_result := checks_result }

/-- A disarmed vehicle whose hardware safety switch is still on. -/
def Env.safety_on : Env :=
  { Env.nominal with safety_switch_state := .SAFETY_DISARMED }

/-- Whether `arm` leaves at the `switch` on the rudder arming type: the method is
`RUDDER` and rudder arming is configured `IS_DISABLED`. -/
def rudder_arm_rejected (p : Params) (method : Method) : Bool :=
  method == Method.RUDDER && get_rudder_arming_type p == RudderArming.IS_DISABLED

/-- The default parameters with `REQUIRE` set to 0 (no requirement). -/
def Params.no_requirement : Params :=
  { Params.default with require := Required.NO }

/-- The default parameters with only the bit of `c` set in `CHECK`. -/
def Params.only (c : Check) : Params :=
  { Params.default with checks_to_perform := c.toUInt32 }

/-- A healthy vehicle whose RC input is being calibrated. -/
def Env.rc_calibrating : Env :=
  { Env.nominal with rc := { Env.nominal.rc with calibrating := true } }

/-- The auxiliary authorisation table held in the object: count, error flag,
slot states, message buffer, message source. -/
def State.aux_table (s : State) :
    Nat × Bool × List AuxAuthStates × Option CharBuffer × Nat :=
  (s.aux_auth_count, s.aux_auth_error, s.aux_auth_state, s.aux_auth_fail_msg,
    s.aux_auth_fail_msg_source)

/-- The object with the four members that `pre_arm_checks` writes blanked out:
the two consistency anchors, `report_immediately` and `last_prearm_checks_result`. -/
def State.except_checks (s : State) : State :=
  { s with
    last_accel_pass_ms := 0
    last_gyro_pass_ms := 0
    report_immediately := false
    last_prearm_checks_result := false }

/-- A response of an authoriser: a call of `set_aux_auth_passed` or of
`set_aux_auth_failed`. -/
inductive AuxResponse
  | passed (auth_id : Nat)
  | failed (auth_id : Nat) (fail_msg : Option String)
deriving DecidableEq, Repr

/-- The state after one response. -/
def AuxResponse.run (b : Build) (s : State) : AuxResponse → State
  | .passed auth_id => set_aux_auth_passed s auth_id
  | .failed auth_id fail_msg => set_aux_auth_failed b s auth_id fail_msg

/-- The state after a run of calls of `get_aux_auth_id` that all return true, one
call for each entry (the collaborators' answers and the caller's variable);
`none` when one of the calls returns false. -/
def get_aux_auth_ids (b : Build) : List (Env × Nat) → State → Option State
  | [], s => some s
  | (e, auth_id) :: rest, s =>
    if (get_aux_auth_id b e s auth_id).1 then
      get_aux_auth_ids b rest (get_aux_auth_id b e s auth_id).2.2
    else
      none

/-- A call into the object from outside, with the parameters and the
collaborators' answers in force during the call. -/
inductive Call
  | arm (p : Params) (e : Env) (method : Method) (do_arming_checks : Bool)
  | disarm (p : Params) (e : Env) (method : Method) (do_disarm_checks : Bool)
  | update (p : Params) (e : Env)
  | pre_arm_checks (p : Params) (e : Env) (report : Bool)
  | get_aux_auth_id (e : Env) (auth_id : Nat)
  | set_aux_auth_passed (auth_id : Nat)
  | set_aux_auth_failed (auth_id : Nat) (fail_msg : Option String)
  | reset_all_aux_auths
deriving DecidableEq, Repr

/-- The state after one call. -/
def Call.run (b : Build) (s : State) : Call → State
  | .arm p e method do_arming_checks => (AP_Arming.arm b p e s method do_arming_checks).2.1
  | .disarm p e method do_disarm_checks =>
    (AP_Arming.disarm b p e s method do_disarm_checks).2.1
  | .update p e => (AP_Arming.update b p e s).2.1
  | .pre_arm_checks p e report => (AP_Arming.pre_arm_checks b p e s report).2.1
  | .get_aux_auth_id e auth_id => (AP_Arming.get_aux_auth_id b e s auth_id).2.2
  | .set_aux_auth_passed auth_id => AP_Arming.set_aux_auth_passed s auth_id
  | .set_aux_auth_failed auth_id fail_msg => AP_Arming.set_aux_auth_failed b s auth_id fail_msg
  | .reset_all_aux_auths => AP_Arming.reset_all_aux_auths b s

/-- The table after two authorisers were given ids and neither has answered. -/
def State.two_allocated : State :=
  { State.init with
    aux_auth_count := 2
    aux_auth_fail_msg := some (.text "") }

/-- The table with every slot allocated and every authoriser passed. -/
def State.all_passed : State :=
  { State.init with
    aux_auth_count := 3
    aux_auth_state := [.AUTH_PASSED, .AUTH_PASSED, .AUTH_PASSED]
    aux_auth_fail_msg := some (.text "") }

/-- The table is well formed: at most `aux_auth_count_max` slots are allocated and
the array `aux_auth_state` has `aux_auth_count_max` entries. -/
def aux_table_wf (b : Build) (s : State) : Prop :=
  s.aux_auth_count ≤ b.aux_auth_count_max ∧ s.aux_auth_state.length = b.aux_auth_count_max

instance (b : Build) (s : State) : Decidable (aux_table_wf b s) := by
  unfold aux_table_wf
  infer_instance

/-- The failures that `pre_arm_checks` attributes to a check from outside every
`check_enabled` guard, by check and format: the RC calibration test of
`rc_in_calibration_check`, the mode test of `mission_checks`, every failure of
`aux_auth_checks`, the failure of `fettec_checks`, and the crash dump test. -/
def unguarded_failures : List (Check × String) :=
  [ (.RC, "RC calibrating"),
    (.MISSION, "Mode requires mission"),
    (.AUX_AUTH, "memory low for auxiliary authorisation"),
    (.AUX_AUTH, "Too many auxiliary authorisers"),
    (.AUX_AUTH, "%s"),
    (.AUX_AUTH, "Auxiliary authorisation refused"),
    (.AUX_AUTH, "Waiting for auxiliary authorisation"),
    (.ALL, "FETtec: %s"),
    (.PARAMETERS, "CrashDump data detected") ]

/-- The failures that `pre_arm_checks` attributes to one check from inside the
`check_enabled` guard of another, by attributed check, format and guarding check:
the parameter storage test of the SYSTEM block, the FFT test, and the blending
test of the PARAMETERS block. -/
def cross_guarded_failures : List (Check × String × Check) :=
  [ (.PARAMETERS, "parameter storage full", .SYSTEM),
    (.INS, "%s", .FFT),
    (.GPS, "GPS_AUTO_SWITCH==2 but no blending", .PARAMETERS) ]

/-- Where a failure attributed to check `c` with format `fmt` comes from: a block
guarded by `check_enabled(c)` that is entered, no guard at all, or the guard of
another check that is enabled. -/
def failure_origin (p : Params) (c : Check) (fmt : String) : Prop :=
  check_enabled p c = true
  ∨ (c, fmt) ∈ unguarded_failures
  ∨ ∃ g, (c, fmt, g) ∈ cross_guarded_failures ∧ check_enabled p g = true

/-- An event is in order with the enable mask: a failure attributed to a check is
sent as CRITICAL when the check is enabled and as DEBUG when it is disabled, and
its origin is one of those of `failure_origin`. The formats reported outside the
guard of their check are short: a failure whose tagged format is cut comes from
inside the guard of its check. -/
def Event.guarded (p : Params) : Event → Prop
  | .check_failed (some c) severity _ fmt _ =>
    (severity = if check_enabled p c then MAV_SEVERITY.CRITICAL else MAV_SEVERITY.DEBUG)
    ∧ failure_origin p c fmt
  | .check_failed_cut (some c) severity _ _ =>
    (severity = if check_enabled p c then MAV_SEVERITY.CRITICAL else MAV_SEVERITY.DEBUG)
    ∧ check_enabled p c = true
  | _ => True

/-- Every event of a sub-check is in order with the enable mask. -/
def events_guarded (p : Params) (r : Bool × List Event) : Prop :=
  ∀ ev ∈ r.2, ev.guarded p

/-- Every event of a block of a sub-check is in order with the enable mask. -/
def events_guarded_opt (p : Params) (o : Option (Bool × List Event)) : Prop :=
  ∀ r, o = some r → events_guarded p r

/-- The table after one authoriser was given an id and refused with a message. -/
def State.one_refused : State :=
  { State.init with
    aux_auth_count := 1
    aux_auth_state := [.AUTH_FAILED, .NO_RESPONSE, .NO_RESPONSE]
    aux_auth_fail_msg := some (.text "no flight permit")
    aux_auth_fail_msg_source := 0 }

/-- The status text of the refusal stored in `State.one_refused`, as sent during
`arm` when Check::AUX_AUTH is enabled. -/
def refused_by_aux_auth : Event :=
  Event.check_failed (some Check.AUX_AUTH) MAV_SEVERITY.CRITICAL "Arm: %s" "%s"
    [.str "no flight permit"]

/-- A vehicle armed over MAVLink five seconds after boot. -/
def State.flying : State :=
  { State.init with
    armed := true
    last_arm_time_us := 5000000
    last_arm_method := .MAVLINK
    last_prearm_checks_result := true }

/-- The default parameters with rudder arming configured `IS_DISABLED`. -/
def Params.rudder_disabled : Params :=
  { Params.default with rudder_arming := RudderArming.IS_DISABLED }

/-- The default parameters with rudder arming configured `ARMDISARM`. -/
def Params.rudder_armdisarm : Params :=
  { Params.default with rudder_arming := RudderArming.ARMDISARM }

/-- Whether a stick is off neutral on the arming channel: the case that the loop
of `rc_arm_checks` lets pass for the method `RUDDER` only. -/
def RcStick.arming_deflected (c : RcStick) : Bool :=
  c.get_control_in != 0 && c.is_arming_channel

/-- Whether one of the roll, pitch and yaw sticks is off neutral on the arming
channel. -/
def Env.arming_stick_deflected (e : Env) : Bool :=
  e.rc.get_roll_channel.arming_deflected || e.rc.get_pitch_channel.arming_deflected
    || e.rc.get_yaw_channel.arming_deflected

/-- A healthy vehicle whose yaw stick, the arming channel, is held over. -/
def Env.yaw_held : Env :=
  { Env.nominal with rc := { Env.nominal.rc with get_yaw_channel := ⟨4500, 4, true⟩ } }

/-- A healthy vehicle whose throttle stick is above minimum. -/
def Env.throttle_up : Env :=
  { Env.nominal with rc := { Env.nominal.rc with get_throttle_channel := ⟨300, 3, false⟩ } }

/-- A healthy vehicle with OpenDroneID present and enabled. -/
def Env.opendroneid_on : Env :=
  { Env.nominal with opendroneid_enabled := true }
/-- Successive calls of `ins_accels_consistent`, one for each entry (the
collaborators' answers during the call, `millis()` among them): each call with the
value it returns. -/
def ins_accels_consistent_calls : List Env → State → List (Env × Bool)
  | [], _ => []
  | e :: rest, s =>
    (e, (ins_accels_consistent e s).1)
      :: ins_accels_consistent_calls rest (ins_accels_consistent e s).2

/-- A healthy vehicle at time `t` ms whose accelerometers agree or not. -/
def Env.accels_at (t : Nat) (consistent : Bool) : Env :=
  { Env.nominal with
    millis := t
    ins := { Env.nominal.ins with accels_consistent := consistent } }

/-- The object as constructed: both consistency anchors are cleared. -/
def State.constructed : State :=
  { State.init with last_accel_pass_ms := 0, last_gyro_pass_ms := 0 }

/-- The consistency-timer step in the words of the specification: from the
observed predicate `p`, the sensor count `n`, the time `now` and the anchor `a`,
the result and the new anchor `a'`. The new anchor is 0 if `p` is false, `now` if
`p` is true and `a == 0`, and `a` otherwise; the result is true iff `p` is true and
(`n <= 1` or `(now - a') mod 2^32 >= 10000`). -/
def consistency_timer_step (p : Bool) (n now a : Nat) : Bool × Nat :=
  let a' := if p = false then 0 else if a = 0 then now else a
  (p && (decide (n ≤ 1) || decide (((now : Int) - (a' : Int)) % 2 ^ 32 ≥ 10000)), a')

/-- The parameters in force when `update` calls `pre_arm_checks`: those left by
`crashdump_ack.check_reset()`. -/
def update_params (b : Build) (p : Params) (e : Env) : Params :=
  if b.AP_ARMING_CRASHDUMP_ACK_ENABLED then CrashDump_check_reset p e else p

/-- Whether `update` enters the `if` that arms the display: `report_immediately`
and more than 4000 ms since the last display, or more than `PREARM_DISPLAY_PERIOD`
seconds since the last display. -/
def update_display_due (e : Env) (s : State) : Bool :=
  (s.report_immediately && decide (sub32 e.millis s.last_prearm_display_ms > 4000))
    || decide (sub32 e.millis s.last_prearm_display_ms > PREARM_DISPLAY_PERIOD * 1000)

/-- The object when `update` calls `pre_arm_checks`. -/
def update_state (e : Env) (s : State) : State :=
  if update_display_due e s then
    { s with report_immediately := false, last_prearm_display_ms := e.millis }
  else s

/-- The value of `display_fail` that `update` passes to `pre_arm_checks` as
`report`. -/
def update_display_fail (b : Build) (p : Params) (e : Env) (s : State) : Bool :=
  if option_enabled (update_params b p e) Option_DISABLE_PREARM_DISPLAY then false
  else update_display_due e s

/-- A healthy vehicle at time `t` ms. -/
def Env.at_ms (t : Nat) : Env :=
  { Env.nominal with millis := t }

/-- A vehicle at time `t` ms whose hardware safety switch is on. -/
def Env.safety_on_at_ms (t : Nat) : Env :=
  { Env.safety_on with millis := t }

/-- The default parameters with `DISABLE_PREARM_DISPLAY` set in `OPTIONS`. -/
def Params.no_prearm_display : Params :=
  { Params.default with arming_options := Option_DISABLE_PREARM_DISPLAY }

/-- Whether a slot of lower index than `auth_id` is `AUTH_FAILED`: the outcome of
the `for` loop of `set_aux_auth_failed`. -/
def lower_failed (l : List AuxAuthStates) (auth_id : Nat) : Bool :=
  (l.take auth_id).any (fun st => st == .AUTH_FAILED)

/-- The buffer after `set_aux_auth_failed(auth_id, fail_msg)` has copied its
message: `fail_msg`, or "Auxiliary authorisation refused" for the null pointer,
as `strncpy` leaves it in the `aux_auth_str_len` bytes of the buffer. -/
def aux_fail_text (b : Build) (fail_msg : Option String) : CharBuffer :=
  match fail_msg with
  | none => strncpy "Auxiliary authorisation refused" b.aux_auth_str_len
  | some m => strncpy m b.aux_auth_str_len

/-- What the table remembers of the calls made to it, for each slot: the text of
the last `set_aux_auth_failed` that the table accepted for the slot since the last
`reset_all_aux_auths`, `none` when there was none. This is the record after one
call made in state `s`, from the record `g` before it. -/
def Call.reported (b : Build) (s : State) (g : Nat → Option CharBuffer) : Call → Nat → Option CharBuffer
  | .set_aux_auth_failed auth_id fail_msg =>
    if auth_id < s.aux_auth_count then
      Function.update g auth_id (some (aux_fail_text b fail_msg))
    else g
  | .reset_all_aux_auths => fun _ => none
  | _ => g

/-- A run of calls: the object after it, and the text last reported for each
slot. -/
def run_reported (b : Build) :
    List Call → State × (Nat → Option CharBuffer) → State × (Nat → Option CharBuffer)
  | [], sg => sg
  | c :: rest, sg => run_reported b rest (Call.run b sg.1 c, Call.reported b sg.1 sg.2 c)

/-- The invariant of the table and of the record of reported texts: the table is
well formed; the buffer is allocated exactly when an id is allocated; no slot that
is not allocated is `AUTH_FAILED`; no slot below the message source is
`AUTH_FAILED`; a failed slot has a reported text; and when the message source is
an allocated `AUTH_FAILED` slot the buffer holds the text last reported for it. -/
def aux_inv (b : Build) (s : State) (g : Nat → Option CharBuffer) : Prop :=
  (s.aux_auth_count ≤ b.aux_auth_count_max ∧ s.aux_auth_state.length = b.aux_auth_count_max)
  ∧ (s.aux_auth_count = 0 ↔ s.aux_auth_fail_msg = none)
  ∧ (∀ i, s.aux_auth_count ≤ i → s.aux_auth_state[i]? ≠ some AuxAuthStates.AUTH_FAILED)
  ∧ (∀ j, j < s.aux_auth_fail_msg_source →
      s.aux_auth_state[j]? ≠ some AuxAuthStates.AUTH_FAILED)
  ∧ (∀ i, s.aux_auth_state[i]? = some AuxAuthStates.AUTH_FAILED → g i ≠ none)
  ∧ (s.aux_auth_fail_msg_source < s.aux_auth_count →
      s.aux_auth_state[s.aux_auth_fail_msg_source]? = some AuxAuthStates.AUTH_FAILED →
      s.aux_auth_fail_msg = g s.aux_auth_fail_msg_source)

/-- The id handed out by one call made in state `s`: the value written to
`auth_id` by a `get_aux_auth_id` that returns true, nothing for any other call. -/
def Call.allocated (b : Build) (s : State) : Call → List Nat
  | .get_aux_auth_id e auth_id =>
    if (AP_Arming.get_aux_auth_id b e s auth_id).1 then
      [(AP_Arming.get_aux_auth_id b e s auth_id).2.1]
    else []
  | _ => []

/-- The ids handed out by the calls of `get_aux_auth_id` that return true in a run
of calls, in the order of the calls. -/
def allocated_ids (b : Build) : List Call → State → List Nat
  | [], _ => []
  | c :: rest, s => Call.allocated b s c ++ allocated_ids b rest (Call.run b s c)

/-- A vehicle on which `calloc` fails. -/
def Env.out_of_memory : Env :=
  { Env.nominal with calloc_ok := false }

/-- The status text of a refusal without a stored message, as sent by
`aux_auth_checks(true)` outside `arm` when Check::AUX_AUTH is enabled. -/
def refused_without_message : Event :=
  Event.check_failed (some Check.AUX_AUTH) MAV_SEVERITY.CRITICAL "PreArm: %s"
    "Auxiliary authorisation refused" []

/-- Two authorisers are given ids, both refuse, the first one first, and the
first one passes afterwards. -/
def calls_first_refusal_withdrawn : List Call :=
  [ .get_aux_auth_id Env.nominal 0, .get_aux_auth_id Env.nominal 0,
    .set_aux_auth_failed 0 (some "no flight permit"),
    .set_aux_auth_failed 1 (some "battery too cold"),
    .set_aux_auth_passed 0 ]

/-- Four requests for an id on a table of three slots, with a response in
between. -/
def calls_four_requests : List Call :=
  [ .get_aux_auth_id Env.nominal 7, .set_aux_auth_passed 0, .get_aux_auth_id Env.nominal 7,
    .get_aux_auth_id Env.nominal 7, .get_aux_auth_id Env.nominal 7 ]

/-- The status text of a table in error whose buffer is allocated, as sent by
`aux_auth_checks(true)` outside `arm` when Check::AUX_AUTH is enabled. -/
def too_many_authorisers : Event :=
  Event.check_failed (some Check.AUX_AUTH) MAV_SEVERITY.CRITICAL "PreArm: %s"
    "Too many auxiliary authorisers" []

/-- The disarm methods that the specification classes as failsafe, crash or
termination: the methods after which extended log retention is requested. -/
def forced_logging_class : List Method :=
  [ .TERMINATION, .CPUFAILSAFE, .BATTERYFAILSAFE, .AFS, .ADSBCOLLISIONACTION,
    .PARACHUTE_RELEASE, .CRASH, .FENCEBREACH, .RADIOFAILSAFE, .GCSFAILSAFE,
    .TERRRAINFAILSAFE, .FAILSAFE_ACTION_TERMINATE, .TERRAINFAILSAFE, .BADFLOWOFCONTROL,
    .EKFFAILSAFE, .GCS_FAILSAFE_SURFACEFAILED, .GCS_FAILSAFE_HOLDFAILED,
    .PILOT_INPUT_FAILSAFE, .DEADRECKON_FAILSAFE, .BLACKBOX ]

/-- Whether an event is a call of `AP::logger().set_long_log_persist`. -/
def Event.is_set_long_log_persist : Event → Bool
  | .logger_set_long_log_persist _ => true
  | _ => false

/-- A healthy vehicle with one internal error recorded. -/
def Env.internal_error : Env :=
  { Env.nominal with
    internalerror_errors := 0x4000
    internalerror_last_error_line := 970
    internalerror_errors_as_string := "flow_of_ctrl" }

/-- The default parameters with `CHECK` set to 0: every check disabled. -/
def Params.no_checks : Params :=
  { Params.default with checks_to_perform := 0 }

/-- The default parameters with `REQUIRE` set to 0 and rudder arming configured
`IS_DISABLED`. -/
def Params.no_requirement_rudder_disabled : Params :=
  { Params.no_requirement with rudder_arming := RudderArming.IS_DISABLED }

/-- The default parameters with a landing item required in the mission. -/
def Params.land_required : Params :=
  { Params.default with required_mission_items := MIS_ITEM_CHECK_LAND }

/-- A healthy vehicle without a mission library (`AP::mission()` is null). -/
def Env.no_mission : Env :=
  { Env.nominal with mission := none }

/-- A healthy vehicle whose mission holds terrain altitude items, without a
terrain database (`AP_Terrain::get_singleton()` is null). -/
def Env.terrain_items_no_terrain : Env :=
  { Env.nominal with
    mission := some ⟨false, false, false, false, false, false, false, true, true⟩
    terrain := none }

/-- The fixed-wing build without servo channels (`NUM_SERVO_CHANNELS` is 0). -/
def Build.no_servos : Build :=
  { Build.plane with NUM_SERVO_CHANNELS := 0 }

/-- Every slot of the array that is not allocated is `NO_RESPONSE`. -/
def aux_free_slots (b : Build) (s : State) : Prop :=
  ∀ i : Nat, s.aux_auth_count ≤ i → i < b.aux_auth_count_max →
    s.aux_auth_state[i]? = some AuxAuthStates.NO_RESPONSE

/-- Three requests for an id, the first failing for lack of memory, with
responses of the two authorisers that got one. -/
def calls_two_authorisers : List Call :=
  [ .get_aux_auth_id Env.out_of_memory 0, .reset_all_aux_auths,
    .get_aux_auth_id Env.nominal 0, .get_aux_auth_id Env.nominal 0,
    .set_aux_auth_failed 1 none, .set_aux_auth_passed 0, .set_aux_auth_passed 2 ]

/-- Successive calls of `ins_checks`, one for each entry (the parameters, the
collaborators' answers and `report` of the call): each call with the value it
returns. -/
def ins_checks_calls (b : Build) :
    List (Params × Env × Bool) → State → List ((Params × Env × Bool) × Bool)
  | [], _ => []
  | c :: rest, s =>
    (c, (ins_checks b c.1 c.2.1 s c.2.2).1)
      :: ins_checks_calls b rest (ins_checks b c.1 c.2.1 s c.2.2).2.1

/-- A call of `ins_checks(false)` on a healthy vehicle at time `t` ms, with the
default parameters: one entry of `ins_checks_calls`. -/
def ins_checks_at (t : Nat) : Params × Env × Bool :=
  (Params.default, Env.at_ms t, false)

/-- The two consistency anchors of an object that has seen calls of `ins_checks`
from time `t0` up to time `T` (ms): an anchor that is set lies between the time
from which it can have been set and `T`. The accelerometer anchor can be set from
`t0` on, the gyro anchor from `t0 + 10000` on. -/
def ins_timers_inv (t0 T : Nat) (s : State) : Prop :=
  (s.last_accel_pass_ms = 0 ∨ (t0 ≤ s.last_accel_pass_ms ∧ s.last_accel_pass_ms ≤ T))
  ∧ (s.last_gyro_pass_ms = 0
      ∨ (t0 + 10000 ≤ s.last_gyro_pass_ms ∧ s.last_gyro_pass_ms ≤ T))

/-- An event carries the tag `m`: a failure reported through `check_failed` is
wrapped in the format `m` ("Arm: %s" or "PreArm: %s"); when the tagged format is
cut, what is left of it starts with the text of `m` before its `%s`. -/
def Event.tagged (m : String) : Event → Prop
  | .check_failed _ _ mf _ _ => mf = m
  | .check_failed_cut _ _ taggedfmt _ => c_str (metafmt_tag m) <+: taggedfmt
  | _ => True

/-- Every failure among the events of a sub-check carries the tag chosen by
`running_arming_checks` in the state `s`. -/
def events_tagged (s : State) (r : Bool × List Event) : Prop :=
  ∀ ev ∈ r.2, ev.tagged (metafmt s)

/-- Every failure among the events of a block of a sub-check carries the tag
chosen by `running_arming_checks` in the state `s`. -/
def events_tagged_opt (s : State) (o : Option (Bool × List Event)) : Prop :=
  ∀ r, o = some r → events_tagged s r

/-- The status text of the hardware safety switch as sent during `arm`. -/
def safety_switch_arm : Event :=
  Event.check_failed (some Check.SWITCH) MAV_SEVERITY.CRITICAL "Arm: %s"
    "Hardware safety switch" []

/-- The status text of the hardware safety switch as sent by `update`. -/
def safety_switch_prearm : Event :=
  Event.check_failed (some Check.SWITCH) MAV_SEVERITY.CRITICAL "PreArm: %s"
    "Hardware safety switch" []

/-- The format that a status text of `check_failed` hands to `send_textv`, in
bytes: the contents of `taggedfmt`. -/
def Event.taggedfmt : Event → List Nat
  | .check_failed _ _ metafmt fmt _ => c_str (metafmt_tag metafmt) ++ c_str fmt
  | .check_failed_cut _ _ taggedfmt _ => taggedfmt
  | _ => []

/-- Two serial ports are configured for RC input. -/
def Env.two_rcin_ports : Env :=
  { Env.nominal with serial_have_second_RCIN := true }

/-- The check that a status text of `check_failed` is attributed to. -/
def Event.check : Event → Option Check
  | .check_failed check _ _ _ _ => check
  | .check_failed_cut check _ _ _ => check
  | _ => none

/-- A status text of `check_failed`, of either overload, whole or cut. -/
def Event.is_failure : Event → Bool
  | .check_failed _ _ _ _ _ => true
  | .check_failed_cut _ _ _ _ => true
  | _ => false

/-- The failure that `crashdump_checks` reports: it calls `check_failed` with
`true` in the place of `report`, whatever `report` is. -/
def Event.is_crashdump_failure : Event → Bool
  | .check_failed (some .PARAMETERS) _ _ fmt args =>
    decide (fmt = "CrashDump data detected" ∧ args = [])
  | _ => false

/-- The failures among the events of a sub-check are in order with its result and
with `report`: a sub-check that reports a failure returns false, and with `report`
false the only failure that is reported is the crash dump failure. -/
def events_sound (report : Bool) (r : Bool × List Event) : Prop :=
  ∀ ev ∈ r.2, ev.is_failure = true →
    r.1 = false ∧ (report = false → ev.is_crashdump_failure = true)

/-- The failures among the events of a block of a sub-check are in order with its
result and with `report`. -/
def events_sound_opt (report : Bool) (o : Option (Bool × List Event)) : Prop :=
  ∀ r, o = some r → events_sound report r

/-- The members of `Location` that `fix_terrain_WP` reads or writes: the altitude
in cm (`int32_t alt`) and the two flags. -/
structure Location where
  alt : Int
  relative_alt : Bool
  terrain_alt : Bool
deriving DecidableEq, Repr

/-- The `AP_InternalError::error_t` that `fix_terrain_WP` records. -/
inductive error_t
  | flow_of_control
deriving DecidableEq, Repr

/-- One call `AP::internalerror().error(e, line)`. -/
structure InternalErrorCall where
  e : error_t
  line : Nat
deriving DecidableEq, Repr

/-- The value of an `int32_t` expression whose mathematical value is `x`: `x`
itself where it fits, its two's complement wrap (what the 32-bit targets compute)
where the C++ arithmetic overflows. -/
def int32 (x : Int) : Int :=
  (x + 2 ^ 31) % 2 ^ 32 - 2 ^ 31

/-- `Plane::fix_terrain_WP(loc, linenum)`, with the member `home` of the vehicle:
the location after the call and the internal errors recorded. -/
def Plane.fix_terrain_WP (home : Location) (loc : Location) (linenum : Nat) :
    Location × List InternalErrorCall :=
  if loc.terrain_alt && !loc.relative_alt then
    let loc1 :=
      if int32 (loc.alt - home.alt) > -500 then
        { loc with alt := int32 (loc.alt - home.alt) }
      else loc
    ({ loc1 with relative_alt := true }, [⟨.flow_of_control, linenum⟩])
  else
    (loc, [])

/-- Home at 120 m above sea level. -/
def Location.home_120m : Location :=
  ⟨12000, false, false⟩

/-- A waypoint 50 m above terrain whose altitude had the home altitude added and
whose `relative_alt` flag was left clear. -/
def Location.terrain_wp_misthreaded : Location :=
  ⟨17000, false, true⟩

/-! # Properties

Lemmas about the embedding, then the properties of the arming gate. -/

/-! ## The enable mask -/

theorem and_two_pow_ne_zero (m k : Nat) : m &&& 2 ^ k ≠ 0 ↔ m.testBit k = true := by
  rw [Nat.and_two_pow]
  cases h : m.testBit k <;> simp

/-- C7: for every enable mask and every check `c`, `check_enabled(c)` is true iff
`mask & ALL` is non-zero or `mask & c` is non-zero, that is, iff bit 0 or the bit of
`c` is set in the mask; with the ALL bit set every check is enabled whatever its
own bit, and with mask 0 no check is enabled. -/
theorem check_enabled_iff (p : Params) (c : Check) :
    (check_enabled p c = true ↔
      (p.checks_to_perform &&& Check.ALL.toUInt32 ≠ 0 ∨ p.checks_to_perform &&& c.toUInt32 ≠ 0))
    ∧ (check_enabled p c = true ↔
      (p.checks_to_perform.testBit 0 = true ∨ p.checks_to_perform.testBit c.bit = true))
    ∧ (p.checks_to_perform.testBit 0 = true → check_enabled p c = true)
    ∧ (p.checks_to_perform = 0 → check_enabled p c = false) := by
  have h1 : check_enabled p c = true ↔
      (p.checks_to_perform &&& Check.ALL.toUInt32 ≠ 0 ∨ p.checks_to_perform &&& c.toUInt32 ≠ 0) := by
    unfold check_enabled
    by_cases h : p.checks_to_perform &&& Check.ALL.toUInt32 ≠ 0
    · simp [h]
    · simp [h]
  have h2 : check_enabled p c = true ↔
      (p.checks_to_perform.testBit 0 = true ∨ p.checks_to_perform.testBit c.bit = true) := by
    rw [h1]
    unfold Check.toUInt32
    rw [and_two_pow_ne_zero, and_two_pow_ne_zero]
    rfl
  refine ⟨h1, h2, ?_, ?_⟩
  · intro h
    exact h2.mpr (Or.inl h)
  · intro h
    cases hc : check_enabled p c
    · rfl
    · rw [h2, h] at hc
      simp at hc

/-! ## pre_arm_checks as the conjunction of its operands -/

theorem pre_arm_checks_skip (b : Build) (p : Params) (e : Env) (s : State) (report : Bool)
    (h : pre_arm_checks_evaluates b p e s = false) :
    pre_arm_checks b p e s report = (true, s, []) := by
  unfold pre_arm_checks_evaluates at h
  unfold pre_arm_checks
  cases hh : (!b.APM_BUILD_COPTER_OR_HELI && (s.armed || arming_required b p e == Required.NO))
  · rw [hh] at h
    exact absurd h (by decide)
  · simp

theorem pre_arm_checks_run (b : Build) (p : Params) (e : Env) (s : State) (report : Bool)
    (h : pre_arm_checks_evaluates b p e s = true) :
    pre_arm_checks b p e s report =
      (((pre_arm_checks_operands b p e s report).all fun r => r.1),
       pre_arm_checks_finish (pre_arm_checks_state b p e s report)
         ((pre_arm_checks_operands b p e s report).all fun r => r.1),
       ((pre_arm_checks_operands b p e s report).map fun r => r.2).flatten) := by
  have h' : (!b.APM_BUILD_COPTER_OR_HELI && (s.armed || arming_required b p e == Required.NO))
      = false := by
    unfold pre_arm_checks_evaluates at h
    cases hh : (!b.APM_BUILD_COPTER_OR_HELI && (s.armed || arming_required b p e == Required.NO))
    · rfl
    · rw [hh] at h
      exact absurd h (by decide)
  unfold pre_arm_checks
  rw [if_neg (by rw [h']; simp)]
  cases hins : b.AP_INERTIALSENSOR_ENABLED <;>
    simp [pre_arm_checks_operands, pre_arm_checks_state, pre_arm_checks_finish, built, hins,
      Bool.and_assoc, List.append_assoc]

/-- On the evaluating path `pre_arm_checks` fails iff one of its operands fails. -/
theorem pre_arm_checks_is_and_aux (b : Build) (p : Params) (e : Env) (s : State)
    (report : Bool) (h : pre_arm_checks_evaluates b p e s = true) :
    (pre_arm_checks b p e s report).1 = false ↔
      ∃ r ∈ pre_arm_checks_operands b p e s report, r.1 = false := by
  rw [pre_arm_checks_run b p e s report h]
  show ((pre_arm_checks_operands b p e s report).all fun r => r.1) = false ↔ _
  rw [← Bool.not_eq_true, List.all_eq_true]
  constructor
  · intro hn
    by_contra hc
    apply hn
    intro r hr
    cases hr1 : r.1
    · exact absurd ⟨r, hr, hr1⟩ hc
    · rfl
  · rintro ⟨r, hr, hr1⟩ hall
    have := hall r hr
    rw [hr1] at this
    exact absurd this (by decide)

/-- C3: whenever `pre_arm_checks` evaluates its checks (it does not take the early
return), the value it returns is the logical AND of the results of all operands of
its `&` chain (`hardware_safety_check`, ..., `estop_checks`, as listed by
`pre_arm_checks_operands`): it is false iff at least one sub-check returned false. -/
theorem pre_arm_checks_is_and (b : Build) (p : Params) (e : Env) (s : State) (report : Bool)
    (h : pre_arm_checks_evaluates b p e s = true) :
    (pre_arm_checks b p e s report).1
        = ((pre_arm_checks_operands b p e s report).all fun r => r.1)
    ∧ ((pre_arm_checks b p e s report).1 = false ↔
        ∃ r ∈ pre_arm_checks_operands b p e s report, r.1 = false) := by
  refine ⟨?_, pre_arm_checks_is_and_aux b p e s report h⟩
  rw [pre_arm_checks_run b p e s report h]

theorem pre_arm_checks_is_and_witness :
    pre_arm_checks_evaluates Build.plane Params.default Env.safety_on State.init = true
    ∧ (pre_arm_checks Build.plane Params.default Env.safety_on State.init true).1 = false
    ∧ ((pre_arm_checks Build.plane Params.default Env.safety_on State.init true).1 = false ↔
        ∃ r ∈ pre_arm_checks_operands Build.plane Params.default Env.safety_on State.init true,
          r.1 = false) :=
  ⟨by decide, by decide,
    (pre_arm_checks_is_and Build.plane Params.default Env.safety_on State.init true
      (by decide)).2⟩

/-! ## arm -/

theorem arm_fst_eq_armed (b : Build) (p : Params) (e : Env) (s : State) (method : Method)
    (do_arming_checks : Bool) (harmed : s.armed = false) :
    (arm b p e s method do_arming_checks).1 = (arm b p e s method do_arming_checks).2.1.armed := by
  unfold arm
  rw [if_neg (by simp [harmed])]
  split
  · simp [harmed]
  · rfl

theorem not_rejected (p : Params) (method : Method) (hrud : rudder_arm_rejected p method = false) :
    ¬ ((decide (method = Method.RUDDER)
        && decide (get_rudder_arming_type p = RudderArming.IS_DISABLED)) = true) := by
  intro h
  simp only [Bool.and_eq_true, decide_eq_true_eq] at h
  simp [rudder_arm_rejected, h.1, h.2] at hrud

theorem arm_eq_condition (b : Build) (p : Params) (e : Env) (s : State) (method : Method)
    (do_arming_checks : Bool) (harmed : s.armed = false)
    (hrud : rudder_arm_rejected p method = false) :
    (arm b p e s method do_arming_checks).1
      = (arm_condition b p e { s with running_arming_checks := true } method
          do_arming_checks).1 := by
  unfold arm
  rw [if_neg (by simp [harmed]), if_neg (not_rejected p method hrud)]
  simp only
  split <;> simp_all

/-- The state left by a call of `arm` that reaches the checks. -/
theorem arm_state (b : Build) (p : Params) (e : Env) (s : State) (method : Method)
    (do_arming_checks : Bool) (harmed : s.armed = false)
    (hrud : rudder_arm_rejected p method = false) :
    (arm b p e s method do_arming_checks).2.1
      = if (arm_condition b p e { s with running_arming_checks := true } method
              do_arming_checks).1 then
          { (arm_condition b p e { s with running_arming_checks := true } method
              do_arming_checks).2.1 with
            armed := true, last_arm_time_us := e.micros64, last_arm_method := method,
            running_arming_checks := false }
        else
          { (arm_condition b p e { s with running_arming_checks := true } method
              do_arming_checks).2.1 with
            armed := false, running_arming_checks := false } := by
  unfold arm
  rw [if_neg (by simp [harmed]), if_neg (not_rejected p method hrud)]
  simp only
  split <;> rfl

theorem arm_condition_checked (b : Build) (p : Params) (e : Env) (s : State) (method : Method) :
    (arm_condition b p e s method true).1
      = ((pre_arm_checks b p e s true).1
          && (arm_checks b p e (pre_arm_checks b p e s true).2.1 method).1) := by
  unfold arm_condition
  simp only [Bool.not_true, Bool.false_eq_true, if_false]
  split <;> simp_all

theorem arm_condition_forced (b : Build) (p : Params) (e : Env) (s : State) (method : Method) :
    (arm_condition b p e s method false).1
      = ((mandatory_checks b p e s true).1
          || ((pre_arm_checks b p e s true).1
              && (arm_checks b p e (pre_arm_checks b p e s true).2.1 method).1)) := by
  unfold arm_condition
  simp only [Bool.not_false, if_true]
  split
  · simp_all
  · split <;> simp_all

/-- C1: for every disarmed state and every method not rejected by the rudder
policy, `arm(method, true)` returns true iff `pre_arm_checks(true)` and
`arm_checks(method)` both return true; the value returned equals the stored armed
flag after the call, and on success the recorded arm method is `method`. -/
theorem arm_checked (b : Build) (p : Params) (e : Env) (s : State) (method : Method)
    (harmed : s.armed = false) :
    (rudder_arm_rejected p method = false →
      ((arm b p e s method true).1 = true ↔
        (pre_arm_checks b p e { s with running_arming_checks := true } true).1 = true
        ∧ (arm_checks b p e
            (pre_arm_checks b p e { s with running_arming_checks := true } true).2.1
            method).1 = true))
    ∧ (arm b p e s method true).1 = (arm b p e s method true).2.1.armed
    ∧ ((arm b p e s method true).1 = true →
        (arm b p e s method true).2.1.last_arm_method = method) := by
  refine ⟨?_, arm_fst_eq_armed b p e s method true harmed, ?_⟩
  · intro hrud
    rw [arm_eq_condition b p e s method true harmed hrud, arm_condition_checked,
      Bool.and_eq_true]
  · intro h
    have hrud : rudder_arm_rejected p method = false := by
      cases hr : rudder_arm_rejected p method
      · rfl
      · exfalso
        unfold arm at h
        rw [if_neg (by simp [harmed])] at h
        simp only [rudder_arm_rejected, Bool.and_eq_true, beq_iff_eq] at hr
        rw [if_pos (by simp [hr.1, hr.2])] at h
        simp at h
    rw [arm_eq_condition b p e s method true harmed hrud] at h
    rw [arm_state b p e s method true harmed hrud, if_pos h]

theorem arm_checked_witness :
    rudder_arm_rejected Params.default Method.MAVLINK = false
    ∧ (arm Build.plane Params.default Env.nominal State.init Method.MAVLINK true).1 = true
    ∧ (arm Build.plane Params.default Env.nominal State.init Method.MAVLINK true).1
        = (arm Build.plane Params.default Env.nominal State.init Method.MAVLINK
            true).2.1.armed
    ∧ (arm Build.plane Params.default Env.nominal State.init Method.MAVLINK
        true).2.1.last_arm_method = Method.MAVLINK :=
  ⟨by decide, by decide,
    (arm_checked Build.plane Params.default Env.nominal State.init Method.MAVLINK
      (by decide)).2.1,
    (arm_checked Build.plane Params.default Env.nominal State.init Method.MAVLINK
      (by decide)).2.2 (by decide)⟩
/-! ## Results that do not depend on the object state -/

theorem opendroneid_checks_fst (b : Build) (e : Env) (s s' : State) (r r' : Bool) :
    (opendroneid_checks b e s r).1 = (opendroneid_checks b e s' r').1 := by
  unfold opendroneid_checks
  split <;> rfl

theorem serial_protocol_checks_fst (b : Build) (e : Env) (s s' : State) (r r' : Bool) :
    (serial_protocol_checks b e s r).1 = (serial_protocol_checks b e s' r').1 := by
  unfold serial_protocol_checks
  split
  · rfl
  · split <;> rfl

theorem rc_in_calibration_check_fst (b : Build) (p : Params) (e : Env) (s s' : State)
    (r r' : Bool) :
    (rc_in_calibration_check b p e s r).1 = (rc_in_calibration_check b p e s' r').1 := by
  unfold rc_in_calibration_check
  split <;> rfl

theorem rc_in_calibration_of_manual_transmitter (b : Build) (p : Params) (e : Env) (s : State)
    (r : Bool) (h : (manual_transmitter_checks b p e s r).1 = true) :
    (rc_in_calibration_check b p e s r).1 = true := by
  unfold manual_transmitter_checks at h
  split at h
  · split at h
    · simp at h
    · simp only at h
      split at h
      · simp at h
      · exact h
  · exact h

theorem mandatory_checks_fst (b : Build) (p : Params) (e : Env) (s s' : State) (r r' : Bool) :
    (mandatory_checks b p e s r).1 = (mandatory_checks b p e s' r').1 := by
  unfold mandatory_checks built
  simp only
  rw [rc_in_calibration_check_fst b p e s s' r r', serial_protocol_checks_fst b e s s' r r']
  cases b.AP_OPENDRONEID_ENABLED
  · rfl
  · simp only [if_true]
    rw [opendroneid_checks_fst b e s s' r r']

/-- Every mandatory check is an operand of `pre_arm_checks`: when `pre_arm_checks`
evaluates its checks and passes, `mandatory_checks` passes. -/
theorem mandatory_of_pre_arm (b : Build) (p : Params) (e : Env) (s : State) (report : Bool)
    (hrc : b.AP_RC_CHANNEL_ENABLED = true)
    (hev : pre_arm_checks_evaluates b p e s = true)
    (hpre : (pre_arm_checks b p e s report).1 = true) :
    (mandatory_checks b p e s report).1 = true := by
  rw [pre_arm_checks_run b p e s report hev] at hpre
  have hall := List.all_eq_true.mp hpre
  have h1 := hall (built b.AP_RC_CHANNEL_ENABLED
    (manual_transmitter_checks b p e (pre_arm_checks_state b p e s report) report))
    (by simp [pre_arm_checks_operands])
  have h2 := hall (built b.AP_OPENDRONEID_ENABLED
    (opendroneid_checks b e (pre_arm_checks_state b p e s report) report))
    (by simp [pre_arm_checks_operands])
  have h3 := hall (serial_protocol_checks b e (pre_arm_checks_state b p e s report) report)
    (by simp [pre_arm_checks_operands])
  simp only [built, hrc, if_true] at h1
  have h1' := rc_in_calibration_of_manual_transmitter b p e _ report h1
  rw [rc_in_calibration_check_fst b p e _ s report report] at h1'
  rw [serial_protocol_checks_fst b e _ s report report] at h3
  unfold mandatory_checks
  simp only [h1', h3, Bool.and_true]
  unfold built at h2 ⊢
  cases hod : b.AP_OPENDRONEID_ENABLED
  · rfl
  · rw [hod] at h2
    simp only [if_true] at h2 ⊢
    rw [opendroneid_checks_fst b e _ s report report] at h2
    exact h2

/-- C2, counterexample: in the fixed-wing build with `REQUIRE` = 0, while the RC
input is being calibrated, `mandatory_checks(true)` fails and the forced
`arm(MAVLINK, false)` still returns true and arms: `pre_arm_checks` takes its
early return and `arm_checks` passes. -/
theorem forced_arm_bypasses_mandatory_checks :
    State.init.armed = false
    ∧ (mandatory_checks Build.plane Params.no_requirement Env.rc_calibrating
        { State.init with running_arming_checks := true } true).1 = false
    ∧ (arm Build.plane Params.no_requirement Env.rc_calibrating State.init Method.MAVLINK
        false).1 = true
    ∧ (arm Build.plane Params.no_requirement Env.rc_calibrating State.init Method.MAVLINK
        false).2.1.armed = true
    ∧ ¬ ((arm Build.plane Params.no_requirement Env.rc_calibrating State.init Method.MAVLINK
          false).1 = true ↔
        (mandatory_checks Build.plane Params.no_requirement Env.rc_calibrating
          { State.init with running_arming_checks := true } true).1 = true) := by
  decide

/-- C2, amended: for every disarmed state and every method not rejected by the
rudder policy, `arm(method, false)` returns true iff `mandatory_checks(true)` passes
or, failing that, the full checks `pre_arm_checks(true)` and `arm_checks(method)`
pass. Whenever `pre_arm_checks` evaluates its checks (a Copter/Heli build, or
`arming_required()` is not NO), in a build with RC channels, a failing mandatory
check fails `pre_arm_checks` too: then `arm(method, false)` returns true iff
`mandatory_checks(true)` returns true, and when `mandatory_checks` fails the forced
arm returns false and the vehicle stays disarmed. -/
theorem arm_forced (b : Build) (p : Params) (e : Env) (s : State) (method : Method)
    (harmed : s.armed = false) (hrud : rudder_arm_rejected p method = false) :
    ((arm b p e s method false).1 = true ↔
      ((mandatory_checks b p e { s with running_arming_checks := true } true).1 = true
        ∨ ((pre_arm_checks b p e { s with running_arming_checks := true } true).1 = true
          ∧ (arm_checks b p e
              (pre_arm_checks b p e { s with running_arming_checks := true } true).2.1
              method).1 = true)))
    ∧ (b.AP_RC_CHANNEL_ENABLED = true →
        pre_arm_checks_evaluates b p e { s with running_arming_checks := true } = true →
        (((arm b p e s method false).1 = true ↔
            (mandatory_checks b p e { s with running_arming_checks := true } true).1 = true)
          ∧ ((mandatory_checks b p e { s with running_arming_checks := true } true).1 = false →
              (arm b p e s method false).1 = false
              ∧ (arm b p e s method false).2.1.armed = false))) := by
  have hiff : (arm b p e s method false).1 = true ↔
      ((mandatory_checks b p e { s with running_arming_checks := true } true).1 = true
        ∨ ((pre_arm_checks b p e { s with running_arming_checks := true } true).1 = true
          ∧ (arm_checks b p e
              (pre_arm_checks b p e { s with running_arming_checks := true } true).2.1
              method).1 = true)) := by
    rw [arm_eq_condition b p e s method false harmed hrud, arm_condition_forced,
      Bool.or_eq_true, Bool.and_eq_true]
  refine ⟨hiff, ?_⟩
  intro hrc hev
  have hm : (arm b p e s method false).1 = true ↔
      (mandatory_checks b p e { s with running_arming_checks := true } true).1 = true := by
    rw [hiff]
    constructor
    · rintro (h | ⟨h, _⟩)
      · exact h
      · exact mandatory_of_pre_arm b p e _ true hrc hev h
    · intro h
      exact Or.inl h
  refine ⟨hm, ?_⟩
  intro hfail
  have hf : (arm b p e s method false).1 = false := by
    cases ha : (arm b p e s method false).1
    · rfl
    · rw [hm.mp ha] at hfail
      exact absurd hfail (by decide)
  exact ⟨hf, by rw [← arm_fst_eq_armed b p e s method false harmed]; exact hf⟩

theorem arm_forced_witness :
    State.init.armed = false
    ∧ rudder_arm_rejected Params.default Method.MAVLINK = false
    ∧ Build.plane.AP_RC_CHANNEL_ENABLED = true
    ∧ pre_arm_checks_evaluates Build.plane Params.default Env.rc_calibrating
        { State.init with running_arming_checks := true } = true
    ∧ (mandatory_checks Build.plane Params.default Env.rc_calibrating
        { State.init with running_arming_checks := true } true).1 = false
    ∧ (arm Build.plane Params.default Env.rc_calibrating State.init Method.MAVLINK false).1
        = false
    ∧ (arm Build.plane Params.default Env.rc_calibrating State.init Method.MAVLINK
        false).2.1.armed = false :=
  ⟨by decide, by decide, by decide, by decide, by decide,
    ((arm_forced Build.plane Params.default Env.rc_calibrating State.init Method.MAVLINK
      (by decide) (by decide)).2 (by decide) (by decide)).2 (by decide)⟩

/-! ## The hardware safety switch -/

/-- C6, counterexample: with only the BARO bit set in the enable mask (ALL and
SWITCH clear) and the safety switch in `SAFETY_DISARMED`, `hardware_safety_check`
returns true, and `pre_arm_checks` evaluates its checks and returns true. -/
theorem safety_switch_not_checked_when_disabled :
    Env.safety_on.safety_switch_state = SafetyState.SAFETY_DISARMED
    ∧ check_enabled (Params.only Check.BARO) Check.ALL = false
    ∧ check_enabled (Params.only Check.BARO) Check.SWITCH = false
    ∧ hardware_safety_check Build.plane (Params.only Check.BARO) Env.safety_on State.init true
        = (true, [])
    ∧ pre_arm_checks_evaluates Build.plane (Params.only Check.BARO) Env.safety_on State.init
        = true
    ∧ (pre_arm_checks Build.plane (Params.only Check.BARO) Env.safety_on State.init true).1
        = true := by
  decide

/-- C6, amended: the hardware safety switch blocks whenever Check::SWITCH is
enabled (the ALL bit or the SWITCH bit is set): if the switch state is
`SAFETY_DISARMED` then `hardware_safety_check` returns false and `pre_arm_checks`,
whenever it evaluates its checks, returns false. With both bits clear
`hardware_safety_check` returns true without reporting anything. -/
theorem hardware_safety_check_blocks_when_enabled (b : Build) (p : Params) (e : Env)
    (s : State) (report : Bool)
    (hsw : e.safety_switch_state = SafetyState.SAFETY_DISARMED) :
    (check_enabled p Check.SWITCH = true →
      (hardware_safety_check b p e s report).1 = false
      ∧ (pre_arm_checks_evaluates b p e s = true → (pre_arm_checks b p e s report).1 = false))
    ∧ (check_enabled p Check.SWITCH = false →
        hardware_safety_check b p e s report = (true, [])) := by
  constructor
  · intro hen
    have h1 : (hardware_safety_check b p e s report).1 = false := by
      simp [hardware_safety_check, hen, hsw]
    refine ⟨h1, ?_⟩
    intro hev
    rw [(pre_arm_checks_is_and_aux b p e s report hev)]
    exact ⟨_, by simp [pre_arm_checks_operands], h1⟩
  · intro hen
    simp [hardware_safety_check, hen]

theorem hardware_safety_check_blocks_when_enabled_witness :
    Env.safety_on.safety_switch_state = SafetyState.SAFETY_DISARMED
    ∧ check_enabled Params.default Check.SWITCH = true
    ∧ pre_arm_checks_evaluates Build.plane Params.default Env.safety_on State.init = true
    ∧ (hardware_safety_check Build.plane Params.default Env.safety_on State.init true).1 = false
    ∧ (pre_arm_checks Build.plane Params.default Env.safety_on State.init true).1 = false :=
  ⟨by decide, by decide, by decide,
    ((hardware_safety_check_blocks_when_enabled Build.plane Params.default Env.safety_on
      State.init true (by decide)).1 (by decide)).1,
    ((hardware_safety_check_blocks_when_enabled Build.plane Params.default Env.safety_on
      State.init true (by decide)).1 (by decide)).2 (by decide)⟩

/-! ## Case analysis of `if` chains -/

theorem ite_elim {α : Type} (Q : α → Prop) (c : Prop) [Decidable c] (x y : α)
    (hx : c → Q x) (hy : ¬ c → Q y) : Q (if c then x else y) := by
  by_cases h : c
  · rw [if_pos h]; exact hx h
  · rw [if_neg h]; exact hy h

/-! ## What the checks leave untouched -/

theorem ins_accels_consistent_frame (e : Env) (s : State) :
    (ins_accels_consistent e s).2.except_checks = s.except_checks := by
  unfold ins_accels_consistent
  simp only
  split_ifs <;> rfl

theorem ins_gyros_consistent_frame (e : Env) (s : State) :
    (ins_gyros_consistent e s).2.except_checks = s.except_checks := by
  unfold ins_gyros_consistent
  simp only
  split_ifs <;> rfl

theorem ins_checks_ins_cases (b : Build) (p : Params) (e : Env) (s : State) (report : Bool)
    (Q : State → Prop) (h0 : Q s) (h1 : Q (ins_accels_consistent e s).2)
    (h2 : Q (ins_gyros_consistent e (ins_accels_consistent e s).2).2) :
    Q (ins_checks_ins b p e s report).2 := by
  unfold ins_checks_ins
  repeat' (first
    | exact h0
    | exact h1
    | exact h2
    | refine ite_elim (fun z => Q (Prod.snd z)) _ _ _ (fun _ => ?_) (fun _ => ?_))

theorem ins_checks_snd (b : Build) (p : Params) (e : Env) (s : State) (report : Bool) :
    (ins_checks b p e s report).2.1 = (ins_checks_ins b p e s report).2 := by
  unfold ins_checks
  simp only
  split <;> rfl

theorem ins_checks_frame (b : Build) (p : Params) (e : Env) (s : State) (report : Bool) :
    (ins_checks b p e s report).2.1.except_checks = s.except_checks := by
  rw [ins_checks_snd]
  apply ins_checks_ins_cases b p e s report (fun t => t.except_checks = s.except_checks)
  · rfl
  · exact ins_accels_consistent_frame e s
  · show (ins_gyros_consistent e (ins_accels_consistent e s).2).2.except_checks = _
    rw [ins_gyros_consistent_frame, ins_accels_consistent_frame]

theorem pre_arm_checks_state_frame (b : Build) (p : Params) (e : Env) (s : State)
    (report : Bool) :
    (pre_arm_checks_state b p e s report).except_checks = s.except_checks := by
  unfold pre_arm_checks_state
  split
  · exact ins_checks_frame b p e s report
  · rfl

theorem pre_arm_checks_finish_frame (s : State) (r : Bool) :
    (pre_arm_checks_finish s r).except_checks = s.except_checks := by
  unfold pre_arm_checks_finish
  split <;> rfl

/-- `pre_arm_checks` writes only the two consistency anchors, `report_immediately`
and `last_prearm_checks_result`. -/
theorem pre_arm_checks_frame (b : Build) (p : Params) (e : Env) (s : State) (report : Bool) :
    (pre_arm_checks b p e s report).2.1.except_checks = s.except_checks := by
  cases h : pre_arm_checks_evaluates b p e s
  · rw [pre_arm_checks_skip b p e s report h]
  · rw [pre_arm_checks_run b p e s report h]
    simp only
    rw [pre_arm_checks_finish_frame, pre_arm_checks_state_frame]

theorem arm_condition_frame (b : Build) (p : Params) (e : Env) (s : State) (method : Method)
    (do_arming_checks : Bool) :
    (arm_condition b p e s method do_arming_checks).2.1.except_checks = s.except_checks := by
  unfold arm_condition
  dsimp only
  repeat' (first
    | rfl
    | exact pre_arm_checks_frame b p e s true
    | refine ite_elim (fun z : Bool × State × List Event =>
        z.2.1.except_checks = s.except_checks) _ _ _ (fun _ => ?_) (fun _ => ?_))

theorem except_checks_armed (s s' : State) (h : s'.except_checks = s.except_checks) :
    s'.armed = s.armed := by
  have h' := congrArg State.armed h
  exact h'

theorem except_checks_aux_table (s s' : State) (h : s'.except_checks = s.except_checks) :
    s'.aux_table = s.aux_table := by
  have h' := congrArg State.aux_table h
  exact h'

theorem except_checks_running (s s' : State) (h : s'.except_checks = s.except_checks) :
    s'.running_arming_checks = s.running_arming_checks := by
  have h' := congrArg State.running_arming_checks h
  exact h'

/-- `arm` does not touch the auxiliary authorisation table. -/
theorem arm_aux_table (b : Build) (p : Params) (e : Env) (s : State) (method : Method)
    (do_arming_checks : Bool) :
    (arm b p e s method do_arming_checks).2.1.aux_table = s.aux_table := by
  have h := except_checks_aux_table _ _
    (arm_condition_frame b p e { s with running_arming_checks := true } method do_arming_checks)
  unfold arm
  refine ite_elim (fun z : Bool × State × List Event => z.2.1.aux_table = s.aux_table)
    _ _ _ (fun _ => rfl) (fun _ => ?_)
  refine ite_elim (fun z : Bool × State × List Event => z.2.1.aux_table = s.aux_table)
    _ _ _ (fun _ => rfl) (fun _ => ?_)
  by_cases hc : (arm_condition b p e { s with running_arming_checks := true } method
      do_arming_checks).1 = true
  · simp only [hc, if_true]
    exact h
  · simp only [hc, if_false]
    exact h

theorem pre_arm_checks_aux_table (b : Build) (p : Params) (e : Env) (s : State)
    (report : Bool) :
    (pre_arm_checks b p e s report).2.1.aux_table = s.aux_table :=
  except_checks_aux_table _ _ (pre_arm_checks_frame b p e s report)

theorem disarm_aux_table (b : Build) (p : Params) (e : Env) (s : State) (method : Method)
    (do_disarm_checks : Bool) :
    (disarm b p e s method do_disarm_checks).2.1.aux_table = s.aux_table := by
  unfold disarm
  split_ifs <;> rfl

theorem update_aux_table (b : Build) (p : Params) (e : Env) (s : State) :
    (update b p e s).2.1.aux_table = s.aux_table := by
  unfold update
  simp only
  rw [pre_arm_checks_aux_table]
  split_ifs <;> rfl

/-! ## The auxiliary authorisation table -/

/-- The loop of `reset_all_aux_auths` keeps the size of the array. -/
theorem reset_loop_length (n : Nat) (l : List AuxAuthStates) :
    ((List.range n).foldl (fun st i => st.set i AuxAuthStates.NO_RESPONSE) l).length
      = l.length := by
  induction n with
  | zero => rfl
  | succ k ih =>
    rw [List.range_succ, List.foldl_append]
    simp [ih]

theorem aux_step_flags (b : Build) (p : Params) (s : State) (df : Bool) (acc : AuxScan)
    (i : Nat) :
    (aux_auth_checks_step b p s df acc i).some_failures
        = (acc.some_failures ||
            s.aux_auth_state.getD i .NO_RESPONSE == AuxAuthStates.AUTH_FAILED)
    ∧ (aux_auth_checks_step b p s df acc i).waiting_for_responses
        = (acc.waiting_for_responses ||
            s.aux_auth_state.getD i .NO_RESPONSE == AuxAuthStates.NO_RESPONSE) := by
  unfold aux_auth_checks_step
  generalize s.aux_auth_state.getD i .NO_RESPONSE = st
  cases st
  · exact ⟨by simp, by simp⟩
  · by_cases hsrc : i = s.aux_auth_fail_msg_source
    · simp only [hsrc, if_true]
      exact ⟨by simp, by simp⟩
    · simp only [hsrc, if_false]
      exact ⟨by simp, by simp⟩
  · exact ⟨by simp, by simp⟩

theorem aux_scan_flags (b : Build) (p : Params) (s : State) (df : Bool) (l : List Nat) :
    ∀ acc : AuxScan,
      (l.foldl (aux_auth_checks_step b p s df) acc).some_failures
          = (acc.some_failures ||
              l.any fun i => s.aux_auth_state.getD i .NO_RESPONSE == AuxAuthStates.AUTH_FAILED)
      ∧ (l.foldl (aux_auth_checks_step b p s df) acc).waiting_for_responses
          = (acc.waiting_for_responses ||
              l.any fun i => s.aux_auth_state.getD i .NO_RESPONSE == AuxAuthStates.NO_RESPONSE) := by
  induction l with
  | nil => intro acc; exact ⟨by simp, by simp⟩
  | cons i l ih =>
    intro acc
    rw [List.foldl_cons]
    have h := ih (aux_auth_checks_step b p s df acc i)
    have hs := aux_step_flags b p s df acc i
    rw [h.1, h.2, hs.1, hs.2, List.any_cons, List.any_cons, Bool.or_assoc, Bool.or_assoc]
    exact ⟨rfl, rfl⟩

/-- With the error flag clear, `aux_auth_checks` passes iff no allocated slot is
`AUTH_FAILED` and none is `NO_RESPONSE`. -/
theorem aux_auth_checks_fst (b : Build) (p : Params) (s : State) (df : Bool)
    (herr : s.aux_auth_error = false) :
    (aux_auth_checks b p s df).1
      = (!((List.range s.aux_auth_count).any fun i =>
              s.aux_auth_state.getD i .NO_RESPONSE == AuxAuthStates.AUTH_FAILED)
          && !((List.range s.aux_auth_count).any fun i =>
              s.aux_auth_state.getD i .NO_RESPONSE == AuxAuthStates.NO_RESPONSE)) := by
  have h := aux_scan_flags b p s df (List.range s.aux_auth_count) ⟨false, false, false, []⟩
  simp only [Bool.false_or] at h
  unfold aux_auth_checks
  rw [if_neg (by simp [herr])]
  simp only
  unfold aux_auth_checks_scan
  cases hf : ((List.range s.aux_auth_count).any fun i =>
              s.aux_auth_state.getD i .NO_RESPONSE == AuxAuthStates.AUTH_FAILED)
  · rw [hf] at h
    rw [if_neg (by rw [h.1]; decide)]
    cases hw : ((List.range s.aux_auth_count).any fun i =>
              s.aux_auth_state.getD i .NO_RESPONSE == AuxAuthStates.NO_RESPONSE)
    · rw [hw] at h
      rw [if_neg (by rw [h.2]; decide)]
      rfl
    · rw [hw] at h
      rw [if_pos h.2]
      rfl
  · rw [hf] at h
    rw [if_pos h.1]
    split <;> rfl

theorem reset_all_aux_auths_wf (b : Build) (s : State)
    (hlen : s.aux_auth_state.length = b.aux_auth_count_max) :
    aux_table_wf b (reset_all_aux_auths b s)
    ∧ (reset_all_aux_auths b s).aux_auth_error = false := by
  refine ⟨⟨Nat.zero_le _, ?_⟩, rfl⟩
  show ((List.range b.aux_auth_count_max).foldl
    (fun st i => st.set i AuxAuthStates.NO_RESPONSE) s.aux_auth_state).length = _
  rw [reset_loop_length, hlen]

theorem get_aux_auth_id_wf (b : Build) (e : Env) (s : State) (auth_id : Nat)
    (hwf : aux_table_wf b s) :
    aux_table_wf b (get_aux_auth_id b e s auth_id).2.2
    ∧ ((get_aux_auth_id b e s auth_id).1 = true →
        (get_aux_auth_id b e s auth_id).2.2.aux_auth_error = s.aux_auth_error) := by
  unfold get_aux_auth_id
  by_cases hfull : s.aux_auth_count ≥ b.aux_auth_count_max
  · rw [if_pos hfull]
    exact ⟨hwf, by simp⟩
  · rw [if_neg hfull]
    simp only
    by_cases hm : s.aux_auth_fail_msg = none
    · rw [if_pos hm]
      by_cases hc : e.calloc_ok = true
      · rw [if_pos hc]
        exact ⟨⟨by simp only; omega, hwf.2⟩, fun _ => rfl⟩
      · rw [if_neg hc]
        exact ⟨hwf, by simp⟩
    · rw [if_neg hm]
      exact ⟨⟨by simp only; omega, hwf.2⟩, fun _ => rfl⟩

theorem get_aux_auth_ids_wf (b : Build) (gets : List (Env × Nat)) :
    ∀ s s1 : State, aux_table_wf b s → get_aux_auth_ids b gets s = some s1 →
      aux_table_wf b s1 ∧ s1.aux_auth_error = s.aux_auth_error := by
  induction gets with
  | nil =>
    intro s s1 hwf h
    simp only [get_aux_auth_ids, Option.some.injEq] at h
    subst h
    exact ⟨hwf, rfl⟩
  | cons g rest ih =>
    intro s s1 hwf h
    obtain ⟨e, auth_id⟩ := g
    unfold get_aux_auth_ids at h
    by_cases hok : (get_aux_auth_id b e s auth_id).1 = true
    · rw [if_pos hok] at h
      have hg := get_aux_auth_id_wf b e s auth_id hwf
      have := ih _ s1 hg.1 h
      exact ⟨this.1, by rw [this.2, hg.2 hok]⟩
    · rw [if_neg hok] at h
      exact absurd h (by simp)

theorem set_aux_auth_passed_wf (b : Build) (s : State) (auth_id : Nat)
    (hwf : aux_table_wf b s) :
    aux_table_wf b (set_aux_auth_passed s auth_id)
    ∧ (set_aux_auth_passed s auth_id).aux_auth_error = s.aux_auth_error := by
  unfold set_aux_auth_passed aux_table_wf
  split
  · exact ⟨hwf, rfl⟩
  · exact ⟨⟨hwf.1, by simp only [List.length_set]; exact hwf.2⟩, rfl⟩

theorem set_aux_auth_failed_wf (b : Build) (s : State) (auth_id : Nat)
    (fail_msg : Option String) (hwf : aux_table_wf b s) :
    aux_table_wf b (set_aux_auth_failed b s auth_id fail_msg)
    ∧ (set_aux_auth_failed b s auth_id fail_msg).aux_auth_error = s.aux_auth_error := by
  have hset : aux_table_wf b
      { s with aux_auth_state := s.aux_auth_state.set auth_id AuxAuthStates.AUTH_FAILED } :=
    ⟨hwf.1, by simp only [List.length_set]; exact hwf.2⟩
  unfold set_aux_auth_failed
  refine ite_elim (fun t : State => aux_table_wf b t ∧ t.aux_auth_error = s.aux_auth_error)
    _ _ _ (fun _ => ⟨hwf, rfl⟩) (fun _ => ?_)
  dsimp only
  refine ite_elim (fun t : State => aux_table_wf b t ∧ t.aux_auth_error = s.aux_auth_error)
    _ _ _ (fun _ => ⟨hset, rfl⟩) (fun _ => ?_)
  cases s.aux_auth_fail_msg
  · exact ⟨hset, rfl⟩
  · exact ⟨hset, rfl⟩

theorem responses_wf (b : Build) (responses : List AuxResponse) :
    ∀ s : State, aux_table_wf b s →
      aux_table_wf b (responses.foldl (AuxResponse.run b) s)
      ∧ (responses.foldl (AuxResponse.run b) s).aux_auth_error = s.aux_auth_error := by
  induction responses with
  | nil => intro s hwf; exact ⟨hwf, rfl⟩
  | cons r rest ih =>
    intro s hwf
    rw [List.foldl_cons]
    have h1 : aux_table_wf b (AuxResponse.run b s r)
        ∧ (AuxResponse.run b s r).aux_auth_error = s.aux_auth_error := by
      cases r with
      | passed auth_id => exact set_aux_auth_passed_wf b s auth_id hwf
      | failed auth_id fail_msg => exact set_aux_auth_failed_wf b s auth_id fail_msg hwf
    have h2 := ih _ h1.1
    exact ⟨h2.1, by rw [h2.2, h1.2]⟩

theorem any_slot_iff (l : List AuxAuthStates) (n : Nat) (hn : n ≤ l.length)
    (st : AuxAuthStates) :
    ((List.range n).any fun i => l.getD i .NO_RESPONSE == st) = true
      ↔ ∃ i, i < n ∧ l[i]? = some st := by
  rw [List.any_eq_true]
  constructor
  · rintro ⟨i, hi, h⟩
    rw [List.mem_range] at hi
    refine ⟨i, hi, ?_⟩
    have hlt : i < l.length := Nat.lt_of_lt_of_le hi hn
    rw [List.getD_eq_getElem _ _ hlt] at h
    rw [List.getElem?_eq_getElem hlt]
    exact congrArg some (eq_of_beq h)
  · rintro ⟨i, hi, h⟩
    refine ⟨i, List.mem_range.mpr hi, ?_⟩
    have hlt : i < l.length := Nat.lt_of_lt_of_le hi hn
    rw [List.getD_eq_getElem _ _ hlt]
    rw [List.getElem?_eq_getElem hlt] at h
    rw [Option.some.inj h]
    exact beq_self_eq_true st

/-- For a well formed table with the error flag clear: `aux_auth_checks` fails iff
an allocated slot is `AUTH_FAILED` or `NO_RESPONSE`, and passes iff every allocated
slot is `AUTH_PASSED`. -/
theorem aux_auth_checks_wf (b : Build) (p : Params) (s : State) (df : Bool)
    (hwf : aux_table_wf b s) (herr : s.aux_auth_error = false) :
    ((aux_auth_checks b p s df).1 = false ↔
        ∃ i, i < s.aux_auth_count
          ∧ (s.aux_auth_state[i]? = some AuxAuthStates.AUTH_FAILED
            ∨ s.aux_auth_state[i]? = some AuxAuthStates.NO_RESPONSE))
    ∧ ((aux_auth_checks b p s df).1 = true ↔
        ∀ i, i < s.aux_auth_count → s.aux_auth_state[i]? = some AuxAuthStates.AUTH_PASSED) := by
  have hn : s.aux_auth_count ≤ s.aux_auth_state.length := by
    rw [hwf.2]; exact hwf.1
  have hF := any_slot_iff s.aux_auth_state s.aux_auth_count hn .AUTH_FAILED
  have hW := any_slot_iff s.aux_auth_state s.aux_auth_count hn .NO_RESPONSE
  have hfalse : (aux_auth_checks b p s df).1 = false ↔
        ∃ i, i < s.aux_auth_count
          ∧ (s.aux_auth_state[i]? = some AuxAuthStates.AUTH_FAILED
            ∨ s.aux_auth_state[i]? = some AuxAuthStates.NO_RESPONSE) := by
    rw [aux_auth_checks_fst b p s df herr]
    constructor
    · intro h
      cases hf : ((List.range s.aux_auth_count).any fun i =>
          s.aux_auth_state.getD i .NO_RESPONSE == AuxAuthStates.AUTH_FAILED)
      · cases hw : ((List.range s.aux_auth_count).any fun i =>
            s.aux_auth_state.getD i .NO_RESPONSE == AuxAuthStates.NO_RESPONSE)
        · rw [hf, hw] at h
          exact absurd h (by decide)
        · obtain ⟨i, hi, h'⟩ := hW.mp hw
          exact ⟨i, hi, Or.inr h'⟩
      · obtain ⟨i, hi, h'⟩ := hF.mp hf
        exact ⟨i, hi, Or.inl h'⟩
    · rintro ⟨i, hi, h' | h'⟩
      · rw [hF.mpr ⟨i, hi, h'⟩]
        rfl
      · rw [hW.mpr ⟨i, hi, h'⟩]
        simp
  refine ⟨hfalse, ?_⟩
  constructor
  · intro h i hi
    have hlt : i < s.aux_auth_state.length := Nat.lt_of_lt_of_le hi hn
    rw [List.getElem?_eq_getElem hlt]
    cases hst : s.aux_auth_state[i]
    · exfalso
      have : (aux_auth_checks b p s df).1 = false :=
        hfalse.mpr ⟨i, hi, Or.inr (by rw [List.getElem?_eq_getElem hlt, hst])⟩
      rw [h] at this
      exact absurd this (by decide)
    · exfalso
      have : (aux_auth_checks b p s df).1 = false :=
        hfalse.mpr ⟨i, hi, Or.inl (by rw [List.getElem?_eq_getElem hlt, hst])⟩
      rw [h] at this
      exact absurd this (by decide)
    · rfl
  · intro h
    cases hr : (aux_auth_checks b p s df).1
    · exfalso
      obtain ⟨i, hi, h' | h'⟩ := hfalse.mp hr
      · rw [h i hi] at h'
        exact absurd h' (by decide)
      · rw [h i hi] at h'
        exact absurd h' (by decide)
    · rfl

/-- C8: for every table state reached from a reset table by successful
`get_aux_auth_id` calls followed by any sequence of `set_aux_auth_passed` /
`set_aux_auth_failed` calls, `aux_auth_checks` returns false iff at least one
allocated slot is `AUTH_FAILED` or still `NO_RESPONSE`; it returns true iff every
allocated slot is `AUTH_PASSED` (vacuously for an empty table). -/
theorem aux_auth_checks_iff (b : Build) (p : Params) (s0 s1 : State)
    (gets : List (Env × Nat)) (responses : List AuxResponse) (display_failure : Bool)
    (hlen : s0.aux_auth_state.length = b.aux_auth_count_max)
    (hgets : get_aux_auth_ids b gets (reset_all_aux_auths b s0) = some s1) :
    ((aux_auth_checks b p (responses.foldl (AuxResponse.run b) s1) display_failure).1 = false ↔
        ∃ i, i < (responses.foldl (AuxResponse.run b) s1).aux_auth_count
          ∧ ((responses.foldl (AuxResponse.run b) s1).aux_auth_state[i]?
                = some AuxAuthStates.AUTH_FAILED
            ∨ (responses.foldl (AuxResponse.run b) s1).aux_auth_state[i]?
                = some AuxAuthStates.NO_RESPONSE))
    ∧ ((aux_auth_checks b p (responses.foldl (AuxResponse.run b) s1) display_failure).1 = true ↔
        ∀ i, i < (responses.foldl (AuxResponse.run b) s1).aux_auth_count →
          (responses.foldl (AuxResponse.run b) s1).aux_auth_state[i]?
            = some AuxAuthStates.AUTH_PASSED) := by
  have h0 := reset_all_aux_auths_wf b s0 hlen
  have h1 := get_aux_auth_ids_wf b gets _ s1 h0.1 hgets
  have h2 := responses_wf b responses s1 h1.1
  exact aux_auth_checks_wf b p _ display_failure h2.1 (by rw [h2.2, h1.2, h0.2])

theorem aux_auth_checks_iff_witness :
    State.init.aux_auth_state.length = Build.plane.aux_auth_count_max
    ∧ get_aux_auth_ids Build.plane [(Env.nominal, 0), (Env.nominal, 0)]
        (reset_all_aux_auths Build.plane State.init) = some State.two_allocated
    ∧ (aux_auth_checks Build.plane Params.default
        ([AuxResponse.passed 0, AuxResponse.failed 1 none].foldl
          (AuxResponse.run Build.plane) State.two_allocated) true).1 = false
    ∧ ((aux_auth_checks Build.plane Params.default
          ([AuxResponse.passed 0, AuxResponse.passed 1].foldl
            (AuxResponse.run Build.plane) State.two_allocated) true).1 = true ↔
        ∀ i, i < ([AuxResponse.passed 0, AuxResponse.passed 1].foldl
            (AuxResponse.run Build.plane) State.two_allocated).aux_auth_count →
          ([AuxResponse.passed 0, AuxResponse.passed 1].foldl
            (AuxResponse.run Build.plane) State.two_allocated).aux_auth_state[i]?
            = some AuxAuthStates.AUTH_PASSED) :=
  ⟨by decide, by decide, by decide,
    (aux_auth_checks_iff Build.plane Params.default State.init State.two_allocated
      [(Env.nominal, 0), (Env.nominal, 0)] [AuxResponse.passed 0, AuxResponse.passed 1] true
      (by decide) (by decide)).2⟩

/-! ## The sticky error flag -/

theorem aux_table_error (s s' : State) (h : s'.aux_table = s.aux_table) :
    s'.aux_auth_error = s.aux_auth_error := by
  have h' := congrArg (fun t => t.2.1) h
  exact h'

theorem get_aux_auth_id_error (b : Build) (e : Env) (s : State) (auth_id : Nat) :
    ((get_aux_auth_id b e s auth_id).1 = false →
      (get_aux_auth_id b e s auth_id).2.2.aux_auth_error = true)
    ∧ (s.aux_auth_error = true → (get_aux_auth_id b e s auth_id).2.2.aux_auth_error = true) := by
  unfold get_aux_auth_id
  by_cases hfull : s.aux_auth_count ≥ b.aux_auth_count_max
  · rw [if_pos hfull]
    exact ⟨fun _ => rfl, fun _ => rfl⟩
  · rw [if_neg hfull]
    simp only
    by_cases hm : s.aux_auth_fail_msg = none
    · rw [if_pos hm]
      by_cases hc : e.calloc_ok = true
      · rw [if_pos hc]
        exact ⟨fun h => absurd h (by simp), fun h => h⟩
      · rw [if_neg hc]
        exact ⟨fun _ => rfl, fun _ => rfl⟩
    · rw [if_neg hm]
      exact ⟨fun h => absurd h (by simp), fun h => h⟩

theorem set_aux_auth_passed_error (s : State) (auth_id : Nat) :
    (set_aux_auth_passed s auth_id).aux_auth_error = s.aux_auth_error := by
  unfold set_aux_auth_passed
  split <;> rfl

theorem set_aux_auth_failed_error (b : Build) (s : State) (auth_id : Nat)
    (fail_msg : Option String) :
    (set_aux_auth_failed b s auth_id fail_msg).aux_auth_error = s.aux_auth_error := by
  unfold set_aux_auth_failed
  refine ite_elim (fun t : State => t.aux_auth_error = s.aux_auth_error)
    _ _ _ (fun _ => rfl) (fun _ => ?_)
  dsimp only
  refine ite_elim (fun t : State => t.aux_auth_error = s.aux_auth_error)
    _ _ _ (fun _ => rfl) (fun _ => ?_)
  cases s.aux_auth_fail_msg <;> rfl

/-- No call other than `reset_all_aux_auths` clears the error flag. -/
theorem call_keeps_error (b : Build) (s : State) (c : Call)
    (hc : c ≠ Call.reset_all_aux_auths) (herr : s.aux_auth_error = true) :
    (Call.run b s c).aux_auth_error = true := by
  cases c with
  | arm p e method do_arming_checks =>
    exact (aux_table_error _ _ (arm_aux_table b p e s method do_arming_checks)).trans herr
  | disarm p e method do_disarm_checks =>
    exact (aux_table_error _ _ (disarm_aux_table b p e s method do_disarm_checks)).trans herr
  | update p e => exact (aux_table_error _ _ (update_aux_table b p e s)).trans herr
  | pre_arm_checks p e report =>
    exact (aux_table_error _ _ (pre_arm_checks_aux_table b p e s report)).trans herr
  | get_aux_auth_id e auth_id => exact (get_aux_auth_id_error b e s auth_id).2 herr
  | set_aux_auth_passed auth_id => exact (set_aux_auth_passed_error s auth_id).trans herr
  | set_aux_auth_failed auth_id fail_msg =>
    exact (set_aux_auth_failed_error b s auth_id fail_msg).trans herr
  | reset_all_aux_auths => exact absurd rfl hc

theorem calls_keep_error (b : Build) (calls : List Call) :
    ∀ s : State, Call.reset_all_aux_auths ∉ calls → s.aux_auth_error = true →
      (calls.foldl (Call.run b) s).aux_auth_error = true := by
  induction calls with
  | nil => intro s _ h; exact h
  | cons c rest ih =>
    intro s hno herr
    rw [List.foldl_cons]
    apply ih
    · intro hmem
      exact hno (List.mem_cons_of_mem _ hmem)
    · apply call_keeps_error b s c _ herr
      intro hc
      exact hno (by rw [hc]; exact List.mem_cons_self _ _)

theorem aux_auth_checks_error (b : Build) (p : Params) (s : State) (df : Bool)
    (herr : s.aux_auth_error = true) : (aux_auth_checks b p s df).1 = false := by
  unfold aux_auth_checks
  rw [if_pos herr]
  split <;> rfl

/-- C9: the error flag is sticky. After a call of `get_aux_auth_id` that returns
false, in the state reached by any further calls (`arm`, `disarm`, `update`,
`pre_arm_checks`, `get_aux_auth_id`, `set_aux_auth_passed`, `set_aux_auth_failed`)
that are not `reset_all_aux_auths`, the flag is set and `aux_auth_checks` returns
false whatever the slot states are; no call other than `reset_all_aux_auths`
clears the flag, and `reset_all_aux_auths` clears it. -/
theorem aux_auth_error_sticky (b : Build) (e : Env) (s : State) (auth_id : Nat)
    (calls : List Call)
    (hfail : (get_aux_auth_id b e s auth_id).1 = false)
    (hnoreset : Call.reset_all_aux_auths ∉ calls) :
    (calls.foldl (Call.run b) (get_aux_auth_id b e s auth_id).2.2).aux_auth_error = true
    ∧ (∀ (p : Params) (display_failure : Bool),
        (aux_auth_checks b p (calls.foldl (Call.run b) (get_aux_auth_id b e s auth_id).2.2)
          display_failure).1 = false)
    ∧ (∀ (t : State) (c : Call), c ≠ Call.reset_all_aux_auths → t.aux_auth_error = true →
        (Call.run b t c).aux_auth_error = true)
    ∧ (reset_all_aux_auths b
        (calls.foldl (Call.run b) (get_aux_auth_id b e s auth_id).2.2)).aux_auth_error
        = false := by
  have h := calls_keep_error b calls _ hnoreset ((get_aux_auth_id_error b e s auth_id).1 hfail)
  exact ⟨h, fun p df => aux_auth_checks_error b p _ df h,
    fun t c hc ht => call_keeps_error b t c hc ht, rfl⟩

theorem aux_auth_error_sticky_witness :
    (get_aux_auth_id Build.plane Env.nominal State.all_passed 0).1 = false
    ∧ Call.reset_all_aux_auths ∉
        [Call.set_aux_auth_passed 0, Call.arm Params.default Env.nominal Method.MAVLINK true,
          Call.get_aux_auth_id Env.nominal 0]
    ∧ (aux_auth_checks Build.plane Params.default
        ([Call.set_aux_auth_passed 0, Call.arm Params.default Env.nominal Method.MAVLINK true,
            Call.get_aux_auth_id Env.nominal 0].foldl (Call.run Build.plane)
          (get_aux_auth_id Build.plane Env.nominal State.all_passed 0).2.2) true).1 = false :=
  ⟨by decide, by decide,
    (aux_auth_error_sticky Build.plane Env.nominal State.all_passed 0
      [Call.set_aux_auth_passed 0, Call.arm Params.default Env.nominal Method.MAVLINK true,
        Call.get_aux_auth_id Env.nominal 0] (by decide) (by decide)).2.1 Params.default true⟩

/-! ## Arming while an authoriser has not answered -/

theorem aux_table_count (s s' : State) (h : s'.aux_table = s.aux_table) :
    s'.aux_auth_count = s.aux_auth_count := by
  have h' := congrArg (fun t => t.1) h
  exact h'

theorem pre_arm_checks_evaluates_iff (b : Build) (p : Params) (e : Env) (s : State)
    (harmed : s.armed = false) :
    pre_arm_checks_evaluates b p e s = true ↔
      (b.APM_BUILD_COPTER_OR_HELI = true ∨ arming_required b p e ≠ Required.NO) := by
  unfold pre_arm_checks_evaluates
  rw [harmed]
  cases b.APM_BUILD_COPTER_OR_HELI <;> simp

theorem metafmt_tag_length (s : State) : strlen (metafmt_tag (metafmt s)) ≤ 8 := by
  unfold metafmt
  cases s.running_arming_checks <;> decide

/-- The events of `check_failed`: none, or the one status text, whole or cut. -/
theorem check_failed_mem (b : Build) (p : Params) (s : State) (c : Check) (report : Bool)
    (fmt : String) (args : List FmtArg) (ev : Event)
    (hev : ev ∈ check_failed b p s c report fmt args) :
    report = true ∧ b.HAL_GCS_ENABLED = true
    ∧ (ev = Event.check_failed (some c)
          (if check_enabled p c then MAV_SEVERITY.CRITICAL else MAV_SEVERITY.DEBUG)
          (metafmt s) fmt args
        ∨ (42 < strlen fmt
            ∧ ev = Event.check_failed_cut (some c)
                (if check_enabled p c then MAV_SEVERITY.CRITICAL else MAV_SEVERITY.DEBUG)
                ((c_str (metafmt_tag (metafmt s)) ++ c_str fmt).take
                  MAVLINK_MSG_STATUSTEXT_FIELD_TEXT_LEN) args)) := by
  unfold check_failed at hev
  by_cases hr : (!report) = true
  · rw [if_pos hr] at hev
    exact absurd hev (List.not_mem_nil ev)
  · rw [if_neg hr] at hev
    dsimp only at hev
    by_cases hg : b.HAL_GCS_ENABLED = true
    · rw [if_pos hg] at hev
      refine ⟨by simpa using hr, hg, ?_⟩
      have hsev : (if (!check_enabled p c) = true then MAV_SEVERITY.DEBUG
          else MAV_SEVERITY.CRITICAL)
          = (if check_enabled p c then MAV_SEVERITY.CRITICAL else MAV_SEVERITY.DEBUG) := by
        cases check_enabled p c <;> rfl
      rw [hsev] at hev
      unfold snprintf at hev
      dsimp only at hev
      by_cases hlen : (c_str (metafmt_tag (metafmt s)) ++ c_str fmt).length
          < MAVLINK_MSG_STATUSTEXT_FIELD_TEXT_LEN + 1
      · rw [if_pos hlen] at hev
        exact Or.inl (List.mem_singleton.mp hev)
      · rw [if_neg hlen] at hev
        have ht := metafmt_tag_length s
        rw [List.length_append] at hlen
        unfold MAVLINK_MSG_STATUSTEXT_FIELD_TEXT_LEN at hlen
        unfold strlen at ht ⊢
        exact Or.inr ⟨by omega, List.mem_singleton.mp hev⟩
    · rw [if_neg hg] at hev
      exact absurd hev (List.not_mem_nil ev)

/-- The events of the overload of `check_failed` without a check. -/
theorem check_failed_nocheck_mem (b : Build) (s : State) (report : Bool)
    (fmt : String) (args : List FmtArg) (ev : Event)
    (hev : ev ∈ check_failed_nocheck b s report fmt args) :
    report = true ∧ b.HAL_GCS_ENABLED = true
    ∧ (ev = Event.check_failed none MAV_SEVERITY.CRITICAL (metafmt s) fmt args
        ∨ (42 < strlen fmt
            ∧ ev = Event.check_failed_cut none MAV_SEVERITY.CRITICAL
                ((c_str (metafmt_tag (metafmt s)) ++ c_str fmt).take
                  MAVLINK_MSG_STATUSTEXT_FIELD_TEXT_LEN) args)) := by
  unfold check_failed_nocheck at hev
  by_cases hg : b.HAL_GCS_ENABLED = true
  · rw [if_pos hg] at hev
    by_cases hr : (!report) = true
    · rw [if_pos hr] at hev
      exact absurd hev (List.not_mem_nil ev)
    · rw [if_neg hr] at hev
      dsimp only at hev
      refine ⟨by simpa using hr, hg, ?_⟩
      unfold snprintf at hev
      dsimp only at hev
      by_cases hlen : (c_str (metafmt_tag (metafmt s)) ++ c_str fmt).length
          < MAVLINK_MSG_STATUSTEXT_FIELD_TEXT_LEN + 1
      · rw [if_pos hlen] at hev
        exact Or.inl (List.mem_singleton.mp hev)
      · rw [if_neg hlen] at hev
        have ht := metafmt_tag_length s
        rw [List.length_append] at hlen
        unfold MAVLINK_MSG_STATUSTEXT_FIELD_TEXT_LEN at hlen
        unfold strlen at ht ⊢
        exact Or.inr ⟨by omega, List.mem_singleton.mp hev⟩
  · rw [if_neg hg] at hev
    exact absurd hev (List.not_mem_nil ev)

theorem arm_rejected (b : Build) (p : Params) (e : Env) (s : State) (method : Method)
    (do_arming_checks : Bool) (hrud : rudder_arm_rejected p method = true) :
    arm b p e s method do_arming_checks = (false, s, []) := by
  unfold arm
  split
  · rfl
  · simp only [rudder_arm_rejected, Bool.and_eq_true, beq_iff_eq] at hrud
    rw [if_pos (by simp [hrud.1, hrud.2])]

theorem guarded_nil (p : Params) (x : Bool) : events_guarded p (x, []) := by
  intro ev h
  exact absurd h (List.not_mem_nil ev)

theorem guarded_opt_none (p : Params) : events_guarded_opt p none := by
  intro r h
  exact absurd h (by simp)

theorem guarded_opt_some (p : Params) (r : Bool × List Event) (h : events_guarded p r) :
    events_guarded_opt p (some r) := by
  intro r' h'
  rw [← Option.some.inj h']
  exact h

/-- The formats reported outside every guard fit `taggedfmt` behind either tag. -/
theorem unguarded_fits (c : Check) (fmt : String) (h : (c, fmt) ∈ unguarded_failures) :
    strlen fmt ≤ 42 := by
  simp only [unguarded_failures, List.mem_cons, Prod.mk.injEq, List.mem_singleton,
    List.not_mem_nil, or_false] at h
  rcases h with h | h | h | h | h | h | h | h | h <;> (rw [h.2]; decide)

/-- The formats reported inside the guard of another check fit `taggedfmt`. -/
theorem cross_guarded_fits (c : Check) (fmt : String) (g : Check)
    (h : (c, fmt, g) ∈ cross_guarded_failures) : strlen fmt ≤ 42 := by
  simp only [cross_guarded_failures, List.mem_cons, Prod.mk.injEq, List.mem_singleton,
    List.not_mem_nil, or_false] at h
  rcases h with h | h | h <;> (rw [h.2.1]; decide)

theorem check_failed_guarded (b : Build) (p : Params) (s : State) (c : Check) (report : Bool)
    (fmt : String) (args : List FmtArg)
    (h : failure_origin p c fmt) :
    ∀ ev ∈ check_failed b p s c report fmt args, ev.guarded p := by
  intro ev hev
  rcases (check_failed_mem b p s c report fmt args ev hev).2.2 with hw | ⟨hlong, hc⟩
  · rw [hw]
    exact ⟨rfl, h⟩
  · rw [hc]
    refine ⟨rfl, ?_⟩
    rcases h with h | h | ⟨g, h, _⟩
    · exact h
    · exact absurd (unguarded_fits c fmt h) (by omega)
    · exact absurd (cross_guarded_fits c fmt g h) (by omega)

theorem check_failed_nocheck_guarded (b : Build) (p : Params) (s : State) (report : Bool)
    (fmt : String) (args : List FmtArg) :
    ∀ ev ∈ check_failed_nocheck b s report fmt args, ev.guarded p := by
  intro ev hev
  rcases (check_failed_nocheck_mem b s report fmt args ev hev).2.2 with hw | ⟨_, hc⟩
  · rw [hw]
    exact True.intro
  · rw [hc]
    exact True.intro

theorem guarded_cf (b : Build) (p : Params) (s : State) (c : Check) (report : Bool)
    (fmt : String) (args : List FmtArg) (x : Bool)
    (h : failure_origin p c fmt) :
    events_guarded p (x, check_failed b p s c report fmt args) :=
  check_failed_guarded b p s c report fmt args h

theorem guarded_cfn (b : Build) (p : Params) (s : State) (report : Bool)
    (fmt : String) (args : List FmtArg) (x : Bool) :
    events_guarded p (x, check_failed_nocheck b s report fmt args) :=
  check_failed_nocheck_guarded b p s report fmt args

theorem guarded_append (p : Params) (x y z : Bool) (l1 l2 : List Event)
    (h1 : events_guarded p (x, l1)) (h2 : events_guarded p (y, l2)) :
    events_guarded p (z, l1 ++ l2) := by
  intro ev hev
  rcases List.mem_append.mp hev with h | h
  · exact h1 ev h
  · exact h2 ev h

theorem guarded_fst (p : Params) (x y : Bool) (l : List Event)
    (h : events_guarded p (x, l)) : events_guarded p (y, l) := h

theorem guarded_built (p : Params) (flag : Bool) (r : Bool × List Event)
    (h : events_guarded p r) : events_guarded p (built flag r) := by
  unfold built
  split
  · exact h
  · exact guarded_nil p true

theorem check_enabled_of_all_bit (p : Params) (c : Check)
    (h : p.checks_to_perform &&& Check.ALL.toUInt32 ≠ 0) : check_enabled p c = true := by
  unfold check_enabled
  rw [if_pos h]


theorem origin_enabled (p : Params) (c : Check) (fmt : String)
    (h : check_enabled p c = true) : failure_origin p c fmt :=
  Or.inl h

theorem origin_unguarded (p : Params) (c : Check) (fmt : String)
    (h : (c, fmt) ∈ unguarded_failures) : failure_origin p c fmt :=
  Or.inr (Or.inl h)

theorem origin_cross (p : Params) (c : Check) (fmt : String) (g : Check)
    (h : (c, fmt, g) ∈ cross_guarded_failures) (hg : check_enabled p g = true) :
    failure_origin p c fmt :=
  Or.inr (Or.inr ⟨g, h, hg⟩)

theorem hardware_safety_check_guarded (b : Build) (p : Params) (e : Env) (s : State)
    (report : Bool) : events_guarded p (hardware_safety_check b p e s report) := by
  unfold hardware_safety_check
  repeat' (first
    | exact guarded_nil _ _
    | exact guarded_cf _ _ _ _ _ _ _ _ (origin_enabled _ _ _ (by assumption))
    | refine ite_elim (events_guarded p) _ _ _ (fun h => ?_) (fun h => ?_))

theorem barometer_checks_guarded (b : Build) (p : Params) (e : Env) (s : State)
    (report : Bool) : events_guarded p (barometer_checks b p e s report) := by
  unfold barometer_checks
  repeat' (first
    | exact guarded_nil _ _
    | exact guarded_cf _ _ _ _ _ _ _ _ (origin_enabled _ _ _ (by assumption))
    | refine ite_elim (events_guarded p) _ _ _ (fun h => ?_) (fun h => ?_))

theorem compass_checks_guarded (b : Build) (p : Params) (e : Env) (s : State)
    (report : Bool) : events_guarded p (compass_checks b p e s report) := by
  unfold compass_checks
  repeat' (first
    | exact guarded_nil _ _
    | exact guarded_cfn _ _ _ _ _ _ _
    | exact guarded_cf _ _ _ _ _ _ _ _ (origin_enabled _ _ _ (by assumption))
    | refine ite_elim (events_guarded p) _ _ _ (fun h => ?_) (fun h => ?_))

theorem battery_checks_guarded (b : Build) (p : Params) (e : Env) (s : State)
    (report : Bool) : events_guarded p (battery_checks b p e s report) := by
  unfold battery_checks
  repeat' (first
    | exact guarded_nil _ _
    | exact guarded_cf _ _ _ _ _ _ _ _ (origin_enabled _ _ _ (by assumption))
    | refine ite_elim (events_guarded p) _ _ _ (fun h => ?_) (fun h => ?_))

theorem logging_checks_guarded (b : Build) (p : Params) (e : Env) (s : State)
    (report : Bool) : events_guarded p (logging_checks b p e s report) := by
  unfold logging_checks
  repeat' (first
    | exact guarded_nil _ _
    | exact guarded_cf _ _ _ _ _ _ _ _ (origin_enabled _ _ _ (by assumption))
    | refine ite_elim (events_guarded p) _ _ _ (fun h => ?_) (fun h => ?_))

theorem rc_in_calibration_check_guarded (b : Build) (p : Params) (e : Env) (s : State)
    (report : Bool) : events_guarded p (rc_in_calibration_check b p e s report) := by
  unfold rc_in_calibration_check
  repeat' (first
    | exact guarded_nil _ _
    | exact guarded_cf _ _ _ _ _ _ _ _ (origin_unguarded _ _ _ (by decide))
    | refine ite_elim (events_guarded p) _ _ _ (fun h => ?_) (fun h => ?_))

theorem rangefinder_checks_guarded (b : Build) (p : Params) (e : Env) (s : State)
    (report : Bool) : events_guarded p (rangefinder_checks b p e s report) := by
  unfold rangefinder_checks
  repeat' (first
    | exact guarded_nil _ _
    | exact guarded_cf _ _ _ _ _ _ _ _ (origin_enabled _ _ _ (by assumption))
    | refine ite_elim (events_guarded p) _ _ _ (fun h => ?_) (fun h => ?_)
    | split)

theorem board_voltage_checks_guarded (b : Build) (p : Params) (e : Env) (s : State)
    (report : Bool) : events_guarded p (board_voltage_checks b p e s report) := by
  unfold board_voltage_checks
  repeat' (first
    | exact guarded_nil _ _
    | exact guarded_cf _ _ _ _ _ _ _ _ (origin_enabled _ _ _ (by assumption))
    | refine ite_elim (events_guarded p) _ _ _ (fun h => ?_) (fun h => ?_))

theorem system_checks_system_guarded (b : Build) (p : Params) (e : Env) (s : State)
    (report : Bool) : events_guarded_opt p (system_checks_system b p e s report) := by
  unfold system_checks_system
  repeat' (first
    | exact guarded_opt_none _
    | exact guarded_opt_some _ _ (guarded_cf _ _ _ _ _ _ _ _ (origin_enabled _ _ _ (by assumption)))
    | exact guarded_opt_some _ _ (guarded_cf _ _ _ _ _ _ _ _ (origin_cross _ _ _ Check.SYSTEM (by decide) (by assumption)))
    | refine ite_elim (events_guarded_opt p) _ _ _ (fun h => ?_) (fun h => ?_)
    | split)

theorem proximity_checks_guarded (b : Build) (p : Params) (e : Env) (s : State)
    (report : Bool) : events_guarded p (proximity_checks b e s report) := by
  unfold proximity_checks
  repeat' (first
    | exact guarded_nil _ _
    | exact guarded_cfn _ _ _ _ _ _ _
    | refine ite_elim (events_guarded p) _ _ _ (fun h => ?_) (fun h => ?_)
    | split)

theorem camera_checks_guarded (b : Build) (p : Params) (e : Env) (s : State)
    (report : Bool) : events_guarded p (camera_checks b p e s report) := by
  unfold camera_checks
  repeat' (first
    | exact guarded_nil _ _
    | exact guarded_cf _ _ _ _ _ _ _ _ (origin_enabled _ _ _ (by assumption))
    | refine ite_elim (events_guarded p) _ _ _ (fun h => ?_) (fun h => ?_)
    | split)

theorem osd_checks_guarded (b : Build) (p : Params) (e : Env) (s : State)
    (report : Bool) : events_guarded p (osd_checks b p e s report) := by
  unfold osd_checks
  repeat' (first
    | exact guarded_nil _ _
    | exact guarded_cf _ _ _ _ _ _ _ _ (origin_enabled _ _ _ (by assumption))
    | refine ite_elim (events_guarded p) _ _ _ (fun h => ?_) (fun h => ?_)
    | split)

theorem mount_checks_guarded (b : Build) (p : Params) (e : Env) (s : State)
    (report : Bool) : events_guarded p (mount_checks b p e s report) := by
  unfold mount_checks
  repeat' (first
    | exact guarded_nil _ _
    | exact guarded_cf _ _ _ _ _ _ _ _ (origin_enabled _ _ _ (by assumption))
    | refine ite_elim (events_guarded p) _ _ _ (fun h => ?_) (fun h => ?_)
    | split)

theorem fettec_checks_guarded (b : Build) (p : Params) (e : Env) (s : State)
    (report : Bool) : events_guarded p (fettec_checks b p e s report) := by
  unfold fettec_checks
  repeat' (first
    | exact guarded_nil _ _
    | exact guarded_cf _ _ _ _ _ _ _ _ (origin_unguarded _ _ _ (by decide))
    | refine ite_elim (events_guarded p) _ _ _ (fun h => ?_) (fun h => ?_)
    | split)

theorem generator_checks_guarded (b : Build) (p : Params) (e : Env) (s : State)
    (report : Bool) : events_guarded p (generator_checks b e s report) := by
  unfold generator_checks
  repeat' (first
    | exact guarded_nil _ _
    | exact guarded_cfn _ _ _ _ _ _ _
    | refine ite_elim (events_guarded p) _ _ _ (fun h => ?_) (fun h => ?_)
    | split)

theorem opendroneid_checks_guarded (b : Build) (p : Params) (e : Env) (s : State)
    (report : Bool) : events_guarded p (opendroneid_checks b e s report) := by
  unfold opendroneid_checks
  repeat' (first
    | exact guarded_nil _ _
    | exact guarded_cfn _ _ _ _ _ _ _
    | refine ite_elim (events_guarded p) _ _ _ (fun h => ?_) (fun h => ?_))

theorem serial_protocol_checks_guarded (b : Build) (p : Params) (e : Env) (s : State)
    (report : Bool) : events_guarded p (serial_protocol_checks b e s report) := by
  unfold serial_protocol_checks
  repeat' (first
    | exact guarded_nil _ _
    | exact guarded_cfn _ _ _ _ _ _ _
    | refine ite_elim (events_guarded p) _ _ _ (fun h => ?_) (fun h => ?_))

theorem estop_checks_guarded (b : Build) (p : Params) (e : Env) (s : State)
    (report : Bool) : events_guarded p (estop_checks b e s report) := by
  unfold estop_checks
  repeat' (first
    | exact guarded_nil _ _
    | exact guarded_cfn _ _ _ _ _ _ _
    | refine ite_elim (events_guarded p) _ _ _ (fun h => ?_) (fun h => ?_))

theorem disarm_switch_checks_guarded (b : Build) (p : Params) (e : Env) (s : State)
    (report : Bool) : events_guarded p (disarm_switch_checks b e s report) := by
  unfold disarm_switch_checks
  repeat' (first
    | exact guarded_nil _ _
    | exact guarded_cfn _ _ _ _ _ _ _
    | refine ite_elim (events_guarded p) _ _ _ (fun h => ?_) (fun h => ?_))

theorem ins_checks_fft_guarded (b : Build) (p : Params) (e : Env) (s : State)
    (report : Bool) : events_guarded p (ins_checks_fft b p e s report) := by
  unfold ins_checks_fft
  repeat' (first
    | exact guarded_nil _ _
    | exact guarded_cf _ _ _ _ _ _ _ _ (origin_cross _ _ _ Check.FFT (by decide) (by assumption))
    | refine ite_elim (events_guarded p) _ _ _ (fun h => ?_) (fun h => ?_)
    | split)

theorem heater_min_temperature_checks_guarded (b : Build) (p : Params) (e : Env) (s : State)
    (report : Bool) : events_guarded p (heater_min_temperature_checks b p e s report) := by
  unfold heater_min_temperature_checks
  refine ite_elim (events_guarded p) _ _ _ (fun h => ?_) (fun _ => guarded_nil _ _)
  cases e.board_heater with
  | none => exact guarded_nil _ _
  | some board =>
    dsimp only
    refine ite_elim (events_guarded p) _ _ _ (fun _ => ?_) (fun _ => guarded_nil _ _)
    exact guarded_cf _ _ _ _ _ _ _ _ (origin_enabled _ _ _ (check_enabled_of_all_bit p _ h))

theorem visodom_checks_guarded (b : Build) (p : Params) (e : Env) (s : State)
    (report : Bool) : events_guarded p (visodom_checks b p e s report) := by
  unfold visodom_checks
  refine ite_elim (events_guarded p) _ _ _ (fun _ => guarded_nil _ _) (fun h => ?_)
  have hen : check_enabled p .VISION = true := by simpa using h
  cases e.visual_odom with
  | none => exact guarded_nil _ _
  | some r =>
    dsimp only
    refine ite_elim (events_guarded p) _ _ _ (fun _ => ?_) (fun _ => guarded_nil _ _)
    exact guarded_cf _ _ _ _ _ _ _ _ (origin_enabled _ _ _ hen)

theorem terrain_checks_guarded (b : Build) (p : Params) (e : Env) (s : State)
    (report : Bool) : events_guarded p (terrain_checks b p e s report) := by
  unfold terrain_checks
  refine ite_elim (events_guarded p) _ _ _ (fun _ => guarded_nil _ _) (fun h => ?_)
  have hen : check_enabled p .PARAMETERS = true := by simpa using h
  refine ite_elim (events_guarded p) _ _ _ (fun _ => guarded_nil _ _) (fun _ => ?_)
  refine ite_elim (events_guarded p) _ _ _ (fun _ => ?_)
    (fun _ => guarded_cf _ _ _ _ _ _ _ _ (origin_enabled _ _ _ hen))
  cases e.terrain with
  | none => exact guarded_nil _ _
  | some terrain =>
    dsimp only
    repeat' (first
      | exact guarded_nil _ _
      | exact guarded_cf _ _ _ _ _ _ _ _ (origin_enabled _ _ _ hen)
      | refine ite_elim (events_guarded p) _ _ _ (fun _ => ?_) (fun _ => ?_))

theorem ins_checks_ins_guarded (b : Build) (p : Params) (e : Env) (s : State)
    (report : Bool) : events_guarded_opt p (ins_checks_ins b p e s report).1 := by
  unfold ins_checks_ins
  repeat' (first
    | exact guarded_opt_none _
    | exact guarded_opt_some _ _ (guarded_cf _ _ _ _ _ _ _ _ (origin_enabled _ _ _ (by assumption)))
    | refine ite_elim (fun z : Option (Bool × List Event) × State => events_guarded_opt p z.1)
        _ _ _ (fun h => ?_) (fun h => ?_))

theorem ins_checks_guarded (b : Build) (p : Params) (e : Env) (s : State) (report : Bool) :
    events_guarded p ((ins_checks b p e s report).1, (ins_checks b p e s report).2.2) := by
  have h := ins_checks_ins_guarded b p e s report
  unfold ins_checks
  dsimp only
  cases hr : (ins_checks_ins b p e s report).1 with
  | none => exact ins_checks_fft_guarded b p e _ report
  | some out => exact h out hr

theorem gps_checks_loop_guarded (b : Build) (p : Params) (e : Env) (s : State)
    (report : Bool) (hen : check_enabled p .GPS = true) (l : List GpsSensor) :
    ∀ i, events_guarded_opt p (gps_checks_loop b p e s report i l) := by
  induction l with
  | nil => intro i; exact guarded_opt_none _
  | cons g rest ih =>
    intro i
    unfold gps_checks_loop
    repeat' (first
      | exact ih _
      | exact guarded_opt_some _ _ (guarded_cf _ _ _ _ _ _ _ _ (origin_enabled _ _ _ hen))
      | refine ite_elim (events_guarded_opt p) _ _ _ (fun _ => ?_) (fun _ => ?_))

theorem gps_checks_gps_guarded (b : Build) (p : Params) (e : Env) (s : State)
    (report : Bool) : events_guarded_opt p (gps_checks_gps b p e s report) := by
  unfold gps_checks_gps
  refine ite_elim (events_guarded_opt p) _ _ _ (fun hen => ?_) (fun _ => guarded_opt_none _)
  refine ite_elim (events_guarded_opt p) _ _ _ (fun _ => ?_) (fun _ => ?_)
  · refine ite_elim (events_guarded_opt p) _ _ _ (fun _ => ?_) (fun _ => ?_)
    · exact guarded_opt_some _ _ (guarded_cf _ _ _ _ _ _ _ _ (origin_enabled _ _ _ hen))
    · exact guarded_opt_some _ _ (guarded_nil _ _)
  · cases hl : gps_checks_loop b p e s report 0 e.gps.sensors with
    | some r =>
      exact guarded_opt_some _ _ (gps_checks_loop_guarded b p e s report hen _ 0 r hl)
    | none =>
      dsimp only
      repeat' (first
        | exact guarded_opt_none _
        | exact guarded_opt_some _ _ (guarded_cf _ _ _ _ _ _ _ _ (origin_enabled _ _ _ hen))
        | refine ite_elim (events_guarded_opt p) _ _ _ (fun _ => ?_) (fun _ => ?_))

theorem gps_checks_guarded (b : Build) (p : Params) (e : Env) (s : State) (report : Bool) :
    events_guarded p (gps_checks b p e s report) := by
  unfold gps_checks
  cases hg : gps_checks_gps b p e s report with
  | some r => exact gps_checks_gps_guarded b p e s report r hg
  | none =>
    dsimp only
    refine ite_elim (events_guarded p) _ _ _ (fun hen => ?_) (fun _ => guarded_nil _ _)
    cases e.gps.first_unconfigured_gps with
    | none => exact guarded_nil _ _
    | some n =>
      dsimp only
      refine guarded_append p false false _ _ _
        (guarded_cf _ _ _ _ _ _ _ _ (origin_enabled _ _ _ hen)) ?_
      refine ite_elim (fun l : List Event => events_guarded p (false, l)) _ _ _
        (fun _ => ?_) (fun _ => guarded_nil _ _)
      intro ev hev
      rw [List.mem_singleton.mp hev]
      exact True.intro

theorem rc_calibration_checks_loop_guarded (b : Build) (p : Params) (e : Env) (s : State)
    (report : Bool) (hen : check_enabled p .RC = true) (l : List (Option RcChannel)) :
    ∀ i, events_guarded p (rc_calibration_checks_loop b p e s report i l) := by
  induction l with
  | nil => intro i; exact guarded_nil _ _
  | cons c rest ih =>
    intro i
    cases c with
    | none => exact ih _
    | some c =>
      unfold rc_calibration_checks_loop
      dsimp only
      refine ite_elim (events_guarded p) _ _ _ (fun _ => ih _) (fun _ => ?_)
      rw [List.append_assoc]
      refine guarded_append p true true _ _ _ ?_ (guarded_append p true true _ _ _ ?_ (ih _))
      · refine ite_elim (fun r : Bool × List Event => events_guarded p (true, r.2)) _ _ _
          (fun _ => ?_) (fun _ => guarded_nil _ _)
        exact guarded_cf _ _ _ _ _ _ _ _ (origin_enabled _ _ _ hen)
      · refine ite_elim (fun r : Bool × List Event => events_guarded p (true, r.2)) _ _ _
          (fun _ => ?_) (fun _ => guarded_nil _ _)
        exact guarded_cf _ _ _ _ _ _ _ _ (origin_enabled _ _ _ hen)

theorem manual_transmitter_checks_guarded (b : Build) (p : Params) (e : Env) (s : State)
    (report : Bool) : events_guarded p (manual_transmitter_checks b p e s report) := by
  have hr := rc_in_calibration_check_guarded b p e s report
  unfold manual_transmitter_checks
  refine ite_elim (events_guarded p) _ _ _ (fun hen => ?_) (fun _ => hr)
  have hc : events_guarded p (rc_calibration_checks b p e s report) :=
    rc_calibration_checks_loop_guarded b p e s report hen _ 0
  refine ite_elim (events_guarded p) _ _ _
    (fun _ => guarded_cf _ _ _ _ _ _ _ _ (origin_enabled _ _ _ hen)) (fun _ => ?_)
  dsimp only
  refine ite_elim (events_guarded p) _ _ _ (fun _ => hc) (fun _ => ?_)
  exact guarded_append p true true _ _ _ hc hr

theorem mission_checks_loop_guarded (b : Build) (p : Params) (s : State) (report : Bool)
    (hen : check_enabled p .MISSION = true) (l : List (Nat × Bool × String)) :
    events_guarded_opt p (mission_checks_loop b p s report l) := by
  induction l with
  | nil => exact guarded_opt_none _
  | cons c rest ih =>
    obtain ⟨check, contains_item, type⟩ := c
    unfold mission_checks_loop
    repeat' (first
      | exact ih
      | exact guarded_opt_some _ _ (guarded_cf _ _ _ _ _ _ _ _ (origin_enabled _ _ _ hen))
      | refine ite_elim (events_guarded_opt p) _ _ _ (fun _ => ?_) (fun _ => ?_))

theorem mission_checks_required_guarded (b : Build) (p : Params) (e : Env) (s : State)
    (report : Bool) : events_guarded_opt p (mission_checks_required b p e s report) := by
  unfold mission_checks_required
  refine ite_elim (events_guarded_opt p) _ _ _ (fun h => ?_) (fun _ => guarded_opt_none _)
  have hen : check_enabled p .MISSION = true := by
    rw [Bool.and_eq_true] at h
    exact h.1
  cases e.mission with
  | none => exact guarded_opt_some _ _ (guarded_cf _ _ _ _ _ _ _ _ (origin_enabled _ _ _ hen))
  | some m =>
    dsimp only
    cases hl : mission_checks_loop b p s report (misChecks m) with
    | some r =>
      exact guarded_opt_some _ _ (mission_checks_loop_guarded b p s report hen _ r hl)
    | none =>
      dsimp only
      refine ite_elim (events_guarded_opt p) _ _ _ (fun _ => ?_) (fun _ => guarded_opt_none _)
      refine ite_elim (events_guarded_opt p) _ _ _ (fun _ => ?_)
        (fun _ => guarded_opt_some _ _ (guarded_cf _ _ _ _ _ _ _ _ (origin_enabled _ _ _ hen)))
      cases e.rally with
      | none => exact guarded_opt_some _ _ (guarded_cf _ _ _ _ _ _ _ _ (origin_enabled _ _ _ hen))
      | some found =>
        dsimp only
        repeat' (first
          | exact guarded_opt_none _
          | exact guarded_opt_some _ _ (guarded_cf _ _ _ _ _ _ _ _ (origin_enabled _ _ _ hen))
          | refine ite_elim (events_guarded_opt p) _ _ _ (fun _ => ?_) (fun _ => ?_))

theorem mission_checks_guarded (b : Build) (p : Params) (e : Env) (s : State)
    (report : Bool) : events_guarded p (mission_checks b p e s report) := by
  unfold mission_checks
  cases hm : mission_checks_required b p e s report with
  | some r => exact mission_checks_required_guarded b p e s report r hm
  | none =>
    dsimp only
    refine ite_elim (events_guarded p) _ _ _ (fun h => ?_) (fun _ => ?_)
    · have hen : check_enabled p .MISSION = true := by
        rw [Bool.and_eq_true, Bool.and_eq_true] at h
        exact h.2.1
      exact guarded_cf _ _ _ _ _ _ _ _ (origin_enabled _ _ _ hen)
    · refine ite_elim (events_guarded p) _ _ _ (fun _ => ?_) (fun _ => guarded_nil _ _)
      exact guarded_cf _ _ _ _ _ _ _ _ (origin_unguarded _ _ _ (by decide))

theorem servo_checks_loop_guarded (b : Build) (p : Params) (e : Env) (s : State)
    (report : Bool) (l : List (Option SrvChannel)) :
    ∀ i, events_guarded p (servo_checks_loop b e s report i l) := by
  induction l with
  | nil => intro i; exact guarded_nil _ _
  | cons c rest ih =>
    intro i
    cases c with
    | none => exact ih _
    | some c =>
      unfold servo_checks_loop
      dsimp only
      refine ite_elim (events_guarded p) _ _ _ (fun _ => ih _) (fun _ => ?_)
      rw [List.append_assoc, List.append_assoc]
      refine guarded_append p true true _ _ _ ?_
        (guarded_append p true true _ _ _ ?_ (guarded_append p true true _ _ _ ?_ (ih _)))
      all_goals
        repeat' (first
          | exact guarded_nil _ _
          | exact guarded_cfn _ _ _ _ _ _ _
          | refine ite_elim (fun r : Bool × List Event => events_guarded p (true, r.2)) _ _ _
              (fun _ => ?_) (fun _ => ?_))

theorem servo_checks_guarded (b : Build) (p : Params) (e : Env) (s : State)
    (report : Bool) : events_guarded p (servo_checks b e s report) := by
  unfold servo_checks
  refine ite_elim (events_guarded p) _ _ _ (fun _ => ?_) (fun _ => guarded_nil _ _)
  dsimp only
  refine guarded_append p true true _ _ _ (servo_checks_loop_guarded b p e s report _ 0) ?_
  refine ite_elim (fun r : Bool × List Event => events_guarded p (true, r.2)) _ _ _
    (fun _ => ?_) (fun _ => guarded_nil _ _)
  exact guarded_cfn _ _ _ _ _ _ _

theorem system_checks_leaf_guarded (b : Build) (p : Params) (s : State) (report : Bool)
    (hen : check_enabled p .PARAMETERS = true) (flag : Bool) (x : Option LeafResult) :
    events_guarded_opt p (system_checks_leaf b p s report flag x) := by
  unfold system_checks_leaf
  split
  · exact guarded_opt_some _ _ (guarded_cf _ _ _ _ _ _ _ _ (origin_enabled _ _ _ hen))
  · exact guarded_opt_none _

theorem blending_auto_switch_checks_guarded (b : Build) (p : Params) (e : Env) (s : State)
    (report : Bool) (hen : check_enabled p .PARAMETERS = true) :
    events_guarded p (blending_auto_switch_checks b p e s report) := by
  unfold blending_auto_switch_checks
  repeat' (first
    | exact guarded_nil _ _
    | exact guarded_cf _ _ _ _ _ _ _ _ (origin_cross _ _ _ Check.PARAMETERS (by decide) hen)
    | refine ite_elim (events_guarded p) _ _ _ (fun _ => ?_) (fun _ => ?_))

theorem system_checks_parameters_guarded (b : Build) (p : Params) (e : Env) (s : State)
    (report : Bool) : events_guarded p (system_checks_parameters b p e s report) := by
  unfold system_checks_parameters
  refine ite_elim (events_guarded p) _ _ _ (fun hen => ?_) (fun _ => guarded_nil _ _)
  have hbl : events_guarded p (if !b.AP_GPS_BLENDED_ENABLED then
      blending_auto_switch_checks b p e s report else (true, [])) := by
    refine ite_elim (events_guarded p) _ _ _ (fun _ => ?_) (fun _ => guarded_nil _ _)
    exact blending_auto_switch_checks_guarded b p e s report hen
  have hleaf : ∀ (flag : Bool) (x : Option LeafResult) (r : Bool × List Event),
      system_checks_leaf b p s report flag x = some r →
      events_guarded p (r.1, (if !b.AP_GPS_BLENDED_ENABLED then
        blending_auto_switch_checks b p e s report else (true, [])).2 ++ r.2) := by
    intro flag x r hr
    exact guarded_append p true true _ _ _ hbl
      (system_checks_leaf_guarded b p s report hen flag x r hr)
  dsimp only
  refine ite_elim (events_guarded p) _ _ _ (fun _ => hbl) (fun _ => ?_)
  cases h1 : system_checks_leaf b p s report b.AP_RPM_ENABLED e.rpm with
  | some r => exact hleaf _ _ r h1
  | none =>
    dsimp only
    cases h2 : system_checks_leaf b p s report b.AP_RELAY_ENABLED e.relay with
    | some r => exact hleaf _ _ r h2
    | none =>
      dsimp only
      cases h3 : system_checks_leaf b p s report b.HAL_PARACHUTE_ENABLED e.parachute with
      | some r => exact hleaf _ _ r h3
      | none =>
        dsimp only
        cases h4 : system_checks_leaf b p s report b.HAL_BUTTON_ENABLED
            (some e.button_arming_checks) with
        | some r => exact hleaf _ _ r h4
        | none => exact hbl

theorem system_checks_guarded (b : Build) (p : Params) (e : Env) (s : State)
    (report : Bool) : events_guarded p (system_checks b p e s report) := by
  unfold system_checks
  cases hs : system_checks_system b p e s report with
  | some r => exact system_checks_system_guarded b p e s report r hs
  | none =>
    dsimp only
    repeat' (first
      | exact system_checks_parameters_guarded b p e s report
      | exact guarded_cfn _ _ _ _ _ _ _
      | refine ite_elim (events_guarded p) _ _ _ (fun _ => ?_) (fun _ => ?_))

theorem can_checks_loop_guarded (b : Build) (p : Params) (s : State) (report : Bool)
    (hen : check_enabled p .SYSTEM = true) (l : List CanDriver) :
    ∀ before, events_guarded_opt p (can_checks_loop b p s report before l) := by
  induction l with
  | nil => intro before; exact guarded_opt_none _
  | cons d rest ih =>
    intro before
    unfold can_checks_loop
    split
    all_goals
      repeat' (first
        | exact ih _
        | exact guarded_opt_some _ _ (guarded_cf _ _ _ _ _ _ _ _ (origin_enabled _ _ _ hen))
        | refine ite_elim (events_guarded_opt p) _ _ _ (fun _ => ?_) (fun _ => ?_)
        | split)

theorem can_checks_guarded (b : Build) (p : Params) (e : Env) (s : State)
    (report : Bool) : events_guarded p (can_checks b p e s report) := by
  unfold can_checks
  refine ite_elim (events_guarded p) _ _ _ (fun hen => ?_) (fun _ => guarded_nil _ _)
  cases hl : can_checks_loop b p s report [] e.can_drivers with
  | some r => exact can_checks_loop_guarded b p s report hen _ _ r hl
  | none => exact guarded_nil _ _

theorem fence_checks_guarded (b : Build) (p : Params) (e : Env) (s : State)
    (report : Bool) : events_guarded p (fence_checks b e s report) := by
  unfold fence_checks
  cases e.fence with
  | none => exact guarded_nil _ _
  | some fence =>
    dsimp only
    refine ite_elim (events_guarded p) _ _ _ (fun _ => guarded_nil _ _) (fun _ => ?_)
    refine ite_elim (events_guarded p) _ _ _ (fun _ => ?_) (fun _ => guarded_cfn _ _ _ _ _ _ _)
    exact guarded_append p true true _ _ _ (guarded_cfn _ _ _ _ _ _ _)
      (guarded_cfn _ _ _ _ _ _ _)

theorem crashdump_checks_guarded (b : Build) (p : Params) (e : Env) (s : State)
    (report : Bool) : events_guarded p (crashdump_checks b p e s report) := by
  unfold crashdump_checks
  refine ite_elim (events_guarded p) _ _ _ (fun _ => guarded_nil _ _) (fun _ => ?_)
  refine ite_elim (events_guarded p) _ _ _ (fun _ => ?_)
    (fun _ => guarded_cf _ _ _ _ _ _ _ _ (origin_unguarded _ _ _ (by decide)))
  refine ite_elim (events_guarded p) _ _ _ (fun _ => ?_) (fun _ => guarded_nil _ _)
  intro ev hev
  unfold GCS_SEND_TEXT at hev
  dsimp only at hev
  split at hev
  · rw [List.mem_singleton.mp hev]
    exact True.intro
  · exact absurd hev (List.not_mem_nil ev)

theorem aux_step_guarded (b : Build) (p : Params) (s : State) (report : Bool) (acc : AuxScan)
    (i : Nat) (hacc : ∀ ev ∈ acc.events, ev.guarded p) :
    ∀ ev ∈ (aux_auth_checks_step b p s report acc i).events, ev.guarded p := by
  unfold aux_auth_checks_step
  generalize s.aux_auth_state.getD i .NO_RESPONSE = st
  cases st
  · exact hacc
  · by_cases hsrc : i = s.aux_auth_fail_msg_source
    · simp only [hsrc, if_true]
      intro ev hev
      rcases List.mem_append.mp hev with h | h
      · exact hacc ev h
      · exact check_failed_guarded _ _ _ _ _ _ _ (origin_unguarded _ _ _ (by decide)) ev h
    · simp only [hsrc, if_false]
      exact hacc
  · exact hacc

theorem aux_scan_guarded (b : Build) (p : Params) (s : State) (report : Bool) (l : List Nat) :
    ∀ acc : AuxScan, (∀ ev ∈ acc.events, ev.guarded p) →
      ∀ ev ∈ (l.foldl (aux_auth_checks_step b p s report) acc).events, ev.guarded p := by
  induction l with
  | nil => intro acc h; exact h
  | cons i rest ih =>
    intro acc h
    rw [List.foldl_cons]
    exact ih _ (aux_step_guarded b p s report acc i h)

theorem aux_auth_checks_guarded (b : Build) (p : Params) (s : State) (report : Bool) :
    events_guarded p (aux_auth_checks b p s report) := by
  have hscan : events_guarded p (true, (aux_auth_checks_scan b p s report).events) :=
    aux_scan_guarded b p s report (List.range s.aux_auth_count) ⟨false, false, false, []⟩
      (fun ev h => absurd h (List.not_mem_nil ev))
  have happ : ∀ (x : Bool) (fmt : String), (Check.AUX_AUTH, fmt) ∈ unguarded_failures →
      events_guarded p (x, (aux_auth_checks_scan b p s report).events
        ++ check_failed b p s .AUX_AUTH report fmt []) := by
    intro x fmt hmem
    exact guarded_append p true true _ _ _ hscan (guarded_cf _ _ _ _ _ _ _ _ (origin_unguarded _ _ _ hmem))
  unfold aux_auth_checks
  refine ite_elim (events_guarded p) _ _ _ (fun _ => ?_) (fun _ => ?_)
  · refine ite_elim (events_guarded p) _ _ _ (fun _ => ?_) (fun _ => ?_)
    · exact guarded_cf _ _ _ _ _ _ _ _ (origin_unguarded _ _ _ (by decide))
    · exact guarded_cf _ _ _ _ _ _ _ _ (origin_unguarded _ _ _ (by decide))
  · dsimp only
    refine ite_elim (events_guarded p) _ _ _ (fun _ => ?_) (fun _ => ?_)
    · refine ite_elim (events_guarded p) _ _ _ (fun _ => happ _ _ (by decide))
        (fun _ => hscan)
    · refine ite_elim (events_guarded p) _ _ _ (fun _ => happ _ _ (by decide))
        (fun _ => hscan)

theorem pre_arm_checks_operands_guarded (b : Build) (p : Params) (e : Env) (s : State)
    (report : Bool) :
    ∀ r ∈ pre_arm_checks_operands b p e s report, events_guarded p r := by
  intro r hr
  simp only [pre_arm_checks_operands, List.mem_cons, List.mem_singleton, List.not_mem_nil,
    or_false] at hr
  rcases hr with h | h | h | h | h | h | h | h | h | h | h | h | h | h | h | h | h | h | h | h | h | h | h | h | h | h | h | h | h | h
  all_goals rw [h]
  all_goals first
    | exact guarded_built _ _ _ (ins_checks_guarded b p e _ report)
    | exact hardware_safety_check_guarded b p e _ report
    | exact servo_checks_guarded b p e _ report
    | exact board_voltage_checks_guarded b p e _ report
    | exact system_checks_guarded b p e _ report
    | exact terrain_checks_guarded b p e _ report
    | exact serial_protocol_checks_guarded b p e _ report
    | exact estop_checks_guarded b p e _ report
    | exact guarded_built _ _ _ (heater_min_temperature_checks_guarded b p e _ report)
    | exact guarded_built _ _ _ (barometer_checks_guarded b p e _ report)
    | exact guarded_built _ _ _ (compass_checks_guarded b p e _ report)
    | exact guarded_built _ _ _ (gps_checks_guarded b p e _ report)
    | exact guarded_built _ _ _ (battery_checks_guarded b p e _ report)
    | exact guarded_built _ _ _ (logging_checks_guarded b p e _ report)
    | exact guarded_built _ _ _ (manual_transmitter_checks_guarded b p e _ report)
    | exact guarded_built _ _ _ (mission_checks_guarded b p e _ report)
    | exact guarded_built _ _ _ (rangefinder_checks_guarded b p e _ report)
    | exact guarded_built _ _ _ (can_checks_guarded b p e _ report)
    | exact guarded_built _ _ _ (generator_checks_guarded b p e _ report)
    | exact guarded_built _ _ _ (proximity_checks_guarded b p e _ report)
    | exact guarded_built _ _ _ (camera_checks_guarded b p e _ report)
    | exact guarded_built _ _ _ (osd_checks_guarded b p e _ report)
    | exact guarded_built _ _ _ (mount_checks_guarded b p e _ report)
    | exact guarded_built _ _ _ (fettec_checks_guarded b p e _ report)
    | exact guarded_built _ _ _ (visodom_checks_guarded b p e _ report)
    | exact guarded_built _ _ _ (aux_auth_checks_guarded b p _ report)
    | exact guarded_built _ _ _ (disarm_switch_checks_guarded b p e _ report)
    | exact guarded_built _ _ _ (fence_checks_guarded b p e _ report)
    | exact guarded_built _ _ _ (opendroneid_checks_guarded b p e _ report)
    | exact guarded_built _ _ _ (crashdump_checks_guarded b p e _ report)

/-- Every event of `pre_arm_checks` is in order with the enable mask. -/
theorem pre_arm_checks_events_guarded (b : Build) (p : Params) (e : Env) (s : State)
    (report : Bool) :
    ∀ ev ∈ (pre_arm_checks b p e s report).2.2, ev.guarded p := by
  cases hev : pre_arm_checks_evaluates b p e s
  · rw [pre_arm_checks_skip b p e s report hev]
    intro ev h
    exact absurd h (List.not_mem_nil ev)
  · rw [pre_arm_checks_run b p e s report hev]
    intro ev h
    obtain ⟨l, hl, hmem⟩ := List.mem_flatten.mp h
    obtain ⟨r, hr, hrl⟩ := List.mem_map.mp hl
    rw [← hrl] at hmem
    exact pre_arm_checks_operands_guarded b p e s report r hr ev hmem

/-! ## Reported failures, the result and `report` -/

theorem sound_nil (report : Bool) (x : Bool) : events_sound report (x, []) := by
  intro ev h
  exact absurd h (List.not_mem_nil ev)

theorem sound_opt_none (report : Bool) : events_sound_opt report none := by
  intro r h
  exact absurd h (by simp)

theorem sound_opt_some (report : Bool) (r : Bool × List Event) (h : events_sound report r) :
    events_sound_opt report (some r) := by
  intro r' h'
  rw [← Option.some.inj h']
  exact h

theorem sound_cf (b : Build) (p : Params) (s : State) (c : Check) (report : Bool)
    (fmt : String) (args : List FmtArg) :
    events_sound report (false, check_failed b p s c report fmt args) := by
  intro ev hev _
  have hr := (check_failed_mem b p s c report fmt args ev hev).1
  exact ⟨rfl, fun h => absurd (hr.symm.trans h) (by decide)⟩

theorem sound_cfn (b : Build) (s : State) (report : Bool)
    (fmt : String) (args : List FmtArg) :
    events_sound report (false, check_failed_nocheck b s report fmt args) := by
  intro ev hev _
  have hr := (check_failed_nocheck_mem b s report fmt args ev hev).1
  exact ⟨rfl, fun h => absurd (hr.symm.trans h) (by decide)⟩

/-- Events that hold no failure are in order with every result. -/
theorem sound_quiet (report : Bool) (x : Bool) (l : List Event)
    (h : ∀ ev ∈ l, ev.is_failure = false) : events_sound report (x, l) := by
  intro ev hev hf
  rw [h ev hev] at hf
  exact absurd hf (by decide)

theorem sound_false (report : Bool) (x : Bool) (l : List Event)
    (h : events_sound report (x, l)) : events_sound report (false, l) := by
  intro ev hev hf
  exact ⟨rfl, (h ev hev hf).2⟩

theorem sound_and (report : Bool) (r1 r2 : Bool × List Event)
    (h1 : events_sound report r1) (h2 : events_sound report r2) :
    events_sound report (r1.1 && r2.1, r1.2 ++ r2.2) := by
  intro ev hev hf
  rcases List.mem_append.mp hev with h | h
  · obtain ⟨ha, hb⟩ := h1 ev h hf
    exact ⟨by show (r1.1 && r2.1) = false; rw [ha]; rfl, hb⟩
  · obtain ⟨ha, hb⟩ := h2 ev h hf
    exact ⟨by show (r1.1 && r2.1) = false; rw [ha, Bool.and_false], hb⟩

/-- The events of a sub-check that returned true, followed by those of another. -/
theorem sound_after (report : Bool) (r1 r2 : Bool × List Event)
    (h1 : events_sound report r1) (ht : r1.1 = true) (h2 : events_sound report r2) :
    events_sound report (r2.1, r1.2 ++ r2.2) := by
  intro ev hev hf
  rcases List.mem_append.mp hev with h | h
  · exact absurd ((h1 ev h hf).1.symm.trans ht) (by decide)
  · exact h2 ev h hf

theorem sound_built (report : Bool) (flag : Bool) (r : Bool × List Event)
    (h : events_sound report r) : events_sound report (built flag r) := by
  unfold built
  split
  · exact h
  · exact sound_nil report true

theorem hardware_safety_check_sound (b : Build) (p : Params) (e : Env) (s : State)
    (report : Bool) : events_sound report (hardware_safety_check b p e s report) := by
  unfold hardware_safety_check
  repeat' (first
    | exact sound_nil _ _
    | exact sound_cf _ _ _ _ _ _ _
    | refine ite_elim (events_sound report) _ _ _ (fun _ => ?_) (fun _ => ?_))

theorem barometer_checks_sound (b : Build) (p : Params) (e : Env) (s : State)
    (report : Bool) : events_sound report (barometer_checks b p e s report) := by
  unfold barometer_checks
  repeat' (first
    | exact sound_nil _ _
    | exact sound_cf _ _ _ _ _ _ _
    | refine ite_elim (events_sound report) _ _ _ (fun _ => ?_) (fun _ => ?_))

theorem compass_checks_sound (b : Build) (p : Params) (e : Env) (s : State)
    (report : Bool) : events_sound report (compass_checks b p e s report) := by
  unfold compass_checks
  repeat' (first
    | exact sound_nil _ _
    | exact sound_cfn _ _ _ _ _
    | exact sound_cf _ _ _ _ _ _ _
    | refine ite_elim (events_sound report) _ _ _ (fun _ => ?_) (fun _ => ?_))

theorem battery_checks_sound (b : Build) (p : Params) (e : Env) (s : State)
    (report : Bool) : events_sound report (battery_checks b p e s report) := by
  unfold battery_checks
  repeat' (first
    | exact sound_nil _ _
    | exact sound_cf _ _ _ _ _ _ _
    | refine ite_elim (events_sound report) _ _ _ (fun _ => ?_) (fun _ => ?_))

theorem logging_checks_sound (b : Build) (p : Params) (e : Env) (s : State)
    (report : Bool) : events_sound report (logging_checks b p e s report) := by
  unfold logging_checks
  repeat' (first
    | exact sound_nil _ _
    | exact sound_cf _ _ _ _ _ _ _
    | refine ite_elim (events_sound report) _ _ _ (fun _ => ?_) (fun _ => ?_))

theorem rc_in_calibration_check_sound (b : Build) (p : Params) (e : Env) (s : State)
    (report : Bool) : events_sound report (rc_in_calibration_check b p e s report) := by
  unfold rc_in_calibration_check
  repeat' (first
    | exact sound_nil _ _
    | exact sound_cf _ _ _ _ _ _ _
    | refine ite_elim (events_sound report) _ _ _ (fun _ => ?_) (fun _ => ?_))

theorem rangefinder_checks_sound (b : Build) (p : Params) (e : Env) (s : State)
    (report : Bool) : events_sound report (rangefinder_checks b p e s report) := by
  unfold rangefinder_checks
  repeat' (first
    | exact sound_nil _ _
    | exact sound_cf _ _ _ _ _ _ _
    | refine ite_elim (events_sound report) _ _ _ (fun _ => ?_) (fun _ => ?_)
    | split)

theorem board_voltage_checks_sound (b : Build) (p : Params) (e : Env) (s : State)
    (report : Bool) : events_sound report (board_voltage_checks b p e s report) := by
  unfold board_voltage_checks
  repeat' (first
    | exact sound_nil _ _
    | exact sound_cf _ _ _ _ _ _ _
    | refine ite_elim (events_sound report) _ _ _ (fun _ => ?_) (fun _ => ?_))

theorem system_checks_system_sound (b : Build) (p : Params) (e : Env) (s : State)
    (report : Bool) : events_sound_opt report (system_checks_system b p e s report) := by
  unfold system_checks_system
  repeat' (first
    | exact sound_opt_none _
    | exact sound_opt_some _ _ (sound_cf _ _ _ _ _ _ _)
    | exact sound_opt_some _ _ (sound_cf _ _ _ _ _ _ _)
    | refine ite_elim (events_sound_opt report) _ _ _ (fun _ => ?_) (fun _ => ?_)
    | split)

theorem proximity_checks_sound (b : Build) (e : Env) (s : State)
    (report : Bool) : events_sound report (proximity_checks b e s report) := by
  unfold proximity_checks
  repeat' (first
    | exact sound_nil _ _
    | exact sound_cfn _ _ _ _ _
    | refine ite_elim (events_sound report) _ _ _ (fun _ => ?_) (fun _ => ?_)
    | split)

theorem camera_checks_sound (b : Build) (p : Params) (e : Env) (s : State)
    (report : Bool) : events_sound report (camera_checks b p e s report) := by
  unfold camera_checks
  repeat' (first
    | exact sound_nil _ _
    | exact sound_cf _ _ _ _ _ _ _
    | refine ite_elim (events_sound report) _ _ _ (fun _ => ?_) (fun _ => ?_)
    | split)

theorem osd_checks_sound (b : Build) (p : Params) (e : Env) (s : State)
    (report : Bool) : events_sound report (osd_checks b p e s report) := by
  unfold osd_checks
  repeat' (first
    | exact sound_nil _ _
    | exact sound_cf _ _ _ _ _ _ _
    | refine ite_elim (events_sound report) _ _ _ (fun _ => ?_) (fun _ => ?_)
    | split)

theorem mount_checks_sound (b : Build) (p : Params) (e : Env) (s : State)
    (report : Bool) : events_sound report (mount_checks b p e s report) := by
  unfold mount_checks
  repeat' (first
    | exact sound_nil _ _
    | exact sound_cf _ _ _ _ _ _ _
    | refine ite_elim (events_sound report) _ _ _ (fun _ => ?_) (fun _ => ?_)
    | split)

theorem fettec_checks_sound (b : Build) (p : Params) (e : Env) (s : State)
    (report : Bool) : events_sound report (fettec_checks b p e s report) := by
  unfold fettec_checks
  repeat' (first
    | exact sound_nil _ _
    | exact sound_cf _ _ _ _ _ _ _
    | refine ite_elim (events_sound report) _ _ _ (fun _ => ?_) (fun _ => ?_)
    | split)

theorem generator_checks_sound (b : Build) (e : Env) (s : State)
    (report : Bool) : events_sound report (generator_checks b e s report) := by
  unfold generator_checks
  repeat' (first
    | exact sound_nil _ _
    | exact sound_cfn _ _ _ _ _
    | refine ite_elim (events_sound report) _ _ _ (fun _ => ?_) (fun _ => ?_)
    | split)

theorem opendroneid_checks_sound (b : Build) (e : Env) (s : State)
    (report : Bool) : events_sound report (opendroneid_checks b e s report) := by
  unfold opendroneid_checks
  repeat' (first
    | exact sound_nil _ _
    | exact sound_cfn _ _ _ _ _
    | refine ite_elim (events_sound report) _ _ _ (fun _ => ?_) (fun _ => ?_))

theorem serial_protocol_checks_sound (b : Build) (e : Env) (s : State)
    (report : Bool) : events_sound report (serial_protocol_checks b e s report) := by
  unfold serial_protocol_checks
  repeat' (first
    | exact sound_nil _ _
    | exact sound_cfn _ _ _ _ _
    | refine ite_elim (events_sound report) _ _ _ (fun _ => ?_) (fun _ => ?_))

theorem estop_checks_sound (b : Build) (e : Env) (s : State)
    (report : Bool) : events_sound report (estop_checks b e s report) := by
  unfold estop_checks
  repeat' (first
    | exact sound_nil _ _
    | exact sound_cfn _ _ _ _ _
    | refine ite_elim (events_sound report) _ _ _ (fun _ => ?_) (fun _ => ?_))

theorem disarm_switch_checks_sound (b : Build) (e : Env) (s : State)
    (report : Bool) : events_sound report (disarm_switch_checks b e s report) := by
  unfold disarm_switch_checks
  repeat' (first
    | exact sound_nil _ _
    | exact sound_cfn _ _ _ _ _
    | refine ite_elim (events_sound report) _ _ _ (fun _ => ?_) (fun _ => ?_))

theorem ins_checks_fft_sound (b : Build) (p : Params) (e : Env) (s : State)
    (report : Bool) : events_sound report (ins_checks_fft b p e s report) := by
  unfold ins_checks_fft
  repeat' (first
    | exact sound_nil _ _
    | exact sound_cf _ _ _ _ _ _ _
    | refine ite_elim (events_sound report) _ _ _ (fun _ => ?_) (fun _ => ?_)
    | split)

theorem heater_min_temperature_checks_sound (b : Build) (p : Params) (e : Env) (s : State)
    (report : Bool) : events_sound report (heater_min_temperature_checks b p e s report) := by
  unfold heater_min_temperature_checks
  refine ite_elim (events_sound report) _ _ _ (fun _ => ?_) (fun _ => sound_nil _ _)
  cases e.board_heater with
  | none => exact sound_nil _ _
  | some board =>
    dsimp only
    refine ite_elim (events_sound report) _ _ _ (fun _ => ?_) (fun _ => sound_nil _ _)
    exact sound_cf _ _ _ _ _ _ _

theorem visodom_checks_sound (b : Build) (p : Params) (e : Env) (s : State)
    (report : Bool) : events_sound report (visodom_checks b p e s report) := by
  unfold visodom_checks
  refine ite_elim (events_sound report) _ _ _ (fun _ => sound_nil _ _) (fun _ => ?_)
  cases e.visual_odom with
  | none => exact sound_nil _ _
  | some r =>
    dsimp only
    refine ite_elim (events_sound report) _ _ _ (fun _ => ?_) (fun _ => sound_nil _ _)
    exact sound_cf _ _ _ _ _ _ _

theorem terrain_checks_sound (b : Build) (p : Params) (e : Env) (s : State)
    (report : Bool) : events_sound report (terrain_checks b p e s report) := by
  unfold terrain_checks
  refine ite_elim (events_sound report) _ _ _ (fun _ => sound_nil _ _) (fun _ => ?_)
  refine ite_elim (events_sound report) _ _ _ (fun _ => sound_nil _ _) (fun _ => ?_)
  refine ite_elim (events_sound report) _ _ _ (fun _ => ?_)
    (fun _ => sound_cf _ _ _ _ _ _ _)
  cases e.terrain with
  | none => exact sound_nil _ _
  | some terrain =>
    dsimp only
    repeat' (first
      | exact sound_nil _ _
      | exact sound_cf _ _ _ _ _ _ _
      | refine ite_elim (events_sound report) _ _ _ (fun _ => ?_) (fun _ => ?_))

theorem gps_checks_loop_sound (b : Build) (p : Params) (e : Env) (s : State)
    (report : Bool) (l : List GpsSensor) :
    ∀ i, events_sound_opt report (gps_checks_loop b p e s report i l) := by
  induction l with
  | nil => intro i; exact sound_opt_none _
  | cons g rest ih =>
    intro i
    unfold gps_checks_loop
    repeat' (first
      | exact ih _
      | exact sound_opt_some _ _ (sound_cf _ _ _ _ _ _ _)
      | refine ite_elim (events_sound_opt report) _ _ _ (fun _ => ?_) (fun _ => ?_))

theorem gps_checks_gps_sound (b : Build) (p : Params) (e : Env) (s : State)
    (report : Bool) : events_sound_opt report (gps_checks_gps b p e s report) := by
  unfold gps_checks_gps
  refine ite_elim (events_sound_opt report) _ _ _ (fun _ => ?_) (fun _ => sound_opt_none _)
  refine ite_elim (events_sound_opt report) _ _ _ (fun _ => ?_) (fun _ => ?_)
  · refine ite_elim (events_sound_opt report) _ _ _ (fun _ => ?_) (fun _ => ?_)
    · exact sound_opt_some _ _ (sound_cf _ _ _ _ _ _ _)
    · exact sound_opt_some _ _ (sound_nil _ _)
  · cases hl : gps_checks_loop b p e s report 0 e.gps.sensors with
    | some r =>
      exact sound_opt_some _ _ (gps_checks_loop_sound b p e s report _ 0 r hl)
    | none =>
      dsimp only
      repeat' (first
        | exact sound_opt_none _
        | exact sound_opt_some _ _ (sound_cf _ _ _ _ _ _ _)
        | refine ite_elim (events_sound_opt report) _ _ _ (fun _ => ?_) (fun _ => ?_))

theorem mission_checks_loop_sound (b : Build) (p : Params) (s : State) (report : Bool) (l : List (Nat × Bool × String)) :
    events_sound_opt report (mission_checks_loop b p s report l) := by
  induction l with
  | nil => exact sound_opt_none _
  | cons c rest ih =>
    obtain ⟨check, contains_item, type⟩ := c
    unfold mission_checks_loop
    repeat' (first
      | exact ih
      | exact sound_opt_some _ _ (sound_cf _ _ _ _ _ _ _)
      | refine ite_elim (events_sound_opt report) _ _ _ (fun _ => ?_) (fun _ => ?_))

theorem mission_checks_required_sound (b : Build) (p : Params) (e : Env) (s : State)
    (report : Bool) : events_sound_opt report (mission_checks_required b p e s report) := by
  unfold mission_checks_required
  refine ite_elim (events_sound_opt report) _ _ _ (fun _ => ?_) (fun _ => sound_opt_none _)
  cases e.mission with
  | none => exact sound_opt_some _ _ (sound_cf _ _ _ _ _ _ _)
  | some m =>
    dsimp only
    cases hl : mission_checks_loop b p s report (misChecks m) with
    | some r =>
      exact sound_opt_some _ _ (mission_checks_loop_sound b p s report _ r hl)
    | none =>
      dsimp only
      refine ite_elim (events_sound_opt report) _ _ _ (fun _ => ?_) (fun _ => sound_opt_none _)
      refine ite_elim (events_sound_opt report) _ _ _ (fun _ => ?_)
        (fun _ => sound_opt_some _ _ (sound_cf _ _ _ _ _ _ _))
      cases e.rally with
      | none => exact sound_opt_some _ _ (sound_cf _ _ _ _ _ _ _)
      | some found =>
        dsimp only
        repeat' (first
          | exact sound_opt_none _
          | exact sound_opt_some _ _ (sound_cf _ _ _ _ _ _ _)
          | refine ite_elim (events_sound_opt report) _ _ _ (fun _ => ?_) (fun _ => ?_))

theorem mission_checks_sound (b : Build) (p : Params) (e : Env) (s : State)
    (report : Bool) : events_sound report (mission_checks b p e s report) := by
  unfold mission_checks
  cases hm : mission_checks_required b p e s report with
  | some r => exact mission_checks_required_sound b p e s report r hm
  | none =>
    dsimp only
    refine ite_elim (events_sound report) _ _ _ (fun _ => ?_) (fun _ => ?_)
    · exact sound_cf _ _ _ _ _ _ _
    · refine ite_elim (events_sound report) _ _ _ (fun _ => ?_) (fun _ => sound_nil _ _)
      exact sound_cf _ _ _ _ _ _ _

theorem system_checks_leaf_sound (b : Build) (p : Params) (s : State) (report : Bool) (flag : Bool) (x : Option LeafResult) :
    events_sound_opt report (system_checks_leaf b p s report flag x) := by
  unfold system_checks_leaf
  split
  · exact sound_opt_some _ _ (sound_cf _ _ _ _ _ _ _)
  · exact sound_opt_none _

theorem can_checks_loop_sound (b : Build) (p : Params) (s : State) (report : Bool) (l : List CanDriver) :
    ∀ before, events_sound_opt report (can_checks_loop b p s report before l) := by
  induction l with
  | nil => intro before; exact sound_opt_none _
  | cons d rest ih =>
    intro before
    unfold can_checks_loop
    split
    all_goals
      repeat' (first
        | exact ih _
        | exact sound_opt_some _ _ (sound_cf _ _ _ _ _ _ _)
        | refine ite_elim (events_sound_opt report) _ _ _ (fun _ => ?_) (fun _ => ?_)
        | split)

theorem can_checks_sound (b : Build) (p : Params) (e : Env) (s : State)
    (report : Bool) : events_sound report (can_checks b p e s report) := by
  unfold can_checks
  refine ite_elim (events_sound report) _ _ _ (fun _ => ?_) (fun _ => sound_nil _ _)
  cases hl : can_checks_loop b p s report [] e.can_drivers with
  | some r => exact can_checks_loop_sound b p s report _ _ r hl
  | none => exact sound_nil _ _

theorem blending_auto_switch_checks_sound (b : Build) (p : Params) (e : Env) (s : State)
    (report : Bool) :
    events_sound report (blending_auto_switch_checks b p e s report) := by
  unfold blending_auto_switch_checks
  refine ite_elim (events_sound report) _ _ _ (fun _ => ?_) (fun _ => sound_nil _ _)
  cases report
  · exact sound_nil _ _
  · exact sound_cf _ _ _ _ _ _ _

theorem crashdump_checks_sound (b : Build) (p : Params) (e : Env) (s : State)
    (report : Bool) : events_sound report (crashdump_checks b p e s report) := by
  unfold crashdump_checks
  refine ite_elim (events_sound report) _ _ _ (fun _ => sound_nil _ _) (fun _ => ?_)
  refine ite_elim (events_sound report) _ _ _ (fun _ => ?_) (fun _ => ?_)
  · refine ite_elim (events_sound report) _ _ _ (fun _ => ?_) (fun _ => sound_nil _ _)
    refine sound_quiet _ _ _ ?_
    intro ev hev
    unfold GCS_SEND_TEXT at hev
    split at hev
    · rw [List.mem_singleton.mp hev]
      rfl
    · exact absurd hev (List.not_mem_nil ev)
  · intro ev hev _
    refine ⟨rfl, fun _ => ?_⟩
    have hev' : ev ∈ check_failed b p s .PARAMETERS true "CrashDump data detected" [] := hev
    rcases (check_failed_mem b p s _ _ _ _ ev hev').2.2 with hw | ⟨hlong, _⟩
    · rw [hw]
      rfl
    · exact absurd hlong (by decide)

theorem gps_checks_sound (b : Build) (p : Params) (e : Env) (s : State) (report : Bool) :
    events_sound report (gps_checks b p e s report) := by
  unfold gps_checks
  cases hg : gps_checks_gps b p e s report with
  | some r => exact gps_checks_gps_sound b p e s report r hg
  | none =>
    dsimp only
    refine ite_elim (events_sound report) _ _ _ (fun _ => ?_) (fun _ => sound_nil _ _)
    cases e.gps.first_unconfigured_gps with
    | none => exact sound_nil _ _
    | some n =>
      dsimp only
      refine sound_and report (false, _) (true, _) (sound_cf _ _ _ _ _ _ _) ?_
      refine sound_quiet report true
        (if report = true then [Event.gps_broadcast_first_configuration_failure_reason]
          else []) ?_
      intro ev hev
      split at hev
      · rw [List.mem_singleton.mp hev]
        rfl
      · exact absurd hev (List.not_mem_nil ev)

theorem rc_calibration_checks_loop_sound (b : Build) (p : Params) (e : Env) (s : State)
    (report : Bool) (l : List (Option RcChannel)) :
    ∀ i, events_sound report (rc_calibration_checks_loop b p e s report i l) := by
  induction l with
  | nil => intro i; exact sound_nil _ _
  | cons c rest ih =>
    intro i
    cases c with
    | none => exact ih _
    | some c =>
      unfold rc_calibration_checks_loop
      dsimp only
      refine ite_elim (events_sound report) _ _ _ (fun _ => ih _) (fun _ => ?_)
      refine sound_and report (_, _) _ (sound_and report _ _ ?_ ?_) (ih _)
      · refine ite_elim (events_sound report) _ _ _ (fun _ => ?_) (fun _ => sound_nil _ _)
        exact sound_cf _ _ _ _ _ _ _
      · refine ite_elim (events_sound report) _ _ _ (fun _ => ?_) (fun _ => sound_nil _ _)
        exact sound_cf _ _ _ _ _ _ _

theorem manual_transmitter_checks_sound (b : Build) (p : Params) (e : Env) (s : State)
    (report : Bool) : events_sound report (manual_transmitter_checks b p e s report) := by
  have hr := rc_in_calibration_check_sound b p e s report
  unfold manual_transmitter_checks
  refine ite_elim (events_sound report) _ _ _ (fun _ => ?_) (fun _ => hr)
  have hc : events_sound report (rc_calibration_checks b p e s report) :=
    rc_calibration_checks_loop_sound b p e s report _ 0
  refine ite_elim (events_sound report) _ _ _
    (fun _ => sound_cf _ _ _ _ _ _ _) (fun _ => ?_)
  dsimp only
  refine ite_elim (events_sound report) _ _ _ (fun _ => sound_false _ _ _ hc) (fun hn => ?_)
  exact sound_after report _ _ hc (by simpa using hn) hr

theorem servo_checks_loop_sound (b : Build) (e : Env) (s : State)
    (report : Bool) (l : List (Option SrvChannel)) :
    ∀ i, events_sound report (servo_checks_loop b e s report i l) := by
  induction l with
  | nil => intro i; exact sound_nil _ _
  | cons c rest ih =>
    intro i
    cases c with
    | none => exact ih _
    | some c =>
      unfold servo_checks_loop
      dsimp only
      refine ite_elim (events_sound report) _ _ _ (fun _ => ih _) (fun _ => ?_)
      refine sound_and report (_, _) _
        (sound_and report (_, _) _ (sound_and report _ _ ?_ ?_) ?_) (ih _)
      all_goals
        repeat' (first
          | exact sound_nil _ _
          | exact sound_cfn _ _ _ _ _
          | refine ite_elim (events_sound report) _ _ _ (fun _ => ?_) (fun _ => ?_))

theorem servo_checks_sound (b : Build) (e : Env) (s : State)
    (report : Bool) : events_sound report (servo_checks b e s report) := by
  unfold servo_checks
  refine ite_elim (events_sound report) _ _ _ (fun _ => ?_) (fun _ => sound_nil _ _)
  dsimp only
  refine sound_and report _ _ (servo_checks_loop_sound b e s report _ 0) ?_
  refine ite_elim (events_sound report) _ _ _ (fun _ => ?_) (fun _ => sound_nil _ _)
  exact sound_cfn _ _ _ _ _

theorem system_checks_parameters_sound (b : Build) (p : Params) (e : Env) (s : State)
    (report : Bool) : events_sound report (system_checks_parameters b p e s report) := by
  unfold system_checks_parameters
  refine ite_elim (events_sound report) _ _ _ (fun _ => ?_) (fun _ => sound_nil _ _)
  have hbl : events_sound report (if !b.AP_GPS_BLENDED_ENABLED then
      blending_auto_switch_checks b p e s report else (true, [])) := by
    refine ite_elim (events_sound report) _ _ _ (fun _ => ?_) (fun _ => sound_nil _ _)
    exact blending_auto_switch_checks_sound b p e s report
  dsimp only
  refine ite_elim (events_sound report) _ _ _ (fun _ => sound_false _ _ _ hbl) (fun hn => ?_)
  have ht : (if !b.AP_GPS_BLENDED_ENABLED then
      blending_auto_switch_checks b p e s report else (true, [])).1 = true := by
    simpa using hn
  have hleaf : ∀ (flag : Bool) (x : Option LeafResult) (r : Bool × List Event),
      system_checks_leaf b p s report flag x = some r →
      events_sound report (r.1, (if !b.AP_GPS_BLENDED_ENABLED then
        blending_auto_switch_checks b p e s report else (true, [])).2 ++ r.2) := by
    intro flag x r hr
    exact sound_after report _ _ hbl ht (system_checks_leaf_sound b p s report flag x r hr)
  have hnone : events_sound report (true, (if !b.AP_GPS_BLENDED_ENABLED then
      blending_auto_switch_checks b p e s report else (true, [])).2) := by
    intro ev hev hf
    exact absurd ((hbl ev hev hf).1.symm.trans ht) (by decide)
  cases h1 : system_checks_leaf b p s report b.AP_RPM_ENABLED e.rpm with
  | some r => exact hleaf _ _ r h1
  | none =>
    dsimp only
    cases h2 : system_checks_leaf b p s report b.AP_RELAY_ENABLED e.relay with
    | some r => exact hleaf _ _ r h2
    | none =>
      dsimp only
      cases h3 : system_checks_leaf b p s report b.HAL_PARACHUTE_ENABLED e.parachute with
      | some r => exact hleaf _ _ r h3
      | none =>
        dsimp only
        cases h4 : system_checks_leaf b p s report b.HAL_BUTTON_ENABLED
            (some e.button_arming_checks) with
        | some r => exact hleaf _ _ r h4
        | none => exact hnone

theorem system_checks_sound (b : Build) (p : Params) (e : Env) (s : State)
    (report : Bool) : events_sound report (system_checks b p e s report) := by
  unfold system_checks
  cases hs : system_checks_system b p e s report with
  | some r => exact system_checks_system_sound b p e s report r hs
  | none =>
    dsimp only
    repeat' (first
      | exact system_checks_parameters_sound b p e s report
      | exact sound_cfn _ _ _ _ _
      | refine ite_elim (events_sound report) _ _ _ (fun _ => ?_) (fun _ => ?_))

theorem fence_checks_sound (b : Build) (e : Env) (s : State)
    (report : Bool) : events_sound report (fence_checks b e s report) := by
  unfold fence_checks
  cases e.fence with
  | none => exact sound_nil _ _
  | some fence =>
    dsimp only
    refine ite_elim (events_sound report) _ _ _ (fun _ => sound_nil _ _) (fun _ => ?_)
    refine ite_elim (events_sound report) _ _ _ (fun _ => ?_) (fun _ => sound_cfn _ _ _ _ _)
    exact sound_and report (false, _) (false, _) (sound_cfn _ _ _ _ _) (sound_cfn _ _ _ _ _)

/-- The scan of `aux_auth_checks` reports a failure only for a failed slot. -/
theorem aux_step_sound (b : Build) (p : Params) (s : State) (report : Bool) (acc : AuxScan)
    (i : Nat)
    (hacc : ∀ ev ∈ acc.events, ev.is_failure = true →
      acc.some_failures = true ∧ report = true) :
    ∀ ev ∈ (aux_auth_checks_step b p s report acc i).events, ev.is_failure = true →
      (aux_auth_checks_step b p s report acc i).some_failures = true ∧ report = true := by
  unfold aux_auth_checks_step
  generalize s.aux_auth_state.getD i .NO_RESPONSE = st
  cases st
  · exact hacc
  · by_cases hsrc : i = s.aux_auth_fail_msg_source
    · simp only [hsrc, if_true]
      intro ev hev hf
      rcases List.mem_append.mp hev with h | h
      · exact ⟨trivial, (hacc ev h hf).2⟩
      · exact ⟨trivial, (check_failed_mem _ _ _ _ _ _ _ ev h).1⟩
    · simp only [hsrc, if_false]
      intro ev hev hf
      exact ⟨trivial, (hacc ev hev hf).2⟩
  · exact hacc

theorem aux_scan_sound (b : Build) (p : Params) (s : State) (report : Bool) (l : List Nat) :
    ∀ acc : AuxScan,
      (∀ ev ∈ acc.events, ev.is_failure = true → acc.some_failures = true ∧ report = true) →
      ∀ ev ∈ (l.foldl (aux_auth_checks_step b p s report) acc).events, ev.is_failure = true →
        (l.foldl (aux_auth_checks_step b p s report) acc).some_failures = true
        ∧ report = true := by
  induction l with
  | nil => intro acc h; exact h
  | cons i rest ih =>
    intro acc h
    rw [List.foldl_cons]
    exact ih _ (aux_step_sound b p s report acc i h)

theorem aux_auth_checks_sound (b : Build) (p : Params) (s : State) (report : Bool) :
    events_sound report (aux_auth_checks b p s report) := by
  have hscan : ∀ ev ∈ (aux_auth_checks_scan b p s report).events, ev.is_failure = true →
      (aux_auth_checks_scan b p s report).some_failures = true ∧ report = true :=
    aux_scan_sound b p s report (List.range s.aux_auth_count) ⟨false, false, false, []⟩
      (fun ev h => absurd h (List.not_mem_nil ev))
  have hfalse : events_sound report (false, (aux_auth_checks_scan b p s report).events) := by
    intro ev hev hf
    exact ⟨rfl, fun h => absurd ((hscan ev hev hf).2.symm.trans h) (by decide)⟩
  have happ : ∀ (fmt : String),
      events_sound report (false, (aux_auth_checks_scan b p s report).events
        ++ check_failed b p s .AUX_AUTH report fmt []) := by
    intro fmt
    exact sound_and report (false, _) (false, _) hfalse (sound_cf _ _ _ _ _ _ _)
  unfold aux_auth_checks
  refine ite_elim (events_sound report) _ _ _ (fun _ => ?_) (fun _ => ?_)
  · refine ite_elim (events_sound report) _ _ _ (fun _ => ?_) (fun _ => ?_)
    · exact sound_cf _ _ _ _ _ _ _
    · exact sound_cf _ _ _ _ _ _ _
  · dsimp only
    refine ite_elim (events_sound report) _ _ _ (fun _ => ?_) (fun hn => ?_)
    · refine ite_elim (events_sound report) _ _ _ (fun _ => happ _)
        (fun _ => hfalse)
    · refine ite_elim (events_sound report) _ _ _ (fun _ => happ _) (fun _ => ?_)
      intro ev hev hf
      exact absurd (hscan ev hev hf).1 hn

theorem ins_checks_ins_sound (b : Build) (p : Params) (e : Env) (s : State)
    (report : Bool) : events_sound_opt report (ins_checks_ins b p e s report).1 := by
  unfold ins_checks_ins
  repeat' (first
    | exact sound_opt_none _
    | exact sound_opt_some _ _ (sound_cf _ _ _ _ _ _ _)
    | refine ite_elim (fun z : Option (Bool × List Event) × State => events_sound_opt report z.1)
        _ _ _ (fun _ => ?_) (fun _ => ?_))

theorem ins_checks_sound (b : Build) (p : Params) (e : Env) (s : State) (report : Bool) :
    events_sound report ((ins_checks b p e s report).1, (ins_checks b p e s report).2.2) := by
  have h := ins_checks_ins_sound b p e s report
  unfold ins_checks
  dsimp only
  cases hr : (ins_checks_ins b p e s report).1 with
  | none => exact ins_checks_fft_sound b p e _ report
  | some out => exact h out hr

theorem pre_arm_checks_operands_sound (b : Build) (p : Params) (e : Env) (s : State)
    (report : Bool) :
    ∀ r ∈ pre_arm_checks_operands b p e s report, events_sound report r := by
  intro r hr
  simp only [pre_arm_checks_operands, List.mem_cons, List.mem_singleton, List.not_mem_nil,
    or_false] at hr
  rcases hr with h | h | h | h | h | h | h | h | h | h | h | h | h | h | h | h | h | h | h | h | h | h | h | h | h | h | h | h | h | h
  all_goals rw [h]
  all_goals first
    | exact sound_built _ _ _ (ins_checks_sound b p e _ report)
    | exact hardware_safety_check_sound b p e _ report
    | exact sound_built _ _ _ (heater_min_temperature_checks_sound b p e _ report)
    | exact sound_built _ _ _ (barometer_checks_sound b p e _ report)
    | exact servo_checks_sound b e _ report
    | exact board_voltage_checks_sound b p e _ report
    | exact system_checks_sound b p e _ report
    | exact terrain_checks_sound b p e _ report
    | exact serial_protocol_checks_sound b e _ report
    | exact estop_checks_sound b e _ report
    | exact sound_built _ _ _ (compass_checks_sound b p e _ report)
    | exact sound_built _ _ _ (gps_checks_sound b p e _ report)
    | exact sound_built _ _ _ (battery_checks_sound b p e _ report)
    | exact sound_built _ _ _ (logging_checks_sound b p e _ report)
    | exact sound_built _ _ _ (manual_transmitter_checks_sound b p e _ report)
    | exact sound_built _ _ _ (mission_checks_sound b p e _ report)
    | exact sound_built _ _ _ (rangefinder_checks_sound b p e _ report)
    | exact sound_built _ _ _ (can_checks_sound b p e _ report)
    | exact sound_built _ _ _ (generator_checks_sound b e _ report)
    | exact sound_built _ _ _ (proximity_checks_sound b e _ report)
    | exact sound_built _ _ _ (camera_checks_sound b p e _ report)
    | exact sound_built _ _ _ (osd_checks_sound b p e _ report)
    | exact sound_built _ _ _ (mount_checks_sound b p e _ report)
    | exact sound_built _ _ _ (fettec_checks_sound b p e _ report)
    | exact sound_built _ _ _ (visodom_checks_sound b p e _ report)
    | exact sound_built _ _ _ (aux_auth_checks_sound b p _ report)
    | exact sound_built _ _ _ (disarm_switch_checks_sound b e _ report)
    | exact sound_built _ _ _ (fence_checks_sound b e _ report)
    | exact sound_built _ _ _ (opendroneid_checks_sound b e _ report)
    | exact sound_built _ _ _ (crashdump_checks_sound b p e _ report)

/-- A failure among the events of `pre_arm_checks` makes it return false, and
with `report` false the only failure among them is the crash dump failure. -/
theorem pre_arm_checks_sound (b : Build) (p : Params) (e : Env) (s : State)
    (report : Bool) :
    ∀ ev ∈ (pre_arm_checks b p e s report).2.2, ev.is_failure = true →
      (pre_arm_checks b p e s report).1 = false
      ∧ (report = false → ev.is_crashdump_failure = true) := by
  cases hev : pre_arm_checks_evaluates b p e s
  · rw [pre_arm_checks_skip b p e s report hev]
    intro ev h
    exact absurd h (List.not_mem_nil ev)
  · intro ev h hf
    have h' := h
    rw [pre_arm_checks_run b p e s report hev] at h'
    obtain ⟨l, hl, hmem⟩ := List.mem_flatten.mp h'
    obtain ⟨r, hr, hrl⟩ := List.mem_map.mp hl
    rw [← hrl] at hmem
    obtain ⟨h1, h2⟩ := pre_arm_checks_operands_sound b p e s report r hr ev hmem hf
    exact ⟨(pre_arm_checks_is_and_aux b p e s report hev).mpr ⟨r, hr, h1⟩, h2⟩

/-! ## What a disabled check still reports -/

theorem check_enabled_of_bits_clear (p : Params) (c : Check)
    (hall : p.checks_to_perform.testBit 0 = false)
    (hbit : p.checks_to_perform.testBit c.bit = false) : check_enabled p c = false := by
  have h0 : ¬ (p.checks_to_perform &&& Check.ALL.toUInt32 ≠ 0) := by
    unfold Check.toUInt32
    rw [and_two_pow_ne_zero]
    show ¬ (p.checks_to_perform.testBit 0 = true)
    rw [hall]
    decide
  have h1 : ¬ (p.checks_to_perform &&& c.toUInt32 ≠ 0) := by
    unfold Check.toUInt32
    rw [and_two_pow_ne_zero, hbit]
    decide
  unfold check_enabled
  rw [if_neg h0]
  exact decide_eq_false h1

/-- C5, counterexample: with only the BARO bit set in the enable mask (ALL clear,
RC clear) and the RC input being calibrated, `manual_transmitter_checks` reports
the failure "RC calibrating" attributed to Check::RC and returns false, and
`pre_arm_checks` evaluates its checks and returns false: a disabled check blocks. -/
theorem disabled_rc_check_blocks :
    (Params.only Check.BARO).checks_to_perform.testBit 0 = false
    ∧ (Params.only Check.BARO).checks_to_perform.testBit Check.RC.bit = false
    ∧ check_enabled (Params.only Check.BARO) Check.RC = false
    ∧ manual_transmitter_checks Build.plane (Params.only Check.BARO) Env.rc_calibrating
        State.init true
        = (false, [Event.check_failed (some Check.RC) MAV_SEVERITY.DEBUG "PreArm: %s"
            "RC calibrating" []])
    ∧ pre_arm_checks_evaluates Build.plane (Params.only Check.BARO) Env.rc_calibrating
        State.init = true
    ∧ (pre_arm_checks Build.plane (Params.only Check.BARO) Env.rc_calibrating State.init
        true).1 = false
    ∧ (pre_arm_checks Build.plane (Params.only Check.BARO) Env.rc_calibrating State.init
        true).2.2
        = [Event.check_failed (some Check.RC) MAV_SEVERITY.DEBUG "PreArm: %s"
            "RC calibrating" []] := by
  decide

/-- C5, amended: for every enable mask with the ALL bit clear and every check `c`
whose bit is clear in that mask, every failure that `pre_arm_checks` reports
attributed to `c` (every event of `check_failed` called with Check `c`, for either
value of `report`) is raised outside the block guarded by `check_enabled(c)`:
either outside every guard (`unguarded_failures`: RC calibrating, Mode requires
mission, the failures of `aux_auth_checks`, FETtec, CrashDump) or inside the
guard of another check that is enabled (`cross_guarded_failures`: parameter
storage full under SYSTEM, the FFT test under FFT, the blending test under
PARAMETERS). It is sent whole, with the downgraded severity DEBUG, and
`pre_arm_checks` returns false: there a disabled check blocks. So `c` is one of
RC, MISSION, AUX_AUTH, ALL, PARAMETERS, INS, GPS: a disabled BARO, COMPASS,
VOLTAGE, BATTERY, AIRSPEED, LOGGING, SWITCH, GPS_CONFIG, SYSTEM, RANGEFINDER,
CAMERA, VISION, FFT or OSD check never reports a failure. -/
theorem disabled_check_failures (b : Build) (p : Params) (e : Env) (s : State)
    (report : Bool) (c : Check) (ev : Event)
    (hall : p.checks_to_perform.testBit 0 = false)
    (hbit : p.checks_to_perform.testBit c.bit = false)
    (hmem : ev ∈ (pre_arm_checks b p e s report).2.2)
    (hc : ev.check = some c) :
    (∃ (mf fmt : String) (args : List FmtArg),
      ev = Event.check_failed (some c) MAV_SEVERITY.DEBUG mf fmt args
      ∧ ((c, fmt) ∈ unguarded_failures
        ∨ ∃ g, (c, fmt, g) ∈ cross_guarded_failures ∧ check_enabled p g = true))
    ∧ (pre_arm_checks b p e s report).1 = false
    ∧ c ∈ [Check.RC, Check.MISSION, Check.AUX_AUTH, Check.ALL, Check.PARAMETERS, Check.INS,
        Check.GPS] := by
  have hdis := check_enabled_of_bits_clear p c hall hbit
  have hg := pre_arm_checks_events_guarded b p e s report _ hmem
  have hshape : ∃ (mf fmt : String) (args : List FmtArg),
      ev = Event.check_failed (some c) MAV_SEVERITY.DEBUG mf fmt args
      ∧ ((c, fmt) ∈ unguarded_failures
        ∨ ∃ g, (c, fmt, g) ∈ cross_guarded_failures ∧ check_enabled p g = true) := by
    cases ev with
    | check_failed check severity mf fmt args =>
      have hc' : check = some c := hc
      subst hc'
      have hg' : (severity = if check_enabled p c then MAV_SEVERITY.CRITICAL
            else MAV_SEVERITY.DEBUG) ∧ failure_origin p c fmt := hg
      rw [hdis] at hg'
      refine ⟨mf, fmt, args, by rw [hg'.1]; rfl, ?_⟩
      rcases hg'.2 with h | h
      · rw [hdis] at h
        exact absurd h (by decide)
      · exact h
    | check_failed_cut check severity bytes args =>
      have hc' : check = some c := hc
      subst hc'
      have hg' : (severity = if check_enabled p c then MAV_SEVERITY.CRITICAL
            else MAV_SEVERITY.DEBUG) ∧ check_enabled p c = true := hg
      rw [hdis] at hg'
      exact absurd hg'.2 (by decide)
    | _ => exact absurd hc (by simp [Event.check])
  obtain ⟨mf, fmt, args, hev, horigin⟩ := hshape
  refine ⟨⟨mf, fmt, args, hev, horigin⟩, ?_, ?_⟩
  · refine (pre_arm_checks_sound b p e s report ev hmem ?_).1
    rw [hev]
    rfl
  · have hfst : c ∈ unguarded_failures.map Prod.fst
        ∨ c ∈ cross_guarded_failures.map Prod.fst := by
      rcases horigin with h | ⟨g, h, _⟩
      · exact Or.inl (List.mem_map.mpr ⟨(c, fmt), h, rfl⟩)
      · exact Or.inr (List.mem_map.mpr ⟨(c, fmt, g), h, rfl⟩)
    revert hfst
    cases c <;> decide

theorem disabled_check_failures_witness :
    (Params.only Check.BARO).checks_to_perform.testBit 0 = false
    ∧ (Params.only Check.BARO).checks_to_perform.testBit Check.RC.bit = false
    ∧ Event.check_failed (some Check.RC) MAV_SEVERITY.DEBUG "PreArm: %s" "RC calibrating" []
        ∈ (pre_arm_checks Build.plane (Params.only Check.BARO) Env.rc_calibrating State.init
            true).2.2
    ∧ (pre_arm_checks Build.plane (Params.only Check.BARO) Env.rc_calibrating State.init
        true).1 = false :=
  ⟨by decide, by decide, by decide,
    (disabled_check_failures Build.plane (Params.only Check.BARO) Env.rc_calibrating State.init
      true Check.RC
      (Event.check_failed (some Check.RC) MAV_SEVERITY.DEBUG "PreArm: %s" "RC calibrating" [])
      (by decide) (by decide) (by decide) rfl).2.1⟩

/-! ## arm and the auxiliary authorisation table -/

/-- `aux_auth_checks` reads the table and `running_arming_checks` only. -/
theorem aux_auth_checks_except_checks (b : Build) (p : Params) (s s' : State) (df : Bool)
    (h : s'.except_checks = s.except_checks) :
    aux_auth_checks b p s' df = aux_auth_checks b p s df := by
  have hs : ∀ t : State, aux_auth_checks b p t df = aux_auth_checks b p t.except_checks df :=
    fun _ => rfl
  rw [hs s', hs s, h]

theorem reset_loop_slots (n : Nat) :
    ∀ l : List AuxAuthStates,
      ∀ st ∈ ((List.range n).foldl (fun st i => st.set i AuxAuthStates.NO_RESPONSE) l).take n,
        st = AuxAuthStates.NO_RESPONSE := by
  induction n with
  | zero => intro l st h; simp at h
  | succ n ih =>
    intro l st h
    rw [List.range_succ, List.foldl_append] at h
    simp only [List.foldl_cons, List.foldl_nil] at h
    rw [List.mem_take_iff_getElem] at h
    obtain ⟨i, hi, rfl⟩ := h
    rw [List.getElem_set]
    split
    · rfl
    · rename_i hne
      apply ih l
      rw [List.mem_take_iff_getElem]
      have hi' : i < min n ((List.range n).foldl
          (fun st i => st.set i AuxAuthStates.NO_RESPONSE) l).length := by
        rw [List.length_set] at hi
        omega
      exact ⟨i, hi', rfl⟩

theorem aux_auth_checks_reset (b : Build) (p : Params) (s : State) (df : Bool) :
    aux_auth_checks b p (reset_all_aux_auths b s) df = (true, []) := by
  rfl

/-- C11, counterexample: fixed-wing build, default parameters (enable mask ALL), a
healthy disarmed vehicle. One authoriser was given id 0 and refused with a message
before the attempt. `arm(MAVLINK, true)` evaluates its checks on that table: it
returns false and sends the stored refusal, and the table after the call is the
table before it (count 1, not 0). After `reset_all_aux_auths()` the same call
arms. -/
theorem arm_sees_earlier_aux_response :
    set_aux_auth_failed Build.plane
        (get_aux_auth_id Build.plane Env.nominal State.init 0).2.2 0 (some "no flight permit")
      = State.one_refused
    ∧ State.one_refused.armed = false
    ∧ rudder_arm_rejected Params.default Method.MAVLINK = false
    ∧ pre_arm_checks_evaluates Build.plane Params.default Env.nominal
        { State.one_refused with running_arming_checks := true } = true
    ∧ (arm Build.plane Params.default Env.nominal State.one_refused Method.MAVLINK true).1
        = false
    ∧ refused_by_aux_auth ∈
        (arm Build.plane Params.default Env.nominal State.one_refused Method.MAVLINK true).2.2
    ∧ (arm Build.plane Params.default Env.nominal State.one_refused Method.MAVLINK
        true).2.1.aux_table = State.one_refused.aux_table
    ∧ (arm Build.plane Params.default Env.nominal State.one_refused Method.MAVLINK
        true).2.1.aux_auth_count = 1
    ∧ (arm Build.plane Params.default Env.nominal
        (reset_all_aux_auths Build.plane State.one_refused) Method.MAVLINK true).1 = true := by
  decide

/-- C11, amended: `arm()` does not reset the auxiliary authorisation table. For
every call of `arm`, count, error flag, slot states and message buffer after the
call are those before it, and the `aux_auth_checks` of the attempt is evaluated on
the table as it stood before the attempt: in a build with the table, when the
call reaches `pre_arm_checks` and that evaluates its checks, a table on which
`aux_auth_checks` fails makes `arm(method, true)` return false. The table is
emptied by `reset_all_aux_auths()` only: after it the count is 0, the error flag
is clear, every slot of the array is `NO_RESPONSE`, the message buffer is released
and `aux_auth_checks` passes. -/
theorem arm_keeps_aux_table (b : Build) (p : Params) (e : Env) (s : State) (method : Method)
    (do_arming_checks : Bool) :
    (arm b p e s method do_arming_checks).2.1.aux_table = s.aux_table
    ∧ (∀ report : Bool,
        aux_auth_checks b p
            (pre_arm_checks_state b p e { s with running_arming_checks := true } report) report
          = aux_auth_checks b p { s with running_arming_checks := true } report)
    ∧ (b.AP_ARMING_AUX_AUTH_ENABLED = true → s.armed = false →
        rudder_arm_rejected p method = false →
        pre_arm_checks_evaluates b p e { s with running_arming_checks := true } = true →
        (aux_auth_checks b p { s with running_arming_checks := true } true).1 = false →
        (arm b p e s method true).1 = false)
    ∧ (reset_all_aux_auths b s).aux_auth_count = 0
    ∧ (reset_all_aux_auths b s).aux_auth_error = false
    ∧ (∀ st ∈ (reset_all_aux_auths b s).aux_auth_state.take b.aux_auth_count_max,
        st = AuxAuthStates.NO_RESPONSE)
    ∧ (reset_all_aux_auths b s).aux_auth_fail_msg = none
    ∧ (∀ display_failure : Bool,
        aux_auth_checks b p (reset_all_aux_auths b s) display_failure = (true, [])) := by
  have hsee : ∀ report : Bool,
      aux_auth_checks b p
          (pre_arm_checks_state b p e { s with running_arming_checks := true } report) report
        = aux_auth_checks b p { s with running_arming_checks := true } report :=
    fun report => aux_auth_checks_except_checks b p _ _ report
      (pre_arm_checks_state_frame b p e { s with running_arming_checks := true } report)
  refine ⟨arm_aux_table b p e s method do_arming_checks, hsee, ?_, rfl, rfl,
    reset_loop_slots _ _, rfl, fun df => aux_auth_checks_reset b p s df⟩
  intro hbuilt harmed hrud hev haux
  have hmem : built b.AP_ARMING_AUX_AUTH_ENABLED (aux_auth_checks b p
      (pre_arm_checks_state b p e { s with running_arming_checks := true } true) true)
      ∈ pre_arm_checks_operands b p e { s with running_arming_checks := true } true := by
    simp [pre_arm_checks_operands]
  have hpre : (pre_arm_checks b p e { s with running_arming_checks := true } true).1 = false := by
    rw [pre_arm_checks_is_and_aux b p e _ true hev]
    refine ⟨_, hmem, ?_⟩
    rw [hbuilt, hsee true]
    exact haux
  rw [arm_eq_condition b p e s method true harmed hrud, arm_condition_checked, hpre]
  rfl

/-! ## arm while armed -/

theorem arm_of_armed (b : Build) (p : Params) (e : Env) (s : State) (method : Method)
    (do_arming_checks : Bool) (harmed : s.armed = true) :
    arm b p e s method do_arming_checks = (false, s, []) := by
  unfold arm
  rw [if_pos harmed]

/-- C12: for every state with `armed == true`, every method and both values of
`do_arming_checks`, `arm` returns false, leaves the whole object unchanged (armed
flag, last arm method and time, `running_arming_checks`, the reporting state, the
auxiliary table and all the rest) and emits no event: no check is evaluated and
nothing is logged. -/
theorem arm_while_armed (b : Build) (p : Params) (e : Env) (s : State) (method : Method)
    (do_arming_checks : Bool) (harmed : s.armed = true) :
    arm b p e s method do_arming_checks = (false, s, []) :=
  arm_of_armed b p e s method do_arming_checks harmed

theorem arm_while_armed_witness :
    State.flying.armed = true
    ∧ arm Build.plane Params.default Env.nominal State.flying Method.RUDDER false
        = (false, State.flying, []) :=
  ⟨by decide, arm_while_armed Build.plane Params.default Env.nominal State.flying
    Method.RUDDER false (by decide)⟩

/-! ## Rudder arming -/

theorem rc_arm_checks_channel_method (b : Build) (p : Params) (s : State) (m m' : Method)
    (name : String) (c : RcStick) (h : c.arming_deflected = false) :
    rc_arm_checks_channel b p s m name c = rc_arm_checks_channel b p s m' name c := by
  unfold RcStick.arming_deflected at h
  unfold rc_arm_checks_channel
  by_cases hc : (c.get_control_in != 0) = true
  · rw [hc] at h
    have ha : c.is_arming_channel = false := by simpa using h
    simp [ha]
  · simp [hc]

theorem rc_arm_checks_method (b : Build) (p : Params) (e : Env) (s : State) (m m' : Method)
    (h : e.arming_stick_deflected = false) :
    rc_arm_checks b p e s m = rc_arm_checks b p e s m' := by
  unfold Env.arming_stick_deflected at h
  simp only [Bool.or_eq_false_iff] at h
  unfold rc_arm_checks
  rw [rc_arm_checks_channel_method b p s m m' "Roll" _ h.1.1,
    rc_arm_checks_channel_method b p s m m' "Pitch" _ h.1.2,
    rc_arm_checks_channel_method b p s m m' "Yaw" _ h.2]

theorem arm_checks_method (b : Build) (p : Params) (e : Env) (s : State) (m m' : Method)
    (h : e.arming_stick_deflected = false) :
    arm_checks b p e s m = arm_checks b p e s m' := by
  unfold arm_checks
  rw [rc_arm_checks_method b p e s m m' h]

theorem arm_condition_method (b : Build) (p : Params) (e : Env) (s : State) (m m' : Method)
    (do_arming_checks : Bool) (h : e.arming_stick_deflected = false) :
    arm_condition b p e s m do_arming_checks = arm_condition b p e s m' do_arming_checks := by
  unfold arm_condition
  simp only [arm_checks_method b p e _ m m' h]

theorem rudder_arm_rejected_iff (p : Params) (method : Method) :
    rudder_arm_rejected p method = true
      ↔ method = Method.RUDDER ∧ get_rudder_arming_type p = RudderArming.IS_DISABLED := by
  unfold rudder_arm_rejected
  simp

/-- The value and the state that `arm` returns do not depend on the method, the
recorded method apart, while no stick is off neutral on the arming channel and the
rudder policy rejects neither method. -/
theorem arm_method (b : Build) (p : Params) (e : Env) (s : State) (m m' : Method)
    (do_arming_checks : Bool) (h : e.arming_stick_deflected = false)
    (hm : rudder_arm_rejected p m = false) (hm' : rudder_arm_rejected p m' = false) :
    (arm b p e s m do_arming_checks).1 = (arm b p e s m' do_arming_checks).1
    ∧ { (arm b p e s m do_arming_checks).2.1 with last_arm_method := m' }
        = { (arm b p e s m' do_arming_checks).2.1 with last_arm_method := m' } := by
  cases harmed : s.armed
  · refine ⟨?_, ?_⟩
    · rw [arm_eq_condition b p e s m _ harmed hm, arm_eq_condition b p e s m' _ harmed hm',
        arm_condition_method b p e _ m m' _ h]
    · rw [arm_state b p e s m _ harmed hm, arm_state b p e s m' _ harmed hm',
        arm_condition_method b p e _ m m' _ h]
      split <;> rfl
  · rw [arm_of_armed b p e s m _ harmed, arm_of_armed b p e s m' _ harmed]
    exact ⟨rfl, rfl⟩

/-- C13, counterexample: fixed-wing build, default parameters (rudder arming
`ARMONLY`), a healthy disarmed vehicle whose yaw stick, the arming channel, is
held over. `arm(RUDDER, true)` arms, `arm(MAVLINK, true)` in the same state does
not: `rc_arm_checks` ignores the yaw input channel for the method `RUDDER` only,
so the method is not treated like any other. -/
theorem rudder_arm_ignores_arming_stick :
    State.init.armed = false
    ∧ get_rudder_arming_type Params.default = RudderArming.ARMONLY
    ∧ (arm Build.plane Params.default Env.yaw_held State.init Method.RUDDER true).1 = true
    ∧ (arm Build.plane Params.default Env.yaw_held State.init Method.MAVLINK true).1 = false
    ∧ (arm Build.plane Params.rudder_armdisarm Env.yaw_held State.init Method.RUDDER true).1
        = true
    ∧ (arm Build.plane Params.rudder_armdisarm Env.yaw_held State.init Method.MAVLINK true).1
        = false := by
  decide

/-- C13, amended: with rudder arming configured `IS_DISABLED`, `arm(RUDDER,
do_arming_checks)` returns false for both values of `do_arming_checks`, leaves the
object unchanged and emits no event (no check is evaluated). With any other rudder
arming type (`ARMONLY`, `ARMDISARM`) the method `RUDDER` is not rejected: on a
disarmed vehicle `arm` returns the value of its arming condition, as for every
other method. The one difference is in `rc_arm_checks`, which does not fail on a
stick that is off neutral on the arming channel when the method is `RUDDER`: while
no stick is off neutral on the arming channel, `arm(RUDDER, _)` and `arm(m, _)`
return the same value and leave the same object, the recorded method apart, for
every method `m`. -/
theorem arm_rudder (b : Build) (p : Params) (e : Env) (s : State) (do_arming_checks : Bool) :
    (get_rudder_arming_type p = RudderArming.IS_DISABLED →
      arm b p e s Method.RUDDER do_arming_checks = (false, s, []))
    ∧ (get_rudder_arming_type p ≠ RudderArming.IS_DISABLED → s.armed = false →
        ∀ m : Method,
          (arm b p e s m do_arming_checks).1
            = (arm_condition b p e { s with running_arming_checks := true } m
                do_arming_checks).1)
    ∧ (get_rudder_arming_type p ≠ RudderArming.IS_DISABLED →
        e.arming_stick_deflected = false →
        ∀ m : Method,
          (arm b p e s Method.RUDDER do_arming_checks).1 = (arm b p e s m do_arming_checks).1
          ∧ { (arm b p e s Method.RUDDER do_arming_checks).2.1 with last_arm_method := m }
              = { (arm b p e s m do_arming_checks).2.1 with last_arm_method := m }) := by
  have hnot : get_rudder_arming_type p ≠ RudderArming.IS_DISABLED →
      ∀ m : Method, rudder_arm_rejected p m = false := by
    intro hne m
    cases hr : rudder_arm_rejected p m
    · rfl
    · exact absurd ((rudder_arm_rejected_iff p m).mp hr).2 hne
  refine ⟨fun hdis => ?_, fun hne harmed m => ?_, fun hne hstick m => ?_⟩
  · exact arm_rejected b p e s Method.RUDDER do_arming_checks
      ((rudder_arm_rejected_iff p _).mpr ⟨rfl, hdis⟩)
  · exact arm_eq_condition b p e s m do_arming_checks harmed (hnot hne m)
  · exact arm_method b p e s Method.RUDDER m do_arming_checks hstick (hnot hne _) (hnot hne m)

/-! ## disarm -/

/-- C14: `disarm(method, do_disarm_checks)` returns true if and only if the
vehicle is armed and either the method is not `RUDDER`, or the method is `RUDDER`,
the throttle control input is not above zero and the rudder arming type is
`ARMDISARM`. So `disarm(RUDDER)` with the throttle above minimum returns false, and
the value returned, the state left and the events other than the `forced` field of
the log record do not depend on `do_disarm_checks`. -/
theorem disarm_iff (b : Build) (p : Params) (e : Env) (s : State) (method : Method)
    (do_disarm_checks : Bool) :
    ((disarm b p e s method do_disarm_checks).1 = true ↔
      s.armed = true
      ∧ (method ≠ Method.RUDDER
        ∨ (method = Method.RUDDER ∧ ¬ (e.rc.get_throttle_channel.get_control_in > 0)
            ∧ get_rudder_arming_type p = RudderArming.ARMDISARM)))
    ∧ (e.rc.get_throttle_channel.get_control_in > 0 →
        (disarm b p e s Method.RUDDER do_disarm_checks).1 = false)
    ∧ (∀ d : Bool, (disarm b p e s method d).1 = (disarm b p e s method do_disarm_checks).1
        ∧ (disarm b p e s method d).2.1 = (disarm b p e s method do_disarm_checks).2.1) := by
  refine ⟨?_, ?_, ?_⟩
  · unfold disarm
    cases harmed : s.armed
    · simp
    · by_cases hm : method = Method.RUDDER
      · by_cases ht : e.rc.get_throttle_channel.get_control_in > 0
        · simp [hm, ht]
        · by_cases hr : get_rudder_arming_type p = RudderArming.ARMDISARM
          · simp [hm, ht, hr]
          · simp [hm, ht, hr]
      · simp [hm]
  · intro ht
    unfold disarm
    cases harmed : s.armed
    · simp
    · simp [ht]
  · intro d
    unfold disarm
    constructor
    · refine ite_elim (fun z : Bool × State × List Event => z.1 = _) _ _ _ (fun h => ?_)
        (fun h => ?_)
      · rw [if_pos h]
      · rw [if_neg h]
        refine ite_elim (fun z : Bool × State × List Event => z.1 = _) _ _ _ (fun h => ?_)
          (fun h => ?_)
        · rw [if_pos h]
        · rw [if_neg h]
          refine ite_elim (fun z : Bool × State × List Event => z.1 = _) _ _ _ (fun h => ?_)
            (fun h => ?_)
          · rw [if_pos h]
          · rw [if_neg h]
    · refine ite_elim (fun z : Bool × State × List Event => z.2.1 = _) _ _ _ (fun h => ?_)
        (fun h => ?_)
      · rw [if_pos h]
      · rw [if_neg h]
        refine ite_elim (fun z : Bool × State × List Event => z.2.1 = _) _ _ _ (fun h => ?_)
          (fun h => ?_)
        · rw [if_pos h]
        · rw [if_neg h]
          refine ite_elim (fun z : Bool × State × List Event => z.2.1 = _) _ _ _ (fun h => ?_)
            (fun h => ?_)
          · rw [if_pos h]
          · rw [if_neg h]

theorem disarm_cases (b : Build) (p : Params) (e : Env) (s : State) (method : Method)
    (do_disarm_checks : Bool) :
    ((disarm b p e s method do_disarm_checks).1 = false
      ∧ (disarm b p e s method do_disarm_checks).2.1 = s)
    ∨ ((disarm b p e s method do_disarm_checks).1 = true
      ∧ (disarm b p e s method do_disarm_checks).2.1
          = { s with armed := false, last_disarm_method := method }) := by
  unfold disarm
  refine ite_elim (fun z : Bool × State × List Event => (z.1 = false ∧ z.2.1 = s)
    ∨ (z.1 = true ∧ z.2.1 = { s with armed := false, last_disarm_method := method }))
    _ _ _ (fun _ => Or.inl ⟨rfl, rfl⟩) (fun _ => ?_)
  refine ite_elim (fun z : Bool × State × List Event => (z.1 = false ∧ z.2.1 = s)
    ∨ (z.1 = true ∧ z.2.1 = { s with armed := false, last_disarm_method := method }))
    _ _ _ (fun _ => Or.inl ⟨rfl, rfl⟩) (fun _ => ?_)
  refine ite_elim (fun z : Bool × State × List Event => (z.1 = false ∧ z.2.1 = s)
    ∨ (z.1 = true ∧ z.2.1 = { s with armed := false, last_disarm_method := method }))
    _ _ _ (fun _ => Or.inl ⟨rfl, rfl⟩) (fun _ => Or.inr ⟨rfl, rfl⟩)

/-- C15: `disarm` is atomic on its state. Whenever it returns false the object is
unchanged, the armed flag and the last disarm method among the rest (a rejected
rudder disarm leaves the vehicle armed). Whenever it returns true the armed flag
is false, the last disarm method is `method`, and the last arm method and the arm
timestamp are unchanged. -/
theorem disarm_atomic (b : Build) (p : Params) (e : Env) (s : State) (method : Method)
    (do_disarm_checks : Bool) :
    ((disarm b p e s method do_disarm_checks).1 = false →
      (disarm b p e s method do_disarm_checks).2.1 = s
      ∧ (disarm b p e s method do_disarm_checks).2.1.armed = s.armed
      ∧ (disarm b p e s method do_disarm_checks).2.1.last_disarm_method = s.last_disarm_method)
    ∧ ((disarm b p e s method do_disarm_checks).1 = true →
        (disarm b p e s method do_disarm_checks).2.1.armed = false
        ∧ (disarm b p e s method do_disarm_checks).2.1.last_disarm_method = method
        ∧ (disarm b p e s method do_disarm_checks).2.1.last_arm_method = s.last_arm_method
        ∧ (disarm b p e s method do_disarm_checks).2.1.last_arm_time_us = s.last_arm_time_us
        ∧ (disarm b p e s method do_disarm_checks).2.1
            = { s with armed := false, last_disarm_method := method })
    ∧ (s.armed = true → method = Method.RUDDER →
        (e.rc.get_throttle_channel.get_control_in > 0
          ∨ get_rudder_arming_type p ≠ RudderArming.ARMDISARM) →
        (disarm b p e s method do_disarm_checks).1 = false
        ∧ (disarm b p e s method do_disarm_checks).2.1.armed = true) := by
  have hfalse : (disarm b p e s method do_disarm_checks).1 = false →
      (disarm b p e s method do_disarm_checks).2.1 = s := by
    intro h
    rcases disarm_cases b p e s method do_disarm_checks with hc | hc
    · exact hc.2
    · rw [hc.1] at h
      exact absurd h (by decide)
  refine ⟨?_, ?_, ?_⟩
  · intro h
    rw [hfalse h]
    exact ⟨rfl, rfl, rfl⟩
  · intro h
    rcases disarm_cases b p e s method do_disarm_checks with hc | hc
    · rw [hc.1] at h
      exact absurd h (by decide)
    · rw [hc.2]
      exact ⟨rfl, rfl, rfl, rfl, rfl⟩
  · intro harmed hm hor
    have hres : (disarm b p e s method do_disarm_checks).1 = false := by
      unfold disarm
      rcases hor with ht | hr
      · simp [harmed, hm, ht]
      · by_cases ht : e.rc.get_throttle_channel.get_control_in > 0
        · simp [harmed, hm, ht]
        · simp [harmed, hm, ht, hr]
    refine ⟨hres, ?_⟩
    rw [hfalse hres]
    exact harmed

/-! ## is_armed -/

/-- C16, counterexample: fixed-wing build with OpenDroneID built in, `REQUIRE` = 0
(NO), OpenDroneID present and enabled, the stored flag false: `arming_required()`
is `YES_MIN_PWM` and `is_armed()` returns false. -/
theorem is_armed_false_with_opendroneid :
    Params.no_requirement.require = Required.NO
    ∧ State.init.armed = false
    ∧ Build.plane.AP_OPENDRONEID_ENABLED = true
    ∧ Env.opendroneid_on.opendroneid_present = true
    ∧ Env.opendroneid_on.opendroneid_enabled = true
    ∧ arming_required Build.plane Params.no_requirement Env.opendroneid_on
        = Required.YES_MIN_PWM
    ∧ is_armed Build.plane Params.no_requirement Env.opendroneid_on State.init = false := by
  decide

/-- C16, amended: `is_armed()` returns true regardless of the stored flag whenever
`arming_required()` is NO, that is, whenever the `REQUIRE` parameter is NO and
OpenDroneID is not in force (not built in, not present, or not enabled). In every
other case `is_armed()` equals the stored flag: whenever `REQUIRE` is not NO, and
also when `REQUIRE` is NO with OpenDroneID built in, present and enabled, where
`arming_required()` is `YES_MIN_PWM`. -/
theorem is_armed_iff (b : Build) (p : Params) (e : Env) (s : State) :
    is_armed b p e s = (s.armed || arming_required b p e == Required.NO)
    ∧ (arming_required b p e = Required.NO ↔
        p.require = Required.NO
        ∧ ¬ (b.AP_OPENDRONEID_ENABLED = true ∧ e.opendroneid_present = true
              ∧ e.opendroneid_enabled = true))
    ∧ (arming_required b p e = Required.NO → is_armed b p e s = true)
    ∧ (p.require ≠ Required.NO → is_armed b p e s = s.armed)
    ∧ (p.require = Required.NO → b.AP_OPENDRONEID_ENABLED = true →
        e.opendroneid_present = true → e.opendroneid_enabled = true →
        arming_required b p e = Required.YES_MIN_PWM ∧ is_armed b p e s = s.armed) := by
  have hreq : arming_required b p e = Required.NO ↔
      p.require = Required.NO
      ∧ ¬ (b.AP_OPENDRONEID_ENABLED = true ∧ e.opendroneid_present = true
            ∧ e.opendroneid_enabled = true) := by
    unfold arming_required
    by_cases ho : b.AP_OPENDRONEID_ENABLED = true ∧ e.opendroneid_present = true
        ∧ e.opendroneid_enabled = true
    · obtain ⟨h1, h2, h3⟩ := ho
      by_cases hr : p.require = Required.NO
      · simp [h1, h2, h3, hr]
        decide
      · by_cases hc : (p.require != Required.YES_MIN_PWM
            && p.require != Required.YES_ZERO_PWM) = true
        · simp [h1, h2, h3, hr, hc]
          decide
        · simp [h1, h2, h3, hr, hc]
    · have hc : (b.AP_OPENDRONEID_ENABLED && (e.opendroneid_present && e.opendroneid_enabled)
          && (p.require != Required.YES_MIN_PWM && p.require != Required.YES_ZERO_PWM))
          = false := by
        rcases Bool.eq_false_or_eq_true b.AP_OPENDRONEID_ENABLED with h1 | h1
        · rcases Bool.eq_false_or_eq_true e.opendroneid_present with h2 | h2
          · rcases Bool.eq_false_or_eq_true e.opendroneid_enabled with h3 | h3
            · exact absurd ⟨h1, h2, h3⟩ ho
            · simp [h3]
          · simp [h2]
        · simp [h1]
      simp [hc, ho]
  refine ⟨rfl, hreq, ?_, ?_, ?_⟩
  · intro h
    unfold is_armed
    rw [h]
    simp
  · intro hne
    have : arming_required b p e ≠ Required.NO := fun h => hne (hreq.mp h).1
    unfold is_armed
    simp [this]
  · intro hr h1 h2 h3
    have hne : arming_required b p e ≠ Required.NO := fun h => (hreq.mp h).2 ⟨h1, h2, h3⟩
    refine ⟨?_, ?_⟩
    · unfold arming_required
      simp [h1, h2, h3, hr]
      decide
    · unfold is_armed
      simp [hne]

/-! ## The consistency timers -/

theorem sub32_of_le (a b : Nat) (hb : b ≤ a) (ha : a < 2 ^ 32) : sub32 a b = a - b := by
  unfold sub32
  have h32 : (2 : Nat) ^ 32 = 4294967296 := by norm_num
  rw [h32] at ha ⊢
  omega

theorem sub32_int (a b : Nat) : ((sub32 a b : Nat) : Int) = ((a : Int) - (b : Int)) % 2 ^ 32 := by
  unfold sub32
  have h32 : (2 : Nat) ^ 32 = 4294967296 := by norm_num
  have h32i : (2 : Int) ^ 32 = 4294967296 := by norm_num
  rw [h32, h32i]
  omega

theorem ins_accels_consistent_eq (e : Env) (s : State) :
    ins_accels_consistent e s
      = if e.ins.accels_consistent = false then (false, { s with last_accel_pass_ms := 0 })
        else
          ((decide (e.ins.get_accel_count ≤ 1)
              || decide (10000 ≤ sub32 e.millis
                  (if s.last_accel_pass_ms = 0 then e.millis else s.last_accel_pass_ms))),
            { s with last_accel_pass_ms :=
                if s.last_accel_pass_ms = 0 then e.millis else s.last_accel_pass_ms }) := by
  unfold ins_accels_consistent
  cases hc : e.ins.accels_consistent
  · simp
  · by_cases ha : s.last_accel_pass_ms = 0
    · by_cases hn : e.ins.get_accel_count ≤ 1
      · simp [ha, hn, Nat.not_lt.mpr hn]
      · by_cases hd : sub32 e.millis e.millis < 10000
        · simp [ha, hn, hd, Nat.lt_of_not_le hn, Nat.not_le.mpr hd]
        · simp [ha, hn, hd, Nat.lt_of_not_le hn, Nat.le_of_not_lt hd]
    · by_cases hn : e.ins.get_accel_count ≤ 1
      · simp [ha, hn, Nat.not_lt.mpr hn]
      · by_cases hd : sub32 e.millis s.last_accel_pass_ms < 10000
        · simp [ha, hn, hd, Nat.lt_of_not_le hn, Nat.not_le.mpr hd]
        · simp [ha, hn, hd, Nat.lt_of_not_le hn, Nat.le_of_not_lt hd]

theorem ins_gyros_consistent_eq (e : Env) (s : State) :
    ins_gyros_consistent e s
      = if e.ins.gyros_consistent = false then (false, { s with last_gyro_pass_ms := 0 })
        else
          ((decide (e.ins.get_gyro_count ≤ 1)
              || decide (10000 ≤ sub32 e.millis
                  (if s.last_gyro_pass_ms = 0 then e.millis else s.last_gyro_pass_ms))),
            { s with last_gyro_pass_ms :=
                if s.last_gyro_pass_ms = 0 then e.millis else s.last_gyro_pass_ms }) := by
  unfold ins_gyros_consistent
  cases hc : e.ins.gyros_consistent
  · simp
  · by_cases ha : s.last_gyro_pass_ms = 0
    · by_cases hn : e.ins.get_gyro_count ≤ 1
      · simp [ha, hn, Nat.not_lt.mpr hn]
      · by_cases hd : sub32 e.millis e.millis < 10000
        · simp [ha, hn, hd, Nat.lt_of_not_le hn, Nat.not_le.mpr hd]
        · simp [ha, hn, hd, Nat.lt_of_not_le hn, Nat.le_of_not_lt hd]
    · by_cases hn : e.ins.get_gyro_count ≤ 1
      · simp [ha, hn, Nat.not_lt.mpr hn]
      · by_cases hd : sub32 e.millis s.last_gyro_pass_ms < 10000
        · simp [ha, hn, hd, Nat.lt_of_not_le hn, Nat.not_le.mpr hd]
        · simp [ha, hn, hd, Nat.lt_of_not_le hn, Nat.le_of_not_lt hd]

theorem consistency_timer_step_eq (p : Bool) (n now a : Nat) :
    consistency_timer_step p n now a
      = if p = false then (false, 0)
        else
          ((decide (n ≤ 1) || decide (10000 ≤ sub32 now (if a = 0 then now else a))),
            if a = 0 then now else a) := by
  unfold consistency_timer_step
  cases p
  · simp
  · have h : ∀ x : Nat, decide (((now : Int) - (x : Int)) % 2 ^ 32 ≥ 10000)
        = decide (10000 ≤ sub32 now x) := by
      intro x
      rw [← sub32_int]
      apply decide_eq_decide.mpr
      constructor
      · intro hx
        exact_mod_cast hx
      · intro hx
        exact_mod_cast hx
    simp only [Bool.true_and, h]
    simp

/-- C18: `ins_accels_consistent` and `ins_gyros_consistent` each implement the
consistency-timer step on their own anchor (`last_accel_pass_ms`,
`last_gyro_pass_ms`) and write nothing else. From the observed predicate `p`, the
sensor count `n`, the time `now` and the anchor `a`, the new anchor `a'` is 0 if
`p` is false, `now` if `p` is true and `a == 0`, and `a` otherwise; the result is
true iff `p` is true and (`n <= 1` or `(now - a') mod 2^32 >= 10000`). So one
false observation clears the anchor, a true observation never moves a set anchor,
and with a single sensor the result is true as soon as `p` holds. -/
theorem consistency_timer_refines (e : Env) (s : State) :
    ins_accels_consistent e s
      = ((consistency_timer_step e.ins.accels_consistent e.ins.get_accel_count e.millis
            s.last_accel_pass_ms).1,
          { s with last_accel_pass_ms :=
              (consistency_timer_step e.ins.accels_consistent e.ins.get_accel_count e.millis
                s.last_accel_pass_ms).2 })
    ∧ ins_gyros_consistent e s
      = ((consistency_timer_step e.ins.gyros_consistent e.ins.get_gyro_count e.millis
            s.last_gyro_pass_ms).1,
          { s with last_gyro_pass_ms :=
              (consistency_timer_step e.ins.gyros_consistent e.ins.get_gyro_count e.millis
                s.last_gyro_pass_ms).2 })
    ∧ (e.ins.accels_consistent = false →
        ins_accels_consistent e s = (false, { s with last_accel_pass_ms := 0 }))
    ∧ (e.ins.gyros_consistent = false →
        ins_gyros_consistent e s = (false, { s with last_gyro_pass_ms := 0 }))
    ∧ (e.ins.accels_consistent = true → s.last_accel_pass_ms ≠ 0 →
        (ins_accels_consistent e s).2 = s)
    ∧ (e.ins.gyros_consistent = true → s.last_gyro_pass_ms ≠ 0 →
        (ins_gyros_consistent e s).2 = s)
    ∧ (e.ins.accels_consistent = true → e.ins.get_accel_count ≤ 1 →
        (ins_accels_consistent e s).1 = true)
    ∧ (e.ins.gyros_consistent = true → e.ins.get_gyro_count ≤ 1 →
        (ins_gyros_consistent e s).1 = true) := by
  refine ⟨?_, ?_, ?_, ?_, ?_, ?_, ?_, ?_⟩
  · rw [ins_accels_consistent_eq, consistency_timer_step_eq]
    cases e.ins.accels_consistent <;> simp
  · rw [ins_gyros_consistent_eq, consistency_timer_step_eq]
    cases e.ins.gyros_consistent <;> simp
  · intro h
    rw [ins_accels_consistent_eq, if_pos h]
  · intro h
    rw [ins_gyros_consistent_eq, if_pos h]
  · intro h ha
    rw [ins_accels_consistent_eq, if_neg (by simp [h]), if_neg ha]
  · intro h ha
    rw [ins_gyros_consistent_eq, if_neg (by simp [h]), if_neg ha]
  · intro h hn
    rw [ins_accels_consistent_eq, if_neg (by simp [h])]
    simp [hn]
  · intro h hn
    rw [ins_gyros_consistent_eq, if_neg (by simp [h])]
    simp [hn]

theorem ins_accels_consistent_calls_env (rest : List Env) :
    ∀ (s : State) (r : Env × Bool), r ∈ ins_accels_consistent_calls rest s → r.1 ∈ rest := by
  induction rest with
  | nil => intro s r h; simp [ins_accels_consistent_calls] at h
  | cons e rest ih =>
    intro s r h
    rw [ins_accels_consistent_calls, List.mem_cons] at h
    rcases h with h | h
    · rw [h]
      exact List.mem_cons_self _ _
    · exact List.mem_cons_of_mem _ (ih _ r h)

/-- What a call that returns true with redundant sensors tells: the sensors agree,
the anchor was set before the call and lies at least 10000 ms back. -/
theorem ins_accels_consistent_true (e : Env) (s : State)
    (hle : s.last_accel_pass_ms ≤ e.millis) (hbound : e.millis < 2 ^ 32)
    (hcount : e.ins.get_accel_count > 1) (hres : (ins_accels_consistent e s).1 = true) :
    e.ins.accels_consistent = true ∧ s.last_accel_pass_ms ≠ 0
      ∧ s.last_accel_pass_ms + 10000 ≤ e.millis := by
  rw [ins_accels_consistent_eq] at hres
  cases hc : e.ins.accels_consistent
  · rw [hc] at hres
    simp at hres
  · rw [hc] at hres
    have hn : ¬ e.ins.get_accel_count ≤ 1 := Nat.not_le.mpr hcount
    by_cases ha : s.last_accel_pass_ms = 0
    · rw [if_neg (by simp), if_pos ha, sub32_of_le _ _ (Nat.le_refl _) hbound] at hres
      simp [hn] at hres
    · rw [if_neg (by simp), if_neg ha, sub32_of_le _ _ hle hbound] at hres
      simp [hn] at hres
      exact ⟨rfl, ha, by omega⟩

/-- The anchor after a call. -/
theorem ins_accels_consistent_anchor (e : Env) (s : State) :
    (ins_accels_consistent e s).2.last_accel_pass_ms
      = if e.ins.accels_consistent = false then 0
        else if s.last_accel_pass_ms = 0 then e.millis else s.last_accel_pass_ms := by
  rw [ins_accels_consistent_eq]
  split <;> rfl

theorem ins_accels_consistent_window_aux (rest : List Env) :
    ∀ (s : State) (past : List (Nat × Bool)),
      (∀ q ∈ past, ∀ e ∈ rest, q.1 < e.millis) →
      (s.last_accel_pass_ms ≠ 0 → ∀ q ∈ past, s.last_accel_pass_ms ≤ q.1 → q.2 = true) →
      (∀ e ∈ rest, s.last_accel_pass_ms ≤ e.millis) →
      rest.Pairwise (fun x y => x.millis < y.millis) →
      (∀ e ∈ rest, e.millis < 2 ^ 32) →
      (∀ e ∈ rest, e.ins.get_accel_count > 1) →
      ∀ r ∈ ins_accels_consistent_calls rest s, r.2 = true →
        (∀ q ∈ past, r.1.millis ≤ q.1 + 10000 → q.2 = true)
        ∧ (∀ r' ∈ ins_accels_consistent_calls rest s,
            r.1.millis ≤ r'.1.millis + 10000 → r'.1.millis ≤ r.1.millis →
            r'.1.ins.accels_consistent = true) := by
  induction rest with
  | nil =>
    intro s past _ _ _ _ _ _ r h
    simp [ins_accels_consistent_calls] at h
  | cons e rest ih =>
    intro s past hpast hinv hle hsorted hbound hcount r hr hres
    have hsort := List.pairwise_cons.mp hsorted
    have hle0 : s.last_accel_pass_ms ≤ e.millis := hle e (List.mem_cons_self _ _)
    have hb0 : e.millis < 2 ^ 32 := hbound e (List.mem_cons_self _ _)
    have hc0 : e.ins.get_accel_count > 1 := hcount e (List.mem_cons_self _ _)
    have hanchor := ins_accels_consistent_anchor e s
    -- the invariants after the call of the head
    have hpast' : ∀ q ∈ (e.millis, e.ins.accels_consistent) :: past, ∀ e' ∈ rest,
        q.1 < e'.millis := by
      intro q hq e' he'
      rcases List.mem_cons.mp hq with hq | hq
      · rw [hq]
        exact hsort.1 e' he'
      · exact hpast q hq e' (List.mem_cons_of_mem _ he')
    have hinv' : (ins_accels_consistent e s).2.last_accel_pass_ms ≠ 0 →
        ∀ q ∈ (e.millis, e.ins.accels_consistent) :: past,
          (ins_accels_consistent e s).2.last_accel_pass_ms ≤ q.1 → q.2 = true := by
      rw [hanchor]
      intro hne q hq hq1
      by_cases hc : e.ins.accels_consistent = false
      · rw [if_pos hc] at hne
        exact absurd rfl hne
      · rw [if_neg hc] at hne hq1
        rcases List.mem_cons.mp hq with hq | hq
        · rw [hq]
          simpa using hc
        · by_cases ha : s.last_accel_pass_ms = 0
          · rw [if_pos ha] at hq1
            have := hpast q hq e (List.mem_cons_self _ _)
            omega
          · rw [if_neg ha] at hq1
            exact hinv ha q hq hq1
    have hle' : ∀ e' ∈ rest, (ins_accels_consistent e s).2.last_accel_pass_ms ≤ e'.millis := by
      rw [hanchor]
      intro e' he'
      have h1 := hsort.1 e' he'
      split
      · exact Nat.zero_le _
      · split <;> omega
    have hih := ih (ins_accels_consistent e s).2 ((e.millis, e.ins.accels_consistent) :: past)
      hpast' hinv' hle' hsort.2 (fun e' he' => hbound e' (List.mem_cons_of_mem _ he'))
      (fun e' he' => hcount e' (List.mem_cons_of_mem _ he'))
    rw [ins_accels_consistent_calls, List.mem_cons] at hr
    rcases hr with hr | hr
    · -- the call of the head returns true
      rw [hr] at hres ⊢
      obtain ⟨hcons, hne, hwin⟩ := ins_accels_consistent_true e s hle0 hb0 hc0 hres
      refine ⟨?_, ?_⟩
      · intro q hq hq1
        exact hinv hne q hq (by simp only at hq1; omega)
      · intro r' hr' _ h2
        rw [ins_accels_consistent_calls, List.mem_cons] at hr'
        rcases hr' with hr' | hr'
        · rw [hr']
          exact hcons
        · have h3 := hsort.1 _ (ins_accels_consistent_calls_env rest _ r' hr')
          simp only at h2
          omega
    · -- a later call returns true
      obtain ⟨h1, h2⟩ := hih r hr hres
      refine ⟨?_, ?_⟩
      · intro q hq hq1
        exact h1 q (List.mem_cons_of_mem _ hq) hq1
      · intro r' hr' h3 h4
        rw [ins_accels_consistent_calls, List.mem_cons] at hr'
        rcases hr' with hr' | hr'
        · rw [hr']
          rw [hr'] at h3
          exact h1 (e.millis, e.ins.accels_consistent) (List.mem_cons_self _ _) h3
        · exact h2 r' hr' h3 h4

/-- C17: consistency-timer correctness. For every sequence of calls of
`ins_accels_consistent` that starts with the anchor cleared, with strictly
increasing millisecond timestamps that do not wrap (all below 2^32), on a system
with more than one accelerometer: if the call at time T returns true, then every
call of the sequence with a timestamp in [T - 10000, T] observed the sensors
consistent. Stability is never reported for a window that holds a false
observation. -/
theorem consistency_timer_window (calls : List Env) (s : State)
    (hanchor : s.last_accel_pass_ms = 0)
    (hsorted : calls.Pairwise (fun x y => x.millis < y.millis))
    (hbound : ∀ e ∈ calls, e.millis < 2 ^ 32)
    (hcount : ∀ e ∈ calls, e.ins.get_accel_count > 1) :
    ∀ r ∈ ins_accels_consistent_calls calls s, r.2 = true →
      ∀ r' ∈ ins_accels_consistent_calls calls s,
        r.1.millis ≤ r'.1.millis + 10000 → r'.1.millis ≤ r.1.millis →
        r'.1.ins.accels_consistent = true := by
  intro r hr hres
  exact (ins_accels_consistent_window_aux calls s []
    (fun q hq => absurd hq (List.not_mem_nil _))
    (fun h => absurd hanchor h)
    (fun e _ => by rw [hanchor]; exact Nat.zero_le _)
    hsorted hbound hcount r hr hres).2

theorem consistency_timer_window_witness :
    State.constructed.last_accel_pass_ms = 0
    ∧ ins_accels_consistent_calls
        [Env.accels_at 1000 true, Env.accels_at 6000 false, Env.accels_at 10000 true,
          Env.accels_at 15900 false, Env.accels_at 20000 true, Env.accels_at 25900 true,
          Env.accels_at 30000 true] State.constructed
      = [(Env.accels_at 1000 true, false), (Env.accels_at 6000 false, false),
          (Env.accels_at 10000 true, false), (Env.accels_at 15900 false, false),
          (Env.accels_at 20000 true, false), (Env.accels_at 25900 true, false),
          (Env.accels_at 30000 true, true)]
    ∧ (∀ r ∈ ins_accels_consistent_calls
          [Env.accels_at 1000 true, Env.accels_at 6000 false, Env.accels_at 10000 true,
            Env.accels_at 15900 false, Env.accels_at 20000 true, Env.accels_at 25900 true,
            Env.accels_at 30000 true] State.constructed, r.2 = true →
        ∀ r' ∈ ins_accels_consistent_calls
          [Env.accels_at 1000 true, Env.accels_at 6000 false, Env.accels_at 10000 true,
            Env.accels_at 15900 false, Env.accels_at 20000 true, Env.accels_at 25900 true,
            Env.accels_at 30000 true] State.constructed,
          r.1.millis ≤ r'.1.millis + 10000 → r'.1.millis ≤ r.1.millis →
          r'.1.ins.accels_consistent = true) :=
  ⟨by decide, by decide,
    consistency_timer_window _ _ (by decide) (by decide) (by decide) (by decide)⟩

/-! ## The reporting state -/

/-- `ins_accels_consistent` writes its anchor and nothing else. -/
theorem ins_accels_consistent_snd (e : Env) (s : State) :
    ∃ a, (ins_accels_consistent e s).2 = { s with last_accel_pass_ms := a } := by
  rw [ins_accels_consistent_eq]
  split
  · exact ⟨_, rfl⟩
  · exact ⟨_, rfl⟩

/-- `ins_gyros_consistent` writes its anchor and nothing else. -/
theorem ins_gyros_consistent_snd (e : Env) (s : State) :
    ∃ a, (ins_gyros_consistent e s).2 = { s with last_gyro_pass_ms := a } := by
  rw [ins_gyros_consistent_eq]
  split
  · exact ⟨_, rfl⟩
  · exact ⟨_, rfl⟩

/-- `ins_checks` leaves the reporting state as it was. -/
theorem pre_arm_checks_state_reporting (b : Build) (p : Params) (e : Env) (s : State)
    (report : Bool) :
    (pre_arm_checks_state b p e s report).report_immediately = s.report_immediately
    ∧ (pre_arm_checks_state b p e s report).last_prearm_checks_result
        = s.last_prearm_checks_result
    ∧ (pre_arm_checks_state b p e s report).last_prearm_display_ms
        = s.last_prearm_display_ms := by
  unfold pre_arm_checks_state
  split
  · rw [ins_checks_snd]
    refine ins_checks_ins_cases b p e s report
      (fun z : State => z.report_immediately = s.report_immediately
        ∧ z.last_prearm_checks_result = s.last_prearm_checks_result
        ∧ z.last_prearm_display_ms = s.last_prearm_display_ms) ⟨rfl, rfl, rfl⟩ ?_ ?_
    · obtain ⟨a, ha⟩ := ins_accels_consistent_snd e s
      rw [ha]
      exact ⟨rfl, rfl, rfl⟩
    · obtain ⟨a, ha⟩ := ins_accels_consistent_snd e s
      obtain ⟨g, hg⟩ := ins_gyros_consistent_snd e (ins_accels_consistent e s).2
      rw [hg, ha]
      exact ⟨rfl, rfl, rfl⟩
  · exact ⟨rfl, rfl, rfl⟩

/-- The reporting state after a `pre_arm_checks` that evaluates its checks. -/
theorem pre_arm_checks_reporting (b : Build) (p : Params) (e : Env) (s : State) (report : Bool)
    (h : pre_arm_checks_evaluates b p e s = true) :
    (pre_arm_checks b p e s report).2.1.report_immediately
        = (s.report_immediately
            || (s.last_prearm_checks_result && !(pre_arm_checks b p e s report).1))
    ∧ (pre_arm_checks b p e s report).2.1.last_prearm_checks_result
        = (pre_arm_checks b p e s report).1
    ∧ (pre_arm_checks b p e s report).2.1.last_prearm_display_ms
        = s.last_prearm_display_ms := by
  obtain ⟨h1, h2, h3⟩ := pre_arm_checks_state_reporting b p e s report
  rw [pre_arm_checks_run b p e s report h]
  simp only
  unfold pre_arm_checks_finish
  cases hr : (pre_arm_checks_operands b p e s report).all fun r => r.1
  · cases hl : (pre_arm_checks_state b p e s report).last_prearm_checks_result
    · rw [← h2, hl]
      simp [h1, h3]
    · rw [← h2, hl]
      simp [h3]
  · simp [h1, h3]

/-- C20: whenever `pre_arm_checks` evaluates its checks, `report_immediately`
after the call is true exactly when it was true before or the stored previous
result was pass and the new result is fail: it is set on that transition, left as
it was in every other case, never cleared. The new result is stored as
`last_prearm_checks_result` for the next evaluation. -/
theorem pre_arm_checks_report_immediately (b : Build) (p : Params) (e : Env) (s : State)
    (report : Bool) (h : pre_arm_checks_evaluates b p e s = true) :
    (pre_arm_checks b p e s report).2.1.report_immediately
        = (s.report_immediately
            || (s.last_prearm_checks_result && !(pre_arm_checks b p e s report).1))
    ∧ (s.last_prearm_checks_result = true → (pre_arm_checks b p e s report).1 = false →
        (pre_arm_checks b p e s report).2.1.report_immediately = true)
    ∧ (¬ (s.last_prearm_checks_result = true ∧ (pre_arm_checks b p e s report).1 = false) →
        (pre_arm_checks b p e s report).2.1.report_immediately = s.report_immediately)
    ∧ (pre_arm_checks b p e s report).2.1.last_prearm_checks_result
        = (pre_arm_checks b p e s report).1 := by
  obtain ⟨h1, h2, _⟩ := pre_arm_checks_reporting b p e s report h
  refine ⟨h1, ?_, ?_, h2⟩
  · intro hl hr
    rw [h1, hl, hr]
    simp
  · intro hn
    rw [h1]
    cases hl : s.last_prearm_checks_result
    · simp
    · cases hr : (pre_arm_checks b p e s report).1
      · exact absurd ⟨hl, hr⟩ hn
      · simp

theorem pre_arm_checks_report_immediately_witness :
    pre_arm_checks_evaluates Build.plane Params.default Env.safety_on
        { State.init with last_prearm_checks_result := true } = true
    ∧ (pre_arm_checks Build.plane Params.default Env.safety_on
        { State.init with last_prearm_checks_result := true } false).1 = false
    ∧ (pre_arm_checks Build.plane Params.default Env.safety_on
        { State.init with last_prearm_checks_result := true } false).2.1.report_immediately
        = true
    ∧ (pre_arm_checks Build.plane Params.default Env.safety_on
        { State.init with last_prearm_checks_result := true }
        false).2.1.last_prearm_checks_result = false :=
  ⟨by decide, by decide,
    (pre_arm_checks_report_immediately Build.plane Params.default Env.safety_on
      { State.init with last_prearm_checks_result := true } false (by decide)).2.1
      (by decide) (by decide),
    by decide⟩

/-! ## update and the display of failures -/

theorem update_eq (b : Build) (p : Params) (e : Env) (s : State) :
    update b p e s
      = (update_params b p e,
          (pre_arm_checks b (update_params b p e) e (update_state e s)
            (update_display_fail b p e s)).2.1,
          (pre_arm_checks b (update_params b p e) e (update_state e s)
            (update_display_fail b p e s)).2.2) := by
  unfold update update_display_fail update_state update_params
  by_cases hd : update_display_due e s = true
  · have hd' := hd
    unfold update_display_due at hd'
    simp only [hd, hd', if_true]
  · have hd' := hd
    unfold update_display_due at hd'
    simp only [hd, hd', if_false]
    rfl

theorem take_set_self (l : List AuxAuthStates) (i : Nat) (a : AuxAuthStates) :
    (l.set i a).take i = l.take i := by
  apply List.ext_getElem?
  intro n
  rw [List.getElem?_take, List.getElem?_take]
  split
  · rename_i h
    rw [List.getElem?_set]
    rw [if_neg (by omega)]
  · rfl

/-- `set_aux_auth_failed` in one expression. -/
theorem set_aux_auth_failed_eq (b : Build) (s : State) (auth_id : Nat)
    (fail_msg : Option String) :
    set_aux_auth_failed b s auth_id fail_msg
      = if auth_id ≥ s.aux_auth_count then s
        else if lower_failed s.aux_auth_state auth_id = true ∨ s.aux_auth_fail_msg = none then
          { s with aux_auth_state := s.aux_auth_state.set auth_id .AUTH_FAILED }
        else
          { s with
            aux_auth_state := s.aux_auth_state.set auth_id .AUTH_FAILED
            aux_auth_fail_msg := some (aux_fail_text b fail_msg)
            aux_auth_fail_msg_source := auth_id } := by
  unfold set_aux_auth_failed lower_failed aux_fail_text
  by_cases hid : auth_id ≥ s.aux_auth_count
  · rw [if_pos hid, if_pos hid]
  · rw [if_neg hid, if_neg hid]
    dsimp only
    rw [take_set_self]
    by_cases hl : ((s.aux_auth_state.take auth_id).any fun st => st == .AUTH_FAILED) = true
    · rw [if_pos hl, if_pos (Or.inl hl)]
    · rw [if_neg hl]
      cases hm : s.aux_auth_fail_msg with
      | none =>
        rw [if_pos (Or.inr rfl)]
      | some m =>
        rw [if_neg (by simp [hl])]

theorem set_aux_auth_passed_twice (s : State) (auth_id : Nat) :
    set_aux_auth_passed (set_aux_auth_passed s auth_id) auth_id
      = set_aux_auth_passed s auth_id := by
  unfold set_aux_auth_passed
  by_cases hid : auth_id ≥ s.aux_auth_count
  · simp [hid]
  · simp [hid]

theorem set_aux_auth_failed_twice (b : Build) (s : State) (auth_id : Nat)
    (fail_msg : Option String) :
    set_aux_auth_failed b (set_aux_auth_failed b s auth_id fail_msg) auth_id fail_msg
      = set_aux_auth_failed b s auth_id fail_msg := by
  rw [set_aux_auth_failed_eq b s]
  by_cases hid : auth_id ≥ s.aux_auth_count
  · rw [if_pos hid, set_aux_auth_failed_eq, if_pos hid]
  · rw [if_neg hid]
    by_cases hl : lower_failed s.aux_auth_state auth_id = true ∨ s.aux_auth_fail_msg = none
    · rw [if_pos hl, set_aux_auth_failed_eq]
      dsimp only
      have hl' : lower_failed (s.aux_auth_state.set auth_id .AUTH_FAILED) auth_id = true
          ∨ s.aux_auth_fail_msg = none := by
        unfold lower_failed at hl ⊢
        rw [take_set_self]
        exact hl
      rw [if_neg hid, if_pos hl', List.set_set]
    · rw [if_neg hl, set_aux_auth_failed_eq]
      dsimp only
      have hl' : ¬ (lower_failed (s.aux_auth_state.set auth_id .AUTH_FAILED) auth_id = true
          ∨ some (aux_fail_text b fail_msg) = none) := by
        unfold lower_failed at hl ⊢
        rw [take_set_self]
        intro h
        rcases h with h | h
        · exact hl (Or.inl h)
        · exact absurd h (by simp)
      rw [if_neg hid, if_neg hl', List.set_set]

/-- C24: for every table and every `auth_id >= aux_auth_count`,
`set_aux_auth_passed(auth_id)` and `set_aux_auth_failed(auth_id, msg)` leave the
whole object unchanged (slot states, count, error flag, message buffer, message
source) and raise no error. For every id both setters are idempotent: calling
either twice in a row with the same arguments leaves the same object as calling
it once. -/
theorem aux_setters_defensive (b : Build) (s : State) (auth_id : Nat)
    (fail_msg : Option String) :
    (auth_id ≥ s.aux_auth_count →
      set_aux_auth_passed s auth_id = s ∧ set_aux_auth_failed b s auth_id fail_msg = s)
    ∧ set_aux_auth_passed (set_aux_auth_passed s auth_id) auth_id
        = set_aux_auth_passed s auth_id
    ∧ set_aux_auth_failed b (set_aux_auth_failed b s auth_id fail_msg) auth_id fail_msg
        = set_aux_auth_failed b s auth_id fail_msg
    ∧ (set_aux_auth_passed s auth_id).aux_auth_error = s.aux_auth_error
    ∧ (set_aux_auth_failed b s auth_id fail_msg).aux_auth_error = s.aux_auth_error := by
  refine ⟨fun hid => ⟨?_, ?_⟩, set_aux_auth_passed_twice s auth_id,
    set_aux_auth_failed_twice b s auth_id fail_msg, set_aux_auth_passed_error s auth_id,
    set_aux_auth_failed_error b s auth_id fail_msg⟩
  · unfold set_aux_auth_passed
    rw [if_pos hid]
  · unfold set_aux_auth_failed
    rw [if_pos hid]

/-! ## reset_all_aux_auths -/

theorem reset_loop_getElem? (n : Nat) (l : List AuxAuthStates) (i : Nat) :
    ((List.range n).foldl (fun st i => st.set i AuxAuthStates.NO_RESPONSE) l)[i]?
      = if i < n then l[i]?.map (fun _ => AuxAuthStates.NO_RESPONSE) else l[i]? := by
  induction n with
  | zero => simp
  | succ n ih =>
    rw [List.range_succ, List.foldl_append]
    simp only [List.foldl_cons, List.foldl_nil]
    rw [List.getElem?_set', ih]
    by_cases h1 : n = i
    · subst h1
      simp
      rfl
    · by_cases h2 : i < n
      · simp [h1, h2, Nat.lt_succ_of_lt h2]
      · have h3 : ¬ i < n + 1 := by omega
        simp [h1, h2, h3]

theorem reset_loop_twice (n : Nat) (l : List AuxAuthStates) :
    (List.range n).foldl (fun st i => st.set i AuxAuthStates.NO_RESPONSE)
        ((List.range n).foldl (fun st i => st.set i AuxAuthStates.NO_RESPONSE) l)
      = (List.range n).foldl (fun st i => st.set i AuxAuthStates.NO_RESPONSE) l := by
  apply List.ext_getElem?
  intro i
  rw [reset_loop_getElem?, reset_loop_getElem?]
  split
  · cases l[i]? <;> rfl
  · rfl

theorem reset_loop_replicate (n : Nat) (l : List AuxAuthStates) (h : l.length = n) :
    (List.range n).foldl (fun st i => st.set i AuxAuthStates.NO_RESPONSE) l
      = List.replicate n AuxAuthStates.NO_RESPONSE := by
  apply List.ext_getElem?
  intro i
  rw [reset_loop_getElem?, List.getElem?_replicate]
  by_cases hi : i < n
  · rw [if_pos hi, if_pos hi, List.getElem?_eq_getElem (by omega)]
    rfl
  · rw [if_neg hi, if_neg hi]
    exact List.getElem?_eq_none (by omega)

/-- C25: from every table, `reset_all_aux_auths` leaves `aux_auth_count == 0`,
the error flag false, every one of the `aux_auth_count_max` slots of the array in
`NO_RESPONSE` and the message buffer released (null). It is idempotent, and
`aux_auth_checks` returns true, with no message, right after it. -/
theorem reset_all_aux_auths_clears (b : Build) (p : Params) (s : State)
    (display_failure : Bool) :
    (reset_all_aux_auths b s).aux_auth_count = 0
    ∧ (reset_all_aux_auths b s).aux_auth_error = false
    ∧ (∀ i, i < b.aux_auth_count_max → i < s.aux_auth_state.length →
        (reset_all_aux_auths b s).aux_auth_state[i]? = some AuxAuthStates.NO_RESPONSE)
    ∧ (s.aux_auth_state.length = b.aux_auth_count_max →
        (reset_all_aux_auths b s).aux_auth_state
          = List.replicate b.aux_auth_count_max AuxAuthStates.NO_RESPONSE)
    ∧ (reset_all_aux_auths b s).aux_auth_fail_msg = none
    ∧ reset_all_aux_auths b (reset_all_aux_auths b s) = reset_all_aux_auths b s
    ∧ aux_auth_checks b p (reset_all_aux_auths b s) display_failure = (true, []) := by
  refine ⟨rfl, rfl, ?_, ?_, rfl, ?_, aux_auth_checks_reset b p s display_failure⟩
  · intro i hi hlen
    show ((List.range b.aux_auth_count_max).foldl
      (fun st i => st.set i AuxAuthStates.NO_RESPONSE) s.aux_auth_state)[i]? = _
    rw [reset_loop_getElem?, if_pos hi, List.getElem?_eq_getElem hlen]
    rfl
  · intro hlen
    exact reset_loop_replicate _ _ hlen
  · unfold reset_all_aux_auths
    simp only [reset_loop_twice]

/-- C26: after `reset_all_aux_auths` and before any new `get_aux_auth_id`,
`set_aux_auth_passed(id)` and `set_aux_auth_failed(id, msg)` have no effect for
every id, the ids that were valid before the reset among them: the object is
unchanged after any run of such calls, and `aux_auth_checks` returns the same
result with the same messages as without them. -/
theorem aux_setters_ignored_after_reset (b : Build) (p : Params) (s : State)
    (responses : List AuxResponse) (display_failure : Bool) :
    (∀ (auth_id : Nat) (fail_msg : Option String),
      set_aux_auth_passed (reset_all_aux_auths b s) auth_id = reset_all_aux_auths b s
      ∧ set_aux_auth_failed b (reset_all_aux_auths b s) auth_id fail_msg
          = reset_all_aux_auths b s)
    ∧ responses.foldl (AuxResponse.run b) (reset_all_aux_auths b s) = reset_all_aux_auths b s
    ∧ aux_auth_checks b p (responses.foldl (AuxResponse.run b) (reset_all_aux_auths b s))
          display_failure
        = aux_auth_checks b p (reset_all_aux_auths b s) display_failure := by
  have hone : ∀ (auth_id : Nat) (fail_msg : Option String),
      set_aux_auth_passed (reset_all_aux_auths b s) auth_id = reset_all_aux_auths b s
      ∧ set_aux_auth_failed b (reset_all_aux_auths b s) auth_id fail_msg
          = reset_all_aux_auths b s := by
    intro auth_id fail_msg
    have hid : auth_id ≥ (reset_all_aux_auths b s).aux_auth_count := Nat.zero_le _
    constructor
    · unfold set_aux_auth_passed
      rw [if_pos hid]
    · unfold set_aux_auth_failed
      rw [if_pos hid]
  have hall : responses.foldl (AuxResponse.run b) (reset_all_aux_auths b s)
      = reset_all_aux_auths b s := by
    induction responses with
    | nil => rfl
    | cons r rest ih =>
      rw [List.foldl_cons]
      cases r with
      | passed auth_id =>
        show List.foldl _ (set_aux_auth_passed _ auth_id) rest = _
        rw [(hone auth_id none).1]
        exact ih
      | failed auth_id fail_msg =>
        show List.foldl _ (set_aux_auth_failed b _ auth_id fail_msg) rest = _
        rw [(hone auth_id fail_msg).2]
        exact ih
  exact ⟨hone, hall, by rw [hall]⟩

/-! ## The table along a run of calls -/

/-- `get_aux_auth_id` in one expression. -/
theorem get_aux_auth_id_eq (b : Build) (e : Env) (s : State) (auth_id : Nat) :
    get_aux_auth_id b e s auth_id
      = if s.aux_auth_count ≥ b.aux_auth_count_max
            ∨ (s.aux_auth_fail_msg = none ∧ e.calloc_ok = false) then
          (false, auth_id, { s with aux_auth_error := true })
        else
          (true, s.aux_auth_count,
            { s with
              aux_auth_fail_msg := some (s.aux_auth_fail_msg.getD (.text ""))
              aux_auth_count := s.aux_auth_count + 1 }) := by
  unfold get_aux_auth_id
  by_cases hc : s.aux_auth_count ≥ b.aux_auth_count_max
  · rw [if_pos hc, if_pos (Or.inl hc)]
  · cases hm : s.aux_auth_fail_msg with
    | none => cases hk : e.calloc_ok <;> simp [hc, hm, hk]
    | some m => simp [hc, hm]

theorem aux_table_fields (s s' : State) (h : s'.aux_table = s.aux_table) :
    s'.aux_auth_count = s.aux_auth_count ∧ s'.aux_auth_error = s.aux_auth_error
    ∧ s'.aux_auth_state = s.aux_auth_state ∧ s'.aux_auth_fail_msg = s.aux_auth_fail_msg
    ∧ s'.aux_auth_fail_msg_source = s.aux_auth_fail_msg_source := by
  unfold State.aux_table at h
  simp only [Prod.mk.injEq] at h
  exact h

theorem aux_inv_congr (b : Build) (s s' : State) (g : Nat → Option CharBuffer)
    (h : s'.aux_table = s.aux_table) (hinv : aux_inv b s g) : aux_inv b s' g := by
  obtain ⟨h1, _, h3, h4, h5⟩ := aux_table_fields s s' h
  unfold aux_inv at hinv ⊢
  rw [h1, h3, h4, h5]
  exact hinv

theorem lower_failed_iff (l : List AuxAuthStates) (auth_id : Nat) :
    lower_failed l auth_id = true
      ↔ ∃ j, j < auth_id ∧ l[j]? = some AuxAuthStates.AUTH_FAILED := by
  unfold lower_failed
  rw [List.any_eq_true]
  constructor
  · rintro ⟨x, hx, hf⟩
    rw [List.mem_take_iff_getElem] at hx
    obtain ⟨j, hj, rfl⟩ := hx
    have hf' : l[j] = AuxAuthStates.AUTH_FAILED := by simpa using hf
    exact ⟨j, by omega, by rw [List.getElem?_eq_getElem (by omega), hf']⟩
  · rintro ⟨j, hj, hf⟩
    have hlen : j < l.length := by
      by_contra hn
      rw [List.getElem?_eq_none (by omega)] at hf
      exact absurd hf (by simp)
    rw [List.getElem?_eq_getElem hlen] at hf
    refine ⟨l[j], ?_, ?_⟩
    · rw [List.mem_take_iff_getElem]
      exact ⟨j, by omega, rfl⟩
    · simpa using hf

theorem aux_inv_reset (b : Build) (s : State) (g : Nat → Option CharBuffer)
    (hlen : s.aux_auth_state.length = b.aux_auth_count_max) :
    aux_inv b (reset_all_aux_auths b s) g := by
  have hst : (reset_all_aux_auths b s).aux_auth_state
      = List.replicate b.aux_auth_count_max AuxAuthStates.NO_RESPONSE :=
    reset_loop_replicate _ _ hlen
  have hno : ∀ i : Nat, (reset_all_aux_auths b s).aux_auth_state[i]?
      ≠ some AuxAuthStates.AUTH_FAILED := by
    intro i
    rw [hst, List.getElem?_replicate]
    split <;> simp
  refine ⟨⟨Nat.zero_le _, ?_⟩, ⟨fun _ => rfl, fun _ => rfl⟩, fun i _ => hno i,
    fun j _ => hno j, fun i h => absurd h (hno i), fun h => absurd h (Nat.not_lt_zero _)⟩
  rw [hst, List.length_replicate]

theorem aux_inv_get (b : Build) (e : Env) (s : State) (g : Nat → Option CharBuffer)
    (auth_id : Nat) (hinv : aux_inv b s g) :
    aux_inv b (get_aux_auth_id b e s auth_id).2.2 g := by
  obtain ⟨⟨hc, hlen⟩, hbuf, hfree, hlow, hrep, hmsg⟩ := hinv
  rw [get_aux_auth_id_eq]
  split
  · exact ⟨⟨hc, hlen⟩, hbuf, hfree, hlow, hrep, hmsg⟩
  · rename_i hok
    have hlt : s.aux_auth_count < b.aux_auth_count_max := by
      by_contra hn
      exact hok (Or.inl (by omega))
    refine ⟨⟨hlt, hlen⟩, ⟨fun h => absurd h (Nat.succ_ne_zero _), fun h => absurd h (by simp)⟩,
      fun i hi => hfree i (by dsimp only at hi; omega), hlow, hrep, ?_⟩
    intro hsrc hfailed
    dsimp only at hsrc hfailed ⊢
    by_cases hs : s.aux_auth_fail_msg_source < s.aux_auth_count
    · have hne : s.aux_auth_fail_msg ≠ none := fun h => by
        have := hbuf.mpr h
        omega
      rw [← hmsg hs hfailed]
      cases hm : s.aux_auth_fail_msg with
      | none => exact absurd hm hne
      | some m => rfl
    · exact absurd hfailed (hfree _ (by omega))

theorem aux_inv_passed (b : Build) (s : State) (g : Nat → Option CharBuffer) (auth_id : Nat)
    (hinv : aux_inv b s g) : aux_inv b (set_aux_auth_passed s auth_id) g := by
  obtain ⟨⟨hc, hlen⟩, hbuf, hfree, hlow, hrep, hmsg⟩ := hinv
  unfold set_aux_auth_passed
  split
  · exact ⟨⟨hc, hlen⟩, hbuf, hfree, hlow, hrep, hmsg⟩
  · have hset : ∀ i, (s.aux_auth_state.set auth_id AuxAuthStates.AUTH_PASSED)[i]?
        = some AuxAuthStates.AUTH_FAILED →
        i ≠ auth_id ∧ s.aux_auth_state[i]? = some AuxAuthStates.AUTH_FAILED := by
      intro i h
      rw [List.getElem?_set] at h
      by_cases hi : auth_id = i
      · rw [if_pos hi] at h
        split at h <;> simp at h
      · rw [if_neg hi] at h
        exact ⟨fun h' => hi h'.symm, h⟩
    refine ⟨⟨hc, by rw [List.length_set]; exact hlen⟩, hbuf,
      fun i hi h => hfree i hi (hset i h).2, fun j hj h => hlow j hj (hset j h).2,
      fun i h => hrep i (hset i h).2, ?_⟩
    intro hsrc hfailed
    exact hmsg hsrc (hset _ hfailed).2

theorem aux_inv_failed (b : Build) (s : State) (g : Nat → Option CharBuffer) (auth_id : Nat)
    (fail_msg : Option String) (hinv : aux_inv b s g) :
    aux_inv b (set_aux_auth_failed b s auth_id fail_msg)
      (Call.reported b s g (Call.set_aux_auth_failed auth_id fail_msg)) := by
  obtain ⟨⟨hc, hlen⟩, hbuf, hfree, hlow, hrep, hmsg⟩ := hinv
  rw [set_aux_auth_failed_eq]
  show aux_inv b _ (if auth_id < s.aux_auth_count then
    Function.update g auth_id (some (aux_fail_text b fail_msg)) else g)
  by_cases hid : auth_id ≥ s.aux_auth_count
  · rw [if_pos hid, if_neg (show ¬ auth_id < s.aux_auth_count by omega)]
    exact ⟨⟨hc, hlen⟩, hbuf, hfree, hlow, hrep, hmsg⟩
  · rw [if_neg hid, if_pos (show auth_id < s.aux_auth_count by omega)]
    have hne : s.aux_auth_fail_msg ≠ none := fun h => by
      have := hbuf.mpr h
      omega
    have hset : ∀ i, (s.aux_auth_state.set auth_id AuxAuthStates.AUTH_FAILED)[i]?
        = some AuxAuthStates.AUTH_FAILED →
        i = auth_id ∨ (i ≠ auth_id ∧ s.aux_auth_state[i]? = some AuxAuthStates.AUTH_FAILED) := by
      intro i h
      rw [List.getElem?_set] at h
      by_cases hi : auth_id = i
      · exact Or.inl hi.symm
      · rw [if_neg hi] at h
        exact Or.inr ⟨fun h' => hi h'.symm, h⟩
    have hfree' : ∀ i, s.aux_auth_count ≤ i →
        (s.aux_auth_state.set auth_id AuxAuthStates.AUTH_FAILED)[i]?
          ≠ some AuxAuthStates.AUTH_FAILED := by
      intro i hi h
      rcases hset i h with h1 | h1
      · omega
      · exact hfree i hi h1.2
    have hrep' : ∀ i, (s.aux_auth_state.set auth_id AuxAuthStates.AUTH_FAILED)[i]?
        = some AuxAuthStates.AUTH_FAILED →
        Function.update g auth_id (some (aux_fail_text b fail_msg)) i ≠ none := by
      intro i h
      rcases hset i h with h1 | h1
      · rw [h1, Function.update_same]
        simp
      · rw [Function.update_noteq h1.1]
        exact hrep i h1.2
    by_cases hl : lower_failed s.aux_auth_state auth_id = true
    · -- a lower slot is failed: the buffer is left alone
      rw [if_pos (Or.inl hl)]
      obtain ⟨j, hj, hjf⟩ := (lower_failed_iff _ _).mp hl
      have hsrc_le : s.aux_auth_fail_msg_source ≤ j := by
        by_contra hn
        exact hlow j (by omega) hjf
      have hne_src : s.aux_auth_fail_msg_source ≠ auth_id := by omega
      refine ⟨⟨hc, by rw [List.length_set]; exact hlen⟩, hbuf, hfree', ?_, hrep', ?_⟩
      · intro k hk h
        rcases hset k h with h1 | h1
        · dsimp only at hk
          omega
        · exact hlow k hk h1.2
      · intro hsrc hfailed
        dsimp only at hsrc hfailed ⊢
        rw [Function.update_noteq hne_src]
        rcases hset _ hfailed with h1 | h1
        · exact absurd h1 hne_src
        · exact hmsg hsrc h1.2
    · -- the message is stored
      rw [if_neg (by
        intro h
        rcases h with h | h
        · exact hl h
        · exact hne h)]
      refine ⟨⟨hc, by rw [List.length_set]; exact hlen⟩,
        ⟨fun h => absurd (hbuf.mp h) hne, fun h => absurd h (by simp)⟩, hfree', ?_, hrep', ?_⟩
      · intro k hk h
        dsimp only at hk
        rcases hset k h with h1 | h1
        · omega
        · exact hl ((lower_failed_iff _ _).mpr ⟨k, hk, h1.2⟩)
      · intro _ _
        dsimp only
        rw [Function.update_same]

theorem aux_inv_call (b : Build) (s : State) (g : Nat → Option CharBuffer) (c : Call)
    (hinv : aux_inv b s g) : aux_inv b (Call.run b s c) (Call.reported b s g c) := by
  cases c with
  | arm p e method d => exact aux_inv_congr b s _ g (arm_aux_table b p e s method d) hinv
  | disarm p e method d => exact aux_inv_congr b s _ g (disarm_aux_table b p e s method d) hinv
  | update p e => exact aux_inv_congr b s _ g (update_aux_table b p e s) hinv
  | pre_arm_checks p e report =>
    exact aux_inv_congr b s _ g (pre_arm_checks_aux_table b p e s report) hinv
  | get_aux_auth_id e auth_id => exact aux_inv_get b e s g auth_id hinv
  | set_aux_auth_passed auth_id => exact aux_inv_passed b s g auth_id hinv
  | set_aux_auth_failed auth_id fail_msg => exact aux_inv_failed b s g auth_id fail_msg hinv
  | reset_all_aux_auths => exact aux_inv_reset b s _ hinv.1.2

theorem run_reported_fst (b : Build) (calls : List Call) :
    ∀ sg : State × (Nat → Option CharBuffer),
      (run_reported b calls sg).1 = calls.foldl (Call.run b) sg.1 := by
  induction calls with
  | nil => intro sg; rfl
  | cons c rest ih =>
    intro sg
    rw [run_reported, ih, List.foldl_cons]

theorem aux_inv_run (b : Build) (calls : List Call) :
    ∀ sg : State × (Nat → Option CharBuffer), aux_inv b sg.1 sg.2 →
      aux_inv b (run_reported b calls sg).1 (run_reported b calls sg).2 := by
  induction calls with
  | nil => intro sg h; exact h
  | cons c rest ih =>
    intro sg h
    rw [run_reported]
    exact ih _ (aux_inv_call b sg.1 sg.2 c h)

/-- Every table reached from a reset table satisfies the invariant, with the
record of the texts reported along the way. -/
theorem aux_inv_reachable (b : Build) (s0 : State) (calls : List Call)
    (hlen : s0.aux_auth_state.length = b.aux_auth_count_max) :
    aux_inv b (calls.foldl (Call.run b) (reset_all_aux_auths b s0))
      (run_reported b calls (reset_all_aux_auths b s0, fun _ => none)).2 := by
  have h := aux_inv_run b calls (reset_all_aux_auths b s0, fun _ => none)
    (aux_inv_reset b s0 _ hlen)
  rw [run_reported_fst] at h
  exact h

/-! ## The message of aux_auth_checks -/

theorem getD_failed_iff (l : List AuxAuthStates) (i : Nat) :
    l.getD i AuxAuthStates.NO_RESPONSE = AuxAuthStates.AUTH_FAILED
      ↔ l[i]? = some AuxAuthStates.AUTH_FAILED := by
  rw [List.getD_eq_getElem?_getD]
  cases l[i]? with
  | none => simp
  | some x => simp

theorem aux_step_events (b : Build) (p : Params) (s : State) (df : Bool) (acc : AuxScan)
    (i : Nat) :
    (aux_auth_checks_step b p s df acc i).events
        = acc.events
          ++ (if s.aux_auth_state.getD i .NO_RESPONSE = AuxAuthStates.AUTH_FAILED
                ∧ i = s.aux_auth_fail_msg_source then
              check_failed b p s .AUX_AUTH df "%s" [CharBuffer.arg s.aux_auth_fail_msg]
            else [])
    ∧ (aux_auth_checks_step b p s df acc i).failure_msg_sent
        = (acc.failure_msg_sent
            || decide (s.aux_auth_state.getD i .NO_RESPONSE = AuxAuthStates.AUTH_FAILED
                ∧ i = s.aux_auth_fail_msg_source)) := by
  unfold aux_auth_checks_step
  generalize s.aux_auth_state.getD i .NO_RESPONSE = st
  cases st
  · simp
  · by_cases hsrc : i = s.aux_auth_fail_msg_source
    · simp [hsrc]
    · simp [hsrc]
  · simp

theorem scan_step_events (P : Nat → Prop) [DecidablePred P] (src n : Nat) (x : List Event) :
    ((if src < n ∧ P src then x else []) ++ (if P n ∧ n = src then x else [])
        = if src < n + 1 ∧ P src then x else [])
    ∧ (decide (src < n ∧ P src) || decide (P n ∧ n = src)) = decide (src < n + 1 ∧ P src) := by
  by_cases hf : P src
  · by_cases hlt : src < n
    · have hne : n ≠ src := by omega
      have hlt' : src < n + 1 := by omega
      simp [hf, hlt, hne, hlt']
    · by_cases heq : n = src
      · subst heq
        simp [hf]
      · have hlt' : ¬ src < n + 1 := by omega
        simp [hlt, heq, hlt']
  · by_cases heq : n = src
    · subst heq
      simp [hf]
    · simp [hf, heq]

theorem aux_scan_events (b : Build) (p : Params) (s : State) (df : Bool) (n : Nat) :
    ((List.range n).foldl (aux_auth_checks_step b p s df) ⟨false, false, false, []⟩).events
        = (if s.aux_auth_fail_msg_source < n
              ∧ s.aux_auth_state.getD s.aux_auth_fail_msg_source .NO_RESPONSE
                  = AuxAuthStates.AUTH_FAILED then
            check_failed b p s .AUX_AUTH df "%s" [CharBuffer.arg s.aux_auth_fail_msg]
          else [])
    ∧ ((List.range n).foldl (aux_auth_checks_step b p s df)
          ⟨false, false, false, []⟩).failure_msg_sent
        = decide (s.aux_auth_fail_msg_source < n
            ∧ s.aux_auth_state.getD s.aux_auth_fail_msg_source .NO_RESPONSE
                = AuxAuthStates.AUTH_FAILED) := by
  induction n with
  | zero =>
    refine ⟨?_, ?_⟩
    · rw [if_neg (fun h => Nat.not_lt_zero _ h.1)]
      rfl
    · rw [decide_eq_false (fun h => Nat.not_lt_zero _ h.1)]
      rfl
  | succ n ih =>
    rw [List.range_succ, List.foldl_append]
    simp only [List.foldl_cons, List.foldl_nil]
    obtain ⟨h1, h2⟩ := aux_step_events b p s df
      ((List.range n).foldl (aux_auth_checks_step b p s df) ⟨false, false, false, []⟩) n
    rw [h1, h2, ih.1, ih.2]
    exact scan_step_events
      (fun i => s.aux_auth_state.getD i .NO_RESPONSE = AuxAuthStates.AUTH_FAILED)
      s.aux_auth_fail_msg_source n _

/-- `aux_auth_checks` with the error flag clear, in one expression. -/
theorem aux_auth_checks_eq (b : Build) (p : Params) (s : State) (df : Bool)
    (herr : s.aux_auth_error = false) :
    aux_auth_checks b p s df
      = if ((List.range s.aux_auth_count).any fun i =>
              s.aux_auth_state.getD i .NO_RESPONSE == AuxAuthStates.AUTH_FAILED) = true then
          (false,
            if s.aux_auth_fail_msg_source < s.aux_auth_count
                ∧ s.aux_auth_state.getD s.aux_auth_fail_msg_source .NO_RESPONSE
                    = AuxAuthStates.AUTH_FAILED then
              check_failed b p s .AUX_AUTH df "%s" [CharBuffer.arg s.aux_auth_fail_msg]
            else check_failed b p s .AUX_AUTH df "Auxiliary authorisation refused" [])
        else if ((List.range s.aux_auth_count).any fun i =>
              s.aux_auth_state.getD i .NO_RESPONSE == AuxAuthStates.NO_RESPONSE) = true then
          (false, check_failed b p s .AUX_AUTH df "Waiting for auxiliary authorisation" [])
        else (true, []) := by
  obtain ⟨hev, hsent⟩ := aux_scan_events b p s df s.aux_auth_count
  obtain ⟨hfail, hwait⟩ := aux_scan_flags b p s df (List.range s.aux_auth_count)
    ⟨false, false, false, []⟩
  simp only [Bool.false_or] at hfail hwait
  unfold aux_auth_checks
  rw [if_neg (by simp [herr])]
  unfold aux_auth_checks_scan
  dsimp only
  rw [hfail, hwait, hev, hsent]
  by_cases hF : ((List.range s.aux_auth_count).any fun i =>
      s.aux_auth_state.getD i .NO_RESPONSE == AuxAuthStates.AUTH_FAILED) = true
  · rw [if_pos hF, if_pos hF]
    by_cases hsrc : s.aux_auth_fail_msg_source < s.aux_auth_count
        ∧ s.aux_auth_state.getD s.aux_auth_fail_msg_source .NO_RESPONSE
            = AuxAuthStates.AUTH_FAILED
    · rw [decide_eq_true hsrc, if_pos hsrc, if_pos hsrc]
      rfl
    · rw [decide_eq_false hsrc, if_neg hsrc, if_neg hsrc]
      rfl
  · rw [if_neg hF, if_neg hF]
    have hsrc : ¬ (s.aux_auth_fail_msg_source < s.aux_auth_count
        ∧ s.aux_auth_state.getD s.aux_auth_fail_msg_source .NO_RESPONSE
            = AuxAuthStates.AUTH_FAILED) := by
      intro h
      apply hF
      rw [List.any_eq_true]
      exact ⟨_, List.mem_range.mpr h.1, by rw [h.2]; rfl⟩
    rw [if_neg hsrc]
    split
    · rw [List.nil_append]
    · rfl

theorem call_count (b : Build) (s : State) (c : Call) (hc : c ≠ Call.reset_all_aux_auths) :
    ((Call.run b s c).aux_auth_count = s.aux_auth_count
      ∧ Call.allocated b s c = [])
    ∨ ((Call.run b s c).aux_auth_count = s.aux_auth_count + 1
      ∧ s.aux_auth_count < b.aux_auth_count_max
      ∧ Call.allocated b s c = [s.aux_auth_count]) := by
  cases c with
  | arm p e method d => exact Or.inl ⟨aux_table_count _ _ (arm_aux_table b p e s method d), rfl⟩
  | disarm p e method d =>
    exact Or.inl ⟨aux_table_count _ _ (disarm_aux_table b p e s method d), rfl⟩
  | update p e => exact Or.inl ⟨aux_table_count _ _ (update_aux_table b p e s), rfl⟩
  | pre_arm_checks p e report =>
    exact Or.inl ⟨aux_table_count _ _ (pre_arm_checks_aux_table b p e s report), rfl⟩
  | get_aux_auth_id e auth_id =>
    show ((get_aux_auth_id b e s auth_id).2.2.aux_auth_count = _ ∧
        (if (get_aux_auth_id b e s auth_id).1 then [(get_aux_auth_id b e s auth_id).2.1]
          else []) = [])
      ∨ ((get_aux_auth_id b e s auth_id).2.2.aux_auth_count = _ ∧ _ ∧
        (if (get_aux_auth_id b e s auth_id).1 then [(get_aux_auth_id b e s auth_id).2.1]
          else []) = [s.aux_auth_count])
    rw [get_aux_auth_id_eq]
    split
    · exact Or.inl ⟨rfl, rfl⟩
    · rename_i hok
      refine Or.inr ⟨rfl, ?_, rfl⟩
      by_contra hn
      exact hok (Or.inl (by omega))
  | set_aux_auth_passed auth_id =>
    refine Or.inl ⟨?_, rfl⟩
    show (set_aux_auth_passed s auth_id).aux_auth_count = _
    unfold set_aux_auth_passed
    split <;> rfl
  | set_aux_auth_failed auth_id fail_msg =>
    refine Or.inl ⟨?_, rfl⟩
    show (set_aux_auth_failed b s auth_id fail_msg).aux_auth_count = _
    rw [set_aux_auth_failed_eq]
    split
    · rfl
    · split <;> rfl
  | reset_all_aux_auths => exact absurd rfl hc

theorem allocated_ids_range (b : Build) (calls : List Call) :
    ∀ s : State, Call.reset_all_aux_auths ∉ calls →
      s.aux_auth_count ≤ b.aux_auth_count_max →
      s.aux_auth_count ≤ (calls.foldl (Call.run b) s).aux_auth_count
      ∧ (calls.foldl (Call.run b) s).aux_auth_count ≤ b.aux_auth_count_max
      ∧ allocated_ids b calls s
          = List.range' s.aux_auth_count
              ((calls.foldl (Call.run b) s).aux_auth_count - s.aux_auth_count) := by
  induction calls with
  | nil =>
    intro s _ hmax
    refine ⟨Nat.le_refl _, hmax, ?_⟩
    simp [allocated_ids]
  | cons c rest ih =>
    intro s hno hmax
    have hc : c ≠ Call.reset_all_aux_auths := fun h => hno (by rw [h]; exact List.mem_cons_self _ _)
    have hrest : Call.reset_all_aux_auths ∉ rest := fun h => hno (List.mem_cons_of_mem _ h)
    rw [List.foldl_cons, allocated_ids]
    rcases call_count b s c hc with ⟨h1, h2⟩ | ⟨h1, hlt, h2⟩
    · obtain ⟨i1, i2, i3⟩ := ih (Call.run b s c) hrest (by rw [h1]; exact hmax)
      rw [h1] at i1 i3
      rw [h2, i3]
      exact ⟨i1, i2, rfl⟩
    · obtain ⟨i1, i2, i3⟩ := ih (Call.run b s c) hrest (by rw [h1]; omega)
      rw [h1] at i1 i3
      rw [h2, i3]
      refine ⟨by omega, i2, ?_⟩
      have hk : (List.foldl (Call.run b) (Call.run b s c) rest).aux_auth_count - s.aux_auth_count
          = ((List.foldl (Call.run b) (Call.run b s c) rest).aux_auth_count
              - (s.aux_auth_count + 1)) + 1 := by omega
      rw [hk, List.range'_succ]
      rfl

/-- C23: starting from a reset table, along every run of calls without another
reset, the k-th call of `get_aux_auth_id` that returns true hands out the id k-1
(0, 1, 2, ...) and increments `aux_auth_count` by one: the ids handed out are
0, ..., `aux_auth_count` - 1 in order, no id is handed out twice, and at most
`aux_auth_count_max` ids are allocated. A call made when `aux_auth_count >=
aux_auth_count_max` returns false, does not write `auth_id` and leaves the count
and the slot states unchanged (it sets the error flag). A call made below the
maximum returns true when the message buffer exists or can be allocated. -/
theorem get_aux_auth_id_allocates (b : Build) (s0 : State) (calls : List Call)
    (hnoreset : Call.reset_all_aux_auths ∉ calls) :
    allocated_ids b calls (reset_all_aux_auths b s0)
        = List.range (calls.foldl (Call.run b) (reset_all_aux_auths b s0)).aux_auth_count
    ∧ (allocated_ids b calls (reset_all_aux_auths b s0)).Nodup
    ∧ (allocated_ids b calls (reset_all_aux_auths b s0)).length ≤ b.aux_auth_count_max
    ∧ (∀ (e : Env) (s : State) (auth_id : Nat),
        ((get_aux_auth_id b e s auth_id).1 = true →
          (get_aux_auth_id b e s auth_id).2.1 = s.aux_auth_count
          ∧ (get_aux_auth_id b e s auth_id).2.2.aux_auth_count = s.aux_auth_count + 1
          ∧ (get_aux_auth_id b e s auth_id).2.2.aux_auth_state = s.aux_auth_state)
        ∧ (s.aux_auth_count ≥ b.aux_auth_count_max →
            get_aux_auth_id b e s auth_id = (false, auth_id, { s with aux_auth_error := true }))
        ∧ (s.aux_auth_count < b.aux_auth_count_max →
            (s.aux_auth_fail_msg ≠ none ∨ e.calloc_ok = true) →
            (get_aux_auth_id b e s auth_id).1 = true)) := by
  obtain ⟨_, h2, h3⟩ := allocated_ids_range b calls (reset_all_aux_auths b s0) hnoreset
    (Nat.zero_le _)
  have hids : allocated_ids b calls (reset_all_aux_auths b s0)
      = List.range (calls.foldl (Call.run b) (reset_all_aux_auths b s0)).aux_auth_count := by
    rw [h3, List.range_eq_range']
    rfl
  refine ⟨hids, ?_, ?_, ?_⟩
  · rw [hids]
    exact List.nodup_range _
  · rw [hids, List.length_range]
    exact h2
  · intro e s auth_id
    rw [get_aux_auth_id_eq]
    refine ⟨?_, ?_, ?_⟩
    · intro h
      split at h
      · exact absurd h (by simp)
      · rename_i hok
        rw [if_neg hok]
        exact ⟨rfl, rfl, rfl⟩
    · intro hge
      rw [if_pos (Or.inl hge)]
    · intro hlt hbuf
      rw [if_neg (by
        intro h
        rcases h with h | h
        · omega
        · rcases hbuf with hb | hb
          · exact hb h.1
          · rw [hb] at h
            exact absurd h.2 (by simp))]

theorem get_aux_auth_id_allocates_witness :
    Call.reset_all_aux_auths ∉ calls_four_requests
    ∧ allocated_ids Build.plane calls_four_requests
        (reset_all_aux_auths Build.plane State.one_refused) = [0, 1, 2]
    ∧ allocated_ids Build.plane calls_four_requests
        (reset_all_aux_auths Build.plane State.one_refused)
      = List.range (calls_four_requests.foldl (Call.run Build.plane)
          (reset_all_aux_auths Build.plane State.one_refused)).aux_auth_count :=
  ⟨by decide, by decide,
    (get_aux_auth_id_allocates Build.plane State.one_refused calls_four_requests
      (by decide)).1⟩

/-! ## The message source -/

/-- C27, counterexample: from a reset table two authorisers are given ids 0 and
1, both refuse with a message, id 0 first, and id 0 passes afterwards. Slot 1 is
allocated and `AUTH_FAILED`, the lowest one so, but the message source is still 0
and the buffer still holds the message of id 0, not the one last reported for
slot 1; `aux_auth_checks` shows the refusal without a message. -/
theorem message_source_not_lowest_failed :
    (calls_first_refusal_withdrawn.foldl (Call.run Build.plane)
      (reset_all_aux_auths Build.plane State.init)).aux_auth_count = 2
    ∧ (calls_first_refusal_withdrawn.foldl (Call.run Build.plane)
        (reset_all_aux_auths Build.plane State.init)).aux_auth_state
        = [AuxAuthStates.AUTH_PASSED, AuxAuthStates.AUTH_FAILED, AuxAuthStates.NO_RESPONSE]
    ∧ (calls_first_refusal_withdrawn.foldl (Call.run Build.plane)
        (reset_all_aux_auths Build.plane State.init)).aux_auth_fail_msg_source = 0
    ∧ (calls_first_refusal_withdrawn.foldl (Call.run Build.plane)
        (reset_all_aux_auths Build.plane State.init)).aux_auth_fail_msg
        = some (CharBuffer.text "no flight permit")
    ∧ (run_reported Build.plane calls_first_refusal_withdrawn
        (reset_all_aux_auths Build.plane State.init, fun _ => none)).2 1
        = some (CharBuffer.text "battery too cold")
    ∧ aux_auth_checks Build.plane Params.default
        (calls_first_refusal_withdrawn.foldl (Call.run Build.plane)
          (reset_all_aux_auths Build.plane State.init)) true
        = (false, [refused_without_message]) := by
  decide

/-- C27, amended: table invariant, in every state reached from a reset table by
any sequence of calls (`get_aux_auth_id`, `set_aux_auth_passed`,
`set_aux_auth_failed`, `reset_all_aux_auths`, and `arm`, `disarm`, `update`,
`pre_arm_checks`). No slot below the recorded message source is `AUTH_FAILED`.
If the message-source slot is itself allocated and `AUTH_FAILED`, it is the
lowest-id slot in `AUTH_FAILED` and the buffer holds the text last reported for
that slot (the message cut to the buffer, or the generic refusal for a null
message). When the message-source slot has passed since, the source and the
buffer are left as they were, whatever other slots are `AUTH_FAILED`. -/
theorem message_source_invariant (b : Build) (s0 : State) (calls : List Call)
    (hlen : s0.aux_auth_state.length = b.aux_auth_count_max) :
    (∀ j, j < (calls.foldl (Call.run b) (reset_all_aux_auths b s0)).aux_auth_fail_msg_source →
      (calls.foldl (Call.run b) (reset_all_aux_auths b s0)).aux_auth_state[j]?
        ≠ some AuxAuthStates.AUTH_FAILED)
    ∧ ((calls.foldl (Call.run b) (reset_all_aux_auths b s0)).aux_auth_fail_msg_source
          < (calls.foldl (Call.run b) (reset_all_aux_auths b s0)).aux_auth_count →
        (calls.foldl (Call.run b) (reset_all_aux_auths b s0)).aux_auth_state[
            (calls.foldl (Call.run b) (reset_all_aux_auths b s0)).aux_auth_fail_msg_source]?
          = some AuxAuthStates.AUTH_FAILED →
        (calls.foldl (Call.run b) (reset_all_aux_auths b s0)).aux_auth_fail_msg
            = (run_reported b calls (reset_all_aux_auths b s0, fun _ => none)).2
                (calls.foldl (Call.run b) (reset_all_aux_auths b s0)).aux_auth_fail_msg_source
        ∧ (calls.foldl (Call.run b) (reset_all_aux_auths b s0)).aux_auth_fail_msg ≠ none)
    ∧ (∀ (t : State) (auth_id : Nat),
        (set_aux_auth_passed t auth_id).aux_auth_fail_msg_source = t.aux_auth_fail_msg_source
        ∧ (set_aux_auth_passed t auth_id).aux_auth_fail_msg = t.aux_auth_fail_msg) := by
  obtain ⟨_, _, _, hlow, hrep, hmsg⟩ := aux_inv_reachable b s0 calls hlen
  refine ⟨hlow, ?_, ?_⟩
  · intro hsrc hfailed
    have h := hmsg hsrc hfailed
    exact ⟨h, by rw [h]; exact hrep _ hfailed⟩
  · intro t auth_id
    unfold set_aux_auth_passed
    split <;> exact ⟨rfl, rfl⟩

theorem message_source_invariant_witness :
    State.init.aux_auth_state.length = Build.plane.aux_auth_count_max
    ∧ (calls_first_refusal_withdrawn.take 4).foldl (Call.run Build.plane)
        (reset_all_aux_auths Build.plane State.init)
      = { State.init with
          aux_auth_count := 2
          aux_auth_state := [.AUTH_FAILED, .AUTH_FAILED, .NO_RESPONSE]
          aux_auth_fail_msg := some (.text "no flight permit")
          aux_auth_fail_msg_source := 0 }
    ∧ ((calls_first_refusal_withdrawn.take 4).foldl (Call.run Build.plane)
        (reset_all_aux_auths Build.plane State.init)).aux_auth_fail_msg
      = (run_reported Build.plane (calls_first_refusal_withdrawn.take 4)
          (reset_all_aux_auths Build.plane State.init, fun _ => none)).2
          ((calls_first_refusal_withdrawn.take 4).foldl (Call.run Build.plane)
            (reset_all_aux_auths Build.plane State.init)).aux_auth_fail_msg_source :=
  ⟨by decide, by decide,
    ((message_source_invariant Build.plane State.init (calls_first_refusal_withdrawn.take 4)
      (by decide)).2.1 (by decide) (by decide)).1⟩

/-! ## First failure wins -/

theorem check_failed_running (b : Build) (p : Params) (s s' : State) (c : Check) (report : Bool)
    (fmt : String) (args : List FmtArg)
    (h : s'.running_arming_checks = s.running_arming_checks) :
    check_failed b p s' c report fmt args = check_failed b p s c report fmt args := by
  unfold check_failed metafmt
  rw [h]

/-- `aux_auth_checks` shows the buffer when the message source is an allocated
`AUTH_FAILED` slot. -/
theorem aux_auth_checks_shows (b : Build) (p : Params) (s : State) (df : Bool)
    (herr : s.aux_auth_error = false)
    (hsrc : s.aux_auth_fail_msg_source < s.aux_auth_count)
    (hf : s.aux_auth_state[s.aux_auth_fail_msg_source]? = some AuxAuthStates.AUTH_FAILED) :
    aux_auth_checks b p s df
      = (false, check_failed b p s .AUX_AUTH df "%s" [CharBuffer.arg s.aux_auth_fail_msg]) := by
  have hd := (getD_failed_iff _ _).mpr hf
  rw [aux_auth_checks_eq b p s df herr, if_pos, if_pos ⟨hsrc, hd⟩]
  rw [List.any_eq_true]
  exact ⟨_, List.mem_range.mpr hsrc, by rw [hd]; rfl⟩

/-- A message shorter than the buffer is stored whole, with its terminator. -/
theorem strncpy_fits (m : String) (n : Nat) (h : strlen m < n) :
    strncpy m n = CharBuffer.text m := by
  unfold strncpy
  rw [if_pos h]

/-- The object after a `set_aux_auth_failed` that stores its message. -/
theorem set_aux_auth_failed_stores (b : Build) (s : State) (auth_id : Nat)
    (fail_msg : Option String) (hid : auth_id < s.aux_auth_count)
    (hbuf : s.aux_auth_fail_msg ≠ none)
    (hlow : ¬ ∃ j, j < auth_id ∧ s.aux_auth_state[j]? = some AuxAuthStates.AUTH_FAILED) :
    set_aux_auth_failed b s auth_id fail_msg
      = { s with
          aux_auth_state := s.aux_auth_state.set auth_id .AUTH_FAILED
          aux_auth_fail_msg := some (aux_fail_text b fail_msg)
          aux_auth_fail_msg_source := auth_id } := by
  rw [set_aux_auth_failed_eq, if_neg (by omega), if_neg]
  intro h
  rcases h with h | h
  · exact hlow ((lower_failed_iff _ _).mp h)
  · exact hbuf h

/-- The object after a `set_aux_auth_failed` that finds a lower slot failed. -/
theorem set_aux_auth_failed_keeps (b : Build) (s : State) (auth_id : Nat)
    (fail_msg : Option String) (hid : auth_id < s.aux_auth_count)
    (hlow : ∃ j, j < auth_id ∧ s.aux_auth_state[j]? = some AuxAuthStates.AUTH_FAILED) :
    set_aux_auth_failed b s auth_id fail_msg
      = { s with aux_auth_state := s.aux_auth_state.set auth_id .AUTH_FAILED } := by
  rw [set_aux_auth_failed_eq, if_neg (by omega),
    if_pos (Or.inl ((lower_failed_iff _ _).mpr hlow))]

theorem getElem?_set_failed (l : List AuxAuthStates) (i : Nat) (h : i < l.length) :
    (l.set i AuxAuthStates.AUTH_FAILED)[i]? = some AuxAuthStates.AUTH_FAILED := by
  rw [List.getElem?_set, if_pos rfl, if_pos h]

/-- C28, counterexample: on the table of a 42-byte buffer after a reset and one
`get_aux_auth_id`, `set_aux_auth_failed(0, msg)` with a message of 42 bytes does
not store `msg`: `strncpy` fills the buffer with the 42 bytes and writes no
terminator, and `aux_auth_checks` hands that buffer to `%s`. The same happens to
a message of 41 characters that takes 42 bytes, and of a message of 43 bytes the
last byte is dropped as well. -/
theorem set_aux_auth_failed_long_message :
    Build.plane.aux_auth_str_len = 42
    ∧ (0 < ([Call.get_aux_auth_id Env.nominal 0].foldl (Call.run Build.plane)
        (reset_all_aux_auths Build.plane State.init)).aux_auth_count)
    ∧ (set_aux_auth_failed Build.plane
        ([Call.get_aux_auth_id Env.nominal 0].foldl (Call.run Build.plane)
          (reset_all_aux_auths Build.plane State.init))
        0 (some "refused: battery temperature below minimum")).aux_auth_fail_msg
      ≠ some (CharBuffer.text "refused: battery temperature below minimum")
    ∧ (set_aux_auth_failed Build.plane
        ([Call.get_aux_auth_id Env.nominal 0].foldl (Call.run Build.plane)
          (reset_all_aux_auths Build.plane State.init))
        0 (some "refused: battery temperature below minimum")).aux_auth_fail_msg
      = some (CharBuffer.unterminated (c_str "refused: battery temperature below minimum"))
    ∧ aux_auth_checks Build.plane Params.default
        (set_aux_auth_failed Build.plane
          ([Call.get_aux_auth_id Env.nominal 0].foldl (Call.run Build.plane)
            (reset_all_aux_auths Build.plane State.init))
          0 (some "refused: battery temperature below minimum")) true
      = (false, [Event.check_failed (some Check.AUX_AUTH) MAV_SEVERITY.CRITICAL "PreArm: %s"
          "%s" [FmtArg.unterminated (c_str "refused: battery temperature below minimum")]])
    ∧ ("refused: battery colder than 5 °C, no go!".length = 41
        ∧ (set_aux_auth_failed Build.plane
            ([Call.get_aux_auth_id Env.nominal 0].foldl (Call.run Build.plane)
              (reset_all_aux_auths Build.plane State.init))
            0 (some "refused: battery colder than 5 °C, no go!")).aux_auth_fail_msg
          = some (CharBuffer.unterminated (c_str "refused: battery colder than 5 °C, no go!")))
    ∧ (set_aux_auth_failed Build.plane
        ([Call.get_aux_auth_id Env.nominal 0].foldl (Call.run Build.plane)
          (reset_all_aux_auths Build.plane State.init))
        0 (some "no flight permit for this area in the night")).aux_auth_fail_msg
      = some (CharBuffer.unterminated (c_str "no flight permit for this area in the nigh")) := by
  refine ⟨rfl, ?_, ?_, ?_, ?_, ⟨?_, ?_⟩, ?_⟩ <;> decide

/-- C28, amended: on every table reached from a reset table, for a valid id
(`auth_id < aux_auth_count`), `set_aux_auth_failed(auth_id, msg)` marks slot
`auth_id` `AUTH_FAILED` and: if a slot with a lower id is `AUTH_FAILED`, leaves
the message buffer and the message source unchanged; otherwise copies `msg` (or
"Auxiliary authorisation refused" when `msg` is null) into the buffer with
`strncpy`, which stores a message shorter than the buffer (`aux_auth_str_len`
bytes) whole, and sets the source to `auth_id`. So, for messages that are stored
whole, on a table with no refusal and no error, if slot `j` fails before a lower
slot `i`, `aux_auth_checks` displays the message of `j` until `i` fails and the
message of `i` afterwards, and if `i` fails first the failure of `j` does not
replace its message. -/
theorem set_aux_auth_failed_first_wins (b : Build) (p : Params) (s0 s : State)
    (calls : List Call) (auth_id : Nat) (fail_msg : Option String)
    (hlen : s0.aux_auth_state.length = b.aux_auth_count_max)
    (hs : s = calls.foldl (Call.run b) (reset_all_aux_auths b s0))
    (hid : auth_id < s.aux_auth_count) :
    (set_aux_auth_failed b s auth_id fail_msg).aux_auth_state
        = s.aux_auth_state.set auth_id .AUTH_FAILED
    ∧ (set_aux_auth_failed b s auth_id fail_msg).aux_auth_state[auth_id]?
        = some AuxAuthStates.AUTH_FAILED
    ∧ ((∃ j, j < auth_id ∧ s.aux_auth_state[j]? = some AuxAuthStates.AUTH_FAILED) →
        (set_aux_auth_failed b s auth_id fail_msg).aux_auth_fail_msg = s.aux_auth_fail_msg
        ∧ (set_aux_auth_failed b s auth_id fail_msg).aux_auth_fail_msg_source
            = s.aux_auth_fail_msg_source)
    ∧ ((¬ ∃ j, j < auth_id ∧ s.aux_auth_state[j]? = some AuxAuthStates.AUTH_FAILED) →
        (set_aux_auth_failed b s auth_id fail_msg).aux_auth_fail_msg
            = some (aux_fail_text b fail_msg)
        ∧ (set_aux_auth_failed b s auth_id fail_msg).aux_auth_fail_msg_source = auth_id)
    ∧ aux_fail_text b none = strncpy "Auxiliary authorisation refused" b.aux_auth_str_len
    ∧ (∀ m : String, aux_fail_text b (some m) = strncpy m b.aux_auth_str_len)
    ∧ (∀ m : String, strlen m < b.aux_auth_str_len →
        strncpy m b.aux_auth_str_len = CharBuffer.text m)
    ∧ (∀ (i j : Nat) (mi mj : Option String) (df : Bool),
        i < j → j < s.aux_auth_count → s.aux_auth_error = false →
        (∀ k, k < s.aux_auth_count → s.aux_auth_state[k]? ≠ some AuxAuthStates.AUTH_FAILED) →
        strlen (mi.getD "Auxiliary authorisation refused") < b.aux_auth_str_len →
        strlen (mj.getD "Auxiliary authorisation refused") < b.aux_auth_str_len →
        aux_auth_checks b p (set_aux_auth_failed b s j mj) df
            = (false, check_failed b p s .AUX_AUTH df "%s"
                [.str (mj.getD "Auxiliary authorisation refused")])
        ∧ aux_auth_checks b p (set_aux_auth_failed b (set_aux_auth_failed b s j mj) i mi) df
            = (false, check_failed b p s .AUX_AUTH df "%s"
                [.str (mi.getD "Auxiliary authorisation refused")])
        ∧ aux_auth_checks b p (set_aux_auth_failed b (set_aux_auth_failed b s i mi) j mj) df
            = (false, check_failed b p s .AUX_AUTH df "%s"
                [.str (mi.getD "Auxiliary authorisation refused")])) := by
  have hinv := aux_inv_reachable b s0 calls hlen
  rw [← hs] at hinv
  obtain ⟨⟨hc, hl⟩, hbuf, _, _, _, _⟩ := hinv
  have hne : s.aux_auth_fail_msg ≠ none := fun h => by
    have := hbuf.mpr h
    omega
  have hidlen : ∀ k, k < s.aux_auth_count → k < s.aux_auth_state.length := by
    intro k hk
    omega
  have htext : ∀ m : Option String,
      strlen (m.getD "Auxiliary authorisation refused") < b.aux_auth_str_len →
      aux_fail_text b m = CharBuffer.text (m.getD "Auxiliary authorisation refused") := by
    intro m hm
    cases m with
    | none => exact strncpy_fits _ _ hm
    | some t => exact strncpy_fits _ _ hm
  refine ⟨?_, ?_, ?_, ?_, rfl, fun _ => rfl, fun m hm => strncpy_fits m _ hm, ?_⟩
  · rw [set_aux_auth_failed_eq, if_neg (by omega)]
    split <;> rfl
  · rw [set_aux_auth_failed_eq, if_neg (by omega)]
    split <;> exact getElem?_set_failed _ _ (hidlen _ hid)
  · intro hlow
    rw [set_aux_auth_failed_keeps b s auth_id fail_msg hid hlow]
    exact ⟨rfl, rfl⟩
  · intro hlow
    rw [set_aux_auth_failed_stores b s auth_id fail_msg hid hne hlow]
    exact ⟨rfl, rfl⟩
  · intro i j mi mj df hij hj herr hnone hmi hmj
    have hi : i < s.aux_auth_count := by omega
    -- slot j fails first
    have hsj := set_aux_auth_failed_stores b s j mj hj hne
      (by rintro ⟨k, hk, hf⟩; exact hnone k (by omega) hf)
    -- then the lower slot i
    have hsji : set_aux_auth_failed b (set_aux_auth_failed b s j mj) i mi
        = { s with
            aux_auth_state := (s.aux_auth_state.set j .AUTH_FAILED).set i .AUTH_FAILED
            aux_auth_fail_msg := some (aux_fail_text b mi)
            aux_auth_fail_msg_source := i } := by
      have h := set_aux_auth_failed_stores b (set_aux_auth_failed b s j mj) i mi
      rw [hsj] at h ⊢
      refine h hi (by simp) ?_
      rintro ⟨k, hk, hf⟩
      dsimp only at hf
      rw [List.getElem?_set, if_neg (by omega)] at hf
      exact hnone k (by omega) hf
    -- slot i fails first
    have hsi := set_aux_auth_failed_stores b s i mi hi hne
      (by rintro ⟨k, hk, hf⟩; exact hnone k (by omega) hf)
    have hsij : set_aux_auth_failed b (set_aux_auth_failed b s i mi) j mj
        = { s with
            aux_auth_state := (s.aux_auth_state.set i .AUTH_FAILED).set j .AUTH_FAILED
            aux_auth_fail_msg := some (aux_fail_text b mi)
            aux_auth_fail_msg_source := i } := by
      have h := set_aux_auth_failed_keeps b (set_aux_auth_failed b s i mi) j mj
      rw [hsi] at h ⊢
      exact h hj ⟨i, hij, getElem?_set_failed _ _ (hidlen _ hi)⟩
    rw [htext mi hmi] at hsji hsij
    rw [htext mj hmj] at hsj
    refine ⟨?_, ?_, ?_⟩
    · have h := aux_auth_checks_shows b p (set_aux_auth_failed b s j mj) df
      rw [hsj] at h ⊢
      rw [h herr hj (getElem?_set_failed _ _ (hidlen _ hj))]
      exact congrArg (Prod.mk false) (check_failed_running b p s _ _ _ _ _ rfl)
    · have h := aux_auth_checks_shows b p
        (set_aux_auth_failed b (set_aux_auth_failed b s j mj) i mi) df
      rw [hsji] at h ⊢
      rw [h herr hi (getElem?_set_failed _ _ (by rw [List.length_set]; exact hidlen _ hi))]
      exact congrArg (Prod.mk false) (check_failed_running b p s _ _ _ _ _ rfl)
    · have h := aux_auth_checks_shows b p
        (set_aux_auth_failed b (set_aux_auth_failed b s i mi) j mj) df
      rw [hsij] at h ⊢
      rw [h herr hi (by
        show ((s.aux_auth_state.set i .AUTH_FAILED).set j .AUTH_FAILED)[i]? = _
        rw [List.getElem?_set, if_neg (by omega)]
        exact getElem?_set_failed _ _ (hidlen _ hi))]
      exact congrArg (Prod.mk false) (check_failed_running b p s _ _ _ _ _ rfl)

theorem set_aux_auth_failed_first_wins_witness :
    State.init.aux_auth_state.length = Build.plane.aux_auth_count_max
    ∧ (calls_four_requests.foldl (Call.run Build.plane)
        (reset_all_aux_auths Build.plane State.init)).aux_auth_count = 3
    ∧ aux_auth_checks Build.plane Params.default
        (set_aux_auth_failed Build.plane
          ((calls_four_requests.take 4).foldl (Call.run Build.plane)
            (reset_all_aux_auths Build.plane State.init)) 2 (some "battery too cold")) true
      = (false, check_failed Build.plane Params.default
          ((calls_four_requests.take 4).foldl (Call.run Build.plane)
            (reset_all_aux_auths Build.plane State.init)) Check.AUX_AUTH true "%s"
          [FmtArg.str "battery too cold"])
    ∧ aux_auth_checks Build.plane Params.default
        (set_aux_auth_failed Build.plane
          (set_aux_auth_failed Build.plane
            ((calls_four_requests.take 4).foldl (Call.run Build.plane)
              (reset_all_aux_auths Build.plane State.init)) 2 (some "battery too cold"))
          0 (some "no flight permit")) true
      = (false, check_failed Build.plane Params.default
          ((calls_four_requests.take 4).foldl (Call.run Build.plane)
            (reset_all_aux_auths Build.plane State.init)) Check.AUX_AUTH true "%s"
          [FmtArg.str "no flight permit"]) :=
  ⟨by decide, by decide,
    ((set_aux_auth_failed_first_wins Build.plane Params.default State.init _
      (calls_four_requests.take 4) 2 none (by decide) rfl (by decide)).2.2.2.2.2.2.2
      0 2 (some "no flight permit") (some "battery too cold") true
      (by decide) (by decide) (by decide) (by decide) (by decide) (by decide)).1,
    ((set_aux_auth_failed_first_wins Build.plane Params.default State.init _
      (calls_four_requests.take 4) 2 none (by decide) rfl (by decide)).2.2.2.2.2.2.2
      0 2 (some "no flight permit") (some "battery too cold") true
      (by decide) (by decide) (by decide) (by decide) (by decide) (by decide)).2.1⟩

/-! ## The message of an allocation failure -/

theorem aux_auth_checks_error_eq (b : Build) (p : Params) (s : State) (df : Bool)
    (herr : s.aux_auth_error = true) :
    aux_auth_checks b p s df
      = (false, check_failed b p s .AUX_AUTH df
          (if s.aux_auth_fail_msg = none then "memory low for auxiliary authorisation"
           else "Too many auxiliary authorisers") []) := by
  unfold aux_auth_checks
  rw [if_pos herr]
  split <;> rfl

theorem call_keeps_buffer (b : Build) (s : State) (c : Call)
    (hc : c ≠ Call.reset_all_aux_auths) (hbuf : s.aux_auth_fail_msg ≠ none) :
    (Call.run b s c).aux_auth_fail_msg ≠ none := by
  cases c with
  | arm p e method d =>
    show (arm b p e s method d).2.1.aux_auth_fail_msg ≠ none
    rw [(aux_table_fields _ _ (arm_aux_table b p e s method d)).2.2.2.1]
    exact hbuf
  | disarm p e method d =>
    show (disarm b p e s method d).2.1.aux_auth_fail_msg ≠ none
    rw [(aux_table_fields _ _ (disarm_aux_table b p e s method d)).2.2.2.1]
    exact hbuf
  | update p e =>
    show (update b p e s).2.1.aux_auth_fail_msg ≠ none
    rw [(aux_table_fields _ _ (update_aux_table b p e s)).2.2.2.1]
    exact hbuf
  | pre_arm_checks p e report =>
    show (pre_arm_checks b p e s report).2.1.aux_auth_fail_msg ≠ none
    rw [(aux_table_fields _ _ (pre_arm_checks_aux_table b p e s report)).2.2.2.1]
    exact hbuf
  | get_aux_auth_id e auth_id =>
    show (get_aux_auth_id b e s auth_id).2.2.aux_auth_fail_msg ≠ none
    rw [get_aux_auth_id_eq]
    split
    · exact hbuf
    · simp
  | set_aux_auth_passed auth_id =>
    show (set_aux_auth_passed s auth_id).aux_auth_fail_msg ≠ none
    unfold set_aux_auth_passed
    split <;> exact hbuf
  | set_aux_auth_failed auth_id fail_msg =>
    show (set_aux_auth_failed b s auth_id fail_msg).aux_auth_fail_msg ≠ none
    rw [set_aux_auth_failed_eq]
    split
    · exact hbuf
    · split
      · exact hbuf
      · simp
  | reset_all_aux_auths => exact absurd rfl hc

theorem calls_keep_buffer (b : Build) (calls : List Call) :
    ∀ s : State, Call.reset_all_aux_auths ∉ calls → s.aux_auth_fail_msg ≠ none →
      (calls.foldl (Call.run b) s).aux_auth_fail_msg ≠ none := by
  induction calls with
  | nil => intro s _ h; exact h
  | cons c rest ih =>
    intro s hno h
    rw [List.foldl_cons]
    exact ih _ (fun hm => hno (List.mem_cons_of_mem _ hm))
      (call_keeps_buffer b s c (fun hc => hno (by rw [hc]; exact List.mem_cons_self _ _)) h)

/-- C30, counterexample: from a reset table the first `get_aux_auth_id` fails
because `calloc` fails (no slot is allocated, the count is 0 of 3), the second
one succeeds. The error flag is still set and the buffer is now allocated:
`aux_auth_checks` reports "Too many auxiliary authorisers", though no call failed
on capacity. -/
theorem memory_failure_reported_as_too_many :
    (reset_all_aux_auths Build.plane State.init).aux_auth_count = 0
    ∧ Build.plane.aux_auth_count_max = 3
    ∧ (get_aux_auth_id Build.plane Env.out_of_memory
        (reset_all_aux_auths Build.plane State.init) 0).1 = false
    ∧ (get_aux_auth_id Build.plane Env.nominal
        (get_aux_auth_id Build.plane Env.out_of_memory
          (reset_all_aux_auths Build.plane State.init) 0).2.2 0).1 = true
    ∧ aux_auth_checks Build.plane Params.default
        (get_aux_auth_id Build.plane Env.nominal
          (get_aux_auth_id Build.plane Env.out_of_memory
            (reset_all_aux_auths Build.plane State.init) 0).2.2 0).2.2 true
      = (false, [too_many_authorisers]) := by
  decide

/-- C30, amended: in every state reached from a reset table in which a
`get_aux_auth_id` has failed and no reset has followed, `aux_auth_checks` fails
and reports "memory low for auxiliary authorisation" when the message buffer is
not allocated, which is exactly when no id is allocated, and "Too many auxiliary
authorisers" when it is. A call that failed on capacity (with a capacity above
zero) is always reported as "Too many auxiliary authorisers". A call that failed
below the capacity failed on allocating the buffer, on an empty table; it is
reported as "memory low for auxiliary authorisation" as long as no id is
allocated, and as "Too many auxiliary authorisers" once a later `get_aux_auth_id`
has succeeded. -/
theorem aux_auth_error_message (b : Build) (p : Params) (s0 s s1 final : State)
    (calls0 calls : List Call) (e : Env) (auth_id : Nat) (df : Bool)
    (hlen : s0.aux_auth_state.length = b.aux_auth_count_max)
    (hs : s = calls0.foldl (Call.run b) (reset_all_aux_auths b s0))
    (hfail : (get_aux_auth_id b e s auth_id).1 = false)
    (hs1 : s1 = (get_aux_auth_id b e s auth_id).2.2)
    (hnoreset : Call.reset_all_aux_auths ∉ calls)
    (hfinal : final = calls.foldl (Call.run b) s1) :
    aux_auth_checks b p final df
        = (false, check_failed b p final .AUX_AUTH df
            (if final.aux_auth_fail_msg = none then "memory low for auxiliary authorisation"
             else "Too many auxiliary authorisers") [])
    ∧ (final.aux_auth_fail_msg = none ↔ final.aux_auth_count = 0)
    ∧ (s.aux_auth_count ≥ b.aux_auth_count_max → 0 < b.aux_auth_count_max →
        final.aux_auth_fail_msg ≠ none)
    ∧ (s.aux_auth_count < b.aux_auth_count_max →
        e.calloc_ok = false ∧ s.aux_auth_count = 0 ∧ s1.aux_auth_fail_msg = none
        ∧ aux_auth_checks b p s1 df
            = (false, check_failed b p s1 .AUX_AUTH df
                "memory low for auxiliary authorisation" [])) := by
  have hinv_s := aux_inv_reachable b s0 calls0 hlen
  rw [← hs] at hinv_s
  have hs1eq : s1 = { s with aux_auth_error := true } := by
    rw [hs1, get_aux_auth_id_eq]
    rw [get_aux_auth_id_eq] at hfail
    split
    · rfl
    · rename_i h
      rw [if_neg h] at hfail
      exact absurd hfail (by simp)
  have herr1 : s1.aux_auth_error = true := by rw [hs1eq]
  have herr : final.aux_auth_error = true := by
    rw [hfinal]
    exact calls_keep_error b calls s1 hnoreset herr1
  have hreach : final
      = (calls0 ++ Call.get_aux_auth_id e auth_id :: calls).foldl (Call.run b)
          (reset_all_aux_auths b s0) := by
    rw [List.foldl_append, List.foldl_cons, ← hs, hfinal, hs1]
    rfl
  have hinv_f := aux_inv_reachable b s0 (calls0 ++ Call.get_aux_auth_id e auth_id :: calls) hlen
  rw [← hreach] at hinv_f
  refine ⟨aux_auth_checks_error_eq b p final df herr,
    ⟨fun h => hinv_f.2.1.mpr h, fun h => hinv_f.2.1.mp h⟩, ?_, ?_⟩
  · intro hge hmax
    rw [hfinal]
    apply calls_keep_buffer b calls s1 hnoreset
    rw [hs1eq]
    intro h
    have := hinv_s.2.1.mpr h
    omega
  · intro hlt
    rw [get_aux_auth_id_eq] at hfail
    have hcond : s.aux_auth_fail_msg = none ∧ e.calloc_ok = false := by
      by_contra hn
      rw [if_neg (by
        intro h
        rcases h with h | h
        · omega
        · exact hn h)] at hfail
      exact absurd hfail (by simp)
    have hnone : s1.aux_auth_fail_msg = none := by
      rw [hs1eq]
      exact hcond.1
    refine ⟨hcond.2, hinv_s.2.1.mpr hcond.1, hnone, ?_⟩
    rw [aux_auth_checks_error_eq b p s1 df herr1, if_pos hnone]

theorem aux_auth_error_message_witness :
    State.init.aux_auth_state.length = Build.plane.aux_auth_count_max
    ∧ (get_aux_auth_id Build.plane Env.nominal
        ((calls_four_requests.take 4).foldl (Call.run Build.plane)
          (reset_all_aux_auths Build.plane State.init)) 7).1 = false
    ∧ aux_auth_checks Build.plane Params.default
        ([Call.set_aux_auth_passed 1].foldl (Call.run Build.plane)
          (get_aux_auth_id Build.plane Env.nominal
            ((calls_four_requests.take 4).foldl (Call.run Build.plane)
              (reset_all_aux_auths Build.plane State.init)) 7).2.2) true
      = (false, [too_many_authorisers]) :=
  ⟨by decide, by decide,
    ((aux_auth_error_message Build.plane Params.default State.init _ _ _
      (calls_four_requests.take 4) [Call.set_aux_auth_passed 1] Env.nominal 7 true
      (by decide) rfl (by decide) rfl (by decide) rfl).1).trans (by decide)⟩

/-! ## check_failed -/

/-- The tag of `metafmt` is "Arm: " while the arming checks run and "PreArm: "
otherwise. -/
theorem metafmt_tag_eq (s : State) :
    metafmt_tag (metafmt s) = (if s.running_arming_checks then "Arm: " else "PreArm: ") := by
  unfold metafmt
  cases s.running_arming_checks <;> decide

/-- What `snprintf` leaves in `taggedfmt` in `check_failed`. -/
theorem snprintf_taggedfmt (s : State) (fmt : String) :
    snprintf (MAVLINK_MSG_STATUSTEXT_FIELD_TEXT_LEN + 1) (metafmt s) fmt
      = if strlen (if s.running_arming_checks then "Arm: " else "PreArm: ") + strlen fmt ≤ 50
        then TaggedFmt.whole (if s.running_arming_checks then "Arm: %s" else "PreArm: %s") fmt
        else TaggedFmt.cut
          ((c_str (if s.running_arming_checks then "Arm: " else "PreArm: ") ++ c_str fmt).take
            50) := by
  unfold snprintf
  rw [metafmt_tag_eq]
  unfold strlen MAVLINK_MSG_STATUSTEXT_FIELD_TEXT_LEN metafmt
  simp only [List.length_append, Nat.lt_succ_iff, Nat.add_sub_cancel]

/-- C31, counterexample: outside `arm` the format "Multiple SERIAL ports configured
for RC input" of `serial_protocol_checks` has 45 bytes, 53 with the tag "PreArm: ",
and `taggedfmt` has room for 50: the status text that is sent ends in "RC in", so
it is not the tag followed by the message. The overload with a check cuts the
same way. -/
theorem check_failed_cuts_long_format :
    strlen "Multiple SERIAL ports configured for RC input" = 45
    ∧ serial_protocol_checks Build.plane Env.two_rcin_ports State.init true
        = (false, [Event.check_failed_cut none MAV_SEVERITY.CRITICAL
            (c_str "PreArm: Multiple SERIAL ports configured for RC in") []])
    ∧ check_failed_nocheck Build.plane State.init true
          "Multiple SERIAL ports configured for RC input" []
        = [Event.check_failed_cut none MAV_SEVERITY.CRITICAL
            (c_str "PreArm: Multiple SERIAL ports configured for RC in") []]
    ∧ check_failed Build.plane Params.default State.init Check.RC true
          "Multiple SERIAL ports configured for RC input" []
        = [Event.check_failed_cut (some Check.RC) MAV_SEVERITY.CRITICAL
            (c_str "PreArm: Multiple SERIAL ports configured for RC in") []]
    ∧ c_str "PreArm: Multiple SERIAL ports configured for RC in"
        ≠ c_str "PreArm: " ++ c_str "Multiple SERIAL ports configured for RC input"
    ∧ (∀ ev ∈ check_failed Build.plane Params.default State.init Check.RC true
          "Multiple SERIAL ports configured for RC input" [],
        ev.taggedfmt
          ≠ c_str "PreArm: " ++ c_str "Multiple SERIAL ports configured for RC input") := by
  refine ⟨?_, ?_, ?_, ?_, ?_, ?_⟩ <;> decide

/-- C31, amended: `check_failed(check, report, fmt, ...)` emits nothing when
`report` is false. When `report` is true it makes, in a build with a GCS, exactly one call of
`send_textv`: its format is the tag, "Arm: " if `running_arming_checks` is true
and "PreArm: " otherwise, followed by the message format `fmt`, the whole cut to
the 50 bytes of `taggedfmt` before the arguments are formatted; a `fmt` of at most
42 bytes is sent whole behind either tag. The severity is CRITICAL if
`check_enabled(check)` and DEBUG if the check is disabled, and the arguments are
passed on. In a build without a GCS nothing is sent. The overload without a check
does the same with the severity CRITICAL. Both are `const` members that return
nothing: they yield events only, and these depend on the object through
`running_arming_checks` alone. -/
theorem check_failed_emits (b : Build) (p : Params) (s : State) (check : Check)
    (fmt : String) (args : List FmtArg) :
    check_failed b p s check false fmt args = []
    ∧ (b.HAL_GCS_ENABLED = true →
        check_failed b p s check true fmt args
          = [if strlen (if s.running_arming_checks then "Arm: " else "PreArm: ")
                  + strlen fmt ≤ 50 then
              Event.check_failed (some check)
                (if check_enabled p check then MAV_SEVERITY.CRITICAL else MAV_SEVERITY.DEBUG)
                (if s.running_arming_checks then "Arm: %s" else "PreArm: %s") fmt args
            else
              Event.check_failed_cut (some check)
                (if check_enabled p check then MAV_SEVERITY.CRITICAL else MAV_SEVERITY.DEBUG)
                ((c_str (if s.running_arming_checks then "Arm: " else "PreArm: ")
                  ++ c_str fmt).take 50) args])
    ∧ (b.HAL_GCS_ENABLED = false → check_failed b p s check true fmt args = [])
    ∧ check_failed_nocheck b s false fmt args = []
    ∧ (b.HAL_GCS_ENABLED = true →
        check_failed_nocheck b s true fmt args
          = [if strlen (if s.running_arming_checks then "Arm: " else "PreArm: ")
                  + strlen fmt ≤ 50 then
              Event.check_failed none MAV_SEVERITY.CRITICAL
                (if s.running_arming_checks then "Arm: %s" else "PreArm: %s") fmt args
            else
              Event.check_failed_cut none MAV_SEVERITY.CRITICAL
                ((c_str (if s.running_arming_checks then "Arm: " else "PreArm: ")
                  ++ c_str fmt).take 50) args])
    ∧ (b.HAL_GCS_ENABLED = false → check_failed_nocheck b s true fmt args = [])
    ∧ (∀ (report : Bool),
        (∀ ev ∈ check_failed b p s check report fmt args,
          ev.taggedfmt
            = (c_str (if s.running_arming_checks then "Arm: " else "PreArm: ")
                ++ c_str fmt).take 50)
        ∧ (∀ ev ∈ check_failed_nocheck b s report fmt args,
          ev.taggedfmt
            = (c_str (if s.running_arming_checks then "Arm: " else "PreArm: ")
                ++ c_str fmt).take 50))
    ∧ (strlen fmt ≤ 42 →
        strlen (if s.running_arming_checks then "Arm: " else "PreArm: ") + strlen fmt ≤ 50)
    ∧ (∀ (s' : State) (report : Bool),
        s'.running_arming_checks = s.running_arming_checks →
        check_failed b p s' check report fmt args = check_failed b p s check report fmt args
        ∧ check_failed_nocheck b s' report fmt args
            = check_failed_nocheck b s report fmt args) := by
  have hsev : (if (!check_enabled p check) = true then MAV_SEVERITY.DEBUG
      else MAV_SEVERITY.CRITICAL)
      = (if check_enabled p check then MAV_SEVERITY.CRITICAL else MAV_SEVERITY.DEBUG) := by
    cases check_enabled p check <;> rfl
  have hone : b.HAL_GCS_ENABLED = true →
      check_failed b p s check true fmt args
        = [if strlen (if s.running_arming_checks then "Arm: " else "PreArm: ")
                + strlen fmt ≤ 50 then
            Event.check_failed (some check)
              (if check_enabled p check then MAV_SEVERITY.CRITICAL else MAV_SEVERITY.DEBUG)
              (if s.running_arming_checks then "Arm: %s" else "PreArm: %s") fmt args
          else
            Event.check_failed_cut (some check)
              (if check_enabled p check then MAV_SEVERITY.CRITICAL else MAV_SEVERITY.DEBUG)
              ((c_str (if s.running_arming_checks then "Arm: " else "PreArm: ")
                ++ c_str fmt).take 50) args] := by
    intro hgcs
    unfold check_failed
    rw [if_neg (by simp)]
    dsimp only
    rw [if_pos hgcs, snprintf_taggedfmt, hsev]
    by_cases hfit : strlen (if s.running_arming_checks then "Arm: " else "PreArm: ")
        + strlen fmt ≤ 50
    · rw [if_pos hfit, if_pos hfit]
      rfl
    · rw [if_neg hfit, if_neg hfit]
      rfl
  have hnone : b.HAL_GCS_ENABLED = true →
      check_failed_nocheck b s true fmt args
        = [if strlen (if s.running_arming_checks then "Arm: " else "PreArm: ")
                + strlen fmt ≤ 50 then
            Event.check_failed none MAV_SEVERITY.CRITICAL
              (if s.running_arming_checks then "Arm: %s" else "PreArm: %s") fmt args
          else
            Event.check_failed_cut none MAV_SEVERITY.CRITICAL
              ((c_str (if s.running_arming_checks then "Arm: " else "PreArm: ")
                ++ c_str fmt).take 50) args] := by
    intro hgcs
    unfold check_failed_nocheck
    rw [if_pos hgcs, if_neg (by simp)]
    dsimp only
    rw [snprintf_taggedfmt]
    by_cases hfit : strlen (if s.running_arming_checks then "Arm: " else "PreArm: ")
        + strlen fmt ≤ 50
    · rw [if_pos hfit, if_pos hfit]
      rfl
    · rw [if_neg hfit, if_neg hfit]
      rfl
  have htext : ∀ (c : Option Check) (sev : MAV_SEVERITY),
      (if strlen (if s.running_arming_checks then "Arm: " else "PreArm: ")
            + strlen fmt ≤ 50 then
          Event.check_failed c sev
            (if s.running_arming_checks then "Arm: %s" else "PreArm: %s") fmt args
        else
          Event.check_failed_cut c sev
            ((c_str (if s.running_arming_checks then "Arm: " else "PreArm: ")
              ++ c_str fmt).take 50) args).taggedfmt
        = (c_str (if s.running_arming_checks then "Arm: " else "PreArm: ")
            ++ c_str fmt).take 50 := by
    intro c sev
    by_cases hfit : strlen (if s.running_arming_checks then "Arm: " else "PreArm: ")
        + strlen fmt ≤ 50
    · rw [if_pos hfit]
      have htag := metafmt_tag_eq s
      unfold metafmt at htag
      show c_str (metafmt_tag _) ++ c_str fmt = _
      rw [htag, List.take_of_length_le]
      rw [List.length_append]
      exact hfit
    · rw [if_neg hfit]
      rfl
  refine ⟨rfl, hone, ?_, ?_, hnone, ?_, ?_, ?_, ?_⟩
  · intro hgcs
    unfold check_failed
    simp [hgcs]
  · unfold check_failed_nocheck
    simp
  · intro hgcs
    unfold check_failed_nocheck
    simp [hgcs]
  · intro report
    refine ⟨?_, ?_⟩
    · intro ev hev
      obtain ⟨hr, hg, _⟩ := check_failed_mem b p s check report fmt args ev hev
      rw [hr, hone hg] at hev
      rw [List.mem_singleton.mp hev]
      exact htext _ _
    · intro ev hev
      obtain ⟨hr, hg, _⟩ := check_failed_nocheck_mem b s report fmt args ev hev
      rw [hr, hnone hg] at hev
      rw [List.mem_singleton.mp hev]
      exact htext _ _
  · intro hfit
    have ht := metafmt_tag_length s
    rw [metafmt_tag_eq] at ht
    omega
  · intro s' report hrun
    unfold check_failed check_failed_nocheck metafmt
    rw [hrun]
    exact ⟨rfl, rfl⟩

/-! ## check_forced_logging -/

/-- The events of a successful `disarm`. -/
theorem disarm_events (b : Build) (p : Params) (e : Env) (s : State) (method : Method)
    (do_disarm_checks : Bool) (hok : (disarm b p e s method do_disarm_checks).1 = true) :
    (disarm b p e s method do_disarm_checks).2.2
      = (if b.HAL_LOGGING_ENABLED then
          Log_Write_Disarm b p e { s with armed := false, last_disarm_method := method }
            (!do_disarm_checks) method ++ check_forced_logging method
        else [])
        ++ (if b.HAL_HAVE_SAFETY_SWITCH && e.board_safety_on_disarm = some true then
              [Event.rcout_force_safety_on] else [])
        ++ (if b.HAL_GYROFFT_ENABLED && e.ins.fft.isSome then
              [Event.fft_save_params_on_disarm] else [])
        ++ (if b.AP_FENCE_ENABLED && e.fence.isSome then
              [Event.fence_auto_disable_fence_on_disarming] else [])
        ++ update_arm_gpio b e { s with armed := false, last_disarm_method := method } := by
  revert hok
  unfold disarm
  refine ite_elim (fun z : Bool × State × List Event => z.1 = true → z.2.2 = _)
    _ _ _ (fun _ h => absurd h Bool.false_ne_true) (fun _ => ?_)
  refine ite_elim (fun z : Bool × State × List Event => z.1 = true → z.2.2 = _)
    _ _ _ (fun _ h => absurd h Bool.false_ne_true) (fun _ => ?_)
  refine ite_elim (fun z : Bool × State × List Event => z.1 = true → z.2.2 = _)
    _ _ _ (fun _ h => absurd h Bool.false_ne_true) (fun _ _ => rfl)

theorem filter_long_log_check_forced_logging (method : Method) :
    (check_forced_logging method).filter Event.is_set_long_log_persist
      = check_forced_logging method := by
  cases method <;> rfl

/-- C32: `check_forced_logging` is a total two-way classification of the disarm
methods. It makes exactly one call, `set_long_log_persist(true)` for the methods
of the failsafe, crash and termination class (`forced_logging_class`) and
`set_long_log_persist(false)` for every other method. Every successful `disarm`
(in a build with logging, where the function exists) applies it to its method,
right after the disarm log record, and makes no other such call. -/
theorem check_forced_logging_classifies (b : Build) (p : Params) (e : Env) (s : State)
    (method : Method) (do_disarm_checks : Bool) :
    check_forced_logging method
        = [Event.logger_set_long_log_persist (decide (method ∈ forced_logging_class))]
    ∧ (method ∈ forced_logging_class →
        check_forced_logging method = [Event.logger_set_long_log_persist true])
    ∧ (method ∉ forced_logging_class →
        check_forced_logging method = [Event.logger_set_long_log_persist false])
    ∧ (b.HAL_LOGGING_ENABLED = true → (disarm b p e s method do_disarm_checks).1 = true →
        (∃ rest,
          (disarm b p e s method do_disarm_checks).2.2
            = Log_Write_Disarm b p e (disarm b p e s method do_disarm_checks).2.1
                (!do_disarm_checks) method
              ++ check_forced_logging method ++ rest)
        ∧ (disarm b p e s method do_disarm_checks).2.2.filter Event.is_set_long_log_persist
            = check_forced_logging method) := by
  have hcl : check_forced_logging method
      = [Event.logger_set_long_log_persist (decide (method ∈ forced_logging_class))] := by
    cases method <;> rfl
  refine ⟨hcl, ?_, ?_, ?_⟩
  · intro h
    rw [hcl, decide_eq_true h]
  · intro h
    rw [hcl, decide_eq_false h]
  · intro hlog hok
    have hst : (disarm b p e s method do_disarm_checks).2.1
        = { s with armed := false, last_disarm_method := method } := by
      rcases disarm_cases b p e s method do_disarm_checks with hc | hc
      · rw [hc.1] at hok
        exact absurd hok (by decide)
      · exact hc.2
    rw [disarm_events b p e s method do_disarm_checks hok, hst, if_pos hlog]
    refine ⟨⟨_, by simp only [List.append_assoc]; rfl⟩, ?_⟩
    simp only [List.filter_append, filter_long_log_check_forced_logging]
    unfold Log_Write_Disarm update_arm_gpio
    split_ifs <;> simp [Event.is_set_long_log_persist]

/-! ## Internal errors -/

theorem fails_opt_none :
    ∀ r, (none : Option (Bool × List Event)) = some r → r.1 = false :=
  fun _ h => Option.noConfusion h

theorem fails_opt_some (l : List Event) :
    ∀ r, some ((false, l) : Bool × List Event) = some r → r.1 = false := by
  intro r h
  rw [← Option.some.inj h]

theorem system_checks_system_false (b : Build) (p : Params) (e : Env) (s : State)
    (report : Bool) :
    ∀ r, system_checks_system b p e s report = some r → r.1 = false := by
  unfold system_checks_system
  repeat' (first
    | exact fails_opt_none
    | exact fails_opt_some _
    | refine ite_elim (fun o : Option (Bool × List Event) => ∀ r, o = some r → r.1 = false)
        _ _ _ (fun _ => ?_) (fun _ => ?_)
    | split)

theorem system_checks_internal_error (b : Build) (p : Params) (e : Env) (s : State)
    (report : Bool) (herr : e.internalerror_errors ≠ 0) :
    (system_checks b p e s report).1 = false := by
  unfold system_checks
  cases hs : system_checks_system b p e s report with
  | some r => exact system_checks_system_false b p e s report r hs
  | none =>
    dsimp only
    rw [if_pos (by simpa using herr)]

/-- C33: the internal-error check cannot be disabled. For every value of the
enable mask (0 among them), if the internal-error bitmask is non-zero then
`system_checks` returns false, so `pre_arm_checks` returns false whenever it
evaluates its checks, and `arm(method, true)` returns false whenever its
`pre_arm_checks` evaluates its checks: it can return true only when
`pre_arm_checks` is skipped (a build that is not Copter/Heli with
`arming_required() == NO`). -/
theorem internal_errors_always_block (b : Build) (p : Params) (e : Env) (s : State)
    (report : Bool) (method : Method) (herr : e.internalerror_errors ≠ 0) :
    (system_checks b p e s report).1 = false
    ∧ (pre_arm_checks_evaluates b p e s = true → (pre_arm_checks b p e s report).1 = false)
    ∧ ((arm b p e s method true).1 = true →
        s.armed = false ∧ b.APM_BUILD_COPTER_OR_HELI = false
        ∧ arming_required b p e = Required.NO) := by
  have hpre : ∀ (t : State) (r : Bool), pre_arm_checks_evaluates b p e t = true →
      (pre_arm_checks b p e t r).1 = false := by
    intro t r hev
    rw [pre_arm_checks_is_and_aux b p e t r hev]
    exact ⟨system_checks b p e (pre_arm_checks_state b p e t r) r,
      by simp [pre_arm_checks_operands], system_checks_internal_error b p e _ r herr⟩
  refine ⟨system_checks_internal_error b p e s report herr, hpre s report, ?_⟩
  intro harm
  cases harmed : s.armed
  · cases hrud : rudder_arm_rejected p method
    · rw [arm_eq_condition b p e s method true harmed hrud, arm_condition_checked] at harm
      cases hev : pre_arm_checks_evaluates b p e { s with running_arming_checks := true }
      · have hnot : ¬ (b.APM_BUILD_COPTER_OR_HELI = true ∨ arming_required b p e ≠ Required.NO) := by
          intro h
          rw [(pre_arm_checks_evaluates_iff b p e { s with running_arming_checks := true }
            harmed).mpr h] at hev
          exact absurd hev (by decide)
        refine ⟨rfl, ?_, ?_⟩
        · cases hb : b.APM_BUILD_COPTER_OR_HELI
          · rfl
          · exact absurd (Or.inl hb) hnot
        · by_contra hreq
          exact hnot (Or.inr hreq)
      · rw [hpre _ true hev] at harm
        exact absurd harm (by simp)
    · rw [arm_rejected b p e s method true hrud] at harm
      exact absurd harm Bool.false_ne_true
  · have h := arm_of_armed b p e s method true harmed
    rw [h] at harm
    exact absurd harm Bool.false_ne_true

theorem internal_errors_always_block_witness :
    Env.internal_error.internalerror_errors ≠ 0
    ∧ Params.no_checks.checks_to_perform = 0
    ∧ pre_arm_checks_evaluates Build.plane Params.no_checks Env.internal_error State.init = true
    ∧ (system_checks Build.plane Params.no_checks Env.internal_error State.init true).1 = false
    ∧ (pre_arm_checks Build.plane Params.no_checks Env.internal_error State.init true).1
        = false :=
  ⟨by decide, by decide, by decide,
    (internal_errors_always_block Build.plane Params.no_checks Env.internal_error State.init
      true Method.MAVLINK (by decide)).1,
    (internal_errors_always_block Build.plane Params.no_checks Env.internal_error State.init
      true Method.MAVLINK (by decide)).2.1 (by decide)⟩

/-! ## Absent collaborators -/

/-- C34, counterexample: three sub-checks fail although their collaborator is
absent. Without a mission library and with a landing item required,
`mission_checks` fails with "No mission library present". Without a terrain
database, when the mission holds terrain altitude items, `terrain_checks` fails
(without a message). In a build without servo channels `servo_checks` fails.
`pre_arm_checks` fails in each of the three cases. -/
theorem absent_collaborator_fails :
    Env.no_mission.mission = none
    ∧ mission_checks Build.plane Params.land_required Env.no_mission State.init true
        = (false, [Event.check_failed (some Check.MISSION) MAV_SEVERITY.CRITICAL "PreArm: %s"
            "No mission library present" []])
    ∧ (pre_arm_checks Build.plane Params.land_required Env.no_mission State.init true).1 = false
    ∧ Env.terrain_items_no_terrain.terrain = none
    ∧ terrain_checks Build.plane Params.default Env.terrain_items_no_terrain State.init true
        = (false, [])
    ∧ (pre_arm_checks Build.plane Params.default Env.terrain_items_no_terrain State.init
        true).1 = false
    ∧ Build.no_servos.NUM_SERVO_CHANNELS = 0
    ∧ servo_checks Build.no_servos Env.nominal State.init true = (false, [])
    ∧ (pre_arm_checks Build.no_servos Params.default Env.nominal State.init true).1 = false
    ∧ (pre_arm_checks Build.plane Params.default Env.nominal State.init true).1 = true := by
  decide

/-- C34, amended: absence of a leaf collaborator is an automatic pass for the
rangefinder, airspeed, fence, proximity, generator, camera, OSD, mount, FETtec and
visual odometry checks: with a null singleton the sub-check returns true, without
a message, for every enable mask and configuration, and a sub-check that is not
built is no operand of `pre_arm_checks`. A servo channel that is null is skipped
by `servo_checks`. It is not so for the mission library, the terrain database and
a build without servo channels. With a null mission library `mission_checks`
passes exactly when no mission item is required of an enabled MISSION check and
the current mode does not require a mission. With a null terrain singleton, or a
build without terrain, `terrain_checks` passes exactly when Check::PARAMETERS is
disabled or no terrain database is required (none is required when the mission
library is absent). In a build without servo channels `servo_checks` fails. -/
theorem absent_collaborator_passes (b : Build) (p : Params) (e : Env) (s : State)
    (report : Bool) :
    ((b.AP_RANGEFINDER_ENABLED = false ∨ e.rangefinder = none) →
      rangefinder_checks b p e s report = (true, []))
    ∧ (e.airspeed = none → airspeed_checks b p e s report = (true, []))
    ∧ (e.fence = none → fence_checks b e s report = (true, []))
    ∧ (e.proximity = none → proximity_checks b e s report = (true, []))
    ∧ (e.generator = none → generator_checks b e s report = (true, []))
    ∧ (e.runcam = none → camera_checks b p e s report = (true, []))
    ∧ (e.osd = none → osd_checks b p e s report = (true, []))
    ∧ (e.mount = none → mount_checks b p e s report = (true, []))
    ∧ (e.fettec = none → fettec_checks b p e s report = (true, []))
    ∧ (e.visual_odom = none → visodom_checks b p e s report = (true, []))
    ∧ (∀ r : Bool × List Event, built false r = (true, []))
    ∧ (∀ (i : Nat) (rest : List (Option SrvChannel)),
        servo_checks_loop b e s report i (none :: rest)
          = servo_checks_loop b e s report (i + 1) rest)
    ∧ (b.NUM_SERVO_CHANNELS = 0 → servo_checks b e s report = (false, []))
    ∧ (e.mission = none →
        ((mission_checks b p e s report).1 = true ↔
          ¬ (check_enabled p Check.MISSION = true ∧ p.required_mission_items ≠ 0)
          ∧ ¬ (b.AP_VEHICLE_ENABLED = true ∧ e.current_mode_requires_mission = true)))
    ∧ ((b.AP_TERRAIN_AVAILABLE = false ∨ e.terrain = none) →
        ((terrain_checks b p e s report).1 = true ↔
          (check_enabled p Check.PARAMETERS = false ∨ terrain_database_required b e = false)))
    ∧ ((b.AP_MISSION_ENABLED = false ∨ e.mission = none) →
        terrain_database_required b e = false) := by
  refine ⟨?_, ?_, ?_, ?_, ?_, ?_, ?_, ?_, ?_, ?_, fun _ => rfl, fun _ _ => rfl, ?_, ?_, ?_, ?_⟩
  · intro h
    unfold rangefinder_checks
    rcases h with h | h
    · rw [h]
      rfl
    · rw [h]
      split
      · split <;> rfl
      · rfl
  · intro h
    unfold airspeed_checks
    rw [h]
    split <;> rfl
  · intro h
    unfold fence_checks
    rw [h]
  · intro h
    unfold proximity_checks
    rw [h]
  · intro h
    unfold generator_checks
    rw [h]
  · intro h
    unfold camera_checks
    rw [h]
    split <;> rfl
  · intro h
    unfold osd_checks
    rw [h]
    split <;> rfl
  · intro h
    unfold mount_checks
    rw [h]
    split <;> rfl
  · intro h
    unfold fettec_checks
    rw [h]
  · intro h
    unfold visodom_checks
    rw [h]
    split <;> rfl
  · intro h
    unfold servo_checks
    rw [if_neg (by simp [h])]
  · intro h
    unfold mission_checks mission_checks_required
    rw [h]
    by_cases h1 : (check_enabled p Check.MISSION && p.required_mission_items != 0) = true
    · rw [if_pos h1]
      simp only [Bool.and_eq_true, bne_iff_ne, ne_eq] at h1
      simp [h1.1, h1.2]
    · rw [if_neg h1]
      simp only [Bool.and_eq_true, bne_iff_ne, ne_eq] at h1
      dsimp only
      rw [if_neg (by simp)]
      by_cases h2 : (b.AP_VEHICLE_ENABLED && (e.current_mode_requires_mission && true)) = true
      · rw [if_pos h2]
        simp only [Bool.and_true, Bool.and_eq_true] at h2
        simp [h2.1, h2.2]
      · rw [if_neg h2]
        simp only [Bool.and_true, Bool.and_eq_true] at h2
        simp only [true_iff]
        exact ⟨h1, h2⟩
  · intro h
    unfold terrain_checks
    cases hen : check_enabled p Check.PARAMETERS
    · simp
    · cases hreq : terrain_database_required b e
      · simp
      · rcases h with h | h
        · simp [h]
        · cases b.AP_TERRAIN_AVAILABLE <;> simp [h]
  · intro h
    unfold terrain_database_required
    rcases h with h | h
    · rw [h]
      rfl
    · rw [h]
      split <;> rfl

/-! ## The tag of the reported failures -/

theorem tagged_nil (s : State) (x : Bool) : events_tagged s (x, []) := by
  intro ev h
  exact absurd h (List.not_mem_nil ev)

theorem tagged_opt_none (s : State) : events_tagged_opt s none := by
  intro r h
  exact absurd h (by simp)

theorem tagged_opt_some (s : State) (r : Bool × List Event) (h : events_tagged s r) :
    events_tagged_opt s (some r) := by
  intro r' h'
  rw [← Option.some.inj h']
  exact h

/-- The tag stands whole at the head of a tagged format that was cut. -/
theorem tag_prefix_cut (s : State) (fmt : String) :
    c_str (metafmt_tag (metafmt s))
      <+: (c_str (metafmt_tag (metafmt s)) ++ c_str fmt).take
            MAVLINK_MSG_STATUSTEXT_FIELD_TEXT_LEN := by
  have ht := metafmt_tag_length s
  unfold strlen at ht
  rw [List.take_append_eq_append_take,
    List.take_of_length_le (by unfold MAVLINK_MSG_STATUSTEXT_FIELD_TEXT_LEN; omega)]
  exact List.prefix_append _ _

theorem check_failed_tagged (b : Build) (p : Params) (s : State) (c : Check) (report : Bool)
    (fmt : String) (args : List FmtArg) :
    ∀ ev ∈ check_failed b p s c report fmt args, ev.tagged (metafmt s) := by
  intro ev hev
  rcases (check_failed_mem b p s c report fmt args ev hev).2.2 with hw | ⟨_, hc⟩
  · rw [hw]
    exact rfl
  · rw [hc]
    exact tag_prefix_cut s fmt

theorem check_failed_nocheck_tagged (b : Build) (s : State) (report : Bool)
    (fmt : String) (args : List FmtArg) :
    ∀ ev ∈ check_failed_nocheck b s report fmt args, ev.tagged (metafmt s) := by
  intro ev hev
  rcases (check_failed_nocheck_mem b s report fmt args ev hev).2.2 with hw | ⟨_, hc⟩
  · rw [hw]
    exact rfl
  · rw [hc]
    exact tag_prefix_cut s fmt

theorem tagged_cf (b : Build) (p : Params) (s : State) (c : Check) (report : Bool)
    (fmt : String) (args : List FmtArg) (x : Bool) :
    events_tagged s (x, check_failed b p s c report fmt args) :=
  check_failed_tagged b p s c report fmt args

theorem tagged_cfn (b : Build) (s : State) (report : Bool)
    (fmt : String) (args : List FmtArg) (x : Bool) :
    events_tagged s (x, check_failed_nocheck b s report fmt args) :=
  check_failed_nocheck_tagged b s report fmt args

theorem tagged_append (s : State) (x y z : Bool) (l1 l2 : List Event)
    (h1 : events_tagged s (x, l1)) (h2 : events_tagged s (y, l2)) :
    events_tagged s (z, l1 ++ l2) := by
  intro ev hev
  rcases List.mem_append.mp hev with h | h
  · exact h1 ev h
  · exact h2 ev h

theorem tagged_built (s : State) (flag : Bool) (r : Bool × List Event)
    (h : events_tagged s r) : events_tagged s (built flag r) := by
  unfold built
  split
  · exact h
  · exact tagged_nil s true

theorem metafmt_running (s s' : State)
    (h : s'.running_arming_checks = s.running_arming_checks) : metafmt s' = metafmt s := by
  unfold metafmt
  rw [h]

theorem tagged_congr (s s' : State) (r : Bool × List Event)
    (h : s'.running_arming_checks = s.running_arming_checks)
    (ht : events_tagged s' r) : events_tagged s r := by
  intro ev hev
  rw [← metafmt_running s s' h]
  exact ht ev hev

theorem tagged_cf_at (b : Build) (p : Params) (s s' : State) (c : Check) (report : Bool)
    (fmt : String) (args : List FmtArg) (x : Bool)
    (h : s'.running_arming_checks = s.running_arming_checks) :
    events_tagged s (x, check_failed b p s' c report fmt args) :=
  tagged_congr s s' _ h (tagged_cf b p s' c report fmt args x)

theorem hardware_safety_check_tagged (b : Build) (p : Params) (e : Env) (s : State)
    (report : Bool) : events_tagged s (hardware_safety_check b p e s report) := by
  unfold hardware_safety_check
  repeat' (first
    | exact tagged_nil _ _
    | exact tagged_cf _ _ _ _ _ _ _ _
    | refine ite_elim (events_tagged s) _ _ _ (fun _ => ?_) (fun _ => ?_))

theorem barometer_checks_tagged (b : Build) (p : Params) (e : Env) (s : State)
    (report : Bool) : events_tagged s (barometer_checks b p e s report) := by
  unfold barometer_checks
  repeat' (first
    | exact tagged_nil _ _
    | exact tagged_cf _ _ _ _ _ _ _ _
    | refine ite_elim (events_tagged s) _ _ _ (fun _ => ?_) (fun _ => ?_))

theorem compass_checks_tagged (b : Build) (p : Params) (e : Env) (s : State)
    (report : Bool) : events_tagged s (compass_checks b p e s report) := by
  unfold compass_checks
  repeat' (first
    | exact tagged_nil _ _
    | exact tagged_cfn _ _ _ _ _ _
    | exact tagged_cf _ _ _ _ _ _ _ _
    | refine ite_elim (events_tagged s) _ _ _ (fun _ => ?_) (fun _ => ?_))

theorem battery_checks_tagged (b : Build) (p : Params) (e : Env) (s : State)
    (report : Bool) : events_tagged s (battery_checks b p e s report) := by
  unfold battery_checks
  repeat' (first
    | exact tagged_nil _ _
    | exact tagged_cf _ _ _ _ _ _ _ _
    | refine ite_elim (events_tagged s) _ _ _ (fun _ => ?_) (fun _ => ?_))

theorem logging_checks_tagged (b : Build) (p : Params) (e : Env) (s : State)
    (report : Bool) : events_tagged s (logging_checks b p e s report) := by
  unfold logging_checks
  repeat' (first
    | exact tagged_nil _ _
    | exact tagged_cf _ _ _ _ _ _ _ _
    | refine ite_elim (events_tagged s) _ _ _ (fun _ => ?_) (fun _ => ?_))

theorem rc_in_calibration_check_tagged (b : Build) (p : Params) (e : Env) (s : State)
    (report : Bool) : events_tagged s (rc_in_calibration_check b p e s report) := by
  unfold rc_in_calibration_check
  repeat' (first
    | exact tagged_nil _ _
    | exact tagged_cf _ _ _ _ _ _ _ _
    | refine ite_elim (events_tagged s) _ _ _ (fun _ => ?_) (fun _ => ?_))

theorem rangefinder_checks_tagged (b : Build) (p : Params) (e : Env) (s : State)
    (report : Bool) : events_tagged s (rangefinder_checks b p e s report) := by
  unfold rangefinder_checks
  repeat' (first
    | exact tagged_nil _ _
    | exact tagged_cf _ _ _ _ _ _ _ _
    | refine ite_elim (events_tagged s) _ _ _ (fun _ => ?_) (fun _ => ?_)
    | split)

theorem board_voltage_checks_tagged (b : Build) (p : Params) (e : Env) (s : State)
    (report : Bool) : events_tagged s (board_voltage_checks b p e s report) := by
  unfold board_voltage_checks
  repeat' (first
    | exact tagged_nil _ _
    | exact tagged_cf _ _ _ _ _ _ _ _
    | refine ite_elim (events_tagged s) _ _ _ (fun _ => ?_) (fun _ => ?_))

theorem system_checks_system_tagged (b : Build) (p : Params) (e : Env) (s : State)
    (report : Bool) : events_tagged_opt s (system_checks_system b p e s report) := by
  unfold system_checks_system
  repeat' (first
    | exact tagged_opt_none _
    | exact tagged_opt_some _ _ (tagged_cf _ _ _ _ _ _ _ _)
    | exact tagged_opt_some _ _ (tagged_cf _ _ _ _ _ _ _ _)
    | refine ite_elim (events_tagged_opt s) _ _ _ (fun _ => ?_) (fun _ => ?_)
    | split)

theorem proximity_checks_tagged (b : Build) (e : Env) (s : State)
    (report : Bool) : events_tagged s (proximity_checks b e s report) := by
  unfold proximity_checks
  repeat' (first
    | exact tagged_nil _ _
    | exact tagged_cfn _ _ _ _ _ _
    | refine ite_elim (events_tagged s) _ _ _ (fun _ => ?_) (fun _ => ?_)
    | split)

theorem camera_checks_tagged (b : Build) (p : Params) (e : Env) (s : State)
    (report : Bool) : events_tagged s (camera_checks b p e s report) := by
  unfold camera_checks
  repeat' (first
    | exact tagged_nil _ _
    | exact tagged_cf _ _ _ _ _ _ _ _
    | refine ite_elim (events_tagged s) _ _ _ (fun _ => ?_) (fun _ => ?_)
    | split)

theorem osd_checks_tagged (b : Build) (p : Params) (e : Env) (s : State)
    (report : Bool) : events_tagged s (osd_checks b p e s report) := by
  unfold osd_checks
  repeat' (first
    | exact tagged_nil _ _
    | exact tagged_cf _ _ _ _ _ _ _ _
    | refine ite_elim (events_tagged s) _ _ _ (fun _ => ?_) (fun _ => ?_)
    | split)

theorem mount_checks_tagged (b : Build) (p : Params) (e : Env) (s : State)
    (report : Bool) : events_tagged s (mount_checks b p e s report) := by
  unfold mount_checks
  repeat' (first
    | exact tagged_nil _ _
    | exact tagged_cf _ _ _ _ _ _ _ _
    | refine ite_elim (events_tagged s) _ _ _ (fun _ => ?_) (fun _ => ?_)
    | split)

theorem fettec_checks_tagged (b : Build) (p : Params) (e : Env) (s : State)
    (report : Bool) : events_tagged s (fettec_checks b p e s report) := by
  unfold fettec_checks
  repeat' (first
    | exact tagged_nil _ _
    | exact tagged_cf _ _ _ _ _ _ _ _
    | refine ite_elim (events_tagged s) _ _ _ (fun _ => ?_) (fun _ => ?_)
    | split)

theorem generator_checks_tagged (b : Build) (e : Env) (s : State)
    (report : Bool) : events_tagged s (generator_checks b e s report) := by
  unfold generator_checks
  repeat' (first
    | exact tagged_nil _ _
    | exact tagged_cfn _ _ _ _ _ _
    | refine ite_elim (events_tagged s) _ _ _ (fun _ => ?_) (fun _ => ?_)
    | split)

theorem opendroneid_checks_tagged (b : Build) (e : Env) (s : State)
    (report : Bool) : events_tagged s (opendroneid_checks b e s report) := by
  unfold opendroneid_checks
  repeat' (first
    | exact tagged_nil _ _
    | exact tagged_cfn _ _ _ _ _ _
    | refine ite_elim (events_tagged s) _ _ _ (fun _ => ?_) (fun _ => ?_))

theorem serial_protocol_checks_tagged (b : Build) (e : Env) (s : State)
    (report : Bool) : events_tagged s (serial_protocol_checks b e s report) := by
  unfold serial_protocol_checks
  repeat' (first
    | exact tagged_nil _ _
    | exact tagged_cfn _ _ _ _ _ _
    | refine ite_elim (events_tagged s) _ _ _ (fun _ => ?_) (fun _ => ?_))

theorem estop_checks_tagged (b : Build) (e : Env) (s : State)
    (report : Bool) : events_tagged s (estop_checks b e s report) := by
  unfold estop_checks
  repeat' (first
    | exact tagged_nil _ _
    | exact tagged_cfn _ _ _ _ _ _
    | refine ite_elim (events_tagged s) _ _ _ (fun _ => ?_) (fun _ => ?_))

theorem disarm_switch_checks_tagged (b : Build) (e : Env) (s : State)
    (report : Bool) : events_tagged s (disarm_switch_checks b e s report) := by
  unfold disarm_switch_checks
  repeat' (first
    | exact tagged_nil _ _
    | exact tagged_cfn _ _ _ _ _ _
    | refine ite_elim (events_tagged s) _ _ _ (fun _ => ?_) (fun _ => ?_))

theorem ins_checks_fft_tagged (b : Build) (p : Params) (e : Env) (s : State)
    (report : Bool) : events_tagged s (ins_checks_fft b p e s report) := by
  unfold ins_checks_fft
  repeat' (first
    | exact tagged_nil _ _
    | exact tagged_cf _ _ _ _ _ _ _ _
    | refine ite_elim (events_tagged s) _ _ _ (fun _ => ?_) (fun _ => ?_)
    | split)

theorem heater_min_temperature_checks_tagged (b : Build) (p : Params) (e : Env) (s : State)
    (report : Bool) : events_tagged s (heater_min_temperature_checks b p e s report) := by
  unfold heater_min_temperature_checks
  refine ite_elim (events_tagged s) _ _ _ (fun _ => ?_) (fun _ => tagged_nil _ _)
  cases e.board_heater with
  | none => exact tagged_nil _ _
  | some board =>
    dsimp only
    refine ite_elim (events_tagged s) _ _ _ (fun _ => ?_) (fun _ => tagged_nil _ _)
    exact tagged_cf _ _ _ _ _ _ _ _

theorem visodom_checks_tagged (b : Build) (p : Params) (e : Env) (s : State)
    (report : Bool) : events_tagged s (visodom_checks b p e s report) := by
  unfold visodom_checks
  refine ite_elim (events_tagged s) _ _ _ (fun _ => tagged_nil _ _) (fun _ => ?_)
  cases e.visual_odom with
  | none => exact tagged_nil _ _
  | some r =>
    dsimp only
    refine ite_elim (events_tagged s) _ _ _ (fun _ => ?_) (fun _ => tagged_nil _ _)
    exact tagged_cf _ _ _ _ _ _ _ _

theorem terrain_checks_tagged (b : Build) (p : Params) (e : Env) (s : State)
    (report : Bool) : events_tagged s (terrain_checks b p e s report) := by
  unfold terrain_checks
  refine ite_elim (events_tagged s) _ _ _ (fun _ => tagged_nil _ _) (fun _ => ?_)
  refine ite_elim (events_tagged s) _ _ _ (fun _ => tagged_nil _ _) (fun _ => ?_)
  refine ite_elim (events_tagged s) _ _ _ (fun _ => ?_)
    (fun _ => tagged_cf _ _ _ _ _ _ _ _)
  cases e.terrain with
  | none => exact tagged_nil _ _
  | some terrain =>
    dsimp only
    repeat' (first
      | exact tagged_nil _ _
      | exact tagged_cf _ _ _ _ _ _ _ _
      | refine ite_elim (events_tagged s) _ _ _ (fun _ => ?_) (fun _ => ?_))

theorem gps_checks_loop_tagged (b : Build) (p : Params) (e : Env) (s : State)
    (report : Bool) (l : List GpsSensor) :
    ∀ i, events_tagged_opt s (gps_checks_loop b p e s report i l) := by
  induction l with
  | nil => intro i; exact tagged_opt_none _
  | cons g rest ih =>
    intro i
    unfold gps_checks_loop
    repeat' (first
      | exact ih _
      | exact tagged_opt_some _ _ (tagged_cf _ _ _ _ _ _ _ _)
      | refine ite_elim (events_tagged_opt s) _ _ _ (fun _ => ?_) (fun _ => ?_))

theorem gps_checks_gps_tagged (b : Build) (p : Params) (e : Env) (s : State)
    (report : Bool) : events_tagged_opt s (gps_checks_gps b p e s report) := by
  unfold gps_checks_gps
  refine ite_elim (events_tagged_opt s) _ _ _ (fun _ => ?_) (fun _ => tagged_opt_none _)
  refine ite_elim (events_tagged_opt s) _ _ _ (fun _ => ?_) (fun _ => ?_)
  · refine ite_elim (events_tagged_opt s) _ _ _ (fun _ => ?_) (fun _ => ?_)
    · exact tagged_opt_some _ _ (tagged_cf _ _ _ _ _ _ _ _)
    · exact tagged_opt_some _ _ (tagged_nil _ _)
  · cases hl : gps_checks_loop b p e s report 0 e.gps.sensors with
    | some r =>
      exact tagged_opt_some _ _ (gps_checks_loop_tagged b p e s report _ 0 r hl)
    | none =>
      dsimp only
      repeat' (first
        | exact tagged_opt_none _
        | exact tagged_opt_some _ _ (tagged_cf _ _ _ _ _ _ _ _)
        | refine ite_elim (events_tagged_opt s) _ _ _ (fun _ => ?_) (fun _ => ?_))

theorem gps_checks_tagged (b : Build) (p : Params) (e : Env) (s : State) (report : Bool) :
    events_tagged s (gps_checks b p e s report) := by
  unfold gps_checks
  cases hg : gps_checks_gps b p e s report with
  | some r => exact gps_checks_gps_tagged b p e s report r hg
  | none =>
    dsimp only
    refine ite_elim (events_tagged s) _ _ _ (fun _ => ?_) (fun _ => tagged_nil _ _)
    cases e.gps.first_unconfigured_gps with
    | none => exact tagged_nil _ _
    | some n =>
      dsimp only
      refine tagged_append s false false _ _ _
        (tagged_cf _ _ _ _ _ _ _ _) ?_
      refine ite_elim (fun l : List Event => events_tagged s (false, l)) _ _ _
        (fun _ => ?_) (fun _ => tagged_nil _ _)
      intro ev hev
      rw [List.mem_singleton.mp hev]
      exact True.intro

theorem rc_calibration_checks_loop_tagged (b : Build) (p : Params) (e : Env) (s : State)
    (report : Bool) (l : List (Option RcChannel)) :
    ∀ i, events_tagged s (rc_calibration_checks_loop b p e s report i l) := by
  induction l with
  | nil => intro i; exact tagged_nil _ _
  | cons c rest ih =>
    intro i
    cases c with
    | none => exact ih _
    | some c =>
      unfold rc_calibration_checks_loop
      dsimp only
      refine ite_elim (events_tagged s) _ _ _ (fun _ => ih _) (fun _ => ?_)
      rw [List.append_assoc]
      refine tagged_append s true true _ _ _ ?_ (tagged_append s true true _ _ _ ?_ (ih _))
      · refine ite_elim (fun r : Bool × List Event => events_tagged s (true, r.2)) _ _ _
          (fun _ => ?_) (fun _ => tagged_nil _ _)
        exact tagged_cf _ _ _ _ _ _ _ _
      · refine ite_elim (fun r : Bool × List Event => events_tagged s (true, r.2)) _ _ _
          (fun _ => ?_) (fun _ => tagged_nil _ _)
        exact tagged_cf _ _ _ _ _ _ _ _

theorem manual_transmitter_checks_tagged (b : Build) (p : Params) (e : Env) (s : State)
    (report : Bool) : events_tagged s (manual_transmitter_checks b p e s report) := by
  have hr := rc_in_calibration_check_tagged b p e s report
  unfold manual_transmitter_checks
  refine ite_elim (events_tagged s) _ _ _ (fun _ => ?_) (fun _ => hr)
  have hc : events_tagged s (rc_calibration_checks b p e s report) :=
    rc_calibration_checks_loop_tagged b p e s report _ 0
  refine ite_elim (events_tagged s) _ _ _
    (fun _ => tagged_cf _ _ _ _ _ _ _ _) (fun _ => ?_)
  dsimp only
  refine ite_elim (events_tagged s) _ _ _ (fun _ => hc) (fun _ => ?_)
  exact tagged_append s true true _ _ _ hc hr

theorem mission_checks_loop_tagged (b : Build) (p : Params) (s : State) (report : Bool) (l : List (Nat × Bool × String)) :
    events_tagged_opt s (mission_checks_loop b p s report l) := by
  induction l with
  | nil => exact tagged_opt_none _
  | cons c rest ih =>
    obtain ⟨check, contains_item, type⟩ := c
    unfold mission_checks_loop
    repeat' (first
      | exact ih
      | exact tagged_opt_some _ _ (tagged_cf _ _ _ _ _ _ _ _)
      | refine ite_elim (events_tagged_opt s) _ _ _ (fun _ => ?_) (fun _ => ?_))

theorem mission_checks_required_tagged (b : Build) (p : Params) (e : Env) (s : State)
    (report : Bool) : events_tagged_opt s (mission_checks_required b p e s report) := by
  unfold mission_checks_required
  refine ite_elim (events_tagged_opt s) _ _ _ (fun _ => ?_) (fun _ => tagged_opt_none _)
  cases e.mission with
  | none => exact tagged_opt_some _ _ (tagged_cf _ _ _ _ _ _ _ _)
  | some m =>
    dsimp only
    cases hl : mission_checks_loop b p s report (misChecks m) with
    | some r =>
      exact tagged_opt_some _ _ (mission_checks_loop_tagged b p s report _ r hl)
    | none =>
      dsimp only
      refine ite_elim (events_tagged_opt s) _ _ _ (fun _ => ?_) (fun _ => tagged_opt_none _)
      refine ite_elim (events_tagged_opt s) _ _ _ (fun _ => ?_)
        (fun _ => tagged_opt_some _ _ (tagged_cf _ _ _ _ _ _ _ _))
      cases e.rally with
      | none => exact tagged_opt_some _ _ (tagged_cf _ _ _ _ _ _ _ _)
      | some found =>
        dsimp only
        repeat' (first
          | exact tagged_opt_none _
          | exact tagged_opt_some _ _ (tagged_cf _ _ _ _ _ _ _ _)
          | refine ite_elim (events_tagged_opt s) _ _ _ (fun _ => ?_) (fun _ => ?_))

theorem mission_checks_tagged (b : Build) (p : Params) (e : Env) (s : State)
    (report : Bool) : events_tagged s (mission_checks b p e s report) := by
  unfold mission_checks
  cases hm : mission_checks_required b p e s report with
  | some r => exact mission_checks_required_tagged b p e s report r hm
  | none =>
    dsimp only
    refine ite_elim (events_tagged s) _ _ _ (fun _ => ?_) (fun _ => ?_)
    · exact tagged_cf _ _ _ _ _ _ _ _
    · refine ite_elim (events_tagged s) _ _ _ (fun _ => ?_) (fun _ => tagged_nil _ _)
      exact tagged_cf _ _ _ _ _ _ _ _

theorem servo_checks_loop_tagged (b : Build) (e : Env) (s : State)
    (report : Bool) (l : List (Option SrvChannel)) :
    ∀ i, events_tagged s (servo_checks_loop b e s report i l) := by
  induction l with
  | nil => intro i; exact tagged_nil _ _
  | cons c rest ih =>
    intro i
    cases c with
    | none => exact ih _
    | some c =>
      unfold servo_checks_loop
      dsimp only
      refine ite_elim (events_tagged s) _ _ _ (fun _ => ih _) (fun _ => ?_)
      rw [List.append_assoc, List.append_assoc]
      refine tagged_append s true true _ _ _ ?_
        (tagged_append s true true _ _ _ ?_ (tagged_append s true true _ _ _ ?_ (ih _)))
      all_goals
        repeat' (first
          | exact tagged_nil _ _
          | exact tagged_cfn _ _ _ _ _ _
          | refine ite_elim (fun r : Bool × List Event => events_tagged s (true, r.2)) _ _ _
              (fun _ => ?_) (fun _ => ?_))

theorem servo_checks_tagged (b : Build) (e : Env) (s : State)
    (report : Bool) : events_tagged s (servo_checks b e s report) := by
  unfold servo_checks
  refine ite_elim (events_tagged s) _ _ _ (fun _ => ?_) (fun _ => tagged_nil _ _)
  dsimp only
  refine tagged_append s true true _ _ _ (servo_checks_loop_tagged b e s report _ 0) ?_
  refine ite_elim (fun r : Bool × List Event => events_tagged s (true, r.2)) _ _ _
    (fun _ => ?_) (fun _ => tagged_nil _ _)
  exact tagged_cfn _ _ _ _ _ _

theorem system_checks_leaf_tagged (b : Build) (p : Params) (s : State) (report : Bool) (flag : Bool) (x : Option LeafResult) :
    events_tagged_opt s (system_checks_leaf b p s report flag x) := by
  unfold system_checks_leaf
  split
  · exact tagged_opt_some _ _ (tagged_cf _ _ _ _ _ _ _ _)
  · exact tagged_opt_none _

theorem blending_auto_switch_checks_tagged (b : Build) (p : Params) (e : Env) (s : State)
    (report : Bool) :
    events_tagged s (blending_auto_switch_checks b p e s report) := by
  unfold blending_auto_switch_checks
  repeat' (first
    | exact tagged_nil _ _
    | exact tagged_cf _ _ _ _ _ _ _ _
    | refine ite_elim (events_tagged s) _ _ _ (fun _ => ?_) (fun _ => ?_))

theorem system_checks_parameters_tagged (b : Build) (p : Params) (e : Env) (s : State)
    (report : Bool) : events_tagged s (system_checks_parameters b p e s report) := by
  unfold system_checks_parameters
  refine ite_elim (events_tagged s) _ _ _ (fun _ => ?_) (fun _ => tagged_nil _ _)
  have hbl : events_tagged s (if !b.AP_GPS_BLENDED_ENABLED then
      blending_auto_switch_checks b p e s report else (true, [])) := by
    refine ite_elim (events_tagged s) _ _ _ (fun _ => ?_) (fun _ => tagged_nil _ _)
    exact blending_auto_switch_checks_tagged b p e s report
  have hleaf : ∀ (flag : Bool) (x : Option LeafResult) (r : Bool × List Event),
      system_checks_leaf b p s report flag x = some r →
      events_tagged s (r.1, (if !b.AP_GPS_BLENDED_ENABLED then
        blending_auto_switch_checks b p e s report else (true, [])).2 ++ r.2) := by
    intro flag x r hr
    exact tagged_append s true true _ _ _ hbl
      (system_checks_leaf_tagged b p s report flag x r hr)
  dsimp only
  refine ite_elim (events_tagged s) _ _ _ (fun _ => hbl) (fun _ => ?_)
  cases h1 : system_checks_leaf b p s report b.AP_RPM_ENABLED e.rpm with
  | some r => exact hleaf _ _ r h1
  | none =>
    dsimp only
    cases h2 : system_checks_leaf b p s report b.AP_RELAY_ENABLED e.relay with
    | some r => exact hleaf _ _ r h2
    | none =>
      dsimp only
      cases h3 : system_checks_leaf b p s report b.HAL_PARACHUTE_ENABLED e.parachute with
      | some r => exact hleaf _ _ r h3
      | none =>
        dsimp only
        cases h4 : system_checks_leaf b p s report b.HAL_BUTTON_ENABLED
            (some e.button_arming_checks) with
        | some r => exact hleaf _ _ r h4
        | none => exact hbl

theorem system_checks_tagged (b : Build) (p : Params) (e : Env) (s : State)
    (report : Bool) : events_tagged s (system_checks b p e s report) := by
  unfold system_checks
  cases hs : system_checks_system b p e s report with
  | some r => exact system_checks_system_tagged b p e s report r hs
  | none =>
    dsimp only
    repeat' (first
      | exact system_checks_parameters_tagged b p e s report
      | exact tagged_cfn _ _ _ _ _ _
      | refine ite_elim (events_tagged s) _ _ _ (fun _ => ?_) (fun _ => ?_))

theorem can_checks_loop_tagged (b : Build) (p : Params) (s : State) (report : Bool) (l : List CanDriver) :
    ∀ before, events_tagged_opt s (can_checks_loop b p s report before l) := by
  induction l with
  | nil => intro before; exact tagged_opt_none _
  | cons d rest ih =>
    intro before
    unfold can_checks_loop
    split
    all_goals
      repeat' (first
        | exact ih _
        | exact tagged_opt_some _ _ (tagged_cf _ _ _ _ _ _ _ _)
        | refine ite_elim (events_tagged_opt s) _ _ _ (fun _ => ?_) (fun _ => ?_)
        | split)

theorem can_checks_tagged (b : Build) (p : Params) (e : Env) (s : State)
    (report : Bool) : events_tagged s (can_checks b p e s report) := by
  unfold can_checks
  refine ite_elim (events_tagged s) _ _ _ (fun _ => ?_) (fun _ => tagged_nil _ _)
  cases hl : can_checks_loop b p s report [] e.can_drivers with
  | some r => exact can_checks_loop_tagged b p s report _ _ r hl
  | none => exact tagged_nil _ _

theorem fence_checks_tagged (b : Build) (e : Env) (s : State)
    (report : Bool) : events_tagged s (fence_checks b e s report) := by
  unfold fence_checks
  cases e.fence with
  | none => exact tagged_nil _ _
  | some fence =>
    dsimp only
    refine ite_elim (events_tagged s) _ _ _ (fun _ => tagged_nil _ _) (fun _ => ?_)
    refine ite_elim (events_tagged s) _ _ _ (fun _ => ?_) (fun _ => tagged_cfn _ _ _ _ _ _)
    exact tagged_append s true true _ _ _ (tagged_cfn _ _ _ _ _ _)
      (tagged_cfn _ _ _ _ _ _)

theorem crashdump_checks_tagged (b : Build) (p : Params) (e : Env) (s : State)
    (report : Bool) : events_tagged s (crashdump_checks b p e s report) := by
  unfold crashdump_checks
  refine ite_elim (events_tagged s) _ _ _ (fun _ => tagged_nil _ _) (fun _ => ?_)
  refine ite_elim (events_tagged s) _ _ _ (fun _ => ?_)
    (fun _ => tagged_cf _ _ _ _ _ _ _ _)
  refine ite_elim (events_tagged s) _ _ _ (fun _ => ?_) (fun _ => tagged_nil _ _)
  intro ev hev
  unfold GCS_SEND_TEXT at hev
  dsimp only at hev
  split at hev
  · rw [List.mem_singleton.mp hev]
    exact True.intro
  · exact absurd hev (List.not_mem_nil ev)

theorem aux_step_tagged (b : Build) (p : Params) (s : State) (report : Bool) (acc : AuxScan)
    (i : Nat) (hacc : ∀ ev ∈ acc.events, ev.tagged (metafmt s)) :
    ∀ ev ∈ (aux_auth_checks_step b p s report acc i).events, ev.tagged (metafmt s) := by
  unfold aux_auth_checks_step
  generalize s.aux_auth_state.getD i .NO_RESPONSE = st
  cases st
  · exact hacc
  · by_cases hsrc : i = s.aux_auth_fail_msg_source
    · simp only [hsrc, if_true]
      intro ev hev
      rcases List.mem_append.mp hev with h | h
      · exact hacc ev h
      · exact check_failed_tagged _ _ _ _ _ _ _ ev h
    · simp only [hsrc, if_false]
      exact hacc
  · exact hacc

theorem aux_scan_tagged (b : Build) (p : Params) (s : State) (report : Bool) (l : List Nat) :
    ∀ acc : AuxScan, (∀ ev ∈ acc.events, ev.tagged (metafmt s)) →
      ∀ ev ∈ (l.foldl (aux_auth_checks_step b p s report) acc).events, ev.tagged (metafmt s) := by
  induction l with
  | nil => intro acc h; exact h
  | cons i rest ih =>
    intro acc h
    rw [List.foldl_cons]
    exact ih _ (aux_step_tagged b p s report acc i h)

theorem aux_auth_checks_tagged (b : Build) (p : Params) (s : State) (report : Bool) :
    events_tagged s (aux_auth_checks b p s report) := by
  have hscan : events_tagged s (true, (aux_auth_checks_scan b p s report).events) :=
    aux_scan_tagged b p s report (List.range s.aux_auth_count) ⟨false, false, false, []⟩
      (fun ev h => absurd h (List.not_mem_nil ev))
  have happ : ∀ (x : Bool) (fmt : String),
      events_tagged s (x, (aux_auth_checks_scan b p s report).events
        ++ check_failed b p s .AUX_AUTH report fmt []) := by
    intro x fmt
    exact tagged_append s true true _ _ _ hscan (tagged_cf _ _ _ _ _ _ _ _)
  unfold aux_auth_checks
  refine ite_elim (events_tagged s) _ _ _ (fun _ => ?_) (fun _ => ?_)
  · refine ite_elim (events_tagged s) _ _ _ (fun _ => ?_) (fun _ => ?_)
    · exact tagged_cf _ _ _ _ _ _ _ _
    · exact tagged_cf _ _ _ _ _ _ _ _
  · dsimp only
    refine ite_elim (events_tagged s) _ _ _ (fun _ => ?_) (fun _ => ?_)
    · refine ite_elim (events_tagged s) _ _ _ (fun _ => happ _ _)
        (fun _ => hscan)
    · refine ite_elim (events_tagged s) _ _ _ (fun _ => happ _ _)
        (fun _ => hscan)

theorem ins_checks_ins_tagged (b : Build) (p : Params) (e : Env) (s : State)
    (report : Bool) : events_tagged_opt s (ins_checks_ins b p e s report).1 := by
  have ha : (ins_accels_consistent e s).2.running_arming_checks = s.running_arming_checks :=
    except_checks_running _ _ (ins_accels_consistent_frame e s)
  have hg : (ins_gyros_consistent e (ins_accels_consistent e s).2).2.running_arming_checks
      = s.running_arming_checks :=
    (except_checks_running _ _ (ins_gyros_consistent_frame e _)).trans ha
  unfold ins_checks_ins
  repeat' (first
    | exact tagged_opt_none _
    | exact tagged_opt_some _ _
        (tagged_cf_at _ _ _ _ _ _ _ _ _ (by first | exact ha | exact hg | rfl))
    | refine ite_elim (fun z : Option (Bool × List Event) × State => events_tagged_opt s z.1)
        _ _ _ (fun _ => ?_) (fun _ => ?_))

theorem ins_checks_tagged (b : Build) (p : Params) (e : Env) (s : State) (report : Bool) :
    events_tagged s ((ins_checks b p e s report).1, (ins_checks b p e s report).2.2) := by
  have h := ins_checks_ins_tagged b p e s report
  have hrun : (ins_checks_ins b p e s report).2.running_arming_checks
      = s.running_arming_checks := by
    rw [← ins_checks_snd]
    exact except_checks_running _ _ (ins_checks_frame b p e s report)
  unfold ins_checks
  dsimp only
  cases hr : (ins_checks_ins b p e s report).1 with
  | none => exact tagged_congr _ _ _ hrun (ins_checks_fft_tagged b p e _ report)
  | some out => exact h out hr

theorem pre_arm_checks_operands_tagged (b : Build) (p : Params) (e : Env) (s : State)
    (report : Bool) :
    ∀ r ∈ pre_arm_checks_operands b p e s report, events_tagged s r := by
  have h1 : (pre_arm_checks_state b p e s report).running_arming_checks
      = s.running_arming_checks :=
    except_checks_running _ _ (pre_arm_checks_state_frame b p e s report)
  intro r hr
  simp only [pre_arm_checks_operands, List.mem_cons, List.mem_singleton, List.not_mem_nil,
    or_false] at hr
  rcases hr with h | h | h | h | h | h | h | h | h | h | h | h | h | h | h | h | h | h | h | h | h | h | h | h | h | h | h | h | h | h
  all_goals rw [h]
  all_goals first
    | exact tagged_built _ _ _ (ins_checks_tagged b p e _ report)
    | exact hardware_safety_check_tagged b p e _ report
    | exact tagged_built _ _ _ (heater_min_temperature_checks_tagged b p e _ report)
    | exact tagged_built _ _ _ (barometer_checks_tagged b p e _ report)
    | exact tagged_congr _ _ _ h1 (servo_checks_tagged b e _ report)
    | exact tagged_congr _ _ _ h1 (board_voltage_checks_tagged b p e _ report)
    | exact tagged_congr _ _ _ h1 (system_checks_tagged b p e _ report)
    | exact tagged_congr _ _ _ h1 (terrain_checks_tagged b p e _ report)
    | exact tagged_congr _ _ _ h1 (serial_protocol_checks_tagged b e _ report)
    | exact tagged_congr _ _ _ h1 (estop_checks_tagged b e _ report)
    | exact tagged_built _ _ _ (tagged_congr _ _ _ h1 (compass_checks_tagged b p e _ report))
    | exact tagged_built _ _ _ (tagged_congr _ _ _ h1 (gps_checks_tagged b p e _ report))
    | exact tagged_built _ _ _ (tagged_congr _ _ _ h1 (battery_checks_tagged b p e _ report))
    | exact tagged_built _ _ _ (tagged_congr _ _ _ h1 (logging_checks_tagged b p e _ report))
    | exact tagged_built _ _ _
        (tagged_congr _ _ _ h1 (manual_transmitter_checks_tagged b p e _ report))
    | exact tagged_built _ _ _ (tagged_congr _ _ _ h1 (mission_checks_tagged b p e _ report))
    | exact tagged_built _ _ _ (tagged_congr _ _ _ h1 (rangefinder_checks_tagged b p e _ report))
    | exact tagged_built _ _ _ (tagged_congr _ _ _ h1 (can_checks_tagged b p e _ report))
    | exact tagged_built _ _ _ (tagged_congr _ _ _ h1 (generator_checks_tagged b e _ report))
    | exact tagged_built _ _ _ (tagged_congr _ _ _ h1 (proximity_checks_tagged b e _ report))
    | exact tagged_built _ _ _ (tagged_congr _ _ _ h1 (camera_checks_tagged b p e _ report))
    | exact tagged_built _ _ _ (tagged_congr _ _ _ h1 (osd_checks_tagged b p e _ report))
    | exact tagged_built _ _ _ (tagged_congr _ _ _ h1 (mount_checks_tagged b p e _ report))
    | exact tagged_built _ _ _ (tagged_congr _ _ _ h1 (fettec_checks_tagged b p e _ report))
    | exact tagged_built _ _ _ (tagged_congr _ _ _ h1 (visodom_checks_tagged b p e _ report))
    | exact tagged_built _ _ _ (tagged_congr _ _ _ h1 (aux_auth_checks_tagged b p _ report))
    | exact tagged_built _ _ _ (tagged_congr _ _ _ h1 (disarm_switch_checks_tagged b e _ report))
    | exact tagged_built _ _ _ (tagged_congr _ _ _ h1 (fence_checks_tagged b e _ report))
    | exact tagged_built _ _ _ (tagged_congr _ _ _ h1 (opendroneid_checks_tagged b e _ report))
    | exact tagged_built _ _ _ (tagged_congr _ _ _ h1 (crashdump_checks_tagged b p e _ report))

/-- Every failure reported by `pre_arm_checks` carries the tag chosen by
`running_arming_checks`. -/
theorem pre_arm_checks_tagged (b : Build) (p : Params) (e : Env) (s : State)
    (report : Bool) :
    ∀ ev ∈ (pre_arm_checks b p e s report).2.2, ev.tagged (metafmt s) := by
  cases hev : pre_arm_checks_evaluates b p e s
  · rw [pre_arm_checks_skip b p e s report hev]
    intro ev h
    exact absurd h (List.not_mem_nil ev)
  · rw [pre_arm_checks_run b p e s report hev]
    intro ev h
    obtain ⟨l, hl, hmem⟩ := List.mem_flatten.mp h
    obtain ⟨r, hr, hrl⟩ := List.mem_map.mp hl
    rw [← hrl] at hmem
    exact pre_arm_checks_operands_tagged b p e s report r hr ev hmem

theorem rc_arm_checks_channel_tagged (b : Build) (p : Params) (s : State) (method : Method)
    (name : String) (c : RcStick) :
    events_tagged s (rc_arm_checks_channel b p s method name c) := by
  unfold rc_arm_checks_channel
  repeat' (first
    | exact tagged_nil _ _
    | exact tagged_cf _ _ _ _ _ _ _ _
    | refine ite_elim (events_tagged s) _ _ _ (fun _ => ?_) (fun _ => ?_))

theorem rc_arm_checks_tagged (b : Build) (p : Params) (e : Env) (s : State)
    (method : Method) : events_tagged s (rc_arm_checks b p e s method) := by
  unfold rc_arm_checks
  refine ite_elim (events_tagged s) _ _ _ (fun _ => tagged_nil _ _) (fun _ => ?_)
  refine ite_elim (events_tagged s) _ _ _ (fun _ => tagged_nil _ _) (fun _ => ?_)
  dsimp only
  refine tagged_append s true true _ _ _ (tagged_append s true true _ _ _
    (tagged_append s true true _ _ _ ?_ ?_) ?_) ?_
  · refine ite_elim (fun r : Bool × List Event => events_tagged s (true, r.2)) _ _ _
      (fun _ => ?_) (fun _ => tagged_nil _ _)
    dsimp only
    exact tagged_cf _ _ _ _ _ _ _ _
  · refine ite_elim (fun r : Bool × List Event => events_tagged s (true, r.2)) _ _ _
      (fun _ => ?_) (fun _ => tagged_nil _ _)
    dsimp only
    exact tagged_cf _ _ _ _ _ _ _ _
  · refine ite_elim (fun r : Bool × List Event => events_tagged s (true, r.2)) _ _ _
      (fun _ => ?_) (fun _ => tagged_nil _ _)
    exact tagged_append s true true _ _ _ (tagged_append s true true _ _ _
      (rc_arm_checks_channel_tagged b p s method _ _)
      (rc_arm_checks_channel_tagged b p s method _ _))
      (rc_arm_checks_channel_tagged b p s method _ _)
  · refine ite_elim (fun r : Bool × List Event => events_tagged s (true, r.2)) _ _ _
      (fun _ => ?_) (fun _ => tagged_nil _ _)
    refine tagged_append s true true _ _ _ ?_ ?_
    · refine ite_elim (fun r : Bool × List Event => events_tagged s (true, r.2)) _ _ _
        (fun _ => ?_) (fun _ => tagged_nil _ _)
      dsimp only
      exact tagged_cf _ _ _ _ _ _ _ _
    · cases e.rc.fwd_thr_percent_input with
      | none => exact tagged_nil _ _
      | some percent_input =>
        dsimp only
        refine ite_elim (fun r : Bool × List Event => events_tagged s (true, r.2)) _ _ _
          (fun _ => ?_) (fun _ => tagged_nil _ _)
        dsimp only
        exact tagged_cf _ _ _ _ _ _ _ _

theorem arm_checks_tagged (b : Build) (p : Params) (e : Env) (s : State) (method : Method) :
    events_tagged s (arm_checks b p e s method) := by
  have hrc : events_tagged s (true,
      (if b.AP_RC_CHANNEL_ENABLED && check_enabled p .RC then rc_arm_checks b p e s method
        else (true, [])).2) := by
    refine ite_elim (fun r : Bool × List Event => events_tagged s (true, r.2)) _ _ _
      (fun _ => rc_arm_checks_tagged b p e s method) (fun _ => tagged_nil _ _)
  have hgps : events_tagged s (true,
      (if check_enabled p .GPS_CONFIG then
        (e.gps.prepare_for_arming, [Event.gps_prepare_for_arming]) else (true, [])).2) := by
    refine ite_elim (fun r : Bool × List Event => events_tagged s (true, r.2)) _ _ _
      (fun _ => ?_) (fun _ => tagged_nil _ _)
    intro ev hev
    rw [List.mem_singleton.mp hev]
    exact True.intro
  have hprep : events_tagged s (true, [Event.logger_PrepForArming]) := by
    intro ev hev
    rw [List.mem_singleton.mp hev]
    exact True.intro
  unfold arm_checks
  dsimp only
  refine ite_elim (events_tagged s) _ _ _ (fun _ => hrc) (fun _ => ?_)
  refine ite_elim (events_tagged s) _ _ _
    (fun _ => tagged_append s true true _ _ _ hrc hgps) (fun _ => ?_)
  refine ite_elim (events_tagged s) _ _ _ (fun _ => ?_)
    (fun _ => tagged_append s true true _ _ _ hrc hgps)
  refine ite_elim (events_tagged s) _ _ _ (fun _ => ?_) (fun _ => ?_)
  · exact tagged_append s true true _ _ _
      (tagged_append s true true _ _ _ (tagged_append s true true _ _ _ hrc hgps) hprep)
      (tagged_cf _ _ _ _ _ _ _ _)
  · exact tagged_append s true true _ _ _ (tagged_append s true true _ _ _ hrc hgps) hprep

theorem mandatory_checks_tagged (b : Build) (p : Params) (e : Env) (s : State)
    (report : Bool) : events_tagged s (mandatory_checks b p e s report) := by
  unfold mandatory_checks
  dsimp only
  exact tagged_append s true true _ _ _
    (tagged_append s true true _ _ _ (tagged_built _ _ _ (opendroneid_checks_tagged b e s report))
      (rc_in_calibration_check_tagged b p e s report))
    (serial_protocol_checks_tagged b e s report)

theorem arm_condition_tagged (b : Build) (p : Params) (e : Env) (s : State) (method : Method)
    (do_arming_checks : Bool) :
    events_tagged s (true, (arm_condition b p e s method do_arming_checks).2.2) := by
  have hm : events_tagged s (true,
      (if !do_arming_checks then mandatory_checks b p e s true else (false, [])).2) := by
    refine ite_elim (fun r : Bool × List Event => events_tagged s (true, r.2)) _ _ _
      (fun _ => mandatory_checks_tagged b p e s true) (fun _ => tagged_nil _ _)
  have hpre : events_tagged s (true, (pre_arm_checks b p e s true).2.2) :=
    pre_arm_checks_tagged b p e s true
  have hac : events_tagged s (true,
      (arm_checks b p e (pre_arm_checks b p e s true).2.1 method).2) :=
    tagged_congr _ _ _ (except_checks_running _ _ (pre_arm_checks_frame b p e s true))
      (arm_checks_tagged b p e _ method)
  unfold arm_condition
  dsimp only
  refine ite_elim (fun z : Bool × State × List Event => events_tagged s (true, z.2.2)) _ _ _
    (fun _ => hm) (fun _ => ?_)
  refine ite_elim (fun z : Bool × State × List Event => events_tagged s (true, z.2.2)) _ _ _
    (fun _ => ?_) (fun _ => ?_)
  · exact tagged_append s true true _ _ _ (tagged_append s true true _ _ _ hm hpre) hac
  · exact tagged_append s true true _ _ _ hm hpre


theorem tagged_one (s : State) (x : Bool) (ev : Event) (h : ev.tagged (metafmt s)) :
    events_tagged s (x, [ev]) := by
  intro ev' hev
  rw [List.mem_singleton.mp hev]
  exact h

theorem GCS_SEND_TEXT_tagged (s : State) (x : Bool) (b : Build) (severity : MAV_SEVERITY)
    (fmt : String) (args : List FmtArg) :
    events_tagged s (x, GCS_SEND_TEXT b severity fmt args) := by
  unfold GCS_SEND_TEXT
  refine ite_elim (fun l : List Event => events_tagged s (x, l)) _ _ _ (fun _ => ?_)
    (fun _ => tagged_nil _ _)
  exact tagged_one s x _ True.intro

theorem update_arm_gpio_tagged (s : State) (x : Bool) (b : Build) (e : Env) (t : State) :
    events_tagged s (x, update_arm_gpio b e t) := by
  unfold update_arm_gpio
  refine ite_elim (fun l : List Event => events_tagged s (x, l)) _ _ _ (fun _ => ?_)
    (fun _ => tagged_nil _ _)
  refine ite_elim (fun l : List Event => events_tagged s (x, l)) _ _ _ (fun _ => ?_)
    (fun _ => tagged_nil _ _)
  exact tagged_one s x _ True.intro

/-- Every failure reported during `arm` carries the tag "Arm: %s". -/
theorem arm_tagged (b : Build) (p : Params) (e : Env) (s : State) (method : Method)
    (do_arming_checks : Bool) :
    ∀ ev ∈ (arm b p e s method do_arming_checks).2.2, ev.tagged "Arm: %s" := by
  have hc := arm_condition_tagged b p e { s with running_arming_checks := true } method
    do_arming_checks
  show events_tagged { s with running_arming_checks := true }
    (true, (arm b p e s method do_arming_checks).2.2)
  unfold arm
  refine ite_elim (fun z : Bool × State × List Event =>
    events_tagged { s with running_arming_checks := true } (true, z.2.2))
    _ _ _ (fun _ => tagged_nil _ _) (fun _ => ?_)
  refine ite_elim (fun z : Bool × State × List Event =>
    events_tagged { s with running_arming_checks := true } (true, z.2.2))
    _ _ _ (fun _ => tagged_nil _ _) (fun _ => ?_)
  dsimp only
  refine tagged_append _ true true _ _ _ (tagged_append _ true true _ _ _
    (tagged_append _ true true _ _ _ (tagged_append _ true true _ _ _
      (tagged_append _ true true _ _ _ (tagged_append _ true true _ _ _ hc ?_) ?_) ?_) ?_) ?_)
    (update_arm_gpio_tagged _ _ _ _ _)
  · refine ite_elim (fun r : State × List Event =>
      events_tagged { s with running_arming_checks := true } (true, r.2)) _ _ _
      (fun _ => ?_) (fun _ => ?_)
    · dsimp only
      refine ite_elim (fun l : List Event =>
        events_tagged { s with running_arming_checks := true } (true, l)) _ _ _
        (fun _ => ?_) (fun _ => tagged_nil _ _)
      unfold Log_Write_Arm
      exact tagged_append _ true true _ [_] [_] (tagged_one _ _ _ True.intro)
        (tagged_one _ _ _ True.intro)
    · dsimp only
      refine ite_elim (fun l : List Event =>
        events_tagged { s with running_arming_checks := true } (true, l)) _ _ _
        (fun _ => ?_) (fun _ => tagged_nil _ _)
      exact tagged_one _ _ _ True.intro
  · refine ite_elim (fun l : List Event =>
      events_tagged { s with running_arming_checks := true } (true, l)) _ _ _
      (fun _ => GCS_SEND_TEXT_tagged _ _ _ _ _ _) (fun _ => tagged_nil _ _)
  · refine ite_elim (fun l : List Event =>
      events_tagged { s with running_arming_checks := true } (true, l)) _ _ _
      (fun _ => ?_) (fun _ => tagged_nil _ _)
    exact tagged_one _ _ _ True.intro
  · refine ite_elim (fun l : List Event =>
      events_tagged { s with running_arming_checks := true } (true, l)) _ _ _
      (fun _ => ?_) (fun _ => tagged_nil _ _)
    exact tagged_one _ _ _ True.intro
  · refine ite_elim (fun l : List Event =>
      events_tagged { s with running_arming_checks := true } (true, l)) _ _ _
      (fun _ => ?_) (fun _ => tagged_nil _ _)
    exact tagged_one _ _ _ True.intro

/-- `arm` leaves `running_arming_checks` false when it was false. -/
theorem arm_running (b : Build) (p : Params) (e : Env) (s : State) (method : Method)
    (do_arming_checks : Bool) (hrun : s.running_arming_checks = false) :
    (arm b p e s method do_arming_checks).2.1.running_arming_checks = false := by
  unfold arm
  refine ite_elim (fun z : Bool × State × List Event => z.2.1.running_arming_checks = false)
    _ _ _ (fun _ => hrun) (fun _ => ?_)
  refine ite_elim (fun z : Bool × State × List Event => z.2.1.running_arming_checks = false)
    _ _ _ (fun _ => hrun) (fun _ => rfl)

theorem disarm_running (b : Build) (p : Params) (e : Env) (s : State) (method : Method)
    (do_disarm_checks : Bool) :
    (disarm b p e s method do_disarm_checks).2.1.running_arming_checks
      = s.running_arming_checks := by
  rcases disarm_cases b p e s method do_disarm_checks with h | h
  · rw [h.2]
  · rw [h.2]

theorem update_running (b : Build) (p : Params) (e : Env) (s : State) :
    (update b p e s).2.1.running_arming_checks = s.running_arming_checks := by
  rw [update_eq]
  rw [except_checks_running _ _ (pre_arm_checks_frame b _ e _ _)]
  unfold update_state
  split <;> rfl

/-- Every failure reported by `update` carries the tag chosen by
`running_arming_checks`. -/
theorem update_tagged (b : Build) (p : Params) (e : Env) (s : State) :
    ∀ ev ∈ (update b p e s).2.2, ev.tagged (metafmt s) := by
  have h := pre_arm_checks_tagged b (update_params b p e) e (update_state e s)
    (update_display_fail b p e s)
  have hm : metafmt (update_state e s) = metafmt s := by
    apply metafmt_running
    unfold update_state
    split <;> rfl
  rw [hm] at h
  rw [update_eq]
  exact h

/-- C35: `running_arming_checks` is true only during the check evaluation inside
`arm()`. If it is false before a call of `arm()` it is false when `arm()` returns,
on every path (already armed, rudder rejected, checks passed, checks failed),
while the checks of `arm()` run on the object with the flag set and leave it set:
every failure that `arm()` reports carries the tag "Arm: %s". `update()`,
`pre_arm_checks` and `disarm()` never modify the flag, so with the flag false
every failure reported by the periodic `update()`, and by `pre_arm_checks`
called outside `arm()`, carries the tag "PreArm: %s". -/
theorem running_arming_checks_scope (b : Build) (p : Params) (e : Env) (s : State)
    (method : Method) (do_checks : Bool) (report : Bool)
    (hrun : s.running_arming_checks = false) :
    (arm b p e s method do_checks).2.1.running_arming_checks = false
    ∧ (arm_condition b p e { s with running_arming_checks := true } method
        do_checks).2.1.running_arming_checks = true
    ∧ (s.armed = false → rudder_arm_rejected p method = false →
        (arm b p e s method do_checks).1
          = (arm_condition b p e { s with running_arming_checks := true } method
              do_checks).1)
    ∧ (∀ ev ∈ (arm b p e s method do_checks).2.2, ev.tagged "Arm: %s")
    ∧ (update b p e s).2.1.running_arming_checks = false
    ∧ (pre_arm_checks b p e s report).2.1.running_arming_checks = false
    ∧ (disarm b p e s method do_checks).2.1.running_arming_checks = false
    ∧ (∀ t : State,
        (update b p e t).2.1.running_arming_checks = t.running_arming_checks
        ∧ (pre_arm_checks b p e t report).2.1.running_arming_checks = t.running_arming_checks
        ∧ (disarm b p e t method do_checks).2.1.running_arming_checks
            = t.running_arming_checks)
    ∧ (∀ ev ∈ (update b p e s).2.2, ev.tagged "PreArm: %s")
    ∧ (∀ ev ∈ (pre_arm_checks b p e s report).2.2, ev.tagged "PreArm: %s") := by
  have hm : metafmt s = "PreArm: %s" := by
    unfold metafmt
    rw [hrun]
    rfl
  have hframe : ∀ t : State,
      (update b p e t).2.1.running_arming_checks = t.running_arming_checks
      ∧ (pre_arm_checks b p e t report).2.1.running_arming_checks = t.running_arming_checks
      ∧ (disarm b p e t method do_checks).2.1.running_arming_checks
          = t.running_arming_checks :=
    fun t => ⟨update_running b p e t,
      except_checks_running _ _ (pre_arm_checks_frame b p e t report),
      disarm_running b p e t method do_checks⟩
  refine ⟨arm_running b p e s method do_checks hrun,
    except_checks_running _ _ (arm_condition_frame b p e _ method do_checks),
    fun harmed hrud => arm_eq_condition b p e s method do_checks harmed hrud,
    arm_tagged b p e s method do_checks,
    (hframe s).1.trans hrun, (hframe s).2.1.trans hrun, (hframe s).2.2.trans hrun, hframe, ?_, ?_⟩
  · rw [← hm]
    exact update_tagged b p e s
  · rw [← hm]
    exact pre_arm_checks_tagged b p e s report

theorem running_arming_checks_scope_witness :
    State.init.running_arming_checks = false
    ∧ safety_switch_arm
        ∈ (arm Build.plane Params.default Env.safety_on State.init Method.MAVLINK true).2.2
    ∧ safety_switch_prearm
        ∈ (update Build.plane Params.default (Env.safety_on_at_ms 31000) State.init).2.2
    ∧ (arm Build.plane Params.default Env.safety_on State.init Method.MAVLINK
        true).2.1.running_arming_checks = false
    ∧ (∀ ev ∈ (arm Build.plane Params.default Env.safety_on State.init Method.MAVLINK
        true).2.2, ev.tagged "Arm: %s") :=
  ⟨by decide, by decide, by decide,
    (running_arming_checks_scope Build.plane Params.default Env.safety_on State.init
      Method.MAVLINK true true (by decide)).1,
    (running_arming_checks_scope Build.plane Params.default Env.safety_on State.init
      Method.MAVLINK true true (by decide)).2.2.2.1⟩

/-! ## fix_terrain_WP -/

theorem int32_of_fits (x : Int) (hlo : -2 ^ 31 ≤ x) (hhi : x < 2 ^ 31) : int32 x = x := by
  unfold int32
  rw [Int.emod_eq_of_lt (by omega) (by omega)]
  omega

/-- C36: `fix_terrain_WP(loc, line)` records a `flow_of_control` internal error,
with the line, if and only if `loc.terrain_alt` is set and `loc.relative_alt` is
clear. In that case it sets `relative_alt`, and it subtracts `home.alt` from
`loc.alt` exactly when `loc.alt - home.alt > -500` (an `int32_t` difference: the
integer difference whenever that fits), otherwise leaving `loc.alt` as it was; in
every other case `loc` is unchanged. After every call `loc` is never
(`terrain_alt` and not `relative_alt`), so a second call leaves it alone and
records no further error. The function is total: it always returns. -/
theorem fix_terrain_WP_repairs (home loc : Location) (linenum : Nat) :
    ((Plane.fix_terrain_WP home loc linenum).2 ≠ []
        ↔ (loc.terrain_alt = true ∧ loc.relative_alt = false))
    ∧ (loc.terrain_alt = true ∧ loc.relative_alt = false →
        (Plane.fix_terrain_WP home loc linenum).2 = [⟨error_t.flow_of_control, linenum⟩]
        ∧ (Plane.fix_terrain_WP home loc linenum).1.relative_alt = true
        ∧ (Plane.fix_terrain_WP home loc linenum).1.terrain_alt = true
        ∧ (int32 (loc.alt - home.alt) > -500 →
            (Plane.fix_terrain_WP home loc linenum).1.alt = int32 (loc.alt - home.alt))
        ∧ (¬ int32 (loc.alt - home.alt) > -500 →
            (Plane.fix_terrain_WP home loc linenum).1.alt = loc.alt))
    ∧ (¬ (loc.terrain_alt = true ∧ loc.relative_alt = false) →
        Plane.fix_terrain_WP home loc linenum = (loc, []))
    ∧ ¬ ((Plane.fix_terrain_WP home loc linenum).1.terrain_alt = true
          ∧ (Plane.fix_terrain_WP home loc linenum).1.relative_alt = false)
    ∧ (∀ (home2 : Location) (linenum2 : Nat),
        Plane.fix_terrain_WP home2 (Plane.fix_terrain_WP home loc linenum).1 linenum2
          = ((Plane.fix_terrain_WP home loc linenum).1, []))
    ∧ (-2 ^ 31 ≤ loc.alt - home.alt → loc.alt - home.alt < 2 ^ 31 →
        int32 (loc.alt - home.alt) = loc.alt - home.alt) := by
  have hcond : (loc.terrain_alt && !loc.relative_alt) = true
      ↔ (loc.terrain_alt = true ∧ loc.relative_alt = false) := by
    cases loc.terrain_alt <;> cases loc.relative_alt <;> decide
  have hafter : ¬ ((Plane.fix_terrain_WP home loc linenum).1.terrain_alt = true
      ∧ (Plane.fix_terrain_WP home loc linenum).1.relative_alt = false) := by
    unfold Plane.fix_terrain_WP
    by_cases h : (loc.terrain_alt && !loc.relative_alt) = true
    · rw [if_pos h]
      intro hc
      exact absurd hc.2 (by simp)
    · rw [if_neg h]
      exact fun hc => h (hcond.mpr hc)
  refine ⟨?_, ?_, ?_, hafter, ?_, int32_of_fits _⟩
  · unfold Plane.fix_terrain_WP
    by_cases h : (loc.terrain_alt && !loc.relative_alt) = true
    · rw [if_pos h]
      exact ⟨fun _ => hcond.mp h, fun _ => by simp⟩
    · rw [if_neg h]
      exact ⟨fun hc => absurd rfl hc, fun hc => absurd (hcond.mpr hc) h⟩
  · intro h
    unfold Plane.fix_terrain_WP
    rw [if_pos (hcond.mpr h)]
    refine ⟨rfl, rfl, ?_, ?_, ?_⟩
    · dsimp only
      split <;> exact h.1
    · intro hgt
      dsimp only
      rw [if_pos hgt]
    · intro hgt
      dsimp only
      rw [if_neg hgt]
  · intro h
    unfold Plane.fix_terrain_WP
    rw [if_neg (fun hc => h (hcond.mp hc))]
  · intro home2 linenum2
    have hc2 : ¬ (((Plane.fix_terrain_WP home loc linenum).1.terrain_alt
        && !(Plane.fix_terrain_WP home loc linenum).1.relative_alt) = true) := by
      intro hc
      apply hafter
      revert hc
      cases (Plane.fix_terrain_WP home loc linenum).1.terrain_alt <;>
        cases (Plane.fix_terrain_WP home loc linenum).1.relative_alt <;> decide
    generalize (Plane.fix_terrain_WP home loc linenum).1 = l at hc2
    unfold Plane.fix_terrain_WP
    rw [if_neg hc2]

/-- A waypoint above terrain whose altitude had the home altitude added: the call
records the error, takes the home altitude off and sets the flag. -/
theorem fix_terrain_WP_example :
    Plane.fix_terrain_WP Location.home_120m Location.terrain_wp_misthreaded 970
      = (⟨5000, true, true⟩, [⟨error_t.flow_of_control, 970⟩]) := by
  decide

/-! ## The early return of pre_arm_checks -/

/-- C37, counterexample: fixed-wing build, `REQUIRE` = 0, so `arming_required()`
is NO. With rudder arming configured `IS_DISABLED`, `arm_checks(RUDDER)` passes on
the disarmed vehicle and `arm(RUDDER, true)` returns false, leaving the vehicle
disarmed. On an armed vehicle `arm_checks(MAVLINK)` passes and `arm(MAVLINK, true)`
returns false. -/
theorem arm_fails_though_arm_checks_pass :
    Build.plane.APM_BUILD_COPTER_OR_HELI = false
    ∧ arming_required Build.plane Params.no_requirement_rudder_disabled Env.nominal
        = Required.NO
    ∧ State.init.armed = false
    ∧ (arm_checks Build.plane Params.no_requirement_rudder_disabled Env.nominal
        { State.init with running_arming_checks := true } Method.RUDDER).1 = true
    ∧ arm Build.plane Params.no_requirement_rudder_disabled Env.nominal State.init
        Method.RUDDER true = (false, State.init, [])
    ∧ arming_required Build.plane Params.no_requirement Env.nominal = Required.NO
    ∧ State.flying.armed = true
    ∧ (arm_checks Build.plane Params.no_requirement Env.nominal
        { State.flying with running_arming_checks := true } Method.MAVLINK).1 = true
    ∧ arm Build.plane Params.no_requirement Env.nominal State.flying Method.MAVLINK true
        = (false, State.flying, []) := by
  decide

/-- C37, amended: in builds that are not Copter/Heli, whenever the vehicle is
armed or `arming_required() == NO`, `pre_arm_checks` returns true without
evaluating any sub-check, emitting any message, or modifying the object
(`last_prearm_checks_result`, `report_immediately` and the consistency anchors
among the rest). Consequently with `arming_required() == NO`, on a disarmed
vehicle and for a method that the rudder-arming policy does not reject,
`arm(method, true)` returns what `arm_checks(method)` returns: it succeeds
whenever `arm_checks(method)` passes, whatever the pre-arm sub-checks would
return, and no pre-arm sub-check contributes an event. On an armed vehicle, and
for `RUDDER` with rudder arming `IS_DISABLED`, `arm` returns false before any
check. -/
theorem pre_arm_checks_early_return (b : Build) (p : Params) (e : Env) (s : State)
    (report : Bool) (method : Method)
    (hbuild : b.APM_BUILD_COPTER_OR_HELI = false) :
    ((s.armed = true ∨ arming_required b p e = Required.NO) →
      pre_arm_checks b p e s report = (true, s, []))
    ∧ (arming_required b p e = Required.NO → s.armed = false →
        rudder_arm_rejected p method = false →
        (arm b p e s method true).1
            = (arm_checks b p e { s with running_arming_checks := true } method).1
        ∧ arm_condition b p e { s with running_arming_checks := true } method true
            = ((arm_checks b p e { s with running_arming_checks := true } method).1,
               { s with running_arming_checks := true },
               (arm_checks b p e { s with running_arming_checks := true } method).2))
    ∧ (s.armed = true → arm b p e s method true = (false, s, []))
    ∧ (rudder_arm_rejected p method = true → arm b p e s method true = (false, s, [])) := by
  have hskip : ∀ (t : State) (r : Bool),
      (t.armed = true ∨ arming_required b p e = Required.NO) →
      pre_arm_checks b p e t r = (true, t, []) := by
    intro t r h
    apply pre_arm_checks_skip
    unfold pre_arm_checks_evaluates
    rw [hbuild]
    rcases h with h | h
    · rw [h]
      rfl
    · rw [h]
      cases t.armed <;> rfl
  refine ⟨hskip s report, ?_, fun h => arm_of_armed b p e s method true h,
    fun h => arm_rejected b p e s method true h⟩
  intro hreq harmed hrud
  have hpre := hskip { s with running_arming_checks := true } true (Or.inr hreq)
  have hcond : arm_condition b p e { s with running_arming_checks := true } method true
      = ((arm_checks b p e { s with running_arming_checks := true } method).1,
         { s with running_arming_checks := true },
         (arm_checks b p e { s with running_arming_checks := true } method).2) := by
    unfold arm_condition
    simp only [Bool.not_true, Bool.false_eq_true, if_false]
    rw [hpre]
    simp
  refine ⟨?_, hcond⟩
  rw [arm_eq_condition b p e s method true harmed hrud, hcond]

theorem pre_arm_checks_early_return_witness :
    Build.plane.APM_BUILD_COPTER_OR_HELI = false
    ∧ arming_required Build.plane Params.no_requirement Env.safety_on = Required.NO
    ∧ (hardware_safety_check Build.plane Params.no_requirement Env.safety_on State.init
        true).1 = false
    ∧ (arm_checks Build.plane Params.no_requirement Env.safety_on
        { State.init with running_arming_checks := true } Method.MAVLINK).1 = true
    ∧ (arm Build.plane Params.no_requirement Env.safety_on State.init Method.MAVLINK true).1
        = (arm_checks Build.plane Params.no_requirement Env.safety_on
            { State.init with running_arming_checks := true } Method.MAVLINK).1 :=
  ⟨by decide, by decide, by decide, by decide,
    ((pre_arm_checks_early_return Build.plane Params.no_requirement Env.safety_on State.init
      true Method.MAVLINK (by decide)).2.1 (by decide) (by decide) (by decide)).1⟩

/-! ## arming_required -/

/-- C38: `arming_required()` returns the configured `REQUIRE` value, except that
when OpenDroneID is built in, present and enabled and the configured value is
neither `YES_MIN_PWM` nor `YES_ZERO_PWM` it returns `YES_MIN_PWM`. So with
OpenDroneID enabled `arming_required()` is never `NO`, `is_armed()` equals the
stored armed flag, and `pre_arm_checks` is never skipped on account of the require
policy: it is skipped exactly when the build is not Copter/Heli and the vehicle is
armed. -/
theorem arming_required_value (b : Build) (p : Params) (e : Env) (s : State) :
    (b.AP_OPENDRONEID_ENABLED = true ∧ e.opendroneid_present = true
        ∧ e.opendroneid_enabled = true
        ∧ p.require ≠ Required.YES_MIN_PWM ∧ p.require ≠ Required.YES_ZERO_PWM →
      arming_required b p e = Required.YES_MIN_PWM)
    ∧ (¬ (b.AP_OPENDRONEID_ENABLED = true ∧ e.opendroneid_present = true
          ∧ e.opendroneid_enabled = true
          ∧ p.require ≠ Required.YES_MIN_PWM ∧ p.require ≠ Required.YES_ZERO_PWM) →
        arming_required b p e = p.require)
    ∧ (b.AP_OPENDRONEID_ENABLED = true → e.opendroneid_present = true →
        e.opendroneid_enabled = true →
        arming_required b p e ≠ Required.NO
        ∧ (arming_required b p e = Required.YES_MIN_PWM
            ∨ arming_required b p e = Required.YES_ZERO_PWM)
        ∧ is_armed b p e s = s.armed
        ∧ pre_arm_checks_evaluates b p e s = (b.APM_BUILD_COPTER_OR_HELI || !s.armed)) := by
  have hcond : (b.AP_OPENDRONEID_ENABLED && (e.opendroneid_present && e.opendroneid_enabled)
      && (p.require != Required.YES_MIN_PWM && p.require != Required.YES_ZERO_PWM)) = true
      ↔ (b.AP_OPENDRONEID_ENABLED = true ∧ e.opendroneid_present = true
          ∧ e.opendroneid_enabled = true
          ∧ p.require ≠ Required.YES_MIN_PWM ∧ p.require ≠ Required.YES_ZERO_PWM) := by
    simp only [Bool.and_eq_true, bne_iff_ne, ne_eq]
    tauto
  refine ⟨?_, ?_, ?_⟩
  · intro h
    unfold arming_required
    rw [if_pos (hcond.mpr h)]
  · intro h
    unfold arming_required
    rw [if_neg (fun hc => h (hcond.mp hc))]
  · intro hb hp hen
    have hval : arming_required b p e = Required.YES_MIN_PWM
        ∨ arming_required b p e = Required.YES_ZERO_PWM := by
      unfold arming_required
      by_cases h1 : p.require = Required.YES_MIN_PWM
      · left
        rw [if_neg (fun hc => (hcond.mp hc).2.2.2.1 h1)]
        exact h1
      · by_cases h2 : p.require = Required.YES_ZERO_PWM
        · right
          rw [if_neg (fun hc => (hcond.mp hc).2.2.2.2 h2)]
          exact h2
        · left
          rw [if_pos (hcond.mpr ⟨hb, hp, hen, h1, h2⟩)]
    have hne : arming_required b p e ≠ Required.NO := by
      rcases hval with h | h <;> rw [h] <;> decide
    have hbeq : (arming_required b p e == Required.NO) = false := by
      rw [beq_eq_false_iff_ne]
      exact hne
    refine ⟨hne, hval, ?_, ?_⟩
    · unfold is_armed
      rw [hbeq, Bool.or_false]
    · unfold pre_arm_checks_evaluates
      rw [hbeq, Bool.or_false]
      cases b.APM_BUILD_COPTER_OR_HELI <;> cases s.armed <;> rfl

/-! ## The two consistency timers in series -/

theorem ins_checks_of_some (b : Build) (p : Params) (e : Env) (s : State) (report : Bool)
    (out : Bool × List Event) (h : (ins_checks_ins b p e s report).1 = some out) :
    (ins_checks b p e s report).1 = out.1 := by
  unfold ins_checks
  simp only
  rw [h]

/-- The three ways through the INS block of `ins_checks`: it fails before the
consistency tests and leaves the object alone; `ins_accels_consistent` returns
false and it fails with the object as that call left it; or
`ins_accels_consistent` returns true and `ins_gyros_consistent` is called. -/
theorem ins_checks_ins_series (b : Build) (p : Params) (e : Env) (s : State) (report : Bool)
    (hen : check_enabled p .INS = true) :
    ((∃ ev, (ins_checks_ins b p e s report).1 = some (false, ev))
      ∧ (ins_checks_ins b p e s report).2 = s)
    ∨ ((ins_accels_consistent e s).1 = false
      ∧ (∃ ev, (ins_checks_ins b p e s report).1 = some (false, ev))
      ∧ (ins_checks_ins b p e s report).2 = (ins_accels_consistent e s).2)
    ∨ ((ins_accels_consistent e s).1 = true
      ∧ (ins_checks_ins b p e s report).2
          = (ins_gyros_consistent e (ins_accels_consistent e s).2).2
      ∧ ((ins_gyros_consistent e (ins_accels_consistent e s).2).1 = false →
          ∃ ev, (ins_checks_ins b p e s report).1 = some (false, ev))) := by
  unfold ins_checks_ins
  rw [if_pos hen]
  by_cases h1 : (!e.ins.get_gyro_health_all) = true
  · rw [if_pos h1]
    exact Or.inl ⟨⟨_, rfl⟩, rfl⟩
  rw [if_neg h1]
  by_cases h2 : (!e.ins.gyro_calibrated_ok_all) = true
  · rw [if_pos h2]
    exact Or.inl ⟨⟨_, rfl⟩, rfl⟩
  rw [if_neg h2]
  by_cases h3 : (!e.ins.get_accel_health_all) = true
  · rw [if_pos h3]
    exact Or.inl ⟨⟨_, rfl⟩, rfl⟩
  rw [if_neg h3]
  by_cases h4 : (!e.ins.accel_calibrated_ok_all) = true
  · rw [if_pos h4]
    exact Or.inl ⟨⟨_, rfl⟩, rfl⟩
  rw [if_neg h4]
  by_cases h5 : e.ins.accel_cal_requires_reboot = true
  · rw [if_pos h5]
    exact Or.inl ⟨⟨_, rfl⟩, rfl⟩
  rw [if_neg h5]
  dsimp only
  by_cases ha : (ins_accels_consistent e s).1 = true
  · rw [if_neg (by rw [ha]; decide)]
    refine Or.inr (Or.inr ⟨ha, ?_⟩)
    by_cases hg : (ins_gyros_consistent e (ins_accels_consistent e s).2).1 = true
    · rw [if_neg (by rw [hg]; decide)]
      repeat' (first
        | exact ⟨rfl, fun h => absurd (hg.symm.trans h) (by decide)⟩
        | refine ite_elim (fun z : Option (Bool × List Event) × State =>
            z.2 = (ins_gyros_consistent e (ins_accels_consistent e s).2).2
            ∧ ((ins_gyros_consistent e (ins_accels_consistent e s).2).1 = false →
                ∃ ev, z.1 = some (false, ev))) _ _ _ (fun _ => ?_) (fun _ => ?_))
    · rw [if_pos (by rw [Bool.not_eq_true] at hg; rw [hg]; rfl)]
      exact ⟨rfl, fun _ => ⟨_, rfl⟩⟩
  · rw [Bool.not_eq_true] at ha
    rw [if_pos (by rw [ha]; rfl)]
    exact Or.inr (Or.inl ⟨ha, ⟨_, rfl⟩, rfl⟩)

/-- The gyro anchor is started only on a call where the accelerometers were found
consistent for ten seconds: what one call of `ins_checks` with the INS check
enabled does to the two anchors. -/
theorem ins_checks_series (b : Build) (p : Params) (e : Env) (s : State) (report : Bool)
    (hen : check_enabled p .INS = true) :
    ((ins_checks b p e s report).1 = false ∧ (ins_checks b p e s report).2.1 = s)
    ∨ ((ins_accels_consistent e s).1 = false ∧ (ins_checks b p e s report).1 = false
      ∧ (ins_checks b p e s report).2.1 = (ins_accels_consistent e s).2)
    ∨ ((ins_accels_consistent e s).1 = true
      ∧ (ins_checks b p e s report).2.1
          = (ins_gyros_consistent e (ins_accels_consistent e s).2).2
      ∧ ((ins_checks b p e s report).1 = true →
          (ins_gyros_consistent e (ins_accels_consistent e s).2).1 = true)) := by
  rw [ins_checks_snd]
  rcases ins_checks_ins_series b p e s report hen with ⟨⟨ev, h1⟩, h2⟩ | ⟨ha, ⟨ev, h1⟩, h2⟩
    | ⟨ha, h2, h3⟩
  · exact Or.inl ⟨ins_checks_of_some b p e s report _ h1, h2⟩
  · exact Or.inr (Or.inl ⟨ha, ins_checks_of_some b p e s report _ h1, h2⟩)
  · refine Or.inr (Or.inr ⟨ha, h2, ?_⟩)
    intro hres
    cases hg : (ins_gyros_consistent e (ins_accels_consistent e s).2).1
    · obtain ⟨ev, h1⟩ := h3 hg
      rw [ins_checks_of_some b p e s report _ h1] at hres
      exact absurd hres Bool.false_ne_true
    · rfl

theorem ins_gyros_consistent_true (e : Env) (s : State)
    (hle : s.last_gyro_pass_ms ≤ e.millis) (hbound : e.millis < 2 ^ 32)
    (hcount : e.ins.get_gyro_count > 1) (hres : (ins_gyros_consistent e s).1 = true) :
    e.ins.gyros_consistent = true ∧ s.last_gyro_pass_ms ≠ 0
      ∧ s.last_gyro_pass_ms + 10000 ≤ e.millis := by
  rw [ins_gyros_consistent_eq] at hres
  cases hc : e.ins.gyros_consistent
  · rw [hc] at hres
    simp at hres
  · rw [hc] at hres
    have hn : ¬ e.ins.get_gyro_count ≤ 1 := Nat.not_le.mpr hcount
    by_cases ha : s.last_gyro_pass_ms = 0
    · rw [if_neg (by simp), if_pos ha, sub32_of_le _ _ (Nat.le_refl _) hbound] at hres
      simp [hn] at hres
    · rw [if_neg (by simp), if_neg ha, sub32_of_le _ _ hle hbound] at hres
      simp [hn] at hres
      exact ⟨rfl, ha, by omega⟩

theorem ins_gyros_consistent_anchor (e : Env) (s : State) :
    (ins_gyros_consistent e s).2.last_gyro_pass_ms
      = if e.ins.gyros_consistent = false then 0
        else if s.last_gyro_pass_ms = 0 then e.millis else s.last_gyro_pass_ms := by
  rw [ins_gyros_consistent_eq]
  split <;> rfl

theorem ins_accels_consistent_gyro_anchor (e : Env) (s : State) :
    (ins_accels_consistent e s).2.last_gyro_pass_ms = s.last_gyro_pass_ms := by
  obtain ⟨a, ha⟩ := ins_accels_consistent_snd e s
  rw [ha]

theorem ins_gyros_consistent_accel_anchor (e : Env) (s : State) :
    (ins_gyros_consistent e s).2.last_accel_pass_ms = s.last_accel_pass_ms := by
  obtain ⟨a, ha⟩ := ins_gyros_consistent_snd e s
  rw [ha]

/-- One call of `ins_checks` keeps the anchors within their bounds, and returns
true no earlier than 20000 ms after `t0`. -/
theorem ins_checks_step (b : Build) (p : Params) (e : Env) (s : State) (report : Bool)
    (t0 T : Nat) (hen : check_enabled p .INS = true)
    (hcount : e.ins.get_accel_count > 1 ∧ e.ins.get_gyro_count > 1)
    (hinv : ins_timers_inv t0 T s) (hT : T ≤ e.millis) (ht0 : t0 ≤ e.millis)
    (hbound : e.millis < 2 ^ 32) :
    ins_timers_inv t0 e.millis (ins_checks b p e s report).2.1
    ∧ ((ins_checks b p e s report).1 = true → t0 + 20000 ≤ e.millis) := by
  obtain ⟨hA, hG⟩ := hinv
  have hA' : ∀ a : Nat, a = (if e.ins.accels_consistent = false then 0
      else if s.last_accel_pass_ms = 0 then e.millis else s.last_accel_pass_ms) →
      a = 0 ∨ (t0 ≤ a ∧ a ≤ e.millis) := by
    intro a ha
    split at ha
    · exact Or.inl ha
    · split at ha
      · exact Or.inr ⟨by omega, by omega⟩
      · rcases hA with h | h
        · rename_i hne
          exact absurd h hne
        · exact Or.inr ⟨by omega, by omega⟩
  have hG0 : s.last_gyro_pass_ms = 0
      ∨ (t0 + 10000 ≤ s.last_gyro_pass_ms ∧ s.last_gyro_pass_ms ≤ e.millis) := by
    rcases hG with h | h
    · exact Or.inl h
    · exact Or.inr ⟨h.1, by omega⟩
  rcases ins_checks_series b p e s report hen with ⟨hres, hst⟩ | ⟨_, hres, hst⟩
    | ⟨ha, hst, hres⟩
  · rw [hst, hres]
    refine ⟨⟨?_, hG0⟩, fun h => absurd h Bool.false_ne_true⟩
    rcases hA with h | h
    · exact Or.inl h
    · exact Or.inr ⟨h.1, by omega⟩
  · rw [hst, hres]
    refine ⟨⟨hA' _ (ins_accels_consistent_anchor e s), ?_⟩,
      fun h => absurd h Bool.false_ne_true⟩
    rw [ins_accels_consistent_gyro_anchor]
    exact hG0
  · have hale : s.last_accel_pass_ms ≤ e.millis := by
      rcases hA with h | h
      · omega
      · omega
    obtain ⟨_, hane, ha10⟩ := ins_accels_consistent_true e s hale hbound hcount.1 ha
    have ht10 : t0 + 10000 ≤ e.millis := by
      rcases hA with h | h
      · exact absurd h hane
      · omega
    rw [hst]
    refine ⟨⟨?_, ?_⟩, ?_⟩
    · rw [ins_gyros_consistent_accel_anchor]
      exact hA' _ (ins_accels_consistent_anchor e s)
    · rw [ins_gyros_consistent_anchor, ins_accels_consistent_gyro_anchor]
      split
      · exact Or.inl rfl
      · split
        · exact Or.inr ⟨ht10, Nat.le_refl _⟩
        · exact hG0
    · intro h
      have hg := hres h
      have hgle : (ins_accels_consistent e s).2.last_gyro_pass_ms ≤ e.millis := by
        rw [ins_accels_consistent_gyro_anchor]
        rcases hG0 with h0 | h0
        · omega
        · omega
      obtain ⟨_, hgne, hg10⟩ := ins_gyros_consistent_true e _ hgle hbound hcount.2 hg
      rw [ins_accels_consistent_gyro_anchor] at hgne hg10
      rcases hG0 with h0 | h0
      · exact absurd h0 hgne
      · omega

theorem ins_checks_calls_after (b : Build) (t0 : Nat) (calls : List (Params × Env × Bool)) :
    ∀ (s : State) (T : Nat), ins_timers_inv t0 T s →
      (∀ c ∈ calls, T ≤ c.2.1.millis ∧ t0 ≤ c.2.1.millis) →
      calls.Pairwise (fun x y => x.2.1.millis ≤ y.2.1.millis) →
      (∀ c ∈ calls, c.2.1.millis < 2 ^ 32) →
      (∀ c ∈ calls, check_enabled c.1 .INS = true) →
      (∀ c ∈ calls, c.2.1.ins.get_accel_count > 1 ∧ c.2.1.ins.get_gyro_count > 1) →
      ∀ y ∈ ins_checks_calls b calls s, y.2 = true → t0 + 20000 ≤ y.1.2.1.millis := by
  induction calls with
  | nil =>
    intro s T _ _ _ _ _ _ y hy
    simp [ins_checks_calls] at hy
  | cons c rest ih =>
    intro s T hinv hle hsorted hbound hen hcount y hy hres
    have hc := hle c (List.mem_cons_self _ _)
    have hstep := ins_checks_step b c.1 c.2.1 s c.2.2 t0 T (hen c (List.mem_cons_self _ _))
      (hcount c (List.mem_cons_self _ _)) hinv hc.1 hc.2 (hbound c (List.mem_cons_self _ _))
    rw [ins_checks_calls, List.mem_cons] at hy
    rcases hy with hy | hy
    · subst hy
      exact hstep.2 hres
    · have hsort := List.pairwise_cons.mp hsorted
      refine ih _ c.2.1.millis hstep.1 ?_ hsort.2
        (fun c' hc' => hbound c' (List.mem_cons_of_mem _ hc'))
        (fun c' hc' => hen c' (List.mem_cons_of_mem _ hc'))
        (fun c' hc' => hcount c' (List.mem_cons_of_mem _ hc')) y hy hres
      intro c' hc'
      have h1 := hsort.1 c' hc'
      exact ⟨h1, by omega⟩

/-- C39: the two INS consistency timers run in series. `ins_checks` calls
`ins_gyros_consistent`, and so can start the gyro anchor, only on a call where
`ins_accels_consistent` has returned true: when that returns false (or the call
leaves before it) the gyro anchor is left as it was, and with the INS check
enabled `ins_checks` returns true only if both have returned true in that call.
Hence, from a state with both anchors cleared, along every sequence of calls with
the INS check enabled, more than one accelerometer and more than one gyro, and
timestamps that do not decrease and do not wrap, a call of `ins_checks` that
returns true lies at least 20000 ms after the first call, the sensors agreeing
throughout or not. -/
theorem consistency_timers_in_series (b : Build) (first : Params × Env × Bool)
    (rest : List (Params × Env × Bool)) (s : State)
    (hstart : s.last_accel_pass_ms = 0 ∧ s.last_gyro_pass_ms = 0)
    (hen : ∀ c ∈ first :: rest, check_enabled c.1 .INS = true)
    (hcount : ∀ c ∈ first :: rest,
      c.2.1.ins.get_accel_count > 1 ∧ c.2.1.ins.get_gyro_count > 1)
    (hsorted : (first :: rest).Pairwise (fun x y => x.2.1.millis ≤ y.2.1.millis))
    (hbound : ∀ c ∈ first :: rest, c.2.1.millis < 2 ^ 32) :
    (∀ (p : Params) (e : Env) (t : State) (report : Bool),
      (ins_accels_consistent e t).1 = false →
      (ins_checks b p e t report).2.1.last_gyro_pass_ms = t.last_gyro_pass_ms)
    ∧ (∀ (p : Params) (e : Env) (t : State) (report : Bool),
        check_enabled p .INS = true → (ins_checks b p e t report).1 = true →
        (ins_accels_consistent e t).1 = true
        ∧ (ins_gyros_consistent e (ins_accels_consistent e t).2).1 = true)
    ∧ (∀ y ∈ ins_checks_calls b (first :: rest) s, y.2 = true →
        first.2.1.millis + 20000 ≤ y.1.2.1.millis) := by
  refine ⟨?_, ?_, ?_⟩
  · intro p e t report ha
    cases hen1 : check_enabled p .INS
    · rw [ins_checks_snd]
      unfold ins_checks_ins
      rw [if_neg (by rw [hen1]; decide)]
    · rcases ins_checks_series b p e t report hen1 with ⟨_, hst⟩ | ⟨_, _, hst⟩ | ⟨ha', _, _⟩
      · rw [hst]
      · rw [hst, ins_accels_consistent_gyro_anchor]
      · rw [ha] at ha'
        exact absurd ha' Bool.false_ne_true
  · intro p e t report hen1 hres
    rcases ins_checks_series b p e t report hen1 with ⟨hf, _⟩ | ⟨_, hf, _⟩ | ⟨ha', _, hg⟩
    · rw [hf] at hres
      exact absurd hres Bool.false_ne_true
    · rw [hf] at hres
      exact absurd hres Bool.false_ne_true
    · exact ⟨ha', hg hres⟩
  · refine ins_checks_calls_after b first.2.1.millis (first :: rest) s first.2.1.millis
      ⟨Or.inl hstart.1, Or.inl hstart.2⟩ ?_ hsorted hbound hen hcount
    intro c hc
    rcases List.mem_cons.mp hc with h | h
    · rw [h]
      exact ⟨Nat.le_refl _, Nat.le_refl _⟩
    · have := (List.pairwise_cons.mp hsorted).1 c h
      exact ⟨this, this⟩

theorem consistency_timers_in_series_witness :
    (State.constructed.last_accel_pass_ms = 0 ∧ State.constructed.last_gyro_pass_ms = 0)
    ∧ (ins_checks_calls Build.plane
        [ins_checks_at 1000, ins_checks_at 6000, ins_checks_at 11000, ins_checks_at 16000,
          ins_checks_at 20999, ins_checks_at 21000, ins_checks_at 26000]
        State.constructed).map (fun y => (y.1.2.1.millis, y.2))
        = [(1000, false), (6000, false), (11000, false), (16000, false), (20999, false),
            (21000, true), (26000, true)]
    ∧ (∀ y ∈ ins_checks_calls Build.plane
        [ins_checks_at 1000, ins_checks_at 6000, ins_checks_at 11000, ins_checks_at 16000,
          ins_checks_at 20999, ins_checks_at 21000, ins_checks_at 26000]
        State.constructed, y.2 = true → (ins_checks_at 1000).2.1.millis + 20000 ≤ y.1.2.1.millis) :=
  ⟨by decide, by decide,
    (consistency_timers_in_series Build.plane (ins_checks_at 1000)
      [ins_checks_at 6000, ins_checks_at 11000, ins_checks_at 16000, ins_checks_at 20999,
        ins_checks_at 21000, ins_checks_at 26000]
      State.constructed (by decide) (by decide) (by decide) (by decide) (by decide)).2.2⟩

/-! ## The structure of the auxiliary authorisation table -/

theorem aux_free_slots_congr (b : Build) (s s' : State) (h : s'.aux_table = s.aux_table)
    (hfree : aux_free_slots b s) : aux_free_slots b s' := by
  obtain ⟨h1, _, h3, _, _⟩ := aux_table_fields s s' h
  unfold aux_free_slots at hfree ⊢
  rw [h1, h3]
  exact hfree

theorem aux_free_slots_call (b : Build) (s : State) (c : Call)
    (hlen : s.aux_auth_state.length = b.aux_auth_count_max)
    (hfree : aux_free_slots b s) : aux_free_slots b (Call.run b s c) := by
  cases c with
  | arm p e method d => exact aux_free_slots_congr b s _ (arm_aux_table b p e s method d) hfree
  | disarm p e method d =>
    exact aux_free_slots_congr b s _ (disarm_aux_table b p e s method d) hfree
  | update p e => exact aux_free_slots_congr b s _ (update_aux_table b p e s) hfree
  | pre_arm_checks p e report =>
    exact aux_free_slots_congr b s _ (pre_arm_checks_aux_table b p e s report) hfree
  | get_aux_auth_id e auth_id =>
    show aux_free_slots b (get_aux_auth_id b e s auth_id).2.2
    rw [get_aux_auth_id_eq]
    split
    · exact hfree
    · intro i hi hmax
      dsimp only at hi ⊢
      exact hfree i (by omega) hmax
  | set_aux_auth_passed auth_id =>
    show aux_free_slots b (set_aux_auth_passed s auth_id)
    unfold set_aux_auth_passed
    split
    · exact hfree
    · intro i hi hmax
      dsimp only at hi ⊢
      rw [List.getElem?_set, if_neg (by omega)]
      exact hfree i hi hmax
  | set_aux_auth_failed auth_id fail_msg =>
    show aux_free_slots b (set_aux_auth_failed b s auth_id fail_msg)
    rw [set_aux_auth_failed_eq]
    split
    · exact hfree
    · split
      · intro i hi hmax
        dsimp only at hi ⊢
        rw [List.getElem?_set, if_neg (by omega)]
        exact hfree i hi hmax
      · intro i hi hmax
        dsimp only at hi ⊢
        rw [List.getElem?_set, if_neg (by omega)]
        exact hfree i hi hmax
  | reset_all_aux_auths =>
    show aux_free_slots b (reset_all_aux_auths b s)
    intro i _ hmax
    have hst : (reset_all_aux_auths b s).aux_auth_state
        = List.replicate b.aux_auth_count_max AuxAuthStates.NO_RESPONSE :=
      reset_loop_replicate _ _ hlen
    rw [hst, List.getElem?_replicate, if_pos hmax]

theorem aux_free_slots_run (b : Build) (calls : List Call) :
    ∀ (s : State) (g : Nat → Option CharBuffer), aux_inv b s g → aux_free_slots b s →
      aux_free_slots b (calls.foldl (Call.run b) s) := by
  induction calls with
  | nil => intro s _ _ h; exact h
  | cons c rest ih =>
    intro s g hinv h
    rw [List.foldl_cons]
    exact ih _ _ (aux_inv_call b s g c hinv) (aux_free_slots_call b s c hinv.1.2 h)

/-- C40: structural invariant of the auxiliary table. In every state reached from a
reset table by any sequence of calls (`get_aux_auth_id`, `set_aux_auth_passed`,
`set_aux_auth_failed`, `reset_all_aux_auths`, and `arm`, `disarm`, `update`,
`pre_arm_checks`): `aux_auth_count <= aux_auth_count_max`, the array keeps its
`aux_auth_count_max` entries, `aux_auth_count > 0` implies that the message buffer
is allocated, and every slot with index `>= aux_auth_count` is `NO_RESPONSE`.
Therefore every slot that the setters (`auth_id < aux_auth_count`), the loop of
`set_aux_auth_failed` (`i < auth_id`), the scan of `aux_auth_checks`
(`i < aux_auth_count`) and the loop of the reset (`i < aux_auth_count_max`) access
lies within the array, and `set_aux_auth_failed` never finds the buffer missing
for a valid id. -/
theorem aux_table_structure (b : Build) (s0 : State) (calls : List Call)
    (hlen : s0.aux_auth_state.length = b.aux_auth_count_max) :
    (calls.foldl (Call.run b) (reset_all_aux_auths b s0)).aux_auth_count
        ≤ b.aux_auth_count_max
    ∧ (calls.foldl (Call.run b) (reset_all_aux_auths b s0)).aux_auth_state.length
        = b.aux_auth_count_max
    ∧ ((calls.foldl (Call.run b) (reset_all_aux_auths b s0)).aux_auth_count > 0 →
        (calls.foldl (Call.run b) (reset_all_aux_auths b s0)).aux_auth_fail_msg ≠ none)
    ∧ (∀ i : Nat, (calls.foldl (Call.run b) (reset_all_aux_auths b s0)).aux_auth_count ≤ i →
        i < b.aux_auth_count_max →
        (calls.foldl (Call.run b) (reset_all_aux_auths b s0)).aux_auth_state[i]?
          = some AuxAuthStates.NO_RESPONSE)
    ∧ (∀ auth_id : Nat,
        auth_id < (calls.foldl (Call.run b) (reset_all_aux_auths b s0)).aux_auth_count →
        auth_id < (calls.foldl (Call.run b) (reset_all_aux_auths b s0)).aux_auth_state.length
        ∧ (∀ i : Nat, i < auth_id →
            i < (calls.foldl (Call.run b) (reset_all_aux_auths b s0)).aux_auth_state.length)
        ∧ (calls.foldl (Call.run b) (reset_all_aux_auths b s0)).aux_auth_fail_msg ≠ none)
    ∧ (∀ i : Nat, i < (calls.foldl (Call.run b) (reset_all_aux_auths b s0)).aux_auth_count →
        i < (calls.foldl (Call.run b) (reset_all_aux_auths b s0)).aux_auth_state.length)
    ∧ (∀ i : Nat, i < b.aux_auth_count_max →
        i < (calls.foldl (Call.run b) (reset_all_aux_auths b s0)).aux_auth_state.length) := by
  have hinv := aux_inv_reachable b s0 calls hlen
  have hfree := aux_free_slots_run b calls (reset_all_aux_auths b s0) (fun _ => none)
    (aux_inv_reset b s0 _ hlen)
    (by
      intro i _ hmax
      have hst : (reset_all_aux_auths b s0).aux_auth_state
          = List.replicate b.aux_auth_count_max AuxAuthStates.NO_RESPONSE :=
        reset_loop_replicate _ _ hlen
      rw [hst, List.getElem?_replicate, if_pos hmax])
  obtain ⟨⟨hc, hl⟩, hbuf, _⟩ := hinv
  have hne : (calls.foldl (Call.run b) (reset_all_aux_auths b s0)).aux_auth_count > 0 →
      (calls.foldl (Call.run b) (reset_all_aux_auths b s0)).aux_auth_fail_msg ≠ none := by
    intro hpos hnone
    have := hbuf.mpr hnone
    omega
  refine ⟨hc, hl, hne, hfree, ?_, ?_, ?_⟩
  · intro auth_id hid
    exact ⟨by omega, fun i hi => by omega, hne (by omega)⟩
  · intro i hi
    omega
  · intro i hi
    omega

theorem aux_table_structure_witness :
    State.init.aux_auth_state.length = Build.plane.aux_auth_count_max
    ∧ (calls_two_authorisers.foldl (Call.run Build.plane)
        (reset_all_aux_auths Build.plane State.init)).aux_auth_count = 2
    ∧ (calls_two_authorisers.foldl (Call.run Build.plane)
        (reset_all_aux_auths Build.plane State.init)).aux_auth_state
        = [AuxAuthStates.AUTH_PASSED, AuxAuthStates.AUTH_FAILED, AuxAuthStates.NO_RESPONSE]
    ∧ (calls_two_authorisers.foldl (Call.run Build.plane)
        (reset_all_aux_auths Build.plane State.init)).aux_auth_fail_msg ≠ none
    ∧ (calls_two_authorisers.foldl (Call.run Build.plane)
        (reset_all_aux_auths Build.plane State.init)).aux_auth_state[2]?
        = some AuxAuthStates.NO_RESPONSE :=
  ⟨by decide, by decide, by decide,
    (aux_table_structure Build.plane State.init calls_two_authorisers (by decide)).2.2.1
      (by decide),
    (aux_table_structure Build.plane State.init calls_two_authorisers (by decide)).2.2.2.1
      2 (by decide) (by decide)⟩

end AP_Arming
